import Mathlib

/-!
# aegis-agent: detection pipeline, baseline store, transport, agent loop, telemetry and configuration

Shallow embedding of `src/anomaly/anomaly.c`, `src/anomaly/models.c`,
`src/classifier/ransomware.c`, `src/classifier/verdict.c`, `src/baseline/baseline.c`,
`src/comms/secure.c`, `src/comms/telemetry.c`, `src/core/agent_loop.c`,
`src/telemetry/cpu_perf.c`, `src/telemetry/telemetry.c` and `src/core/config.c`.

## Conventions of the embedding

* A C `double` is a value of `Dbl`: NaN, the two infinities, or a finite value
  carried as an exact rational.  Arithmetic on finite values is exact (no
  rounding, no overflow to infinity, a single zero), decimal literals denote
  their exact value and integer-to-double conversions are exact; the special
  values follow IEEE-754 (`inf - inf = nan`, comparisons with NaN are false,
  `!=` with NaN is true).  Where the code only copies a `double` to or from a
  file it is carried as its 64-bit pattern.
* Where rounding or overflow decides a property, the code is embedded a second
  time in IEEE-754 binary64 arithmetic, in the namespace `F64`: `metric_abs_z`
  (the quotient can overflow, `1e-9` is the nearest double) and the classifier
  (`classifier_compute_ransomware_score` rounds after every `+=`, the thresholds
  `0.85` and `0.55` are the nearest doubles).  There every operation is the
  exact operation followed by rounding to the nearest double, ties to even
  (each C operation rounds on its own: no fused multiply-add and no extended
  precision).
* `exp` and `sqrt` come from the C library, not from this repository: they are
  the two fields of `Libm`, and every function that calls them takes the
  library as its first argument.
* `uint64_t` and `uint32_t` are naturals reduced modulo `2^64` / `2^32` where the
  code can overflow; `int` flags are integers.
* File-scope state (`g_model_state`, `g_classifier_initialized`, `g_state`,
  `g_comms_state`) is passed in and returned explicitly.  Pointer arguments are
  taken to be non-null unless the code passes `NULL` on purpose; a C function that
  returns `-1` returns `none`, or the pair of its return value and the state it
  leaves when that state matters.
* Files are lists of bytes, the output stream is a list of records, and the
  outcome of a library or system call that can fail is a parameter.
* The configuration text is a list of characters, one per C `char`; a C string
  is the list of its characters without the terminating NUL.  `strtoul` is the
  function ISO C describes, with a 64-bit `unsigned long`.
* What the collectors that are not part of this repository leave in their
  output structs (`collect_fs_metrics`, `get_top_crypto_process`,
  `collect_io_metrics`), the clock readings and the perf counter reads are
  parameters of `telemetry_collect` and `collect_cpu_metrics`.
-/

namespace Aegis

/-! ## Doubles -/

/-- A C `double`: NaN, minus infinity, plus infinity, or a finite value. -/
inductive Dbl where
  | nan : Dbl
  | ninf : Dbl
  | pinf : Dbl
  | fin : ℚ → Dbl
  deriving DecidableEq, Repr

namespace Dbl

/-- Sign of a rational as used for infinite results: `true` when negative. -/
def negSign (q : ℚ) : Bool := decide (q < 0)

/-- C `isfinite`. -/
def isfinite : Dbl → Bool
  | fin _ => true
  | _ => false

/-- Unary minus. -/
def neg : Dbl → Dbl
  | nan => nan
  | ninf => pinf
  | pinf => ninf
  | fin a => fin (-a)

/-- C `a + b`. -/
def add : Dbl → Dbl → Dbl
  | nan, _ => nan
  | _, nan => nan
  | pinf, ninf => nan
  | ninf, pinf => nan
  | pinf, _ => pinf
  | _, pinf => pinf
  | ninf, _ => ninf
  | _, ninf => ninf
  | fin a, fin b => fin (a + b)

/-- C `a - b`. -/
def sub (a b : Dbl) : Dbl := add a (neg b)

/-- An infinity of the given sign (`true` is negative). -/
def inf (negative : Bool) : Dbl := if negative then ninf else pinf

/-- C `a * b`. -/
def mul : Dbl → Dbl → Dbl
  | nan, _ => nan
  | _, nan => nan
  | pinf, pinf => pinf
  | pinf, ninf => ninf
  | ninf, pinf => ninf
  | ninf, ninf => pinf
  | pinf, fin b => if b = 0 then nan else inf (negSign b)
  | ninf, fin b => if b = 0 then nan else inf (!negSign b)
  | fin a, pinf => if a = 0 then nan else inf (negSign a)
  | fin a, ninf => if a = 0 then nan else inf (!negSign a)
  | fin a, fin b => fin (a * b)

/-- C `a / b` (the single zero of the model divides like `+0.0`). -/
def div : Dbl → Dbl → Dbl
  | nan, _ => nan
  | _, nan => nan
  | pinf, pinf => nan
  | pinf, ninf => nan
  | ninf, pinf => nan
  | ninf, ninf => nan
  | pinf, fin b => inf (negSign b)
  | ninf, fin b => inf (!negSign b)
  | fin _, pinf => fin 0
  | fin _, ninf => fin 0
  | fin a, fin b =>
    if b = 0 then (if a = 0 then nan else inf (negSign a)) else fin (a / b)

/-- C `fabs`. -/
def fabs : Dbl → Dbl
  | nan => nan
  | ninf => pinf
  | pinf => pinf
  | fin a => fin |a|

/-- C `a < b`: false as soon as one side is NaN. -/
def lt : Dbl → Dbl → Bool
  | nan, _ => false
  | _, nan => false
  | ninf, ninf => false
  | ninf, _ => true
  | _, ninf => false
  | pinf, _ => false
  | fin _, pinf => true
  | fin a, fin b => decide (a < b)

/-- C `a <= b`: false as soon as one side is NaN. -/
def le : Dbl → Dbl → Bool
  | nan, _ => false
  | _, nan => false
  | ninf, _ => true
  | fin _, ninf => false
  | pinf, ninf => false
  | _, pinf => true
  | pinf, fin _ => false
  | fin a, fin b => decide (a ≤ b)

/-- C `a > b`. -/
def gt (a b : Dbl) : Bool := lt b a

/-- C `a >= b`. -/
def ge (a b : Dbl) : Bool := le b a

/-- C `a != b`: true as soon as one side is NaN. -/
def ne : Dbl → Dbl → Bool
  | nan, _ => true
  | _, nan => true
  | ninf, ninf => false
  | pinf, pinf => false
  | fin a, fin b => decide (a ≠ b)
  | _, _ => true

/-- Conversion `(double)n` of an unsigned integer. -/
def ofNat (n : Nat) : Dbl := fin (n : ℚ)

/-- The rational carried by a finite double, `0` for NaN and the infinities. -/
def toRat : Dbl → ℚ
  | fin a => a
  | _ => 0

end Dbl

/-! ## The C library -/

/-- The two `<math.h>` functions the pipeline calls. -/
structure Libm where
  exp : Dbl → Dbl
  sqrt : Dbl → Dbl

/-- Contract of `exp` on non-positive finite arguments: a finite result in `[0, 1]`. -/
def Libm.ExpUnit (L : Libm) : Prop :=
  ∀ q : ℚ, q ≤ 0 → ∃ e : ℚ, L.exp (Dbl.fin q) = Dbl.fin e ∧ 0 ≤ e ∧ e ≤ 1

/-- What the CRYPTO_SPIKE and DELETE_STORM bounds need from the library `exp`: `exp(-3)` is
a number below `0.05` (it is `0.0497...`), and on arguments at or below `-3` the function
returns a non-negative number that is not larger than `exp(-3)` (it is monotone). -/
def Libm.ExpTail (L : Libm) : Prop :=
  ∃ e3 : ℚ, L.exp (Dbl.fin (-3)) = Dbl.fin e3 ∧ e3 < 5 / 100 ∧
    ∀ q : ℚ, q ≤ -3 → ∃ e : ℚ, L.exp (Dbl.fin q) = Dbl.fin e ∧ 0 ≤ e ∧ e ≤ e3

/-- Horner form of the exponential series: `expSeries x n k` is
`1 + x/(k+1) * (1 + x/(k+2) * (...))` with `n` nested factors. -/
def expSeries (x : ℚ) : Nat → Nat → ℚ
  | 0, _ => 1
  | n + 1, k => 1 + x / ((k : ℚ) + 1) * expSeries x n (k + 1)

/-- A computable `exp`: the series on positive arguments, its reciprocal on the others. -/
def refExp : Dbl → Dbl
  | Dbl.nan => Dbl.nan
  | Dbl.ninf => Dbl.fin 0
  | Dbl.pinf => Dbl.pinf
  | Dbl.fin q => if q ≤ 0 then Dbl.fin (1 / expSeries (-q) 24 0) else Dbl.fin (expSeries q 24 0)

/-- Newton iteration for the square root of a positive rational. -/
def sqrtNewton (q : ℚ) : Nat → ℚ
  | 0 => (q + 1) / 2
  | n + 1 => (sqrtNewton q n + q / sqrtNewton q n) / 2

/-- A computable `sqrt`: NaN on negative arguments, Newton iteration otherwise. -/
def refSqrt : Dbl → Dbl
  | Dbl.nan => Dbl.nan
  | Dbl.ninf => Dbl.nan
  | Dbl.pinf => Dbl.pinf
  | Dbl.fin q => if q < 0 then Dbl.nan else if q = 0 then Dbl.fin 0 else Dbl.fin (sqrtNewton q 6)

/-- A computable stand-in for the C library, used to run the pipeline on concrete inputs. -/
def refLibm : Libm := { exp := refExp, sqrt := refSqrt }

/-! ## Data model (`src/core/core.h`, `src/anomaly/anomaly.h`) -/

/-- Source `telemetry_sample_t`. -/
structure telemetry_sample where
  timestamp_ns : Nat
  cycles_per_sec : Dbl
  instructions_per_sec : Dbl
  cache_miss_rate : Dbl
  aes_instructions_per_sec : Dbl
  files_modified_per_sec : Dbl
  files_renamed_per_sec : Dbl
  files_deleted_per_sec : Dbl
  top_pid : Int
  top_comm : List Nat
  disk_read_bytes_per_sec : Dbl
  disk_write_bytes_per_sec : Dbl

/-- Source `anomaly_result_t`. -/
structure anomaly_result where
  is_anomalous : Int
  z_score : Dbl
  anomaly_score : Dbl
  flags : Nat

def ANOMALY_FLAG_CRYPTO_SPIKE : Nat := 1 <<< 0
def ANOMALY_FLAG_WRITE_STORM : Nat := 1 <<< 1
def ANOMALY_FLAG_RENAME_STORM : Nat := 1 <<< 2
def ANOMALY_FLAG_DELETE_STORM : Nat := 1 <<< 3

/-- Source `verdict_kind_t`. -/
inductive verdict_kind where
  | VERDICT_SAFE
  | VERDICT_SUSPICIOUS
  | VERDICT_RANSOMWARE
  deriving DecidableEq, Repr

/-- Source `classifier_result_t`. -/
structure classifier_result where
  verdict : verdict_kind
  confidence : Dbl
  ransomware_score : Dbl

/-- Source `anomaly_metric_view_t`. -/
structure anomaly_metric_view where
  count : Nat
  mean : Dbl
  stddev : Dbl
  ready : Int

/-- Source `anomaly_model_view_t`. -/
structure anomaly_model_view where
  aes : anomaly_metric_view
  cycles : anomaly_metric_view
  instructions : anomaly_metric_view
  cache_miss_rate : anomaly_metric_view
  files_modified : anomaly_metric_view
  files_renamed : anomaly_metric_view
  files_deleted : anomaly_metric_view
  disk_write : anomaly_metric_view

/-! ## Pipeline model (`src/anomaly/models.c`) -/

def MODEL_READY_MIN_SAMPLES : Nat := 300

/-- Source `running_metric_t`; `count` is a `uint64_t`. -/
structure running_metric where
  count : Nat
  mean : Dbl
  m2 : Dbl

/-- Source `model_state_t`, the type of `g_model_state`. -/
structure model_state where
  initialized : Int
  aes : running_metric
  cycles : running_metric
  instructions : running_metric
  cache_miss_rate : running_metric
  files_modified : running_metric
  files_renamed : running_metric
  files_deleted : running_metric
  disk_write : running_metric

/-- Source `value_is_valid` (same body in `models.c` and `anomaly.c`). -/
def value_is_valid (value : Dbl) : Bool := value.isfinite

/-- Source `running_update`: one Welford step; the counter wraps at `2^64`. -/
def running_update (metric : running_metric) (value : Dbl) : running_metric :=
  let count := (metric.count + 1) % 2 ^ 64
  let count_d := Dbl.ofNat count
  let delta := Dbl.sub value metric.mean
  let mean := Dbl.add metric.mean (Dbl.div delta count_d)
  let delta2 := Dbl.sub value mean
  { count := count, mean := mean, m2 := Dbl.add metric.m2 (Dbl.mul delta delta2) }

/-- Source `running_stddev`. -/
def running_stddev (L : Libm) (metric : running_metric) : Dbl :=
  if metric.count < 2 then Dbl.fin 0
  else
    let variance := Dbl.div metric.m2 (Dbl.ofNat (metric.count - 1))
    if !variance.isfinite || Dbl.le variance (Dbl.fin 0) then Dbl.fin 0
    else L.sqrt variance

/-- Source `snapshot_metric`. -/
def snapshot_metric (L : Libm) (src : running_metric) : anomaly_metric_view :=
  { count := src.count
    mean := src.mean
    stddev := running_stddev L src
    ready := if src.count ≥ MODEL_READY_MIN_SAMPLES then 1 else 0 }

/-- Source `snapshot_all`. -/
def snapshot_all (L : Libm) (g : model_state) : anomaly_model_view :=
  { aes := snapshot_metric L g.aes
    cycles := snapshot_metric L g.cycles
    instructions := snapshot_metric L g.instructions
    cache_miss_rate := snapshot_metric L g.cache_miss_rate
    files_modified := snapshot_metric L g.files_modified
    files_renamed := snapshot_metric L g.files_renamed
    files_deleted := snapshot_metric L g.files_deleted
    disk_write := snapshot_metric L g.disk_write }

/-- Source `update_from_sample`: the new `g_model_state`.  Each `if` of the source updates one
field of the state in place and reads no other field, so the eight statements are written
as the eight fields of the result. -/
def update_from_sample (g : model_state) (sample : telemetry_sample) : model_state :=
  { initialized := g.initialized
    aes :=
      if Dbl.ne sample.aes_instructions_per_sec (Dbl.fin (-1)) &&
          value_is_valid sample.aes_instructions_per_sec
      then running_update g.aes sample.aes_instructions_per_sec else g.aes
    cycles :=
      if value_is_valid sample.cycles_per_sec
      then running_update g.cycles sample.cycles_per_sec else g.cycles
    instructions :=
      if value_is_valid sample.instructions_per_sec
      then running_update g.instructions sample.instructions_per_sec else g.instructions
    cache_miss_rate :=
      if value_is_valid sample.cache_miss_rate
      then running_update g.cache_miss_rate sample.cache_miss_rate else g.cache_miss_rate
    files_modified :=
      if value_is_valid sample.files_modified_per_sec
      then running_update g.files_modified sample.files_modified_per_sec else g.files_modified
    files_renamed :=
      if value_is_valid sample.files_renamed_per_sec
      then running_update g.files_renamed sample.files_renamed_per_sec else g.files_renamed
    files_deleted :=
      if value_is_valid sample.files_deleted_per_sec
      then running_update g.files_deleted sample.files_deleted_per_sec else g.files_deleted
    disk_write :=
      if value_is_valid sample.disk_write_bytes_per_sec
      then running_update g.disk_write sample.disk_write_bytes_per_sec else g.disk_write }

/-- A zeroed `running_metric_t`. -/
def running_metric_zero : running_metric := { count := 0, mean := Dbl.fin 0, m2 := Dbl.fin 0 }

/-- Source `anomaly_models_init`: the state it leaves in `g_model_state`. -/
def anomaly_models_init : model_state :=
  { initialized := 1
    aes := running_metric_zero
    cycles := running_metric_zero
    instructions := running_metric_zero
    cache_miss_rate := running_metric_zero
    files_modified := running_metric_zero
    files_renamed := running_metric_zero
    files_deleted := running_metric_zero
    disk_write := running_metric_zero }

/-- Source `anomaly_models_snapshot_and_update`: the view written to `out` and the new
`g_model_state`; `none` is the return value `-1`. -/
def anomaly_models_snapshot_and_update (L : Libm) (g : model_state) (sample : telemetry_sample) :
    Option (anomaly_model_view × model_state) :=
  if g.initialized = 0 then none
  else some (snapshot_all L g, update_from_sample g sample)

/-! ## Anomaly engine (`src/anomaly/anomaly.c`) -/

def Z_THRESHOLD_FLAG : Dbl := Dbl.fin 3
def Z_STDDEV_EPSILON : Dbl := Dbl.fin (1 / 1000000000)
def ANOMALY_SCORE_THRESHOLD : Dbl := Dbl.fin (7 / 10)
def ANOMALY_SCORE_K : Dbl := Dbl.fin 1
def HARD_FILES_MODIFIED_PER_SEC : Dbl := Dbl.fin 500
def HARD_FILES_RENAMED_PER_SEC : Dbl := Dbl.fin 200
def HARD_DISK_WRITE_BPS : Dbl := Dbl.mul (Dbl.mul (Dbl.fin 50) (Dbl.fin 1024)) (Dbl.fin 1024)

/-- Source `metric_abs_z`. -/
def metric_abs_z (value : Dbl) (metric : anomaly_metric_view) : Dbl :=
  if !value_is_valid value || metric.ready == 0 then Dbl.fin 0
  else if !value_is_valid metric.mean || !value_is_valid metric.stddev ||
      Dbl.le metric.stddev Z_STDDEV_EPSILON then Dbl.fin 0
  else
    let z := Dbl.div (Dbl.sub value metric.mean) metric.stddev
    if !value_is_valid z then Dbl.fin 0
    else Dbl.fabs z

/-- The statement `if (cond) { flags |= mask; }` on a `uint32_t`: the new value of `flags`. -/
def set_flag_if (cond : Bool) (flags mask : Nat) : Nat :=
  if cond then (flags ||| mask) % 2 ^ 32 else flags

/-- The statement `if (z > max_abs_z) { max_abs_z = z; }`: the new value of `max_abs_z`. -/
def take_max (max_abs_z z : Dbl) : Dbl :=
  if Dbl.gt z max_abs_z then z else max_abs_z

/-- Source `set_hard_threshold_flags`: the new value of `*flags`. -/
def set_hard_threshold_flags (sample : telemetry_sample) (flags : Nat) : Nat :=
  let flags := set_flag_if
    (value_is_valid sample.files_modified_per_sec &&
      Dbl.gt sample.files_modified_per_sec HARD_FILES_MODIFIED_PER_SEC)
    flags ANOMALY_FLAG_WRITE_STORM
  let flags := set_flag_if
    (value_is_valid sample.files_renamed_per_sec &&
      Dbl.gt sample.files_renamed_per_sec HARD_FILES_RENAMED_PER_SEC)
    flags ANOMALY_FLAG_RENAME_STORM
  let flags := set_flag_if
    (value_is_valid sample.disk_write_bytes_per_sec &&
      Dbl.gt sample.disk_write_bytes_per_sec HARD_DISK_WRITE_BPS)
    flags ANOMALY_FLAG_WRITE_STORM
  flags

/-- Source `anomaly_evaluate`: the result written to `out` and the new `g_model_state`;
`none` is the return value `-1` (the model was not initialized). -/
def anomaly_evaluate (L : Libm) (g : model_state) (sample : telemetry_sample) :
    Option (anomaly_result × model_state) :=
  match anomaly_models_snapshot_and_update L g sample with
  | none => none
  | some (model, g') =>
    let z_aes := metric_abs_z sample.aes_instructions_per_sec model.aes
    let z_cycles := metric_abs_z sample.cycles_per_sec model.cycles
    let z_instructions := metric_abs_z sample.instructions_per_sec model.instructions
    let z_cache_miss := metric_abs_z sample.cache_miss_rate model.cache_miss_rate
    let z_files_modified := metric_abs_z sample.files_modified_per_sec model.files_modified
    let z_files_renamed := metric_abs_z sample.files_renamed_per_sec model.files_renamed
    let z_files_deleted := metric_abs_z sample.files_deleted_per_sec model.files_deleted
    let z_disk_write := metric_abs_z sample.disk_write_bytes_per_sec model.disk_write
    let max_abs_z := Dbl.fin 0
    let max_abs_z := take_max max_abs_z z_aes
    let max_abs_z := take_max max_abs_z z_cycles
    let max_abs_z := take_max max_abs_z z_instructions
    let max_abs_z := take_max max_abs_z z_cache_miss
    let max_abs_z := take_max max_abs_z z_files_modified
    let max_abs_z := take_max max_abs_z z_files_renamed
    let max_abs_z := take_max max_abs_z z_files_deleted
    let max_abs_z := take_max max_abs_z z_disk_write
    let anomaly_score :=
      if Dbl.gt max_abs_z (Dbl.fin 0)
      then Dbl.sub (Dbl.fin 1) (L.exp (Dbl.mul (Dbl.neg ANOMALY_SCORE_K) max_abs_z))
      else Dbl.fin 0
    let flags : Nat := 0
    let aes_supported := Dbl.ne sample.aes_instructions_per_sec (Dbl.fin (-1))
    let flags :=
      if aes_supported then
        set_flag_if (Dbl.ge z_aes Z_THRESHOLD_FLAG) flags ANOMALY_FLAG_CRYPTO_SPIKE
      else
        let cpu_proxy_z := z_cycles
        let cpu_proxy_z := if Dbl.gt z_instructions cpu_proxy_z then z_instructions
          else cpu_proxy_z
        set_flag_if (Dbl.ge cpu_proxy_z Z_THRESHOLD_FLAG && Dbl.ge z_disk_write Z_THRESHOLD_FLAG)
          flags ANOMALY_FLAG_CRYPTO_SPIKE
    let flags := set_flag_if
      (Dbl.ge z_files_modified Z_THRESHOLD_FLAG || Dbl.ge z_disk_write Z_THRESHOLD_FLAG)
      flags ANOMALY_FLAG_WRITE_STORM
    let flags := set_flag_if (Dbl.ge z_files_renamed Z_THRESHOLD_FLAG)
      flags ANOMALY_FLAG_RENAME_STORM
    let flags := set_flag_if (Dbl.ge z_files_deleted Z_THRESHOLD_FLAG)
      flags ANOMALY_FLAG_DELETE_STORM
    let flags := set_hard_threshold_flags sample flags
    some ({ is_anomalous :=
              if Dbl.ge anomaly_score ANOMALY_SCORE_THRESHOLD || flags != 0 then 1 else 0
            z_score := max_abs_z
            anomaly_score := anomaly_score
            flags := flags }, g')

/-! ## Classifier (`src/classifier/ransomware.c`, `src/classifier/verdict.c`) -/

/-- Source `clamp_unit`. -/
def clamp_unit (value : Dbl) : Dbl :=
  if Dbl.lt value (Dbl.fin 0) then Dbl.fin 0
  else if Dbl.gt value (Dbl.fin 1) then Dbl.fin 1
  else value

/-- Source `classifier_compute_ransomware_score`. -/
def classifier_compute_ransomware_score (anomaly : anomaly_result) : Dbl :=
  let score := Dbl.mul (Dbl.fin (1 / 2)) (clamp_unit anomaly.anomaly_score)
  let score := if anomaly.flags &&& ANOMALY_FLAG_WRITE_STORM != 0
    then Dbl.add score (Dbl.fin (2 / 10)) else score
  let score := if anomaly.flags &&& ANOMALY_FLAG_RENAME_STORM != 0
    then Dbl.add score (Dbl.fin (15 / 100)) else score
  let score := if anomaly.flags &&& ANOMALY_FLAG_DELETE_STORM != 0
    then Dbl.add score (Dbl.fin (1 / 10)) else score
  let score := if anomaly.flags &&& ANOMALY_FLAG_CRYPTO_SPIKE != 0
    then Dbl.add score (Dbl.fin (25 / 100)) else score
  clamp_unit score

/-- Source `classifier_score_to_verdict`. -/
def classifier_score_to_verdict (score : Dbl) : verdict_kind :=
  if Dbl.ge score (Dbl.fin (85 / 100)) then verdict_kind.VERDICT_RANSOMWARE
  else if Dbl.ge score (Dbl.fin (55 / 100)) then verdict_kind.VERDICT_SUSPICIOUS
  else verdict_kind.VERDICT_SAFE

/-- Source `classifier_classify`; the first argument is `g_classifier_initialized`, `none` is
the return value `-1`.  The sample is ignored, as in the source. -/
def classifier_classify (g_classifier_initialized : Int) (_sample : telemetry_sample)
    (anomaly : anomaly_result) : Option classifier_result :=
  if g_classifier_initialized = 0 then none
  else
    let score := classifier_compute_ransomware_score anomaly
    some { verdict := classifier_score_to_verdict score
           confidence := score
           ransomware_score := score }

/-! ## Baseline store (`src/baseline/baseline.c`) -/

def BASELINE_VERSION : Nat := 1
def BASELINE_MIN_SAMPLES : Nat := 300

/-- Source `metric_stat_t`.  The parameter `D` is the view taken of a C `double`: `Dbl` where
the code computes with it, its 64-bit pattern where the code copies it to and from a file;
`count` is a `uint64_t`. -/
structure metric_stat (D : Type) where
  count : Nat
  mean : D
  m2 : D
  variance : D
  stddev : D

/-- Source `baseline_state_t`, the type of `g_state`; `db_path` is the C string without its
terminating NUL. -/
structure baseline_state (D : Type) where
  initialized : Int
  db_path : String
  aes : metric_stat D
  cycles : metric_stat D
  cache_miss_rate : metric_stat D
  files_modified : metric_stat D
  files_renamed : metric_stat D
  files_deleted : metric_stat D
  disk_write : metric_stat D

/-- Source `welford_update`: the new value of `*m`; the counter wraps at `2^64`. -/
def welford_update (L : Libm) (m : metric_stat Dbl) (value : Dbl) : metric_stat Dbl :=
  let count := (m.count + 1) % 2 ^ 64
  let count_d := Dbl.ofNat count
  let delta := Dbl.sub value m.mean
  let mean := Dbl.add m.mean (Dbl.div delta count_d)
  let delta2 := Dbl.sub value mean
  let m2 := Dbl.add m.m2 (Dbl.mul delta delta2)
  if count > 1 then
    let variance := Dbl.div m2 (Dbl.ofNat (count - 1))
    { count := count, mean := mean, m2 := m2, variance := variance, stddev := L.sqrt variance }
  else
    { count := count, mean := mean, m2 := m2, variance := Dbl.fin 0, stddev := Dbl.fin 0 }

/-- Source `baseline_update`: the new `g_state`; `none` is the return value `-1` (the store
is not initialized).  The mutex is taken to be free, so locking never fails.  Each `if` of
the source updates one field of the state in place and reads no other field, so the seven
statements are written as the seven metric fields of the result. -/
def baseline_update (L : Libm) (g : baseline_state Dbl) (sample : telemetry_sample) :
    Option (baseline_state Dbl) :=
  if g.initialized = 0 then none
  else some
    { initialized := g.initialized
      db_path := g.db_path
      aes :=
        if Dbl.ne sample.aes_instructions_per_sec (Dbl.fin (-1)) &&
            sample.aes_instructions_per_sec.isfinite
        then welford_update L g.aes sample.aes_instructions_per_sec else g.aes
      cycles :=
        if sample.cycles_per_sec.isfinite
        then welford_update L g.cycles sample.cycles_per_sec else g.cycles
      cache_miss_rate :=
        if sample.cache_miss_rate.isfinite
        then welford_update L g.cache_miss_rate sample.cache_miss_rate else g.cache_miss_rate
      files_modified :=
        if sample.files_modified_per_sec.isfinite
        then welford_update L g.files_modified sample.files_modified_per_sec
        else g.files_modified
      files_renamed :=
        if sample.files_renamed_per_sec.isfinite
        then welford_update L g.files_renamed sample.files_renamed_per_sec
        else g.files_renamed
      files_deleted :=
        if sample.files_deleted_per_sec.isfinite
        then welford_update L g.files_deleted sample.files_deleted_per_sec
        else g.files_deleted
      disk_write :=
        if sample.disk_write_bytes_per_sec.isfinite
        then welford_update L g.disk_write sample.disk_write_bytes_per_sec
        else g.disk_write }

/-- Source `baseline_ready`: the returned `int`.  The mutex is taken to be free. -/
def baseline_ready {D : Type} (g : baseline_state D) : Int :=
  if g.initialized != 0 &&
      decide (g.aes.count ≥ BASELINE_MIN_SAMPLES) &&
      decide (g.cycles.count ≥ BASELINE_MIN_SAMPLES) &&
      decide (g.cache_miss_rate.count ≥ BASELINE_MIN_SAMPLES) &&
      decide (g.files_modified.count ≥ BASELINE_MIN_SAMPLES) &&
      decide (g.files_renamed.count ≥ BASELINE_MIN_SAMPLES) &&
      decide (g.files_deleted.count ≥ BASELINE_MIN_SAMPLES) &&
      decide (g.disk_write.count ≥ BASELINE_MIN_SAMPLES)
  then 1 else 0

/-- A zeroed `metric_stat_t` (what `clear_metrics_locked` leaves in each metric). -/
def metric_stat_zero : metric_stat Dbl :=
  { count := 0, mean := Dbl.fin 0, m2 := Dbl.fin 0, variance := Dbl.fin 0, stddev := Dbl.fin 0 }

/-- The store that `baseline_init` leaves when no file exists at `db_path`: initialized,
path recorded, every metric zeroed. -/
def baseline_empty (db_path : String) : baseline_state Dbl :=
  { initialized := 1
    db_path := db_path
    aes := metric_stat_zero
    cycles := metric_stat_zero
    cache_miss_rate := metric_stat_zero
    files_modified := metric_stat_zero
    files_renamed := metric_stat_zero
    files_deleted := metric_stat_zero
    disk_write := metric_stat_zero }

/-! ## Vocabulary of the statements -/

/-- The eight tracked metrics. -/
inductive Metric where
  | aes
  | cycles
  | instructions
  | cache_miss_rate
  | files_modified
  | files_renamed
  | files_deleted
  | disk_write
  deriving DecidableEq, Repr

/-- All metrics, in the order `anomaly_evaluate` visits them. -/
def Metric.all : List Metric :=
  [Metric.aes, Metric.cycles, Metric.instructions, Metric.cache_miss_rate,
   Metric.files_modified, Metric.files_renamed, Metric.files_deleted, Metric.disk_write]

/-- The sample field that carries a metric. -/
def Metric.value : Metric → telemetry_sample → Dbl
  | Metric.aes, x => x.aes_instructions_per_sec
  | Metric.cycles, x => x.cycles_per_sec
  | Metric.instructions, x => x.instructions_per_sec
  | Metric.cache_miss_rate, x => x.cache_miss_rate
  | Metric.files_modified, x => x.files_modified_per_sec
  | Metric.files_renamed, x => x.files_renamed_per_sec
  | Metric.files_deleted, x => x.files_deleted_per_sec
  | Metric.disk_write, x => x.disk_write_bytes_per_sec

/-- The running statistic of a metric in the pipeline model. -/
def Metric.stat : Metric → model_state → running_metric
  | Metric.aes, g => g.aes
  | Metric.cycles, g => g.cycles
  | Metric.instructions, g => g.instructions
  | Metric.cache_miss_rate, g => g.cache_miss_rate
  | Metric.files_modified, g => g.files_modified
  | Metric.files_renamed, g => g.files_renamed
  | Metric.files_deleted, g => g.files_deleted
  | Metric.disk_write, g => g.disk_write

/-- The guard under which `update_from_sample` feeds a metric of the sample to the model. -/
def Metric.accepts : Metric → telemetry_sample → Bool
  | Metric.aes, x =>
    Dbl.ne x.aes_instructions_per_sec (Dbl.fin (-1)) && value_is_valid x.aes_instructions_per_sec
  | m, x => value_is_valid (m.value x)

/-- The `|z|` that `anomaly_evaluate` computes for metric `m` of sample `x` when the model
state is `g` (the local `z_aes`, `z_cycles`, ... of the source). -/
def abs_z_of (L : Libm) (g : model_state) (x : telemetry_sample) (m : Metric) : Dbl :=
  metric_abs_z (m.value x) (snapshot_metric L (m.stat g))

/-- The `|z|` of metric `m` as a rational (`abs_z_of` is always finite and non-negative). -/
def z_of (L : Libm) (g : model_state) (x : telemetry_sample) (m : Metric) : ℚ :=
  (abs_z_of L g x m).toRat

/-- The largest of the eight per-metric `|z|` values of sample `x` against model state `g`
(`0` is the start value of the source and a lower bound of every `|z|`). -/
def max_abs_z_of (L : Libm) (g : model_state) (x : telemetry_sample) : ℚ :=
  (Metric.all.map (z_of L g x)).foldr max 0

/-- The flag word `anomaly_evaluate` builds, as a function of the conditions it tests:
`s` is `aes_supported`, `a` and `b` the CRYPTO_SPIKE tests of the two branches, `c2 c3 c4` the
z-score tests for WRITE/RENAME/DELETE_STORM, `h1 h2 h3` the three absolute-threshold tests. -/
def flag_chain (s a b c2 c3 c4 h1 h2 h3 : Bool) : Nat :=
  set_flag_if h3
    (set_flag_if h2
      (set_flag_if h1
        (set_flag_if c4
          (set_flag_if c3
            (set_flag_if c2
              (if s = true then set_flag_if a 0 ANOMALY_FLAG_CRYPTO_SPIKE
               else set_flag_if b 0 ANOMALY_FLAG_CRYPTO_SPIKE)
              ANOMALY_FLAG_WRITE_STORM)
            ANOMALY_FLAG_RENAME_STORM)
          ANOMALY_FLAG_DELETE_STORM)
        ANOMALY_FLAG_WRITE_STORM)
      ANOMALY_FLAG_RENAME_STORM)
    ANOMALY_FLAG_WRITE_STORM

/-- The model state after a history of `anomaly_evaluate` calls; `none` if a call fails. -/
def anomaly_run (L : Libm) (g : model_state) : List telemetry_sample → Option model_state
  | [] => some g
  | x :: xs =>
    match anomaly_evaluate L g x with
    | none => none
    | some (_, g') => anomaly_run L g' xs

/-- How many samples of a history carried a value of metric `m` that the model accepted. -/
def accepted_count (m : Metric) (history : List telemetry_sample) : Nat :=
  history.countP (fun x => m.accepts x)

/-- Membership of a flag mask in a flag word. -/
def flag_set (flags mask : Nat) : Bool := flags &&& mask != 0

/-- Iverson bracket as a double. -/
def iverson (b : Bool) : Dbl := if b then Dbl.fin 1 else Dbl.fin 0

/-- Clamp to the unit interval as the spec writes it: `max 0 (min 1 x)` on numbers,
the two infinities go to the nearer end, NaN stays NaN. -/
def spec_clamp01 : Dbl → Dbl
  | Dbl.nan => Dbl.nan
  | Dbl.ninf => Dbl.fin 0
  | Dbl.pinf => Dbl.fin 1
  | Dbl.fin q => Dbl.fin (max 0 (min 1 q))

/-- The score formula of the spec:
`clamp01(0.5·clamp01(a) + 0.20·[WRITE_STORM] + 0.15·[RENAME_STORM] + 0.10·[DELETE_STORM]
+ 0.25·[CRYPTO_SPIKE])`. -/
def spec_ransomware_score (a : Dbl) (f : Nat) : Dbl :=
  spec_clamp01
    (Dbl.add (Dbl.add (Dbl.add (Dbl.add
      (Dbl.mul (Dbl.fin (1 / 2)) (spec_clamp01 a))
      (Dbl.mul (Dbl.fin (20 / 100)) (iverson (flag_set f ANOMALY_FLAG_WRITE_STORM))))
      (Dbl.mul (Dbl.fin (15 / 100)) (iverson (flag_set f ANOMALY_FLAG_RENAME_STORM))))
      (Dbl.mul (Dbl.fin (10 / 100)) (iverson (flag_set f ANOMALY_FLAG_DELETE_STORM))))
      (Dbl.mul (Dbl.fin (25 / 100)) (iverson (flag_set f ANOMALY_FLAG_CRYPTO_SPIKE))))

/-- The seven metrics the baseline store tracks (`instructions_per_sec` is not among them). -/
inductive BMetric where
  | aes
  | cycles
  | cache_miss_rate
  | files_modified
  | files_renamed
  | files_deleted
  | disk_write
  deriving DecidableEq, Repr

/-- A baseline metric as one of the eight sample metrics. -/
def BMetric.metric : BMetric → Metric
  | BMetric.aes => Metric.aes
  | BMetric.cycles => Metric.cycles
  | BMetric.cache_miss_rate => Metric.cache_miss_rate
  | BMetric.files_modified => Metric.files_modified
  | BMetric.files_renamed => Metric.files_renamed
  | BMetric.files_deleted => Metric.files_deleted
  | BMetric.disk_write => Metric.disk_write

/-- The statistic of a metric in the baseline store. -/
def BMetric.stat {D : Type} : BMetric → baseline_state D → metric_stat D
  | BMetric.aes, g => g.aes
  | BMetric.cycles, g => g.cycles
  | BMetric.cache_miss_rate, g => g.cache_miss_rate
  | BMetric.files_modified, g => g.files_modified
  | BMetric.files_renamed, g => g.files_renamed
  | BMetric.files_deleted, g => g.files_deleted
  | BMetric.disk_write, g => g.disk_write

/-- The store after a history of `baseline_update` calls; `none` if a call fails. -/
def baseline_run (L : Libm) (g : baseline_state Dbl) :
    List telemetry_sample → Option (baseline_state Dbl)
  | [] => some g
  | x :: xs =>
    match baseline_update L g x with
    | none => none
    | some g' => baseline_run L g' xs

/-- The variance `m2 / (count - 1)` that `running_stddev` derives from a running statistic. -/
def running_variance (s : running_metric) : Dbl :=
  Dbl.div s.m2 (Dbl.ofNat (s.count - 1))

/-- The `(count, mean, m2)` part of a baseline statistic. -/
def metric_stat.core (m : metric_stat Dbl) : running_metric :=
  { count := m.count, mean := m.mean, m2 := m.m2 }

/-- A zeroed pipeline statistic after the Welford updates `running_update` with the finite
values `xs`, first value first. -/
def running_fold (xs : List ℚ) : running_metric :=
  (xs.map Dbl.fin).foldl running_update running_metric_zero

/-- A zeroed baseline statistic after the Welford updates `welford_update` with the finite
values `xs`, first value first. -/
def welford_fold (L : Libm) (xs : List ℚ) : metric_stat Dbl :=
  (xs.map Dbl.fin).foldl (welford_update L) metric_stat_zero

/-- Textbook mean `(x_1 + ... + x_n) / n`. -/
def mean_of (xs : List ℚ) : ℚ := xs.sum / xs.length

/-- Textbook sum of squared deviations from the mean. -/
def sum_sq_dev (xs : List ℚ) : ℚ := (xs.map (fun x => (x - mean_of xs) ^ 2)).sum

/-- Textbook sample variance `sum of (x_i - mean)^2 / (n - 1)`. -/
def sample_variance (xs : List ℚ) : ℚ := sum_sq_dev xs / ((xs.length : ℚ) - 1)

/-! ## Concrete inputs -/

/-- A sample of an idle host without AES counter: every rate is `0`, AES is `-1.0`. -/
def sample_idle : telemetry_sample :=
  { timestamp_ns := 0
    cycles_per_sec := Dbl.fin 0
    instructions_per_sec := Dbl.fin 0
    cache_miss_rate := Dbl.fin 0
    aes_instructions_per_sec := Dbl.fin (-1)
    files_modified_per_sec := Dbl.fin 0
    files_renamed_per_sec := Dbl.fin 0
    files_deleted_per_sec := Dbl.fin 0
    top_pid := 0
    top_comm := []
    disk_read_bytes_per_sec := Dbl.fin 0
    disk_write_bytes_per_sec := Dbl.fin 0 }

/-- A running statistic of 300 values with mean `0` and sample variance `1`. -/
def stat_unit : running_metric := { count := 300, mean := Dbl.fin 0, m2 := Dbl.fin 299 }

/-- A model whose AES statistic is ready (`stat_unit`), everything else as after init. -/
def model_aes_ready : model_state := { anomaly_models_init with aes := stat_unit }

/-- An anomaly result with the given score and flags (other fields zero). -/
def result_of (score : Dbl) (flags : Nat) : anomaly_result :=
  { is_anomalous := 0, z_score := Dbl.fin 0, anomaly_score := score, flags := flags }

/-- A sample with a supported AES counter reading `3`, everything else idle. -/
def sample_aes3 : telemetry_sample := { sample_idle with aes_instructions_per_sec := Dbl.fin 3 }

/-- A sample whose modified-files rate is `+inf`, everything else idle. -/
def sample_inf_writes : telemetry_sample :=
  { sample_idle with files_modified_per_sec := Dbl.pinf }

/-- A sample with 501 modified files per second, everything else idle. -/
def sample_501_writes : telemetry_sample :=
  { sample_idle with files_modified_per_sec := Dbl.fin 501 }

/-- A two-sample history of an idle host. -/
def history_idle2 : List telemetry_sample := [sample_idle, sample_idle]

/-- An idle sample that carries the AES reading `a`. -/
def sample_aes (a : ℚ) : telemetry_sample :=
  { sample_idle with aes_instructions_per_sec := Dbl.fin a }

/-- The samples `k` times (AES `2`, AES `4`). -/
def aes_pairs : Nat → List telemetry_sample
  | 0 => []
  | k + 1 => sample_aes 2 :: sample_aes 4 :: aes_pairs k

/-- A history of 301 samples with a working AES counter: `3`, then 150 times `2, 4`. -/
def history_aes_spread : List telemetry_sample := sample_aes 3 :: aes_pairs 150

/-- The pipeline model after the AES readings `3` and `k` pairs `2, 4` on an idle host. -/
def model_after_pairs (k : Nat) : model_state :=
  { initialized := 1
    aes := { count := 2 * k + 1, mean := Dbl.fin 3, m2 := Dbl.fin (2 * k) }
    cycles := { count := 2 * k + 1, mean := Dbl.fin 0, m2 := Dbl.fin 0 }
    instructions := { count := 2 * k + 1, mean := Dbl.fin 0, m2 := Dbl.fin 0 }
    cache_miss_rate := { count := 2 * k + 1, mean := Dbl.fin 0, m2 := Dbl.fin 0 }
    files_modified := { count := 2 * k + 1, mean := Dbl.fin 0, m2 := Dbl.fin 0 }
    files_renamed := { count := 2 * k + 1, mean := Dbl.fin 0, m2 := Dbl.fin 0 }
    files_deleted := { count := 2 * k + 1, mean := Dbl.fin 0, m2 := Dbl.fin 0 }
    disk_write := { count := 2 * k + 1, mean := Dbl.fin 0, m2 := Dbl.fin 0 } }

/-- The snapshot of a metric in the view that `anomaly_models_snapshot_and_update` returns. -/
def Metric.view : Metric → anomaly_model_view → anomaly_metric_view
  | Metric.aes, v => v.aes
  | Metric.cycles, v => v.cycles
  | Metric.instructions, v => v.instructions
  | Metric.cache_miss_rate, v => v.cache_miss_rate
  | Metric.files_modified, v => v.files_modified
  | Metric.files_renamed, v => v.files_renamed
  | Metric.files_deleted, v => v.files_deleted
  | Metric.disk_write, v => v.disk_write

/-- A sample whose renamed-files rate is `+inf`, everything else idle. -/
def sample_inf_renames : telemetry_sample :=
  { sample_idle with files_renamed_per_sec := Dbl.pinf }

/-- A sample with 201 renamed files per second, everything else idle. -/
def sample_201_renames : telemetry_sample :=
  { sample_idle with files_renamed_per_sec := Dbl.fin 201 }

/-- A running statistic with two values and sample variance `1e-10`. -/
def stat_tiny_variance : running_metric :=
  { count := 2, mean := Dbl.fin 0, m2 := Dbl.fin (1 / 10000000000) }

/-- A sample in which every metric is `1.0`. -/
def sample_ones : telemetry_sample :=
  { timestamp_ns := 0
    cycles_per_sec := Dbl.fin 1
    instructions_per_sec := Dbl.fin 1
    cache_miss_rate := Dbl.fin 1
    aes_instructions_per_sec := Dbl.fin 1
    files_modified_per_sec := Dbl.fin 1
    files_renamed_per_sec := Dbl.fin 1
    files_deleted_per_sec := Dbl.fin 1
    top_pid := 0
    top_comm := []
    disk_read_bytes_per_sec := Dbl.fin 1
    disk_write_bytes_per_sec := Dbl.fin 1 }

/-- A statistic whose counter holds the largest `uint64_t`. -/
def stat_count_max : metric_stat Dbl :=
  { count := 2 ^ 64 - 1, mean := Dbl.fin 1, m2 := Dbl.fin 0, variance := Dbl.fin 0,
    stddev := Dbl.fin 0 }

/-- A ready store (as a loaded file can leave it) in which every counter holds the largest
`uint64_t`. -/
def baseline_count_max : baseline_state Dbl :=
  { initialized := 1
    db_path := "baseline.db"
    aes := stat_count_max
    cycles := stat_count_max
    cache_miss_rate := stat_count_max
    files_modified := stat_count_max
    files_renamed := stat_count_max
    files_deleted := stat_count_max
    disk_write := stat_count_max }

/-- A store in which every metric has the same statistic with `n` accepted values. -/
def baseline_uniform (n : Nat) : baseline_state Dbl :=
  { initialized := 1
    db_path := "baseline.db"
    aes := { metric_stat_zero with count := n }
    cycles := { metric_stat_zero with count := n }
    cache_miss_rate := { metric_stat_zero with count := n }
    files_modified := { metric_stat_zero with count := n }
    files_renamed := { metric_stat_zero with count := n }
    files_deleted := { metric_stat_zero with count := n }
    disk_write := { metric_stat_zero with count := n } }

/-- The history of 300 samples in which every metric is `1.0`. -/
def history_ones300 : List telemetry_sample := List.replicate 300 sample_ones

/-- A running statistic of the pipeline model whose counter holds the largest `uint64_t`. -/
def running_count_max : running_metric :=
  { count := 2 ^ 64 - 1, mean := Dbl.fin 1, m2 := Dbl.fin 0 }

/-! ## Baseline file (`baseline.c`, save and load)

The file code moves objects byte by byte, so here a `double` is its 64-bit pattern and
the store is a `baseline_state Nat`: `count` and the four bit patterns of every metric
are numbers below `2 ^ 64`. A stream is the list of bytes still to be read (reading) or
the list of bytes appended (writing). The byte order of the host, which the source
probes with `is_little_endian`, is the parameter `little`. The db file and its `.tmp`
sibling are the two slots of `disk`; a slot holding `none` is an absent file. -/

/-- Source `PATH_MAX` (`limits.h` on Linux): the size of `db_path`. -/
def PATH_MAX : Nat := 4096

/-- Source `k_baseline_magic`: the characters `AEGBL001`. -/
def k_baseline_magic : List Nat := [0x41, 0x45, 0x47, 0x42, 0x4C, 0x30, 0x30, 0x31]

/-- Source `k_endian_marker`. -/
def k_endian_marker : Nat := 0x01020304

/-- Source `bswap32`. -/
def bswap32 (v : Nat) : Nat :=
  ((v &&& 0x000000FF) <<< 24) |||
  ((v &&& 0x0000FF00) <<< 8) |||
  ((v &&& 0x00FF0000) >>> 8) |||
  ((v &&& 0xFF000000) >>> 24)

/-- Source `bswap64`. -/
def bswap64 (v : Nat) : Nat :=
  ((v &&& 0x00000000000000FF) <<< 56) |||
  ((v &&& 0x000000000000FF00) <<< 40) |||
  ((v &&& 0x0000000000FF0000) <<< 24) |||
  ((v &&& 0x00000000FF000000) <<< 8) |||
  ((v &&& 0x000000FF00000000) >>> 8) |||
  ((v &&& 0x0000FF0000000000) >>> 24) |||
  ((v &&& 0x00FF000000000000) >>> 40) |||
  ((v &&& 0xFF00000000000000) >>> 56)

/-- Source `host_to_le32`. -/
def host_to_le32 (little : Bool) (v : Nat) : Nat := if little then v else bswap32 v

/-- Source `le32_to_host`. -/
def le32_to_host (little : Bool) (v : Nat) : Nat := if little then v else bswap32 v

/-- Source `host_to_le64`. -/
def host_to_le64 (little : Bool) (v : Nat) : Nat := if little then v else bswap64 v

/-- Source `le64_to_host`. -/
def le64_to_host (little : Bool) (v : Nat) : Nat := if little then v else bswap64 v

/-- Source `double_to_u64`: the `memcpy` of the eight bytes keeps the bit pattern. -/
def double_to_u64 (d : Nat) : Nat := d

/-- Source `u64_to_double`: the `memcpy` of the eight bytes keeps the bit pattern. -/
def u64_to_double (bits : Nat) : Nat := bits

/-- The bytes of an unsigned object of `size` bytes holding `v`, in address order: least
significant byte first on a little-endian host, last on a big-endian one. -/
def object_bytes (little : Bool) (size v : Nat) : List Nat :=
  let lsb_first := (List.range size).map (fun i => v / 256 ^ i % 256)
  if little then lsb_first else lsb_first.reverse

/-- The value of the unsigned object whose bytes in address order are `bytes`. -/
def object_value (little : Bool) (bytes : List Nat) : Nat :=
  (if little then bytes else bytes.reverse).foldr (fun b acc => b + 256 * acc) 0

/-- C `fread(ptr, size, 1, fp) == 1`: the next `size` bytes and the rest of the stream,
`none` when fewer than `size` bytes are left. -/
def fread (size : Nat) (fp : List Nat) : Option (List Nat × List Nat) :=
  if size ≤ fp.length then some (fp.take size, fp.drop size) else none

/-- Source `write_u32_le`: the bytes appended by the `fwrite` of the converted object. -/
def write_u32_le (little : Bool) (v : Nat) : List Nat :=
  object_bytes little 4 (host_to_le32 little v)

/-- Source `write_u64_le`: the bytes appended by the `fwrite` of the converted object. -/
def write_u64_le (little : Bool) (v : Nat) : List Nat :=
  object_bytes little 8 (host_to_le64 little v)

/-- Source `write_f64_le`. -/
def write_f64_le (little : Bool) (v : Nat) : List Nat :=
  write_u64_le little (double_to_u64 v)

/-- Source `read_u32_le`: the value read and the rest of the stream. -/
def read_u32_le (little : Bool) (fp : List Nat) : Option (Nat × List Nat) :=
  match fread 4 fp with
  | none => none
  | some (le, fp) => some (le32_to_host little (object_value little le), fp)

/-- Source `read_u64_le`: the value read and the rest of the stream. -/
def read_u64_le (little : Bool) (fp : List Nat) : Option (Nat × List Nat) :=
  match fread 8 fp with
  | none => none
  | some (le, fp) => some (le64_to_host little (object_value little le), fp)

/-- Source `read_f64_le`. -/
def read_f64_le (little : Bool) (fp : List Nat) : Option (Nat × List Nat) :=
  match read_u64_le little fp with
  | none => none
  | some (bits, fp) => some (u64_to_double bits, fp)

/-- Source `write_metric`: the bytes appended by the five writes. -/
def write_metric (little : Bool) (m : metric_stat Nat) : List Nat :=
  write_u64_le little m.count ++
  write_f64_le little m.mean ++
  write_f64_le little m.m2 ++
  write_f64_le little m.variance ++
  write_f64_le little m.stddev

/-- Source `read_metric`. The reads store straight into `*m` and stop at the first one
that fails, so the stat comes back with the fields read so far; the stream is `none` on
failure (return value -1). -/
def read_metric (little : Bool) (fp : List Nat) (m : metric_stat Nat) :
    Option (List Nat) × metric_stat Nat :=
  match read_u64_le little fp with
  | none => (none, m)
  | some (count, fp) =>
    match read_f64_le little fp with
    | none => (none, { m with count := count })
    | some (mean, fp) =>
      match read_f64_le little fp with
      | none => (none, { m with count := count, mean := mean })
      | some (m2, fp) =>
        match read_f64_le little fp with
        | none => (none, { m with count := count, mean := mean, m2 := m2 })
        | some (variance, fp) =>
          match read_f64_le little fp with
          | none =>
            (none, { m with count := count, mean := mean, m2 := m2, variance := variance })
          | some (stddev, fp) =>
            (some fp, { count := count, mean := mean, m2 := m2, variance := variance,
                        stddev := stddev })

/-- Source `clear_metrics_locked`. -/
def clear_metrics_locked (g : baseline_state Nat) : baseline_state Nat :=
  { initialized := g.initialized
    db_path := g.db_path
    aes := ⟨0, 0, 0, 0, 0⟩
    cycles := ⟨0, 0, 0, 0, 0⟩
    cache_miss_rate := ⟨0, 0, 0, 0, 0⟩
    files_modified := ⟨0, 0, 0, 0, 0⟩
    files_renamed := ⟨0, 0, 0, 0, 0⟩
    files_deleted := ⟨0, 0, 0, 0, 0⟩
    disk_write := ⟨0, 0, 0, 0, 0⟩ }

/-- Source `build_tmp_path`: `snprintf` of `<path>.tmp` into a buffer of `tmp_path_len`
bytes, `none` (return value -1) when it does not fit with its terminator. -/
def build_tmp_path (path : String) (tmp_path_len : Nat) : Option String :=
  if tmp_path_len = 0 then none
  else if (path ++ ".tmp").utf8ByteSize ≥ tmp_path_len then none
  else some (path ++ ".tmp")

/-- The db file and the temporary file next to it; `none` is an absent file. -/
structure disk where
  db : Option (List Nat)
  tmp : Option (List Nat)
deriving DecidableEq, Repr

/-- The library call of `baseline_save_locked` that fails, if any. -/
inductive save_fault where
  | no_fault
  | fopen_failed
  | write_failed
  | fflush_failed
  | fsync_failed
  | fclose_failed
  | rename_failed
deriving DecidableEq, Repr

/-- The bytes `baseline_save_locked` hands to the stream when every write succeeds: the
magic, the version, the endian marker and the seven metric blocks. -/
def baseline_file_bytes (little : Bool) (g : baseline_state Nat) : List Nat :=
  k_baseline_magic ++
  write_u32_le little BASELINE_VERSION ++
  write_u32_le little k_endian_marker ++
  write_metric little g.aes ++
  write_metric little g.cycles ++
  write_metric little g.cache_miss_rate ++
  write_metric little g.files_modified ++
  write_metric little g.files_renamed ++
  write_metric little g.files_deleted ++
  write_metric little g.disk_write

/-- Source `baseline_save_locked`: the return value and the files afterwards. `fopen`
with mode `wb` creates or empties the temporary file; a failure before `fclose` leaves
through `out` with the stream still open, which closes and unlinks the file; a failing
`fclose` sets `fp` to `NULL` first, so `out` removes nothing and the flushed file stays;
a failing `rename` unlinks the temporary file. -/
def baseline_save_locked (little : Bool) (fault : save_fault) (g : baseline_state Nat)
    (d : disk) : Int × disk :=
  if g.initialized = 0 || g.db_path = "" then (-1, d)
  else
    match build_tmp_path g.db_path PATH_MAX with
    | none => (-1, d)
    | some _ =>
      match fault with
      | save_fault.fopen_failed => (-1, d)
      | save_fault.write_failed => (-1, { db := d.db, tmp := none })
      | save_fault.fflush_failed => (-1, { db := d.db, tmp := none })
      | save_fault.fsync_failed => (-1, { db := d.db, tmp := none })
      | save_fault.fclose_failed =>
        (-1, { db := d.db, tmp := some (baseline_file_bytes little g) })
      | save_fault.rename_failed => (-1, { db := d.db, tmp := none })
      | save_fault.no_fault => (0, { db := some (baseline_file_bytes little g), tmp := none })

/-- Source `baseline_save` (the mutex is free). -/
def baseline_save (little : Bool) (fault : save_fault) (g : baseline_state Nat)
    (d : disk) : Int × disk :=
  baseline_save_locked little fault g d

/-- The outcome of `fopen(path, "rb")`: no such file, another error, or the content. -/
inductive fopen_result where
  | ENOENT
  | failed
  | opened (content : List Nat)
deriving DecidableEq, Repr

/-- The outcome of opening the db file of `d` for reading when nothing else goes wrong. -/
def fopen_rb (d : disk) : fopen_result :=
  match d.db with
  | none => fopen_result.ENOENT
  | some content => fopen_result.opened content

/-- Source `baseline_load_locked`: the return value and the store afterwards. `file` is
the outcome of the `fopen`, `fclose_ok` whether the final `fclose` succeeds. The metric
blocks are read straight into the store, so a failure part of the way leaves the blocks
read so far in place. -/
def baseline_load_locked (little : Bool) (file : fopen_result) (fclose_ok : Bool)
    (g : baseline_state Nat) : Int × baseline_state Nat :=
  if g.initialized = 0 || g.db_path = "" then (-1, g)
  else
    match file with
    | fopen_result.ENOENT => (0, g)
    | fopen_result.failed => (-1, g)
    | fopen_result.opened fp =>
      match fread 8 fp with
      | none => (-1, g)
      | some (magic, fp) =>
        if magic ≠ k_baseline_magic then (-1, g)
        else
          match read_u32_le little fp with
          | none => (-1, g)
          | some (version, fp) =>
            match read_u32_le little fp with
            | none => (-1, g)
            | some (endian_marker, fp) =>
              if version ≠ BASELINE_VERSION then (-1, g)
              else if endian_marker ≠ k_endian_marker then (-1, g)
              else
                match read_metric little fp g.aes with
                | (none, aes) => (-1, { g with aes := aes })
                | (some fp, aes) =>
                  match read_metric little fp g.cycles with
                  | (none, cycles) => (-1, { g with aes := aes, cycles := cycles })
                  | (some fp, cycles) =>
                    match read_metric little fp g.cache_miss_rate with
                    | (none, cache_miss_rate) =>
                      (-1, { g with aes := aes, cycles := cycles,
                                    cache_miss_rate := cache_miss_rate })
                    | (some fp, cache_miss_rate) =>
                      match read_metric little fp g.files_modified with
                      | (none, files_modified) =>
                        (-1, { g with aes := aes, cycles := cycles,
                                      cache_miss_rate := cache_miss_rate,
                                      files_modified := files_modified })
                      | (some fp, files_modified) =>
                        match read_metric little fp g.files_renamed with
                        | (none, files_renamed) =>
                          (-1, { g with aes := aes, cycles := cycles,
                                        cache_miss_rate := cache_miss_rate,
                                        files_modified := files_modified,
                                        files_renamed := files_renamed })
                        | (some fp, files_renamed) =>
                          match read_metric little fp g.files_deleted with
                          | (none, files_deleted) =>
                            (-1, { g with aes := aes, cycles := cycles,
                                          cache_miss_rate := cache_miss_rate,
                                          files_modified := files_modified,
                                          files_renamed := files_renamed,
                                          files_deleted := files_deleted })
                          | (some fp, files_deleted) =>
                            match read_metric little fp g.disk_write with
                            | (none, disk_write) =>
                              (-1, { initialized := g.initialized, db_path := g.db_path,
                                     aes := aes, cycles := cycles,
                                     cache_miss_rate := cache_miss_rate,
                                     files_modified := files_modified,
                                     files_renamed := files_renamed,
                                     files_deleted := files_deleted,
                                     disk_write := disk_write })
                            | (some _, disk_write) =>
                              (if fclose_ok then 0 else -1,
                               { initialized := g.initialized, db_path := g.db_path,
                                 aes := aes, cycles := cycles,
                                 cache_miss_rate := cache_miss_rate,
                                 files_modified := files_modified,
                                 files_renamed := files_renamed,
                                 files_deleted := files_deleted,
                                 disk_write := disk_write })

/-- Source `baseline_load` (the mutex is free): clear the metrics, then load. -/
def baseline_load (little : Bool) (file : fopen_result) (fclose_ok : Bool)
    (g : baseline_state Nat) : Int × baseline_state Nat :=
  baseline_load_locked little file fclose_ok (clear_metrics_locked g)

/-- Every field of the stat fits its 64-bit object. -/
def metric_stat.is_u64 (m : metric_stat Nat) : Prop :=
  m.count < 2 ^ 64 ∧ m.mean < 2 ^ 64 ∧ m.m2 < 2 ^ 64 ∧ m.variance < 2 ^ 64 ∧
  m.stddev < 2 ^ 64

/-- A metric block with `count = k` and the bit patterns of 1.0, 100.0, a quiet NaN and
all ones. -/
def stat_bits (k : Nat) : metric_stat Nat :=
  { count := k
    mean := 0x3FF0000000000000
    m2 := 0x4059000000000000
    variance := 0x7FF8000000000000
    stddev := 0xFFFFFFFFFFFFFFFF }

/-- An initialized store of bit patterns whose seven blocks differ in `count`. -/
def baseline_bits : baseline_state Nat :=
  { initialized := 1
    db_path := "baseline.db"
    aes := stat_bits (2 ^ 64 - 1)
    cycles := stat_bits 300
    cache_miss_rate := stat_bits 301
    files_modified := stat_bits 0
    files_renamed := stat_bits 0x0102030405060708
    files_deleted := stat_bits 1
    disk_write := stat_bits 2 }

/-- Neither the db file nor the temporary file exists. -/
def disk_absent : disk := { db := none, tmp := none }

/-! ## Baseline store: `baseline_init`, and the file layout as the spec words it -/

/-- The store after `memset(&g_state, 0, sizeof(g_state))`. -/
def baseline_state_zeroed : baseline_state Nat :=
  { initialized := 0
    db_path := ""
    aes := ⟨0, 0, 0, 0, 0⟩
    cycles := ⟨0, 0, 0, 0, 0⟩
    cache_miss_rate := ⟨0, 0, 0, 0, 0⟩
    files_modified := ⟨0, 0, 0, 0, 0⟩
    files_renamed := ⟨0, 0, 0, 0, 0⟩
    files_deleted := ⟨0, 0, 0, 0, 0⟩
    disk_write := ⟨0, 0, 0, 0, 0⟩ }

/-- Source `baseline_init` (the mutex is free): the return value and the store afterwards.
`file` and `fclose_ok` are the outcomes of the `fopen` and `fclose` inside
`baseline_load_locked`. A path that is empty or does not fit `db_path` is refused before the
store is touched; a failing load zeroes the whole store. -/
def baseline_init (little : Bool) (db_path : String) (file : fopen_result) (fclose_ok : Bool)
    (g : baseline_state Nat) : Int × baseline_state Nat :=
  if db_path = "" then (-1, g)
  else if db_path.utf8ByteSize ≥ PATH_MAX then (-1, g)
  else
    let r := baseline_load_locked little file fclose_ok
      (clear_metrics_locked { baseline_state_zeroed with initialized := 1, db_path := db_path })
    if r.1 ≠ 0 then (r.1, baseline_state_zeroed) else r

/-- Little-endian bytes of an unsigned value of `size` bytes: byte `i` is
`v / 256 ^ i mod 256`. -/
def spec_le_bytes (size v : Nat) : List Nat :=
  (List.range size).map (fun i => v / 256 ^ i % 256)

/-- The unsigned value whose little-endian bytes are `bytes`. -/
def spec_le_value (bytes : List Nat) : Nat :=
  bytes.foldr (fun b acc => b + 256 * acc) 0

/-- A metric block as the spec lays it out: `u64 count`, then the bit patterns of `mean`,
`m2`, `variance`, `stddev`, each little-endian. -/
def spec_metric_block (m : metric_stat Nat) : List Nat :=
  spec_le_bytes 8 m.count ++ spec_le_bytes 8 m.mean ++ spec_le_bytes 8 m.m2 ++
  spec_le_bytes 8 m.variance ++ spec_le_bytes 8 m.stddev

/-- The baseline file as the spec lays it out: the magic `AEGBL001`, version 1 and endian
marker `0x01020304` as little-endian `u32`, then the seven metric blocks in the order aes,
cycles, cache_miss_rate, files_modified, files_renamed, files_deleted, disk_write. -/
def spec_baseline_file (g : baseline_state Nat) : List Nat :=
  ("AEGBL001".toList.map Char.toNat) ++ spec_le_bytes 4 1 ++ spec_le_bytes 4 0x01020304 ++
  spec_metric_block g.aes ++ spec_metric_block g.cycles ++
  spec_metric_block g.cache_miss_rate ++ spec_metric_block g.files_modified ++
  spec_metric_block g.files_renamed ++ spec_metric_block g.files_deleted ++
  spec_metric_block g.disk_write

/-- A file passes the checks of the spec: it holds all 296 bytes, starts with the magic,
and carries version 1 and the endian marker. -/
def spec_file_verifies (content : List Nat) : Prop :=
  296 ≤ content.length ∧ content.take 8 = k_baseline_magic ∧
  spec_le_value ((content.drop 8).take 4) = 1 ∧
  spec_le_value ((content.drop 12).take 4) = 0x01020304

/-- An initialized store with the path of `baseline_bits` and zeroed metrics. -/
def baseline_fresh : baseline_state Nat :=
  { baseline_state_zeroed with initialized := 1, db_path := "baseline.db" }

/-- The file that saving `baseline_bits` on a big-endian host leaves, cut after 100 bytes:
the header, the blocks of aes and cycles, and four bytes of the third block. -/
def file_cut_100 : List Nat := (baseline_file_bytes false baseline_bits).take 100

/-- A disk that holds an earlier baseline file and no temporary file. -/
def disk_with_db : disk := { db := some (baseline_file_bytes true baseline_fresh), tmp := none }

/-! ## Transport (`src/comms/secure.c`, `src/comms/telemetry.c`)

The output stream is the list of records written so far. A record is carried as the
values its line is printed from, not as text. Whether the `fprintf`, `fputs` and `fflush`
calls of one send succeed is a parameter of the send; a send in which one of them fails
adds no record. -/

/-- Source `comms_state_t`, the type of `g_comms_state`. -/
structure comms_state where
  initialized : Int
  endpoint_url : String

/-- Source `comms_internal_get_stream`: the return value (the stream is always `stdout`). -/
def comms_internal_get_stream (c : comms_state) : Int :=
  if c.initialized = 0 then -1 else 0

/-- One line of the output stream: a telemetry record, printed from the sample and from
the anomaly and classifier results when they are passed, or an alert record. -/
inductive record where
  | telemetry (sample : telemetry_sample) (anomaly : Option anomaly_result)
      (result : Option classifier_result)
  | alert (timestamp_ns : Option Nat) (ransomware_score : Dbl) (flags : Nat)
      (confidence : Dbl)

/-- Source `comms_send_telemetry`: the return value and the stream afterwards; `anomaly`
and `result` are `none` for a `NULL` pointer. -/
def comms_send_telemetry (c : comms_state) (write_ok : Bool) (out : List record)
    (sample : telemetry_sample) (anomaly : Option anomaly_result)
    (result : Option classifier_result) : Int × List record :=
  if comms_internal_get_stream c ≠ 0 then (-1, out)
  else if !write_ok then (-1, out)
  else (0, out ++ [record.telemetry sample anomaly result])

/-- Source `comms_send_alert`: the return value and the stream afterwards; an argument is
`none` for a `NULL` pointer. -/
def comms_send_alert (c : comms_state) (write_ok : Bool) (out : List record)
    (sample : Option telemetry_sample) (anomaly : Option anomaly_result)
    (result : Option classifier_result) : Int × List record :=
  match result with
  | none => (-1, out)
  | some result =>
    if result.verdict ≠ verdict_kind.VERDICT_RANSOMWARE then (0, out)
    else
      let flags := match anomaly with
        | some a => a.flags
        | none => 0
      if comms_internal_get_stream c ≠ 0 then (-1, out)
      else if !write_ok then (-1, out)
      else (0, out ++ [record.alert (sample.map telemetry_sample.timestamp_ns)
        result.ransomware_score flags result.confidence])

/-! ## Agent loop (`src/core/agent_loop.c`)

The loop runs against an environment: what `telemetry_init` and `baseline_init` return,
and for every iteration what `telemetry_collect` delivers, whether the stream takes the
records and whether the sleep succeeds. The list of iterations is the list of those the
loop enters; after the last one the loop condition finds the stop flag set. The state
carries the file-scope state of the modules, the output stream and the trace of the calls
the loop makes. Messages to `stderr` are left out. -/

/-- Source `agent_mode_t`. -/
inductive agent_mode where
  | AGENT_MODE_BASELINE
  | AGENT_MODE_DETECT
  deriving DecidableEq, Repr

/-- Source `agent_config_t`. -/
structure agent_config where
  sampling_interval_ms : Nat
  telemetry_root_path : String
  cloud_endpoint_url : String
  baseline_db_path : String
  mode : agent_mode

/-- The five modules the loop initializes, named in the order of their `init` calls. -/
inductive component where
  | telemetry
  | baseline
  | anomaly
  | classifier
  | comms
  deriving DecidableEq, Repr

/-- An entry of the trace: a call of the loop with the arguments that matter and the value
it returned, or the loop condition finding the stop flag set. -/
inductive call where
  | init (c : component) (rc : Int)
  | shutdown (c : component)
  | stop_observed
  | telemetry_collect (rc : Int)
  | baseline_ready (ready : Int)
  | baseline_update (sample : telemetry_sample) (rc : Int)
  | anomaly_evaluate (sample : telemetry_sample) (rc : Int)
  | classifier_classify (anomaly : anomaly_result) (rc : Int)
  | comms_send_telemetry (sample : telemetry_sample) (anomaly : Option anomaly_result)
      (result : Option classifier_result) (rc : Int)
  | comms_send_alert (sample : telemetry_sample) (anomaly : anomaly_result)
      (result : classifier_result) (rc : Int)
  | sleep (rc : Int)

/-- The state the loop works on: `g_state` of the baseline store, `g_model_state`,
`g_classifier_initialized`, `g_comms_state`, the output stream and the trace. -/
structure agent_state where
  baseline : baseline_state Dbl
  model : model_state
  classifier_initialized : Int
  comms : comms_state
  out : List record
  calls : List call

/-- What one iteration gets from outside: the sample `telemetry_collect` delivers (`none`
when it fails), whether the stream takes the telemetry record and the alert record, and
whether `sleep_interruptible_ms` returns 0. -/
structure tick_env where
  collect : Option telemetry_sample
  telemetry_write_ok : Bool
  alert_write_ok : Bool
  sleep_ok : Bool

/-- Source `classifier_init`: the return value and the new `g_classifier_initialized`. -/
def classifier_init : Int × Int := (0, 1)

/-- The state with one more entry in the trace. -/
def agent_state.log (w : agent_state) (c : call) : agent_state :=
  { baseline := w.baseline
    model := w.model
    classifier_initialized := w.classifier_initialized
    comms := w.comms
    out := w.out
    calls := w.calls ++ [c] }

/-- The statements of `agent_loop_run` that learn from a sample: `baseline_update`, then
`comms_send_telemetry` without anomaly and classifier results, then the sleep. The source
has them twice, for baseline mode (lines 109 to 116, sleep at line 170) and for detect mode
with a store that is not ready (lines 119 to 139). The flag is `false` when the iteration
leaves through `cleanup_comms`. -/
def learn_step (L : Libm) (e : tick_env) (w : agent_state) (sample : telemetry_sample) :
    Bool × agent_state :=
  match baseline_update L w.baseline sample with
  | none => (false, w.log (call.baseline_update sample (-1)))
  | some b =>
    let sent := comms_send_telemetry w.comms e.telemetry_write_ok w.out sample none none
    (e.sleep_ok,
      { baseline := b
        model := w.model
        classifier_initialized := w.classifier_initialized
        comms := w.comms
        out := sent.2
        calls := w.calls ++ [call.baseline_update sample 0,
          call.comms_send_telemetry sample none none sent.1,
          call.sleep (if e.sleep_ok then 0 else -1)] })

/-- The statements of `agent_loop_run` for detect mode with a ready store (lines 147 to
170): `anomaly_evaluate`, `classifier_classify`, `comms_send_telemetry` with both results,
`comms_send_alert` when the verdict is RANSOMWARE, then the sleep. The flag is `false` when
the iteration leaves through `cleanup_comms`. -/
def detect_step (L : Libm) (e : tick_env) (w : agent_state) (sample : telemetry_sample) :
    Bool × agent_state :=
  match anomaly_evaluate L w.model sample with
  | none => (false, w.log (call.anomaly_evaluate sample (-1)))
  | some (anomaly, model) =>
    match classifier_classify w.classifier_initialized sample anomaly with
    | none =>
      (false,
        { baseline := w.baseline
          model := model
          classifier_initialized := w.classifier_initialized
          comms := w.comms
          out := w.out
          calls := w.calls ++ [call.anomaly_evaluate sample 0,
            call.classifier_classify anomaly (-1)] })
    | some classification =>
      let sent := comms_send_telemetry w.comms e.telemetry_write_ok w.out sample
        (some anomaly) (some classification)
      if classification.verdict = verdict_kind.VERDICT_RANSOMWARE then
        let alerted := comms_send_alert w.comms e.alert_write_ok sent.2 (some sample)
          (some anomaly) (some classification)
        (e.sleep_ok,
          { baseline := w.baseline
            model := model
            classifier_initialized := w.classifier_initialized
            comms := w.comms
            out := alerted.2
            calls := w.calls ++ [call.anomaly_evaluate sample 0,
              call.classifier_classify anomaly 0,
              call.comms_send_telemetry sample (some anomaly) (some classification) sent.1,
              call.comms_send_alert sample anomaly classification alerted.1,
              call.sleep (if e.sleep_ok then 0 else -1)] })
      else
        (e.sleep_ok,
          { baseline := w.baseline
            model := model
            classifier_initialized := w.classifier_initialized
            comms := w.comms
            out := sent.2
            calls := w.calls ++ [call.anomaly_evaluate sample 0,
              call.classifier_classify anomaly 0,
              call.comms_send_telemetry sample (some anomaly) (some classification) sent.1,
              call.sleep (if e.sleep_ok then 0 else -1)] })

/-- One iteration of the `while` loop of `agent_loop_run` (lines 101 to 172): the flag is
`true` when the iteration reaches the loop condition again, `false` when it leaves through
`cleanup_comms`. -/
def agent_loop_tick (L : Libm) (cfg : agent_config) (e : tick_env) (w : agent_state) :
    Bool × agent_state :=
  match e.collect with
  | none => (false, w.log (call.telemetry_collect (-1)))
  | some sample =>
    if cfg.mode = agent_mode.AGENT_MODE_BASELINE then
      learn_step L e (w.log (call.telemetry_collect 0)) sample
    else if baseline_ready w.baseline = 0 then
      learn_step L e
        ((w.log (call.telemetry_collect 0)).log (call.baseline_ready (baseline_ready w.baseline)))
        sample
    else
      detect_step L e
        ((w.log (call.telemetry_collect 0)).log (call.baseline_ready (baseline_ready w.baseline)))
        sample

/-- An alert record. -/
def record.is_alert : record → Bool
  | record.alert _ _ _ _ => true
  | _ => false

/-- The iteration is one of detect mode with a ready store in which the sample is collected
and evaluated and the classifier returns the verdict RANSOMWARE. -/
def detects_ransomware (L : Libm) (cfg : agent_config) (e : tick_env) (w : agent_state) :
    Prop :=
  cfg.mode = agent_mode.AGENT_MODE_DETECT ∧ baseline_ready w.baseline ≠ 0 ∧
  ∃ sample a g r, e.collect = some sample ∧
    anomaly_evaluate L w.model sample = some (a, g) ∧
    classifier_classify w.classifier_initialized sample a = some r ∧
    r.verdict = verdict_kind.VERDICT_RANSOMWARE

/-! ## Scenarios S2 and S3 of the spec -/

/-- The baseline sample of scenario S2 with the AES rate `a`: cycles and instructions
`1e9`, cache miss rate `0.01`, 10 files modified, 1 renamed, 0 deleted, `1e6` bytes
written per second. -/
def sample_s2 (a : ℚ) : telemetry_sample :=
  { timestamp_ns := 0
    cycles_per_sec := Dbl.fin 1000000000
    instructions_per_sec := Dbl.fin 1000000000
    cache_miss_rate := Dbl.fin (1 / 100)
    aes_instructions_per_sec := Dbl.fin a
    files_modified_per_sec := Dbl.fin 10
    files_renamed_per_sec := Dbl.fin 1
    files_deleted_per_sec := Dbl.fin 0
    top_pid := 0
    top_comm := []
    disk_read_bytes_per_sec := Dbl.fin 0
    disk_write_bytes_per_sec := Dbl.fin 1000000 }

/-- The history of scenario S2: 300 baseline samples with AES rate `1e6`. -/
def history_s2 : List telemetry_sample := List.replicate 300 (sample_s2 1000000)

/-- The test sample of scenario S2: the baseline sample with AES rate `1e8`. -/
def sample_s2_spike : telemetry_sample := sample_s2 100000000

/-- The history of scenario S3: 300 baseline samples with the AES sentinel `-1.0`. -/
def history_s3 : List telemetry_sample := List.replicate 300 (sample_s2 (-1))

/-- The test sample of scenario S3: 2000 files modified, 800 renamed, 400 deleted and
200 MiB written per second, AES `-1.0`, cycles and instructions as in the baseline. -/
def sample_s3_storm : telemetry_sample :=
  { timestamp_ns := 0
    cycles_per_sec := Dbl.fin 1000000000
    instructions_per_sec := Dbl.fin 1000000000
    cache_miss_rate := Dbl.fin (1 / 100)
    aes_instructions_per_sec := Dbl.fin (-1)
    files_modified_per_sec := Dbl.fin 2000
    files_renamed_per_sec := Dbl.fin 800
    files_deleted_per_sec := Dbl.fin 400
    top_pid := 0
    top_comm := []
    disk_read_bytes_per_sec := Dbl.fin 0
    disk_write_bytes_per_sec := Dbl.fin (200 * 1024 * 1024) }

/-- The pipeline model after `n` evaluations of `sample_s2 a`: every accepted metric has
count `n`, the sample's value as mean and no spread; the AES statistic is untouched when
`a` is the sentinel. -/
def model_s2 (n : Nat) (a : ℚ) : model_state :=
  { initialized := 1
    aes := if a = -1 then running_metric_zero
      else { count := n, mean := Dbl.fin a, m2 := Dbl.fin 0 }
    cycles := { count := n, mean := Dbl.fin 1000000000, m2 := Dbl.fin 0 }
    instructions := { count := n, mean := Dbl.fin 1000000000, m2 := Dbl.fin 0 }
    cache_miss_rate := { count := n, mean := Dbl.fin (1 / 100), m2 := Dbl.fin 0 }
    files_modified := { count := n, mean := Dbl.fin 10, m2 := Dbl.fin 0 }
    files_renamed := { count := n, mean := Dbl.fin 1, m2 := Dbl.fin 0 }
    files_deleted := { count := n, mean := Dbl.fin 0, m2 := Dbl.fin 0 }
    disk_write := { count := n, mean := Dbl.fin 1000000, m2 := Dbl.fin 0 } }

/-- A configuration for detect mode. -/
def config_detect : agent_config :=
  { sampling_interval_ms := 1000
    telemetry_root_path := "/"
    cloud_endpoint_url := "stdout"
    baseline_db_path := "baseline.db"
    mode := agent_mode.AGENT_MODE_DETECT }

/-- An iteration that collects `sample_idle` and in which every write and the sleep
succeed. -/
def tick_idle : tick_env :=
  { collect := some sample_idle, telemetry_write_ok := true, alert_write_ok := true,
    sleep_ok := true }

/-- The loop state right after the five `init` calls when no baseline file exists. -/
def state_started : agent_state :=
  { baseline := baseline_empty "baseline.db"
    model := anomaly_models_init
    classifier_initialized := 1
    comms := { initialized := 1, endpoint_url := "stdout" }
    out := []
    calls := [] }

/-- The loop state right after the five `init` calls when the baseline file holds 300
values of every metric. -/
def state_ready : agent_state :=
  { baseline := baseline_uniform 300
    model := anomaly_models_init
    classifier_initialized := 1
    comms := { initialized := 1, endpoint_url := "stdout" }
    out := []
    calls := [] }

/-- A sample with AES rate 7, 501 files modified and 201 files renamed per second,
everything else idle. -/
def sample_storm : telemetry_sample :=
  { sample_idle with
    aes_instructions_per_sec := Dbl.fin 7
    files_modified_per_sec := Dbl.fin 501
    files_renamed_per_sec := Dbl.fin 201 }

/-- An iteration that collects `sample_storm` and in which every write and the sleep
succeed. -/
def tick_storm : tick_env :=
  { collect := some sample_storm, telemetry_write_ok := true, alert_write_ok := true,
    sleep_ok := true }

/-- A loop state in detect mode with a ready store and a pipeline model that has seen the
history `history_aes_spread` (AES mean 3, deviation 1). -/
def state_hot : agent_state :=
  { baseline := baseline_uniform 300
    model := model_after_pairs 150
    classifier_initialized := 1
    comms := { initialized := 1, endpoint_url := "stdout" }
    out := []
    calls := [] }

/-! ## Telemetry collection (`src/telemetry/cpu_perf.c`, `src/telemetry/telemetry.c`) -/

/-- Source `struct cpu_metrics`. -/
structure cpu_metrics where
  cycles_per_sec : Dbl
  instructions_per_sec : Dbl
  cache_miss_rate : Dbl
  aes_instructions_per_sec : Dbl
  aes_supported : Int

/-- Source `struct fs_metrics`; the three counters are `uint64_t`. -/
structure fs_metrics where
  files_modified : Nat
  files_renamed : Nat
  files_deleted : Nat

/-- Source `struct process_metrics`; `top_comm` is the content of the 64-byte array. -/
structure process_metrics where
  top_pid : Int
  top_comm : List Nat

/-- Source `struct io_metrics`. -/
structure io_metrics where
  disk_read_rate : Dbl
  disk_write_rate : Dbl

/-- Source `cpu_perf_state_t`, the type of `g_state` in `cpu_perf.c`, without the three
arrays of file descriptors: what is read from a descriptor is a parameter of the call. -/
structure cpu_perf_state where
  init_attempted : Int
  initialized : Int
  disabled : Int
  have_prev : Int
  cpu_count : Int
  cycles_available : Int
  instructions_available : Int
  cache_misses_available : Int
  last_cycles : Nat
  last_instructions : Nat
  last_cache_misses : Nat
  last_ts_ns : Nat

/-- The static initializer of `g_state` in `cpu_perf.c`. -/
def cpu_perf_state_zero : cpu_perf_state :=
  { init_attempted := 0, initialized := 0, disabled := 0, have_prev := 0, cpu_count := 0
    cycles_available := 0, instructions_available := 0, cache_misses_available := 0
    last_cycles := 0, last_instructions := 0, last_cache_misses := 0, last_ts_ns := 0 }

/-- What the system answers while `ensure_initialized` runs: the value of `sysconf`, whether
the three `malloc` calls succeed, and on how many CPUs each counter could be opened. -/
structure perf_open_env where
  sysconf : Int
  alloc_ok : Bool
  cycles_opened : Nat
  instructions_opened : Nat
  cache_misses_opened : Nat

/-- Source `ensure_initialized`: the new `g_state`. -/
def ensure_initialized (g : cpu_perf_state) (e : perf_open_env) : cpu_perf_state :=
  if g.initialized ≠ 0 ∨ g.disabled ≠ 0 then g
  else
    let cpu_count := if e.sysconf ≤ 0 then 1 else e.sysconf
    if !e.alloc_ok then
      { init_attempted := 1, initialized := g.initialized, disabled := 1
        have_prev := g.have_prev, cpu_count := 0
        cycles_available := g.cycles_available
        instructions_available := g.instructions_available
        cache_misses_available := g.cache_misses_available
        last_cycles := g.last_cycles, last_instructions := g.last_instructions
        last_cache_misses := g.last_cache_misses, last_ts_ns := g.last_ts_ns }
    else
      let cycles_available := g.cycles_available + e.cycles_opened
      let instructions_available := g.instructions_available + e.instructions_opened
      let cache_misses_available := g.cache_misses_available + e.cache_misses_opened
      if cycles_available = 0 ∧ instructions_available = 0 ∧ cache_misses_available = 0 then
        { init_attempted := 1, initialized := g.initialized, disabled := 1
          have_prev := g.have_prev, cpu_count := 0
          cycles_available := cycles_available
          instructions_available := instructions_available
          cache_misses_available := cache_misses_available
          last_cycles := g.last_cycles, last_instructions := g.last_instructions
          last_cache_misses := g.last_cache_misses, last_ts_ns := g.last_ts_ns }
      else
        { init_attempted := 1, initialized := 1, disabled := g.disabled
          have_prev := g.have_prev, cpu_count := cpu_count
          cycles_available := cycles_available
          instructions_available := instructions_available
          cache_misses_available := cache_misses_available
          last_cycles := g.last_cycles, last_instructions := g.last_instructions
          last_cache_misses := g.last_cache_misses, last_ts_ns := g.last_ts_ns }

/-- Source `delta_counter`. -/
def delta_counter (current previous : Nat) : Nat :=
  if current < previous then 0 else current - previous

/-- What the system answers during one `collect_cpu_metrics` call: the answers to
`ensure_initialized`, the clock (`monotonic_now_ns`, `0` on failure), and the result of
`read_counter_sum_scaled` for each counter (`none` is the return value `-1`). -/
structure cpu_env where
  open_env : perf_open_env
  now_ns : Nat
  cycles : Option Nat
  instructions : Option Nat
  cache_misses : Option Nat

/-- The struct after `memset(out, 0, ...)`, `aes_instructions_per_sec = -1.0` and
`aes_supported = 0`, the first three statements of `collect_cpu_metrics`. -/
def cpu_metrics_cleared : cpu_metrics :=
  { cycles_per_sec := Dbl.fin 0, instructions_per_sec := Dbl.fin 0, cache_miss_rate := Dbl.fin 0
    aes_instructions_per_sec := Dbl.fin (-1), aes_supported := 0 }

/-- The counter value `collect_cpu_metrics` works with: `0` if the counter is not available,
what was read if the read succeeded, the previous value otherwise. -/
def counter_now (available : Int) (read : Option Nat) (last : Nat) : Nat :=
  if available > 0 then
    match read with
    | some v => v
    | none => last
  else 0

/-- The four statements that store the current counters and the timestamp in `g_state`. -/
def store_counters (g : cpu_perf_state) (have_prev : Int)
    (cycles_now instructions_now cache_misses_now now_ns : Nat) : cpu_perf_state :=
  { init_attempted := g.init_attempted, initialized := g.initialized, disabled := g.disabled
    have_prev := have_prev, cpu_count := g.cpu_count
    cycles_available := g.cycles_available
    instructions_available := g.instructions_available
    cache_misses_available := g.cache_misses_available
    last_cycles := cycles_now, last_instructions := instructions_now
    last_cache_misses := cache_misses_now, last_ts_ns := now_ns }

/-- Source `collect_cpu_metrics`: what it leaves in `*out` and the new `g_state`. -/
def collect_cpu_metrics (g0 : cpu_perf_state) (e : cpu_env) : cpu_metrics × cpu_perf_state :=
  let out := cpu_metrics_cleared
  let g := ensure_initialized g0 e.open_env
  if g.initialized = 0 ∨ g.disabled ≠ 0 then (out, g)
  else if e.now_ns = 0 then (out, g)
  else
    let cycles_now := counter_now g.cycles_available e.cycles g.last_cycles
    let instructions_now :=
      counter_now g.instructions_available e.instructions g.last_instructions
    let cache_misses_now :=
      counter_now g.cache_misses_available e.cache_misses g.last_cache_misses
    if g.have_prev = 0 ∨ e.now_ns ≤ g.last_ts_ns then
      (out, store_counters g 1 cycles_now instructions_now cache_misses_now e.now_ns)
    else
      let elapsed_seconds :=
        Dbl.div (Dbl.ofNat (e.now_ns - g.last_ts_ns)) (Dbl.fin 1000000000)
      if Dbl.le elapsed_seconds (Dbl.fin 0) then
        (out, store_counters g g.have_prev cycles_now instructions_now cache_misses_now
          e.now_ns)
      else
        let instruction_delta := delta_counter instructions_now g.last_instructions
        let cache_miss_delta := delta_counter cache_misses_now g.last_cache_misses
        ({ cycles_per_sec :=
             if g.cycles_available > 0
             then Dbl.div (Dbl.ofNat (delta_counter cycles_now g.last_cycles)) elapsed_seconds
             else out.cycles_per_sec
           instructions_per_sec :=
             if g.instructions_available > 0
             then Dbl.div (Dbl.ofNat instruction_delta) elapsed_seconds
             else out.instructions_per_sec
           cache_miss_rate :=
             if g.instructions_available > 0 ∧ g.cache_misses_available > 0 ∧
                 instruction_delta > 0
             then Dbl.div (Dbl.ofNat cache_miss_delta) (Dbl.ofNat instruction_delta)
             else out.cache_miss_rate
           aes_instructions_per_sec := Dbl.fin (-1)
           aes_supported := out.aes_supported },
         store_counters g g.have_prev cycles_now instructions_now cache_misses_now e.now_ns)

/-- Source `telemetry_state_t`, the type of `g_state` in `telemetry.c`. -/
structure telemetry_state where
  initialized : Int
  has_last_timestamp : Int
  last_timestamp_ns : Nat

def k_rate_epsilon_seconds : Dbl := Dbl.fin (1 / 1000000)

/-- Source `elapsed_seconds`. -/
def elapsed_seconds (now_ns prev_ns : Nat) : Dbl :=
  if now_ns ≤ prev_ns then Dbl.fin 0
  else Dbl.div (Dbl.ofNat (now_ns - prev_ns)) (Dbl.fin 1000000000)

/-- Source `telemetry_init`: the return value and the new `g_state`; `fs_monitor` is the
return value of `init_fs_monitor`.  The state is zeroed before the monitor is started. -/
def telemetry_init (root_path : String) (fs_monitor : Int) (g : telemetry_state) :
    Int × telemetry_state :=
  if root_path.utf8ByteSize = 0 then (-1, g)
  else if fs_monitor ≠ 0 then
    (-1, { initialized := 0, has_last_timestamp := 0, last_timestamp_ns := 0 })
  else (0, { initialized := 1, has_last_timestamp := 0, last_timestamp_ns := 0 })

/-- The C string held by a `char` array: the bytes before the first NUL. -/
def c_string (bytes : List Nat) : List Nat := bytes.takeWhile (fun c => c != 0)

/-- What the system answers during one `telemetry_collect` call: the clock
(`monotonic_now_ns`, `0` on failure), the answers to `collect_cpu_metrics`, and what
`collect_fs_metrics`, `get_top_crypto_process` and `collect_io_metrics` leave in their
zeroed structs. -/
structure collect_env where
  now_ns : Nat
  cpu : cpu_env
  fs : fs_metrics
  proc : process_metrics
  io : io_metrics

/-- The `dt_seconds` of `telemetry_collect`: `0.0` without a previous timestamp, else the
elapsed time raised to `k_rate_epsilon_seconds`. -/
def rate_interval (g : telemetry_state) (now_ns : Nat) : Dbl :=
  if g.has_last_timestamp ≠ 0 then
    let dt_seconds := elapsed_seconds now_ns g.last_timestamp_ns
    if Dbl.lt dt_seconds k_rate_epsilon_seconds then k_rate_epsilon_seconds else dt_seconds
  else Dbl.fin 0

/-- Source `telemetry_collect`: the sample, the new `g_state` of `telemetry.c` and the new
`g_state` of `cpu_perf.c`; `none` is the return value `-1`, which leaves both states as they
were.  `top_comm` is the string that `snprintf` copies from the 64-byte array after its
last byte was set to NUL. -/
def telemetry_collect (g : telemetry_state) (p : cpu_perf_state) (e : collect_env) :
    Option (telemetry_sample × telemetry_state × cpu_perf_state) :=
  if g.initialized = 0 then none
  else if e.now_ns = 0 then none
  else
    let dt_seconds := rate_interval g e.now_ns
    let cpu := collect_cpu_metrics p e.cpu
    some
      ({ timestamp_ns := e.now_ns
         cycles_per_sec := cpu.1.cycles_per_sec
         instructions_per_sec := cpu.1.instructions_per_sec
         cache_miss_rate := cpu.1.cache_miss_rate
         aes_instructions_per_sec :=
           if cpu.1.aes_supported ≠ 0 then cpu.1.aes_instructions_per_sec else Dbl.fin (-1)
         files_modified_per_sec :=
           if g.has_last_timestamp ≠ 0
           then Dbl.div (Dbl.ofNat e.fs.files_modified) dt_seconds else Dbl.fin 0
         files_renamed_per_sec :=
           if g.has_last_timestamp ≠ 0
           then Dbl.div (Dbl.ofNat e.fs.files_renamed) dt_seconds else Dbl.fin 0
         files_deleted_per_sec :=
           if g.has_last_timestamp ≠ 0
           then Dbl.div (Dbl.ofNat e.fs.files_deleted) dt_seconds else Dbl.fin 0
         top_pid := e.proc.top_pid
         top_comm := c_string (e.proc.top_comm.take 63)
         disk_read_bytes_per_sec := e.io.disk_read_rate
         disk_write_bytes_per_sec := e.io.disk_write_rate },
       { initialized := g.initialized, has_last_timestamp := 1, last_timestamp_ns := e.now_ns },
       cpu.2)

/-- The elapsed seconds as a number: `(now - last) / 1e9`, `0` when `now <= last`. -/
def spec_elapsed (now_ns last_ns : Nat) : ℚ :=
  if now_ns ≤ last_ns then 0 else ((now_ns : ℚ) - (last_ns : ℚ)) / 1000000000

/-- An idle machine: no counter could be opened, the clock reads one second. -/
def cpu_env_idle : cpu_env :=
  { open_env := { sysconf := 1, alloc_ok := true, cycles_opened := 0
                  instructions_opened := 0, cache_misses_opened := 0 }
    now_ns := 1000000000, cycles := none, instructions := none, cache_misses := none }

/-- A collection at clock reading `now_ns` that saw 5 modified, 2 renamed and 1 deleted
file. -/
def collect_env_busy (now_ns : Nat) : collect_env :=
  { now_ns := now_ns
    cpu := cpu_env_idle
    fs := { files_modified := 5, files_renamed := 2, files_deleted := 1 }
    proc := { top_pid := 0, top_comm := List.replicate 64 0 }
    io := { disk_read_rate := Dbl.fin 0, disk_write_rate := Dbl.fin 0 } }

/-- The telemetry state after a collection at clock reading one second. -/
def telemetry_state_at_1s : telemetry_state :=
  { initialized := 1, has_last_timestamp := 1, last_timestamp_ns := 1000000000 }

/-! ## JSON string escaping (`src/comms/telemetry.c`) -/

/-- One lowercase hexadecimal digit, as `printf("%x")` prints it. -/
def hex_digit (d : Nat) : Nat := if d < 10 then 0x30 + d else 0x61 + (d - 10)

/-- The bytes `printf("%04x", c)` prints for `c < 65536`. -/
def printf_04x (c : Nat) : List Nat :=
  [hex_digit (c / 4096 % 16), hex_digit (c / 256 % 16), hex_digit (c / 16 % 16),
   hex_digit (c % 16)]

/-- The bytes one iteration of the loop of `write_json_escaped_string` sends to the stream
for the byte `c`: the `if` chain of the source with its `fprintf`/`fputs`/`fputc` calls. -/
def escape_byte (c : Nat) : List Nat :=
  if c = 0x22 ∨ c = 0x5C then [0x5C, c]
  else if c = 0x08 then [0x5C, 0x62]
  else if c = 0x0C then [0x5C, 0x66]
  else if c = 0x0A then [0x5C, 0x6E]
  else if c = 0x0D then [0x5C, 0x72]
  else if c = 0x09 then [0x5C, 0x74]
  else if c < 0x20 then [0x5C, 0x75] ++ printf_04x c
  else [c]

/-- The loop of `write_json_escaped_string` and its final `fputc`: `s` is the memory at the
pointer, read up to the first NUL; `calls_ok` is the number of stream calls that still
succeed (a failing call is taken to write nothing).  Returns the return value and the
stream. -/
def write_escaped_loop (calls_ok : Nat) (stream : List Nat) : List Nat → Int × List Nat
  | [] => if calls_ok = 0 then (-1, stream) else (0, stream ++ [0x22])
  | c :: rest =>
    if c = 0 then (if calls_ok = 0 then (-1, stream) else (0, stream ++ [0x22]))
    else if calls_ok = 0 then (-1, stream)
    else write_escaped_loop (calls_ok - 1) (stream ++ escape_byte c) rest

/-- Source `write_json_escaped_string`: the return value and the stream afterwards. -/
def write_json_escaped_string (calls_ok : Nat) (stream : List Nat) (s : List Nat) :
    Int × List Nat :=
  if calls_ok = 0 then (-1, stream)
  else write_escaped_loop (calls_ok - 1) (stream ++ [0x22]) s

/-- The buffer `top_comm_safe` of `comms_send_telemetry`: the 64 bytes of `top_comm` and a
NUL. -/
def top_comm_safe (top_comm : List Nat) : List Nat := top_comm.take 64 ++ [0]

/-- The escape of one byte as the spec words it: `"` and `\` with a backslash in front, the
two-character escapes for `\b \f \n \r \t`, `\u00XX` with two lowercase hex digits for the
other bytes below `0x20`, every other byte unchanged. -/
def spec_escape (c : Nat) : List Nat :=
  if c = '"'.toNat then "\\\"".toList.map Char.toNat
  else if c = '\\'.toNat then "\\\\".toList.map Char.toNat
  else if c = 8 then "\\b".toList.map Char.toNat
  else if c = 12 then "\\f".toList.map Char.toNat
  else if c = '\n'.toNat then "\\n".toList.map Char.toNat
  else if c = '\r'.toNat then "\\r".toList.map Char.toNat
  else if c = '\t'.toNat then "\\t".toList.map Char.toNat
  else if c < 0x20 then
    "\\u00".toList.map Char.toNat ++ [hex_digit (c / 16), hex_digit (c % 16)]
  else [c]

/-- Value of a hexadecimal digit. -/
def hex_value (b : Nat) : Option Nat :=
  if 0x30 ≤ b ∧ b ≤ 0x39 then some (b - 0x30)
  else if 0x61 ≤ b ∧ b ≤ 0x66 then some (b - 0x61 + 10)
  else if 0x41 ≤ b ∧ b ≤ 0x46 then some (b - 0x41 + 10)
  else none

/-- UTF-8 encoding of a code point below `0x10000`. -/
def utf8_encode (v : Nat) : List Nat :=
  if v < 0x80 then [v]
  else if v < 0x800 then [0xC0 + v / 64, 0x80 + v % 64]
  else [0xE0 + v / 4096, 0x80 + v / 64 % 64, 0x80 + v % 64]

/-- The character a two-character JSON escape stands for. -/
def json_simple_escape (e : Nat) : Option Nat :=
  if e = 0x22 then some 0x22
  else if e = 0x5C then some 0x5C
  else if e = 0x2F then some 0x2F
  else if e = 0x62 then some 0x08
  else if e = 0x66 then some 0x0C
  else if e = 0x6E then some 0x0A
  else if e = 0x72 then some 0x0D
  else if e = 0x74 then some 0x09
  else none

/-- JSON unescaping of the interior of a string literal (RFC 8259, without surrogate pairs):
`none` if the text holds a raw control byte, a raw double quote, or a backslash that starts
no escape. -/
def json_unescape : List Nat → Option (List Nat)
  | [] => some []
  | b :: rest =>
    if b = 0x5C then
      match rest with
      | [] => none
      | e :: rest1 =>
        if e = 0x75 then
          match rest1 with
          | h1 :: h2 :: h3 :: h4 :: rest2 =>
            match hex_value h1, hex_value h2, hex_value h3, hex_value h4,
              json_unescape rest2 with
            | some v1, some v2, some v3, some v4, some tail =>
              some (utf8_encode (v1 * 4096 + v2 * 256 + v3 * 16 + v4) ++ tail)
            | _, _, _, _, _ => none
          | _ => none
        else
          match json_simple_escape e, json_unescape rest1 with
          | some c, some tail => some (c :: tail)
          | _, _ => none
    else if b < 0x20 ∨ b = 0x22 then none
    else
      match json_unescape rest with
      | some tail => some (b :: tail)
      | none => none

/-- The bytes of `a"b\n`, the byte `0x01`, `z`, and the terminating NUL with two bytes of
stale memory behind it. -/
def comm_tricky : List Nat := [0x61, 0x22, 0x62, 0x0A, 0x01, 0x7A, 0, 0x41, 0x42]

/-! ## Configuration file (`src/core/config.c`) -/

/-- C `isspace` in the "C" locale (the program never calls `setlocale`): space, `\t`, `\n`,
`\v`, `\f`, `\r`.  A C `char` of the configuration text is carried as a `Char`. -/
def isspace (c : Char) : Bool :=
  c == ' ' || c == '\t' || c == '\n' || c == Char.ofNat 11 || c == Char.ofNat 12 || c == '\r'

/-- The C string held by a `char` buffer: the characters before the first NUL. -/
def c_str (buf : List Char) : List Char := buf.takeWhile (fun c => c != Char.ofNat 0)

/-- Source `trim_inplace`: the string without its leading and trailing `isspace`
characters. -/
def trim_inplace (s : List Char) : List Char := (s.dropWhile isspace).rdropWhile isspace

/-- Source `parse_mode`; `none` is the return value `-1`. -/
def parse_mode (value : List Char) : Option agent_mode :=
  if value = "baseline".toList then some agent_mode.AGENT_MODE_BASELINE
  else if value = "detect".toList then some agent_mode.AGENT_MODE_DETECT
  else none

/-- The largest `unsigned long` (64 bits). -/
def ULONG_MAX : Nat := 2 ^ 64 - 1

/-- A decimal digit. -/
def is_digit (c : Char) : Bool := decide (48 ≤ c.toNat) && decide (c.toNat ≤ 57)

/-- The digit loop of `strtoul` in base 10: the number read so far and the unread text. -/
def strtoul_digits : Nat → List Char → Nat × List Char
  | acc, [] => (acc, [])
  | acc, c :: cs =>
    if is_digit c then strtoul_digits (10 * acc + (c.toNat - 48)) cs else (acc, c :: cs)

/-- What a `strtoul` call leaves: its return value, the string at `*endptr`, whether
`*endptr` is the start of the input (no conversion), and whether `errno` was set to
`ERANGE`. -/
structure strtoul_result where
  value : Nat
  endptr : List Char
  no_conversion : Bool
  erange : Bool

/-- C library `strtoul(nptr, &end, 10)` as ISO C 7.22.1.4 fixes it, with a 64-bit
`unsigned long`: leading `isspace` characters are skipped, one sign is accepted, the longest
run of digits is converted; a magnitude above `ULONG_MAX` gives `ULONG_MAX` and `ERANGE`;
after a minus sign the value is negated in the return type; without a digit nothing is
converted and `*endptr` is `nptr`. -/
def strtoul (nptr : List Char) : strtoul_result :=
  let s := nptr.dropWhile isspace
  let negative := s.head? == some '-'
  let u := if s.head? == some '-' || s.head? == some '+' then s.tail else s
  if u.head?.map is_digit == some true then
    let r := strtoul_digits 0 u
    if r.1 > ULONG_MAX then
      { value := ULONG_MAX, endptr := r.2, no_conversion := false, erange := true }
    else
      { value := if negative then (2 ^ 64 - r.1) % 2 ^ 64 else r.1
        endptr := r.2, no_conversion := false, erange := false }
  else { value := 0, endptr := nptr, no_conversion := true, erange := false }

/-- Source `parse_uint_ms`: the value stored in `*out`; `none` is the return value `-1`. -/
def parse_uint_ms (value : List Char) : Option Nat :=
  if value = [] then none
  else
    let r := strtoul value
    if r.erange || r.no_conversion || r.endptr != [] then none
    else if r.value = 0 ∨ r.value > 3600000 then none
    else some (r.value % 2 ^ 32)

/-- The locals of `config_load` that survive an iteration: `*out_cfg` and the five `found_`
flags. -/
structure config_state where
  cfg : agent_config
  found_interval : Nat
  found_root : Nat
  found_endpoint : Nat
  found_baseline_db : Nat
  found_mode : Nat

/-- The state before the first line: `*out_cfg` zeroed, nothing found. -/
def config_state_zero : config_state :=
  { cfg := { sampling_interval_ms := 0, telemetry_root_path := "", cloud_endpoint_url := ""
             baseline_db_path := "", mode := agent_mode.AGENT_MODE_BASELINE }
    found_interval := 0, found_root := 0, found_endpoint := 0, found_baseline_db := 0
    found_mode := 0 }

/-- The `strcmp` chain of `config_load` for one `key`/`value` pair; `none` is `return -1`. -/
def config_entry (st : config_state) (key value : List Char) : Option config_state :=
  if key = "sampling_interval_ms".toList then
    match parse_uint_ms value with
    | none => none
    | some v =>
      some { st with cfg := { st.cfg with sampling_interval_ms := v }, found_interval := 1 }
  else if key = "telemetry_root_path".toList then
    if value = [] ∨ value.length ≥ PATH_MAX then none
    else
      some { st with cfg := { st.cfg with telemetry_root_path := String.mk value }
                     found_root := 1 }
  else if key = "cloud_endpoint_url".toList then
    if value = [] ∨ value.length ≥ 1024 then none
    else
      some { st with cfg := { st.cfg with cloud_endpoint_url := String.mk value }
                     found_endpoint := 1 }
  else if key = "baseline_db_path".toList then
    if value = [] ∨ value.length ≥ PATH_MAX then none
    else
      some { st with cfg := { st.cfg with baseline_db_path := String.mk value }
                     found_baseline_db := 1 }
  else if key = "mode".toList then
    match parse_mode value with
    | none => none
    | some m => some { st with cfg := { st.cfg with mode := m }, found_mode := 1 }
  else some st

/-- The body of the `while` loop of `config_load` for the buffer `raw` that `fgets` filled;
`none` is `return -1`. -/
def config_line (st : config_state) (raw : List Char) : Option config_state :=
  let line := trim_inplace (c_str raw)
  if line = [] ∨ line.head? = some '#' then some st
  else
    match line.dropWhile (fun c => c != '=') with
    | [] => none
    | _ :: value => config_entry st (trim_inplace (line.takeWhile (fun c => c != '=')))
        (trim_inplace value)

/-- The buffers that successive `fgets(line, n + 1, fp)` calls fill while they read `file`
to its end: each holds the characters up to and including a newline, at most `n` of them;
`cur` is what the current call has read so far. -/
def fgets_all (n : Nat) : List Char → List Char → List (List Char)
  | cur, [] => if cur = [] then [] else [cur]
  | cur, c :: cs =>
    if c = '\n' ∨ (cur ++ [c]).length = n then (cur ++ [c]) :: fgets_all n [] cs
    else fgets_all n (cur ++ [c]) cs

/-- The `while` loop of `config_load` over the buffers `fgets` fills. -/
def config_lines (st : config_state) : List (List Char) → Option config_state
  | [] => some st
  | raw :: rest =>
    match config_line st raw with
    | none => none
    | some st' => config_lines st' rest

/-- Source `config_load`: `*out_cfg` on success, `none` for the return value `-1`.  `file`
is the text `fopen` gives access to (`none` if it fails), `read_error` what `ferror` reports
after the last `fgets`. -/
def config_load (file : Option (List Char)) (read_error : Bool) : Option agent_config :=
  match file with
  | none => none
  | some text =>
    match config_lines config_state_zero (fgets_all 2047 [] text) with
    | none => none
    | some st =>
      if read_error then none
      else if st.found_interval = 0 ∨ st.found_root = 0 ∨ st.found_endpoint = 0 ∨
          st.found_baseline_db = 0 ∨ st.found_mode = 0 then none
      else some st.cfg

/-- The number a string of decimal digits denotes. -/
def decimal_value (ds : List Char) : Nat := ds.foldl (fun n c => 10 * n + (c.toNat - 48)) 0

/-- A configuration text with four of the five required keys. -/
def conf_four_keys : List Char :=
  ("# aegis-agent\n" ++ "telemetry_root_path = /srv\n" ++ "baseline_db_path=/var/lib/aegis.db\n"
    ++ "mode=detect\n" ++ "cloud_endpoint_url=stdout\n").toList

/-- The state of `config_load` after the lines of `conf_four_keys`. -/
def state_four_keys : config_state :=
  { cfg := { sampling_interval_ms := 0, telemetry_root_path := "/srv"
             cloud_endpoint_url := "stdout", baseline_db_path := "/var/lib/aegis.db"
             mode := agent_mode.AGENT_MODE_DETECT }
    found_interval := 0, found_root := 1, found_endpoint := 1, found_baseline_db := 1
    found_mode := 1 }

/-- The line that sets `key` to `value`. -/
def conf_key_line (key value : List Char) : List Char := key ++ '=' :: value ++ ['\n']

/-- A configuration text whose interval is the negative numeral `-18446744073709551615`. -/
def conf_negative_interval : List Char :=
  conf_four_keys ++ conf_key_line "sampling_interval_ms".toList "-18446744073709551615".toList

/-- A configuration text with the four required keys other than `cloud_endpoint_url`. -/
def conf_no_url : List Char :=
  ("sampling_interval_ms=1000\n" ++ "telemetry_root_path=/srv\n"
    ++ "baseline_db_path=/var/lib/aegis.db\n" ++ "mode=baseline\n").toList

/-- The state of `config_load` after the lines of `conf_no_url`. -/
def state_no_url : config_state :=
  { cfg := { sampling_interval_ms := 1000, telemetry_root_path := "/srv"
             cloud_endpoint_url := "", baseline_db_path := "/var/lib/aegis.db"
             mode := agent_mode.AGENT_MODE_BASELINE }
    found_interval := 1, found_root := 1, found_endpoint := 0, found_baseline_db := 1
    found_mode := 1 }

/-- The five `found_` tests at the end of `config_load`. -/
def config_state.complete (st : config_state) : Bool :=
  !(st.found_interval = 0 ∨ st.found_root = 0 ∨ st.found_endpoint = 0 ∨
    st.found_baseline_db = 0 ∨ st.found_mode = 0)

/-- A URL of `n` characters. -/
def url_of_length (n : Nat) : List Char := List.replicate n 'a'

/-! ## Binary64 arithmetic

The functions below redo `metric_abs_z` and the classifier with IEEE-754 binary64
arithmetic: every operation returns the exact result rounded to the nearest double, ties to
the even mantissa (subnormal spacing below `2^-1022`), and a result whose rounding reaches
the magnitude `2^1024` becomes an infinity.  Signed zeros are not told apart. -/

/-- Rounding to the nearest integer, ties to the even one. -/
def rne (u : ℚ) : ℤ :=
  if u - ⌊u⌋ < 1 / 2 then ⌊u⌋
  else if 1 / 2 < u - ⌊u⌋ then ⌊u⌋ + 1
  else if ⌊u⌋ % 2 = 0 then ⌊u⌋ else ⌊u⌋ + 1

namespace F64

/-- The exponent of the unit in the last place of the doubles around `q`: with
`2^e <= |q| < 2^(e+1)` it is `e - 52`, and `-1074` in the subnormal range. -/
def ulp_exp (q : ℚ) : ℤ := max (Int.log 2 |q|) (-1022) - 52

/-- The nearest number of the binary64 grid, with an unbounded exponent range upwards. -/
def round_fin (q : ℚ) : ℚ := (rne (q / 2 ^ ulp_exp q) : ℚ) * 2 ^ ulp_exp q

/-- The double nearest to the number `q`: an infinity when the rounded magnitude reaches
`2^1024`. -/
def round (q : ℚ) : Dbl :=
  if (2 : ℚ) ^ (1024 : ℤ) ≤ |round_fin q| then Dbl.inf (decide (q < 0)) else Dbl.fin (round_fin q)

/-- Rounding of the exact result of an operation. -/
def rnd : Dbl → Dbl
  | Dbl.fin q => round q
  | d => d

/-- C `a + b` on doubles. -/
def add (a b : Dbl) : Dbl := rnd (Dbl.add a b)

/-- C `a - b` on doubles. -/
def sub (a b : Dbl) : Dbl := rnd (Dbl.sub a b)

/-- C `a * b` on doubles. -/
def mul (a b : Dbl) : Dbl := rnd (Dbl.mul a b)

/-- C `a / b` on doubles. -/
def div (a b : Dbl) : Dbl := rnd (Dbl.div a b)

/-- The double a decimal literal of the source denotes. -/
def lit (q : ℚ) : Dbl := round q

/-- Source macro `Z_STDDEV_EPSILON`: the double `1e-9`. -/
def Z_STDDEV_EPSILON : Dbl := lit (1 / 1000000000)

/-- Source `metric_abs_z` in binary64 arithmetic. -/
def metric_abs_z (value : Dbl) (metric : anomaly_metric_view) : Dbl :=
  if !value_is_valid value || metric.ready == 0 then Dbl.fin 0
  else if !value_is_valid metric.mean || !value_is_valid metric.stddev ||
      Dbl.le metric.stddev Z_STDDEV_EPSILON then Dbl.fin 0
  else
    let z := div (sub value metric.mean) metric.stddev
    if !value_is_valid z then Dbl.fin 0
    else Dbl.fabs z

/-- The per-metric `|z|` of the spec with double arithmetic: `|v − mean| / stddev` if the
view is ready, the three numbers are finite, `stddev > 1e-9` and the quotient is finite; `0`
otherwise. -/
def spec_abs_z (v : Dbl) (m : anomaly_metric_view) : Dbl :=
  match v, m.mean, m.stddev with
  | Dbl.fin a, Dbl.fin mu, Dbl.fin sd =>
    if m.ready ≠ 0 ∧ Dbl.gt (Dbl.fin sd) (lit (1 / 1000000000)) = true then
      match div (Dbl.fabs (sub (Dbl.fin a) (Dbl.fin mu))) (Dbl.fin sd) with
      | Dbl.fin z => Dbl.fin z
      | _ => Dbl.fin 0
    else Dbl.fin 0
  | _, _, _ => Dbl.fin 0

/-- Source `classifier_compute_ransomware_score` in binary64 arithmetic: the product and
each `+=` round to a double. -/
def classifier_compute_ransomware_score (anomaly : anomaly_result) : Dbl :=
  let score := mul (lit (1 / 2)) (clamp_unit anomaly.anomaly_score)
  let score := if anomaly.flags &&& ANOMALY_FLAG_WRITE_STORM != 0
    then add score (lit (2 / 10)) else score
  let score := if anomaly.flags &&& ANOMALY_FLAG_RENAME_STORM != 0
    then add score (lit (15 / 100)) else score
  let score := if anomaly.flags &&& ANOMALY_FLAG_DELETE_STORM != 0
    then add score (lit (1 / 10)) else score
  let score := if anomaly.flags &&& ANOMALY_FLAG_CRYPTO_SPIKE != 0
    then add score (lit (25 / 100)) else score
  clamp_unit score

/-- Source `classifier_score_to_verdict` with the doubles `0.85` and `0.55`. -/
def classifier_score_to_verdict (score : Dbl) : verdict_kind :=
  if Dbl.ge score (lit (85 / 100)) then verdict_kind.VERDICT_RANSOMWARE
  else if Dbl.ge score (lit (55 / 100)) then verdict_kind.VERDICT_SUSPICIOUS
  else verdict_kind.VERDICT_SAFE

/-- Source `classifier_classify` in binary64 arithmetic; the first argument is
`g_classifier_initialized`, `none` is the return value `-1`. -/
def classifier_classify (g_classifier_initialized : Int) (_sample : telemetry_sample)
    (anomaly : anomaly_result) : Option classifier_result :=
  if g_classifier_initialized = 0 then none
  else
    let score := classifier_compute_ransomware_score anomaly
    some { verdict := classifier_score_to_verdict score
           confidence := score
           ransomware_score := score }

/-- The double `0.2`. -/
def dbl_0_2 : ℚ := 3602879701896397 / 18014398509481984

/-- The double `0.15`. -/
def dbl_0_15 : ℚ := 5404319552844595 / 36028797018963968

/-- The double `0.1`. -/
def dbl_0_1 : ℚ := 3602879701896397 / 36028797018963968

/-- The double `0.85`. -/
def dbl_0_85 : ℚ := 7656119366529843 / 9007199254740992

/-- The double `0.55`. -/
def dbl_0_55 : ℚ := 2476979795053773 / 4503599627370496

/-- The double `0.3`. -/
def dbl_0_3 : ℚ := 5404319552844595 / 18014398509481984

/-- The double `1e-9`. -/
def dbl_1e_9 : ℚ := 4835703278458517 / 4835703278458516698824704

/-- The double two units in the last place below the double `0.3`
(`0x1.3333333333331p-2`, about `0.29999999999999988`). -/
def anomaly_floor : ℚ := 5404319552844593 / 18014398509481984

/-- The double just below `anomaly_floor` (`0x1.3333333333330p-2`). -/
def anomaly_floor_pred : ℚ := 5404319552844592 / 18014398509481984

/-- The four conditional additions of `classifier_compute_ransomware_score`, as a function
of the score so far and of the four flag tests. -/
def weighted (score : Dbl) (w r d c : Bool) : Dbl :=
  let score := if w then add score (lit (2 / 10)) else score
  let score := if r then add score (lit (15 / 100)) else score
  let score := if d then add score (lit (1 / 10)) else score
  if c then add score (lit (25 / 100)) else score

/-- A number of the binary64 grid: rounding leaves it as it is. -/
def representable (a : Dbl) : Prop := rnd a = a

/-- An anomaly result with all four flags and the `anomaly_score` `anomaly_floor`. -/
def result_floor : anomaly_result := result_of (Dbl.fin anomaly_floor) 15

/-- What `classifier_classify` returns for `result_floor`. -/
def verdict_floor : classifier_result :=
  { verdict := verdict_kind.VERDICT_RANSOMWARE
    confidence := Dbl.fin dbl_0_85
    ransomware_score := Dbl.fin dbl_0_85 }

/-- An anomaly result with `anomaly_score = 1` and the three storm flags. -/
def result_three_storms : anomaly_result := result_of (Dbl.fin 1) 14

/-- What `classifier_classify` returns for `result_three_storms`: the score is the double
`0x1.e666666666666p-1`, about `0.95`. -/
def verdict_three_storms : classifier_result :=
  { verdict := verdict_kind.VERDICT_RANSOMWARE
    confidence := Dbl.fin (4278419646001971 / 4503599627370496)
    ransomware_score := Dbl.fin (4278419646001971 / 4503599627370496) }

/-- A ready view with mean `-2^1023` and deviation `0.5`. -/
def view_huge : anomaly_metric_view :=
  { count := 300, mean := Dbl.fin (-(2 ^ 1023)), stddev := Dbl.fin (1 / 2), ready := 1 }

end F64

/-! # Proofs -/

/-! ## Classifier -/

theorem clamp_unit_eq_spec (x : Dbl) : clamp_unit x = spec_clamp01 x := by
  cases x with
  | nan => simp [clamp_unit, spec_clamp01, Dbl.lt, Dbl.gt]
  | ninf => simp [clamp_unit, spec_clamp01, Dbl.lt, Dbl.gt]
  | pinf => simp [clamp_unit, spec_clamp01, Dbl.lt, Dbl.gt]
  | fin q =>
    simp only [clamp_unit, spec_clamp01, Dbl.lt, Dbl.gt]
    by_cases h0 : q < 0
    · have : min 1 q = q := min_eq_right (by linarith)
      simp [h0, this, le_of_lt h0]
    · by_cases h1 : 1 < q
      · simp [h0, h1, le_of_lt h1]
      · simp only [h0, h1, decide_False, Bool.false_eq_true, if_false]
        push_neg at h0 h1
        simp [h0, h1]

theorem cond_add_eq (s : Dbl) (k : ℚ) (b : Bool) :
    (if b then Dbl.add s (Dbl.fin k) else s) = Dbl.add s (Dbl.mul (Dbl.fin k) (iverson b)) := by
  cases b <;> cases s <;> simp [iverson, Dbl.add, Dbl.mul]

theorem compute_score_eq_spec (a : anomaly_result) :
    classifier_compute_ransomware_score a = spec_ransomware_score a.anomaly_score a.flags := by
  simp only [classifier_compute_ransomware_score, spec_ransomware_score, flag_set,
    ← cond_add_eq, clamp_unit_eq_spec]
  norm_num

theorem classify_some (c : Int) (x : telemetry_sample) (a : anomaly_result) (hc : c ≠ 0) :
    classifier_classify c x a = some
      { verdict := classifier_score_to_verdict (classifier_compute_ransomware_score a)
        confidence := classifier_compute_ransomware_score a
        ransomware_score := classifier_compute_ransomware_score a } := by
  simp [classifier_classify, hc]

theorem spec_clamp01_unit (x : Dbl) (hx : x ≠ Dbl.nan) :
    ∃ q : ℚ, spec_clamp01 x = Dbl.fin q ∧ 0 ≤ q ∧ q ≤ 1 := by
  cases x with
  | nan => exact absurd rfl hx
  | ninf => exact ⟨0, rfl, le_refl _, by norm_num⟩
  | pinf => exact ⟨1, rfl, by norm_num, le_refl _⟩
  | fin q => exact ⟨max 0 (min 1 q), rfl, le_max_left _ _, max_le (by norm_num) (min_le_left _ _)⟩

theorem add_weight_fin (s k : ℚ) (b : Bool) :
    Dbl.add (Dbl.fin s) (Dbl.mul (Dbl.fin k) (iverson b)) = Dbl.fin (s + k * (if b then 1 else 0)) := by
  cases b <;> simp [iverson, Dbl.add, Dbl.mul]

theorem compute_score_unit (a : anomaly_result) (ha : a.anomaly_score ≠ Dbl.nan) :
    ∃ q : ℚ, classifier_compute_ransomware_score a = Dbl.fin q ∧ 0 ≤ q ∧ q ≤ 1 := by
  obtain ⟨c, hc, -, -⟩ := spec_clamp01_unit a.anomaly_score ha
  rw [compute_score_eq_spec, spec_ransomware_score, hc]
  have hm : Dbl.mul (Dbl.fin (1 / 2)) (Dbl.fin c) = Dbl.fin (1 / 2 * c) := rfl
  rw [hm, add_weight_fin, add_weight_fin, add_weight_fin, add_weight_fin]
  exact spec_clamp01_unit _ (by simp)

/-- C1: for every anomaly result, `classifier_classify` succeeds once the classifier is
initialized, its `ransomware_score` is the spec formula
`clamp01(0.5·clamp01(a) + 0.20·[WRITE_STORM] + 0.15·[RENAME_STORM] + 0.10·[DELETE_STORM] +
0.25·[CRYPTO_SPIKE])`, and `confidence` equals that score. -/
theorem C1_classify_score_formula (c : Int) (x : telemetry_sample) (a : anomaly_result)
    (hc : c ≠ 0) :
    ∃ out, classifier_classify c x a = some out ∧
      out.ransomware_score = spec_ransomware_score a.anomaly_score a.flags ∧
      out.confidence = out.ransomware_score :=
  ⟨_, classify_some c x a hc, compute_score_eq_spec a, rfl⟩

/-- C1 at a concrete input: score `0.9` with WRITE_STORM and RENAME_STORM set. -/
theorem C1_classify_score_formula_witness :
    (1 : Int) ≠ 0 ∧
    ∃ out, classifier_classify 1 sample_idle (result_of (Dbl.fin (9 / 10)) 6) = some out ∧
      out.ransomware_score =
        spec_ransomware_score (result_of (Dbl.fin (9 / 10)) 6).anomaly_score
          (result_of (Dbl.fin (9 / 10)) 6).flags ∧
      out.confidence = out.ransomware_score :=
  ⟨by decide, C1_classify_score_formula 1 sample_idle (result_of (Dbl.fin (9 / 10)) 6) (by decide)⟩

theorem ge_true_not_nan {s t : Dbl} (h : Dbl.ge s t = true) : s ≠ Dbl.nan := by
  rintro rfl
  cases t <;> simp [Dbl.ge, Dbl.le] at h

theorem ge_false_lt {s : Dbl} {t : ℚ} (hs : s ≠ Dbl.nan) (h : Dbl.ge s (Dbl.fin t) = false) :
    Dbl.lt s (Dbl.fin t) = true := by
  cases s with
  | nan => exact absurd rfl hs
  | ninf => rfl
  | pinf => simp [Dbl.ge, Dbl.le] at h
  | fin q =>
    simp only [Dbl.ge, Dbl.le, decide_eq_false_iff_not, not_le] at h
    simp [Dbl.lt, h]

/-- C2 (amended): for every result of `classifier_classify`, RANSOMWARE implies
`score >= 0.85`, SUSPICIOUS implies `0.55 <= score < 0.85`, and SAFE implies `score < 0.55`
whenever the `anomaly_score` handed to the classifier is not NaN. -/
theorem C2_verdict_partition (c : Int) (x : telemetry_sample) (a : anomaly_result)
    (hc : c ≠ 0) :
    ∃ out, classifier_classify c x a = some out ∧
      (out.verdict = verdict_kind.VERDICT_RANSOMWARE →
        Dbl.ge out.ransomware_score (Dbl.fin (85 / 100)) = true) ∧
      (out.verdict = verdict_kind.VERDICT_SUSPICIOUS →
        Dbl.ge out.ransomware_score (Dbl.fin (55 / 100)) = true ∧
        Dbl.lt out.ransomware_score (Dbl.fin (85 / 100)) = true) ∧
      (out.verdict = verdict_kind.VERDICT_SAFE → a.anomaly_score ≠ Dbl.nan →
        Dbl.lt out.ransomware_score (Dbl.fin (55 / 100)) = true) := by
  refine ⟨_, classify_some c x a hc, ?_, ?_, ?_⟩
  · intro hv
    simp only [classifier_score_to_verdict] at hv
    split_ifs at hv with h1 h2
    exact h1
  · intro hv
    simp only [classifier_score_to_verdict] at hv
    split_ifs at hv with h1 h2
    exact ⟨h2, ge_false_lt (ge_true_not_nan h2) (by simpa using h1)⟩
  · intro hv ha
    simp only [classifier_score_to_verdict] at hv
    split_ifs at hv with h1 h2
    obtain ⟨q, hq, -, -⟩ := compute_score_unit a ha
    exact ge_false_lt (by simp [hq]) (by simpa using h2)

/-- C2 at a concrete input: score `0.9` with WRITE_STORM and RENAME_STORM set. -/
theorem C2_verdict_partition_witness :
    (1 : Int) ≠ 0 ∧
    ∃ out, classifier_classify 1 sample_idle (result_of (Dbl.fin (9 / 10)) 6) = some out ∧
      (out.verdict = verdict_kind.VERDICT_RANSOMWARE →
        Dbl.ge out.ransomware_score (Dbl.fin (85 / 100)) = true) ∧
      (out.verdict = verdict_kind.VERDICT_SUSPICIOUS →
        Dbl.ge out.ransomware_score (Dbl.fin (55 / 100)) = true ∧
        Dbl.lt out.ransomware_score (Dbl.fin (85 / 100)) = true) ∧
      (out.verdict = verdict_kind.VERDICT_SAFE →
        (result_of (Dbl.fin (9 / 10)) 6).anomaly_score ≠ Dbl.nan →
        Dbl.lt out.ransomware_score (Dbl.fin (55 / 100)) = true) :=
  ⟨by decide, C2_verdict_partition 1 sample_idle (result_of (Dbl.fin (9 / 10)) 6) (by decide)⟩

/-- C2 fails as stated: a NaN `anomaly_score` gives verdict SAFE with a NaN
`ransomware_score`, for which `score < 0.55` is false. -/
theorem C2_counterexample_nan_safe :
    ∃ out, classifier_classify 1 sample_idle (result_of Dbl.nan 0) = some out ∧
      out.verdict = verdict_kind.VERDICT_SAFE ∧
      out.ransomware_score = Dbl.nan ∧
      Dbl.lt out.ransomware_score (Dbl.fin (55 / 100)) = false := by
  refine ⟨_, classify_some 1 sample_idle (result_of Dbl.nan 0) (by decide), ?_, ?_, ?_⟩ <;>
    simp [classifier_compute_ransomware_score, classifier_score_to_verdict, result_of,
      clamp_unit, Dbl.lt, Dbl.gt, Dbl.ge, Dbl.le, Dbl.mul]


/-! ## Anomaly engine -/

theorem metric_abs_z_fin (v : Dbl) (m : anomaly_metric_view) :
    ∃ q : ℚ, metric_abs_z v m = Dbl.fin q ∧ 0 ≤ q := by
  simp only [metric_abs_z]
  split_ifs with h1 h2 h3
  · exact ⟨0, rfl, le_refl _⟩
  · exact ⟨0, rfl, le_refl _⟩
  · exact ⟨0, rfl, le_refl _⟩
  · simp only [value_is_valid, Bool.not_eq_true', Bool.not_eq_false] at h3
    generalize Dbl.div (Dbl.sub v m.mean) m.stddev = z at h3 ⊢
    cases z with
    | fin q => exact ⟨|q|, rfl, abs_nonneg q⟩
    | nan => simp [Dbl.isfinite] at h3
    | ninf => simp [Dbl.isfinite] at h3
    | pinf => simp [Dbl.isfinite] at h3

theorem abs_z_of_fin (L : Libm) (g : model_state) (x : telemetry_sample) (m : Metric) :
    abs_z_of L g x m = Dbl.fin (z_of L g x m) ∧ 0 ≤ z_of L g x m := by
  obtain ⟨q, hq, h0⟩ := metric_abs_z_fin (m.value x) (snapshot_metric L (m.stat g))
  simp only [z_of, abs_z_of, hq, Dbl.toRat]
  exact ⟨trivial, h0⟩

theorem take_max_fin (b a : ℚ) : take_max (Dbl.fin b) (Dbl.fin a) = Dbl.fin (max b a) := by
  simp only [take_max, Dbl.gt, Dbl.lt, decide_eq_true_eq]
  split_ifs with h
  · rw [max_eq_right (le_of_lt h)]
  · rw [max_eq_left (not_lt.mp h)]

theorem flag_chain_bits : ∀ s a b c2 c3 c4 h1 h2 h3 : Bool,
    flag_set (flag_chain s a b c2 c3 c4 h1 h2 h3) ANOMALY_FLAG_CRYPTO_SPIKE
        = (if s = true then a else b) ∧
    flag_set (flag_chain s a b c2 c3 c4 h1 h2 h3) ANOMALY_FLAG_WRITE_STORM
        = (c2 || h1 || h3) ∧
    flag_set (flag_chain s a b c2 c3 c4 h1 h2 h3) ANOMALY_FLAG_RENAME_STORM = (c3 || h2) ∧
    flag_set (flag_chain s a b c2 c3 c4 h1 h2 h3) ANOMALY_FLAG_DELETE_STORM = c4 ∧
    flag_chain s a b c2 c3 c4 h1 h2 h3 < 16 := by
  decide

theorem ge_fin (a b : ℚ) : (Dbl.ge (Dbl.fin a) (Dbl.fin b) = true) ↔ b ≤ a := by
  simp [Dbl.ge, Dbl.le]

theorem gt_fin (a b : ℚ) : (Dbl.gt (Dbl.fin a) (Dbl.fin b) = true) ↔ b < a := by
  simp [Dbl.gt, Dbl.lt]

theorem ne_fin (a : Dbl) (q : ℚ) : (Dbl.ne a (Dbl.fin q) = true) ↔ a ≠ Dbl.fin q := by
  cases a <;> simp [Dbl.ne]

theorem hard_test_iff (v : Dbl) (t : ℚ) :
    (value_is_valid v && Dbl.gt v (Dbl.fin t)) = true ↔ ∃ q : ℚ, v = Dbl.fin q ∧ t < q := by
  cases v <;> simp [value_is_valid, Dbl.isfinite, Dbl.gt, Dbl.lt]

theorem hard_disk_write_bps : HARD_DISK_WRITE_BPS = Dbl.fin (50 * 2 ^ 20) := by
  simp only [HARD_DISK_WRITE_BPS, Dbl.mul]
  norm_num

theorem max_abs_z_of_eq (L : Libm) (g : model_state) (x : telemetry_sample) :
    max_abs_z_of L g x =
      max (max (max (max (max (max (max (max 0 (z_of L g x Metric.aes)) (z_of L g x Metric.cycles))
        (z_of L g x Metric.instructions)) (z_of L g x Metric.cache_miss_rate))
        (z_of L g x Metric.files_modified)) (z_of L g x Metric.files_renamed))
        (z_of L g x Metric.files_deleted)) (z_of L g x Metric.disk_write) := by
  simp only [max_abs_z_of, Metric.all, List.map, List.foldr]
  simp only [max_assoc, max_comm, max_left_comm]

/-- Everything `anomaly_evaluate` writes, in terms of the per-metric `|z|` rationals. -/
theorem anomaly_evaluate_char (L : Libm) (g : model_state) (x : telemetry_sample)
    (hg : g.initialized ≠ 0) :
    ∃ r, anomaly_evaluate L g x = some (r, update_from_sample g x) ∧
      r.z_score = Dbl.fin (max_abs_z_of L g x) ∧
      r.anomaly_score =
        (if 0 < max_abs_z_of L g x
         then Dbl.sub (Dbl.fin 1) (L.exp (Dbl.fin (-(max_abs_z_of L g x))))
         else Dbl.fin 0) ∧
      (flag_set r.flags ANOMALY_FLAG_CRYPTO_SPIKE = true ↔
        (x.aes_instructions_per_sec ≠ Dbl.fin (-1) ∧ 3 ≤ z_of L g x Metric.aes) ∨
        (x.aes_instructions_per_sec = Dbl.fin (-1) ∧
          3 ≤ max (z_of L g x Metric.cycles) (z_of L g x Metric.instructions) ∧
          3 ≤ z_of L g x Metric.disk_write)) ∧
      (flag_set r.flags ANOMALY_FLAG_WRITE_STORM = true ↔
        3 ≤ z_of L g x Metric.files_modified ∨ 3 ≤ z_of L g x Metric.disk_write ∨
        (∃ v : ℚ, x.files_modified_per_sec = Dbl.fin v ∧ 500 < v) ∨
        (∃ v : ℚ, x.disk_write_bytes_per_sec = Dbl.fin v ∧ 50 * 2 ^ 20 < v)) ∧
      (flag_set r.flags ANOMALY_FLAG_RENAME_STORM = true ↔
        3 ≤ z_of L g x Metric.files_renamed ∨
        (∃ v : ℚ, x.files_renamed_per_sec = Dbl.fin v ∧ 200 < v)) ∧
      (flag_set r.flags ANOMALY_FLAG_DELETE_STORM = true ↔ 3 ≤ z_of L g x Metric.files_deleted) ∧
      r.flags < 16 ∧
      r.is_anomalous =
        (if Dbl.ge r.anomaly_score (Dbl.fin (7 / 10)) = true ∨ r.flags ≠ 0 then 1 else 0) := by
  have e1 : metric_abs_z x.aes_instructions_per_sec (snapshot_all L g).aes
      = Dbl.fin (z_of L g x Metric.aes) := (abs_z_of_fin L g x Metric.aes).1
  have e2 : metric_abs_z x.cycles_per_sec (snapshot_all L g).cycles
      = Dbl.fin (z_of L g x Metric.cycles) := (abs_z_of_fin L g x Metric.cycles).1
  have e3 : metric_abs_z x.instructions_per_sec (snapshot_all L g).instructions
      = Dbl.fin (z_of L g x Metric.instructions) := (abs_z_of_fin L g x Metric.instructions).1
  have e4 : metric_abs_z x.cache_miss_rate (snapshot_all L g).cache_miss_rate
      = Dbl.fin (z_of L g x Metric.cache_miss_rate) :=
    (abs_z_of_fin L g x Metric.cache_miss_rate).1
  have e5 : metric_abs_z x.files_modified_per_sec (snapshot_all L g).files_modified
      = Dbl.fin (z_of L g x Metric.files_modified) :=
    (abs_z_of_fin L g x Metric.files_modified).1
  have e6 : metric_abs_z x.files_renamed_per_sec (snapshot_all L g).files_renamed
      = Dbl.fin (z_of L g x Metric.files_renamed) := (abs_z_of_fin L g x Metric.files_renamed).1
  have e7 : metric_abs_z x.files_deleted_per_sec (snapshot_all L g).files_deleted
      = Dbl.fin (z_of L g x Metric.files_deleted) := (abs_z_of_fin L g x Metric.files_deleted).1
  have e8 : metric_abs_z x.disk_write_bytes_per_sec (snapshot_all L g).disk_write
      = Dbl.fin (z_of L g x Metric.disk_write) := (abs_z_of_fin L g x Metric.disk_write).1
  simp only [anomaly_evaluate, anomaly_models_snapshot_and_update, hg, if_false,
    set_hard_threshold_flags, e1, e2, e3, e4, e5, e6, e7, e8, take_max_fin,
    ← max_abs_z_of_eq]
  obtain ⟨k1, k2, k3, k4, k5⟩ := flag_chain_bits
    (Dbl.ne x.aes_instructions_per_sec (Dbl.fin (-1)))
    (Dbl.ge (Dbl.fin (z_of L g x Metric.aes)) Z_THRESHOLD_FLAG)
    (Dbl.ge (if Dbl.gt (Dbl.fin (z_of L g x Metric.instructions))
          (Dbl.fin (z_of L g x Metric.cycles)) = true
        then Dbl.fin (z_of L g x Metric.instructions)
        else Dbl.fin (z_of L g x Metric.cycles)) Z_THRESHOLD_FLAG &&
      Dbl.ge (Dbl.fin (z_of L g x Metric.disk_write)) Z_THRESHOLD_FLAG)
    (Dbl.ge (Dbl.fin (z_of L g x Metric.files_modified)) Z_THRESHOLD_FLAG ||
      Dbl.ge (Dbl.fin (z_of L g x Metric.disk_write)) Z_THRESHOLD_FLAG)
    (Dbl.ge (Dbl.fin (z_of L g x Metric.files_renamed)) Z_THRESHOLD_FLAG)
    (Dbl.ge (Dbl.fin (z_of L g x Metric.files_deleted)) Z_THRESHOLD_FLAG)
    (value_is_valid x.files_modified_per_sec &&
      Dbl.gt x.files_modified_per_sec HARD_FILES_MODIFIED_PER_SEC)
    (value_is_valid x.files_renamed_per_sec &&
      Dbl.gt x.files_renamed_per_sec HARD_FILES_RENAMED_PER_SEC)
    (value_is_valid x.disk_write_bytes_per_sec &&
      Dbl.gt x.disk_write_bytes_per_sec HARD_DISK_WRITE_BPS)
  refine ⟨_, rfl, rfl, ?_, (Eq.to_iff (congrArg (· = true) k1)).trans ?_,
    (Eq.to_iff (congrArg (· = true) k2)).trans ?_,
    (Eq.to_iff (congrArg (· = true) k3)).trans ?_,
    (Eq.to_iff (congrArg (· = true) k4)).trans ?_, k5, ?_⟩
  · simp only [gt_fin, ANOMALY_SCORE_K, Dbl.neg, Dbl.mul, neg_mul, one_mul]
  · simp only [Z_THRESHOLD_FLAG]
    by_cases hs : x.aes_instructions_per_sec = Dbl.fin (-1)
    · have hne : Dbl.ne x.aes_instructions_per_sec (Dbl.fin (-1)) = false := by
        rw [hs]; simp [Dbl.ne]
      have hm : (if Dbl.gt (Dbl.fin (z_of L g x Metric.instructions))
          (Dbl.fin (z_of L g x Metric.cycles)) = true
          then Dbl.fin (z_of L g x Metric.instructions)
          else Dbl.fin (z_of L g x Metric.cycles))
          = Dbl.fin (max (z_of L g x Metric.cycles) (z_of L g x Metric.instructions)) :=
        take_max_fin _ _
      simp only [hne, hm, Bool.false_eq_true, if_false, Bool.and_eq_true, ge_fin]
      simp only [hs, ne_eq, not_true_eq_false, false_and, false_or, true_and]
    · have hne : Dbl.ne x.aes_instructions_per_sec (Dbl.fin (-1)) = true :=
        (ne_fin _ _).2 hs
      simp only [hne, if_true, ge_fin]
      simp only [hs, ne_eq, not_false_eq_true, true_and, false_and, or_false]
  · simp only [Z_THRESHOLD_FLAG, HARD_FILES_MODIFIED_PER_SEC, hard_disk_write_bps,
      Bool.or_eq_true, ge_fin, hard_test_iff, or_assoc]
  · simp only [Z_THRESHOLD_FLAG, HARD_FILES_RENAMED_PER_SEC, Bool.or_eq_true, ge_fin,
      hard_test_iff]
  · simp only [Z_THRESHOLD_FLAG, ge_fin]
  · simp only [ANOMALY_SCORE_THRESHOLD, Bool.or_eq_true, bne_iff_ne, ne_eq]


theorem ite_zero_one (c : Prop) [Decidable c] :
    (if c then (1 : Int) else 0) = 0 ∨ (if c then (1 : Int) else 0) = 1 := by
  split_ifs <;> simp

theorem ite_ne_zero (c : Prop) [Decidable c] : (if c then (1 : Int) else 0) ≠ 0 ↔ c := by
  split_ifs with h <;> simp [h]

/-- C4: `anomaly_evaluate` sets `is_anomalous` (to 1, else 0) exactly when
`anomaly_score >= 0.7` or `flags != 0`. -/
theorem C4_is_anomalous_iff (L : Libm) (g : model_state) (x : telemetry_sample)
    (hg : g.initialized ≠ 0) :
    ∃ r g', anomaly_evaluate L g x = some (r, g') ∧
      (r.is_anomalous = 0 ∨ r.is_anomalous = 1) ∧
      (r.is_anomalous ≠ 0 ↔
        (Dbl.ge r.anomaly_score (Dbl.fin (7 / 10)) = true ∨ r.flags ≠ 0)) := by
  simp only [anomaly_evaluate, anomaly_models_snapshot_and_update, hg, if_false]
  refine ⟨_, _, rfl, ite_zero_one _, (ite_ne_zero _).trans ?_⟩
  simp only [ANOMALY_SCORE_THRESHOLD, Bool.or_eq_true, bne_iff_ne, ne_eq]

/-- C4 on the first sample after `anomaly_init`. -/
theorem C4_is_anomalous_iff_witness :
    anomaly_models_init.initialized ≠ 0 ∧
    ∃ r g', anomaly_evaluate refLibm anomaly_models_init sample_idle = some (r, g') ∧
      (r.is_anomalous = 0 ∨ r.is_anomalous = 1) ∧
      (r.is_anomalous ≠ 0 ↔
        (Dbl.ge r.anomaly_score (Dbl.fin (7 / 10)) = true ∨ r.flags ≠ 0)) :=
  ⟨by decide, C4_is_anomalous_iff refLibm anomaly_models_init sample_idle (by decide)⟩


/-! ## The reference C library -/

theorem expSeries_ge_one (y : ℚ) (hy : 0 ≤ y) : ∀ n k : Nat, 1 ≤ expSeries y n k := by
  intro n
  induction n with
  | zero => intro k; simp [expSeries]
  | succ n ih =>
    intro k
    simp only [expSeries]
    have h1 : 0 ≤ y / ((k : ℚ) + 1) := div_nonneg hy (by positivity)
    have h2 : 0 ≤ expSeries y n (k + 1) := le_trans zero_le_one (ih (k + 1))
    nlinarith [mul_nonneg h1 h2]

theorem refLibm_expUnit : refLibm.ExpUnit := by
  intro q hq
  have h1 : 1 ≤ expSeries (-q) 24 0 := expSeries_ge_one (-q) (by linarith) 24 0
  refine ⟨1 / expSeries (-q) 24 0, by simp [refLibm, refExp, hq], ?_, ?_⟩
  · positivity
  · rw [div_le_one (by linarith)]
    exact h1

theorem refSqrt_one : refLibm.sqrt (Dbl.fin 1) = Dbl.fin 1 := by
  simp [refLibm, refSqrt, sqrtNewton]

theorem refExp_neg_three :
    refLibm.exp (Dbl.fin (-3)) = Dbl.fin (1 / expSeries 3 24 0) := by
  simp [refLibm, refExp]

theorem real_exp_three_bounds : (20 : ℝ) < Real.exp 3 ∧ Real.exp 3 < 20.1 := by
  have h : Real.exp 3 = Real.exp 1 ^ 3 := by
    rw [← Real.exp_nat_mul]; norm_num
  have h1 := Real.exp_one_gt_d9
  have h2 := Real.exp_one_lt_d9
  have h0 : (0 : ℝ) < Real.exp 1 := Real.exp_pos 1
  rw [h]
  constructor
  · calc (20 : ℝ) < 2.7182818283 ^ 3 := by norm_num
      _ < Real.exp 1 ^ 3 := by gcongr
  · calc Real.exp 1 ^ 3 < 2.7182818286 ^ 3 := by gcongr
      _ < 20.1 := by norm_num

theorem real_exp_neg_three_bounds :
    (497 / 10000 : ℝ) < Real.exp (-3) ∧ Real.exp (-3) < 5 / 100 := by
  obtain ⟨h1, h2⟩ := real_exp_three_bounds
  have h0 : (0 : ℝ) < Real.exp 3 := Real.exp_pos 3
  rw [Real.exp_neg, ← one_div]
  constructor
  · rw [lt_div_iff₀ h0]; linarith
  · rw [div_lt_iff₀ h0]; linarith

theorem expSeries_three_bounds :
    (20 : ℚ) < expSeries 3 24 0 ∧ expSeries 3 24 0 < 201 / 10 := by
  norm_num [expSeries]

theorem refExp_neg_three_accurate :
    |((1 / expSeries 3 24 0 : ℚ) : ℝ) - Real.exp (-3)| ≤ 1 / 1000 := by
  obtain ⟨h1, h2⟩ := real_exp_neg_three_bounds
  obtain ⟨s1, s2⟩ := expSeries_three_bounds
  have s0 : (0 : ℚ) < expSeries 3 24 0 := by linarith
  have q1 : (497 / 10000 : ℚ) < 1 / expSeries 3 24 0 := by
    rw [lt_div_iff₀ s0]; linarith
  have q2 : 1 / expSeries 3 24 0 < (5 / 100 : ℚ) := by
    rw [div_lt_iff₀ s0]; linarith
  have r1 : (((497 / 10000 : ℚ)) : ℝ) < ((1 / expSeries 3 24 0 : ℚ) : ℝ) := Rat.cast_lt.2 q1
  have r2 : ((1 / expSeries 3 24 0 : ℚ) : ℝ) < (((5 / 100 : ℚ)) : ℝ) := Rat.cast_lt.2 q2
  have c1 : (((497 / 10000 : ℚ)) : ℝ) = 497 / 10000 := by norm_num
  have c2 : (((5 / 100 : ℚ)) : ℝ) = 5 / 100 := by norm_num
  rw [c1] at r1
  rw [c2] at r2
  rw [abs_le]
  constructor <;> linarith


theorem le_foldr_max (l : List ℚ) : ∀ a ∈ l, a ≤ l.foldr max 0 := by
  induction l with
  | nil => intro a ha; cases ha
  | cons b l ih =>
    intro a ha
    simp only [List.foldr]
    rcases List.mem_cons.1 ha with rfl | h
    · exact le_max_left _ _
    · exact le_trans (ih a h) (le_max_right _ _)

theorem foldr_max_mem (l : List ℚ) (hl : l ≠ []) (h0 : ∀ a ∈ l, 0 ≤ a) :
    l.foldr max 0 ∈ l := by
  induction l with
  | nil => exact absurd rfl hl
  | cons b l ih =>
    simp only [List.foldr]
    by_cases hnil : l = []
    · subst hnil
      simp only [List.foldr, List.mem_singleton]
      exact max_eq_left (h0 b (List.mem_cons_self _ _))
    · have ih2 := ih hnil (fun a ha => h0 a (List.mem_cons_of_mem _ ha))
      rcases max_choice b (l.foldr max 0) with h | h
      · rw [h]; exact List.mem_cons_self _ _
      · rw [h]; exact List.mem_cons_of_mem _ ih2

theorem metric_mem_all (m : Metric) : m ∈ Metric.all := by
  cases m <;> simp [Metric.all]

theorem z_of_le_max (L : Libm) (g : model_state) (x : telemetry_sample) (m : Metric) :
    z_of L g x m ≤ max_abs_z_of L g x :=
  le_foldr_max _ _ (List.mem_map.2 ⟨m, metric_mem_all m, rfl⟩)

theorem max_abs_z_attained (L : Libm) (g : model_state) (x : telemetry_sample) :
    ∃ m, max_abs_z_of L g x = z_of L g x m := by
  have h := foldr_max_mem (Metric.all.map (z_of L g x)) (by simp [Metric.all])
    (fun a ha => by
      obtain ⟨m, -, rfl⟩ := List.mem_map.1 ha
      exact (abs_z_of_fin L g x m).2)
  obtain ⟨m, -, hm⟩ := List.mem_map.1 h
  exact ⟨m, hm.symm⟩

theorem max_abs_z_nonneg (L : Libm) (g : model_state) (x : telemetry_sample) :
    0 ≤ max_abs_z_of L g x :=
  le_trans (abs_z_of_fin L g x Metric.aes).2 (z_of_le_max L g x Metric.aes)

theorem metric_abs_z_not_ready (v : Dbl) (m : anomaly_metric_view) (h : m.ready = 0) :
    metric_abs_z v m = Dbl.fin 0 := by
  simp [metric_abs_z, h]

theorem snapshot_zero (L : Libm) :
    snapshot_metric L running_metric_zero
      = { count := 0, mean := Dbl.fin 0, stddev := Dbl.fin 0, ready := 0 } := by
  simp [snapshot_metric, running_stddev, running_metric_zero, MODEL_READY_MIN_SAMPLES]

theorem snapshot_stat_unit :
    snapshot_metric refLibm stat_unit
      = { count := 300, mean := Dbl.fin 0, stddev := Dbl.fin 1, ready := 1 } := by
  simp [snapshot_metric, running_stddev, stat_unit, MODEL_READY_MIN_SAMPLES, Dbl.div,
    Dbl.ofNat, Dbl.isfinite, Dbl.le, refSqrt_one]

theorem metric_abs_z_unit (a : ℚ) (n : Nat) :
    metric_abs_z (Dbl.fin a) { count := n, mean := Dbl.fin 0, stddev := Dbl.fin 1, ready := 1 }
      = Dbl.fin |a| := by
  simp [metric_abs_z, value_is_valid, Dbl.isfinite, Z_STDDEV_EPSILON, Dbl.le, Dbl.sub, Dbl.neg,
    Dbl.add, Dbl.div, Dbl.fabs]
  norm_num

/-- Against `model_aes_ready`, only the AES metric has a non-zero `|z|`. -/
theorem z_of_model_aes_ready (x : telemetry_sample) (a : ℚ)
    (hx : x.aes_instructions_per_sec = Dbl.fin a) (m : Metric) :
    z_of refLibm model_aes_ready x m = if m = Metric.aes then |a| else 0 := by
  cases m <;>
    simp [z_of, abs_z_of, Metric.stat, Metric.value, model_aes_ready, anomaly_models_init,
      snapshot_zero, snapshot_stat_unit, metric_abs_z_not_ready, metric_abs_z_unit, hx,
      Dbl.toRat]

theorem max_abs_z_model_aes_ready (x : telemetry_sample) (a : ℚ)
    (hx : x.aes_instructions_per_sec = Dbl.fin a) :
    max_abs_z_of refLibm model_aes_ready x = |a| := by
  simp [max_abs_z_of, Metric.all, z_of_model_aes_ready x a hx]

theorem max_abs_z_aes3 : max_abs_z_of refLibm model_aes_ready sample_aes3 = 3 := by
  rw [max_abs_z_model_aes_ready sample_aes3 3 rfl]
  norm_num

/-- C5: `z_score` is the maximum of the eight per-metric `|z|` values; `anomaly_score`
is `1 - exp(-z_score)` when `z_score > 0` and `0` when `z_score = 0`; and if the library's
`exp(-3)` is within `0.001` of the real exponential, the score at `z_score = 3` is within
`0.002` of `0.95`. -/
theorem C5_z_score_and_anomaly_score (L : Libm) (g : model_state) (x : telemetry_sample)
    (hg : g.initialized ≠ 0) :
    ∃ r g', anomaly_evaluate L g x = some (r, g') ∧
      (∀ m, abs_z_of L g x m = Dbl.fin (z_of L g x m) ∧ 0 ≤ z_of L g x m) ∧
      r.z_score = Dbl.fin (max_abs_z_of L g x) ∧
      (∀ m, z_of L g x m ≤ max_abs_z_of L g x) ∧
      (∃ m, max_abs_z_of L g x = z_of L g x m) ∧
      (0 < max_abs_z_of L g x →
        r.anomaly_score = Dbl.sub (Dbl.fin 1) (L.exp (Dbl.neg r.z_score))) ∧
      (max_abs_z_of L g x = 0 → r.anomaly_score = Dbl.fin 0) ∧
      (∀ e : ℚ, L.exp (Dbl.fin (-3)) = Dbl.fin e → |(e : ℝ) - Real.exp (-3)| ≤ 1 / 1000 →
        max_abs_z_of L g x = 3 →
        ∃ a : ℚ, r.anomaly_score = Dbl.fin a ∧ |(a : ℝ) - 95 / 100| ≤ 2 / 1000) := by
  obtain ⟨r, hr, hz, hs, -⟩ := anomaly_evaluate_char L g x hg
  refine ⟨r, _, hr, abs_z_of_fin L g x, hz, z_of_le_max L g x, max_abs_z_attained L g x,
    ?_, ?_, ?_⟩
  · intro hpos
    rw [hs, if_pos hpos, hz]
    rfl
  · intro h0
    rw [hs, h0, if_neg (lt_irrefl 0)]
  · intro e he hacc h3
    refine ⟨1 - e, ?_, ?_⟩
    · rw [hs, h3, if_pos (by norm_num), he]
      simp only [Dbl.sub, Dbl.neg, Dbl.add, sub_eq_add_neg]
    · obtain ⟨b1, b2⟩ := real_exp_neg_three_bounds
      rw [abs_le] at hacc ⊢
      push_cast
      constructor <;> linarith [hacc.1, hacc.2]

/-- C5 on a model whose AES statistic is ready with mean `0` and deviation `1`, for a sample
whose AES value is `3`: the premises about `exp(-3)` hold for the reference library and the
maximum `|z|` is `3`. -/
theorem C5_z_score_and_anomaly_score_witness :
    model_aes_ready.initialized ≠ 0 ∧
    refLibm.exp (Dbl.fin (-3)) = Dbl.fin (1 / expSeries 3 24 0) ∧
    |((1 / expSeries 3 24 0 : ℚ) : ℝ) - Real.exp (-3)| ≤ 1 / 1000 ∧
    max_abs_z_of refLibm model_aes_ready sample_aes3 = 3 ∧
    ∃ r g', anomaly_evaluate refLibm model_aes_ready sample_aes3 = some (r, g') ∧
      (∀ m, abs_z_of refLibm model_aes_ready sample_aes3 m
          = Dbl.fin (z_of refLibm model_aes_ready sample_aes3 m) ∧
        0 ≤ z_of refLibm model_aes_ready sample_aes3 m) ∧
      r.z_score = Dbl.fin (max_abs_z_of refLibm model_aes_ready sample_aes3) ∧
      (∀ m, z_of refLibm model_aes_ready sample_aes3 m
          ≤ max_abs_z_of refLibm model_aes_ready sample_aes3) ∧
      (∃ m, max_abs_z_of refLibm model_aes_ready sample_aes3
          = z_of refLibm model_aes_ready sample_aes3 m) ∧
      (0 < max_abs_z_of refLibm model_aes_ready sample_aes3 →
        r.anomaly_score = Dbl.sub (Dbl.fin 1) (refLibm.exp (Dbl.neg r.z_score))) ∧
      (max_abs_z_of refLibm model_aes_ready sample_aes3 = 0 → r.anomaly_score = Dbl.fin 0) ∧
      (∀ e : ℚ, refLibm.exp (Dbl.fin (-3)) = Dbl.fin e →
        |(e : ℝ) - Real.exp (-3)| ≤ 1 / 1000 →
        max_abs_z_of refLibm model_aes_ready sample_aes3 = 3 →
        ∃ a : ℚ, r.anomaly_score = Dbl.fin a ∧ |(a : ℝ) - 95 / 100| ≤ 2 / 1000) :=
  ⟨by decide, refExp_neg_three, refExp_neg_three_accurate, max_abs_z_aes3,
    C5_z_score_and_anomaly_score refLibm model_aes_ready sample_aes3 (by decide)⟩


theorem anomaly_score_unit (L : Libm) (hexp : L.ExpUnit) (g : model_state)
    (x : telemetry_sample) (r : anomaly_result)
    (hs : r.anomaly_score =
      (if 0 < max_abs_z_of L g x
       then Dbl.sub (Dbl.fin 1) (L.exp (Dbl.fin (-(max_abs_z_of L g x))))
       else Dbl.fin 0)) :
    ∃ q : ℚ, r.anomaly_score = Dbl.fin q ∧ 0 ≤ q ∧ q ≤ 1 := by
  by_cases hpos : 0 < max_abs_z_of L g x
  · obtain ⟨e, he, e0, e1⟩ := hexp (-(max_abs_z_of L g x)) (by linarith)
    refine ⟨1 - e, ?_, by linarith, by linarith⟩
    rw [hs, if_pos hpos, he]
    simp only [Dbl.sub, Dbl.neg, Dbl.add, sub_eq_add_neg]
  · exact ⟨0, by rw [hs, if_neg hpos], le_refl _, by norm_num⟩

/-- C3 (amended): the `anomaly_score` produced by `anomaly_evaluate` is a number in `[0, 1]`
(given that `exp` maps non-positive numbers into `[0, 1]`), and the `ransomware_score` that
`classifier_classify` derives from an anomaly result whose `anomaly_score` is not NaN, in
particular from every result of `anomaly_evaluate`, is a number in `[0, 1]`. -/
theorem C3_scores_in_unit_interval (L : Libm) (hexp : L.ExpUnit) (g : model_state)
    (x : telemetry_sample) (hg : g.initialized ≠ 0) (c : Int) (a : anomaly_result)
    (hc : c ≠ 0) (ha : a.anomaly_score ≠ Dbl.nan) :
    (∃ r g', anomaly_evaluate L g x = some (r, g') ∧
      (∃ q : ℚ, r.anomaly_score = Dbl.fin q ∧ 0 ≤ q ∧ q ≤ 1) ∧
      ∃ out, classifier_classify c x r = some out ∧
        ∃ s : ℚ, out.ransomware_score = Dbl.fin s ∧ 0 ≤ s ∧ s ≤ 1) ∧
    (∃ out, classifier_classify c x a = some out ∧
      ∃ s : ℚ, out.ransomware_score = Dbl.fin s ∧ 0 ≤ s ∧ s ≤ 1) := by
  obtain ⟨r, hr, -, hs, -⟩ := anomaly_evaluate_char L g x hg
  obtain ⟨q, hq, q0, q1⟩ := anomaly_score_unit L hexp g x r hs
  refine ⟨⟨r, _, hr, ⟨q, hq, q0, q1⟩, _, classify_some c x r hc, ?_⟩,
    ⟨_, classify_some c x a hc, compute_score_unit a ha⟩⟩
  exact compute_score_unit r (by rw [hq]; simp)

/-- C3 on the first sample after `anomaly_init` and on the result `(0.9, WRITE|RENAME)`. -/
theorem C3_scores_in_unit_interval_witness :
    refLibm.ExpUnit ∧ anomaly_models_init.initialized ≠ 0 ∧ (1 : Int) ≠ 0 ∧
    (result_of (Dbl.fin (9 / 10)) 6).anomaly_score ≠ Dbl.nan ∧
    (∃ r g', anomaly_evaluate refLibm anomaly_models_init sample_idle = some (r, g') ∧
      (∃ q : ℚ, r.anomaly_score = Dbl.fin q ∧ 0 ≤ q ∧ q ≤ 1) ∧
      ∃ out, classifier_classify 1 sample_idle r = some out ∧
        ∃ s : ℚ, out.ransomware_score = Dbl.fin s ∧ 0 ≤ s ∧ s ≤ 1) ∧
    (∃ out, classifier_classify 1 sample_idle (result_of (Dbl.fin (9 / 10)) 6) = some out ∧
      ∃ s : ℚ, out.ransomware_score = Dbl.fin s ∧ 0 ≤ s ∧ s ≤ 1) :=
  ⟨refLibm_expUnit, by decide, by decide, by simp [result_of],
    C3_scores_in_unit_interval refLibm refLibm_expUnit anomaly_models_init sample_idle
      (by decide) 1 (result_of (Dbl.fin (9 / 10)) 6) (by decide) (by simp [result_of])⟩

/-- C3 fails as stated: for the anomaly result with a NaN `anomaly_score` and WRITE_STORM
set, the `ransomware_score` is NaN, so neither `0 <= score` nor `score <= 1` holds. -/
theorem C3_counterexample_nan_score :
    ∃ out, classifier_classify 1 sample_idle (result_of Dbl.nan 2) = some out ∧
      out.ransomware_score = Dbl.nan ∧
      Dbl.le (Dbl.fin 0) out.ransomware_score = false ∧
      Dbl.le out.ransomware_score (Dbl.fin 1) = false := by
  have h : classifier_compute_ransomware_score (result_of Dbl.nan 2) = Dbl.nan := by
    simp [classifier_compute_ransomware_score, result_of, clamp_unit, Dbl.lt, Dbl.gt, Dbl.mul,
      Dbl.add]
  refine ⟨_, classify_some 1 sample_idle (result_of Dbl.nan 2) (by decide), ?_, ?_, ?_⟩ <;>
    simp [h, Dbl.le]


/-! ## Pipeline model -/

theorem update_stat (g : model_state) (x : telemetry_sample) (m : Metric) :
    m.stat (update_from_sample g x)
      = if m.accepts x = true then running_update (m.stat g) (m.value x) else m.stat g := by
  cases m <;> rfl

theorem running_update_count (s : running_metric) (v : Dbl) :
    (running_update s v).count = (s.count + 1) % 2 ^ 64 := rfl

/-- Running the pipeline from an initialized state never fails, keeps the state initialized
and counts, modulo `2^64`, the accepted values of each metric. -/
theorem anomaly_run_count (L : Libm) (m : Metric) (history : List telemetry_sample) :
    ∀ g : model_state, g.initialized ≠ 0 → (m.stat g).count < 2 ^ 64 →
      ∃ g', anomaly_run L g history = some g' ∧ g'.initialized ≠ 0 ∧
        (m.stat g').count = ((m.stat g).count + accepted_count m history) % 2 ^ 64 := by
  induction history with
  | nil =>
    intro g hg hc
    refine ⟨g, rfl, hg, ?_⟩
    simp only [accepted_count, List.countP_nil, Nat.add_zero]
    exact (Nat.mod_eq_of_lt hc).symm
  | cons x xs ih =>
    intro g hg hc
    obtain ⟨r, hr, -⟩ := anomaly_evaluate_char L g x hg
    have hc1 : (m.stat (update_from_sample g x)).count < 2 ^ 64 := by
      rw [update_stat]
      split_ifs
      · rw [running_update_count]; exact Nat.mod_lt _ (by norm_num)
      · exact hc
    obtain ⟨g', h1, h2, h3⟩ := ih (update_from_sample g x) hg hc1
    refine ⟨g', ?_, h2, ?_⟩
    · simp only [anomaly_run, hr, h1]
    · rw [h3, update_stat]
      simp only [accepted_count, List.countP_cons]
      by_cases hacc : m.accepts x = true
      · simp only [hacc, if_true, running_update_count]
        omega
      · simp only [hacc, if_false, Bool.false_eq_true, add_zero]

/-- C7: after any history of `anomaly_evaluate` calls from `anomaly_init`, a metric of which
fewer than 300 valid values were accepted has exactly that many in its counter, and its `|z|`
for the current sample is `0`, whatever the sample is. -/
theorem C7_unready_metric_has_zero_z (L : Libm) (history : List telemetry_sample)
    (x : telemetry_sample) (m : Metric) (h : accepted_count m history < 300) :
    ∃ g, anomaly_run L anomaly_models_init history = some g ∧
      (m.stat g).count = accepted_count m history ∧
      abs_z_of L g x m = Dbl.fin 0 := by
  have h0 : (m.stat anomaly_models_init).count = 0 := by cases m <;> rfl
  obtain ⟨g, h1, -, h3⟩ := anomaly_run_count L m history anomaly_models_init (by decide)
    (by rw [h0]; norm_num)
  have hc : (m.stat g).count = accepted_count m history := by
    rw [h3, h0, Nat.zero_add]
    exact Nat.mod_eq_of_lt (lt_trans h (by norm_num))
  refine ⟨g, h1, hc, ?_⟩
  apply metric_abs_z_not_ready
  simp only [snapshot_metric, MODEL_READY_MIN_SAMPLES, hc]
  rw [if_neg (by omega)]

/-- C7 for the cycles metric after two idle samples. -/
theorem C7_unready_metric_has_zero_z_witness :
    accepted_count Metric.cycles history_idle2 < 300 ∧
    ∃ g, anomaly_run refLibm anomaly_models_init history_idle2 = some g ∧
      (Metric.cycles.stat g).count = accepted_count Metric.cycles history_idle2 ∧
      abs_z_of refLibm g sample_aes3 Metric.cycles = Dbl.fin 0 :=
  ⟨by decide, C7_unready_metric_has_zero_z refLibm history_idle2 sample_aes3 Metric.cycles
    (by decide)⟩


/-! ## Flags -/

theorem z_of_init (L : Libm) (x : telemetry_sample) (m : Metric) :
    z_of L anomaly_models_init x m = 0 := by
  have h : abs_z_of L anomaly_models_init x m = Dbl.fin 0 := by
    apply metric_abs_z_not_ready
    cases m <;> rfl
  simp only [z_of, h, Dbl.toRat]

/-- C9: `anomaly_evaluate` sets CRYPTO_SPIKE exactly when the sample's AES value differs from
`-1.0` and `z_aes >= 3`, or it equals `-1.0` and both `max(z_cycles, z_instructions) >= 3` and
`z_disk_write >= 3`. -/
theorem C9_crypto_spike_iff (L : Libm) (g : model_state) (x : telemetry_sample)
    (hg : g.initialized ≠ 0) :
    ∃ r g', anomaly_evaluate L g x = some (r, g') ∧
      (∀ m, abs_z_of L g x m = Dbl.fin (z_of L g x m)) ∧
      (flag_set r.flags ANOMALY_FLAG_CRYPTO_SPIKE = true ↔
        (x.aes_instructions_per_sec ≠ Dbl.fin (-1) ∧ 3 ≤ z_of L g x Metric.aes) ∨
        (x.aes_instructions_per_sec = Dbl.fin (-1) ∧
          3 ≤ max (z_of L g x Metric.cycles) (z_of L g x Metric.instructions) ∧
          3 ≤ z_of L g x Metric.disk_write)) := by
  obtain ⟨r, hr, -, -, hc, -⟩ := anomaly_evaluate_char L g x hg
  exact ⟨r, _, hr, fun m => (abs_z_of_fin L g x m).1, hc⟩

/-- C9 on a ready AES statistic and a sample with `z_aes = 3`. -/
theorem C9_crypto_spike_iff_witness :
    model_aes_ready.initialized ≠ 0 ∧
    ∃ r g', anomaly_evaluate refLibm model_aes_ready sample_aes3 = some (r, g') ∧
      (∀ m, abs_z_of refLibm model_aes_ready sample_aes3 m
        = Dbl.fin (z_of refLibm model_aes_ready sample_aes3 m)) ∧
      (flag_set r.flags ANOMALY_FLAG_CRYPTO_SPIKE = true ↔
        (sample_aes3.aes_instructions_per_sec ≠ Dbl.fin (-1) ∧
          3 ≤ z_of refLibm model_aes_ready sample_aes3 Metric.aes) ∨
        (sample_aes3.aes_instructions_per_sec = Dbl.fin (-1) ∧
          3 ≤ max (z_of refLibm model_aes_ready sample_aes3 Metric.cycles)
            (z_of refLibm model_aes_ready sample_aes3 Metric.instructions) ∧
          3 ≤ z_of refLibm model_aes_ready sample_aes3 Metric.disk_write)) :=
  ⟨by decide, C9_crypto_spike_iff refLibm model_aes_ready sample_aes3 (by decide)⟩

/-- C10 (amended): `anomaly_evaluate` sets WRITE_STORM exactly when `z_files_modified >= 3`,
or `z_disk_write >= 3`, or `files_modified_per_sec` is finite and `> 500`, or
`disk_write_bytes_per_sec` is finite and `> 50 * 2^20`; in particular a finite rate above
either absolute threshold sets it whatever the model state is. -/
theorem C10_write_storm_iff (L : Libm) (g : model_state) (x : telemetry_sample)
    (hg : g.initialized ≠ 0) :
    ∃ r g', anomaly_evaluate L g x = some (r, g') ∧
      (∀ m, abs_z_of L g x m = Dbl.fin (z_of L g x m)) ∧
      (flag_set r.flags ANOMALY_FLAG_WRITE_STORM = true ↔
        3 ≤ z_of L g x Metric.files_modified ∨ 3 ≤ z_of L g x Metric.disk_write ∨
        (∃ v : ℚ, x.files_modified_per_sec = Dbl.fin v ∧ 500 < v) ∨
        (∃ v : ℚ, x.disk_write_bytes_per_sec = Dbl.fin v ∧ 50 * 2 ^ 20 < v)) ∧
      (∀ v : ℚ, x.files_modified_per_sec = Dbl.fin v → 500 < v →
        flag_set r.flags ANOMALY_FLAG_WRITE_STORM = true) ∧
      (∀ v : ℚ, x.disk_write_bytes_per_sec = Dbl.fin v → 50 * 2 ^ 20 < v →
        flag_set r.flags ANOMALY_FLAG_WRITE_STORM = true) := by
  obtain ⟨r, hr, -, -, -, hw, -⟩ := anomaly_evaluate_char L g x hg
  refine ⟨r, _, hr, fun m => (abs_z_of_fin L g x m).1, hw, ?_, ?_⟩
  · intro v hv h500
    exact hw.2 (Or.inr (Or.inr (Or.inl ⟨v, hv, h500⟩)))
  · intro v hv h50
    exact hw.2 (Or.inr (Or.inr (Or.inr ⟨v, hv, h50⟩)))

/-- C10 on the first sample after `anomaly_init`, with 501 modified files per second. -/
theorem C10_write_storm_iff_witness :
    anomaly_models_init.initialized ≠ 0 ∧
    ∃ r g', anomaly_evaluate refLibm anomaly_models_init sample_501_writes = some (r, g') ∧
      (∀ m, abs_z_of refLibm anomaly_models_init sample_501_writes m
        = Dbl.fin (z_of refLibm anomaly_models_init sample_501_writes m)) ∧
      (flag_set r.flags ANOMALY_FLAG_WRITE_STORM = true ↔
        3 ≤ z_of refLibm anomaly_models_init sample_501_writes Metric.files_modified ∨
        3 ≤ z_of refLibm anomaly_models_init sample_501_writes Metric.disk_write ∨
        (∃ v : ℚ, sample_501_writes.files_modified_per_sec = Dbl.fin v ∧ 500 < v) ∨
        (∃ v : ℚ, sample_501_writes.disk_write_bytes_per_sec = Dbl.fin v ∧ 50 * 2 ^ 20 < v)) ∧
      (∀ v : ℚ, sample_501_writes.files_modified_per_sec = Dbl.fin v → 500 < v →
        flag_set r.flags ANOMALY_FLAG_WRITE_STORM = true) ∧
      (∀ v : ℚ, sample_501_writes.disk_write_bytes_per_sec = Dbl.fin v → 50 * 2 ^ 20 < v →
        flag_set r.flags ANOMALY_FLAG_WRITE_STORM = true) :=
  ⟨by decide, C10_write_storm_iff refLibm anomaly_models_init sample_501_writes (by decide)⟩

/-- C10 fails as stated: for a sample whose `files_modified_per_sec` is `+inf` the C test
`files_modified_per_sec > 500` is true, yet on a freshly initialized model WRITE_STORM is not
set (the flag word is `0`). -/
theorem C10_counterexample_infinite_rate :
    Dbl.gt sample_inf_writes.files_modified_per_sec (Dbl.fin 500) = true ∧
    ∃ r g', anomaly_evaluate refLibm anomaly_models_init sample_inf_writes = some (r, g') ∧
      flag_set r.flags ANOMALY_FLAG_WRITE_STORM = false := by
  obtain ⟨r, hr, -, -, -, hw, -⟩ :=
    anomaly_evaluate_char refLibm anomaly_models_init sample_inf_writes (by decide)
  refine ⟨rfl, r, _, hr, ?_⟩
  rw [Bool.eq_false_iff]
  intro h
  have h2 := hw.1 h
  simp only [z_of_init] at h2
  rcases h2 with h2 | h2 | ⟨v, hv, -⟩ | ⟨v, hv, hlt⟩
  · norm_num at h2
  · norm_num at h2
  · simp [sample_inf_writes] at hv
  · simp only [sample_inf_writes, sample_idle, Dbl.fin.injEq] at hv
    rw [← hv] at hlt
    norm_num at hlt


/-! ## The AES sentinel against a ready AES statistic -/

theorem running_update_fin (n : Nat) (mu M v : ℚ) (hn : n + 1 < 2 ^ 64) :
    running_update { count := n, mean := Dbl.fin mu, m2 := Dbl.fin M } (Dbl.fin v)
      = { count := n + 1
          mean := Dbl.fin (mu + (v - mu) / ((n : ℚ) + 1))
          m2 := Dbl.fin (M + (v - mu) * (v - (mu + (v - mu) / ((n : ℚ) + 1)))) } := by
  have hc : (n + 1) % 2 ^ 64 = n + 1 := Nat.mod_eq_of_lt hn
  have hq : ((n : ℚ) + 1) ≠ 0 := by positivity
  simp only [running_update, hc, Dbl.ofNat, Dbl.sub, Dbl.neg, Dbl.add, Dbl.div, Dbl.mul,
    Nat.cast_add, Nat.cast_one, hq, if_false, sub_eq_add_neg]

theorem running_update_zero (n : Nat) (hn : n + 1 < 2 ^ 64) :
    running_update { count := n, mean := Dbl.fin 0, m2 := Dbl.fin 0 } (Dbl.fin 0)
      = { count := n + 1, mean := Dbl.fin 0, m2 := Dbl.fin 0 } := by
  rw [running_update_fin n 0 0 0 hn]
  simp

theorem update_first :
    update_from_sample anomaly_models_init (sample_aes 3) = model_after_pairs 0 := by
  simp only [update_from_sample, anomaly_models_init, running_metric_zero, sample_aes,
    sample_idle, value_is_valid, Dbl.isfinite, Dbl.ne, model_after_pairs]
  rw [running_update_zero 0 (by norm_num), running_update_fin 0 0 0 3 (by norm_num)]
  norm_num

theorem update_sample_aes (g : model_state) (a : ℚ) (ha : a ≠ -1) :
    update_from_sample g (sample_aes a)
      = { initialized := g.initialized
          aes := running_update g.aes (Dbl.fin a)
          cycles := running_update g.cycles (Dbl.fin 0)
          instructions := running_update g.instructions (Dbl.fin 0)
          cache_miss_rate := running_update g.cache_miss_rate (Dbl.fin 0)
          files_modified := running_update g.files_modified (Dbl.fin 0)
          files_renamed := running_update g.files_renamed (Dbl.fin 0)
          files_deleted := running_update g.files_deleted (Dbl.fin 0)
          disk_write := running_update g.disk_write (Dbl.fin 0) } := by
  simp [update_from_sample, sample_aes, sample_idle, value_is_valid, Dbl.isfinite, Dbl.ne, ha]

theorem aes_pair_step (k : Nat) (hk : 2 * k + 3 < 2 ^ 64) :
    running_update
        (running_update { count := 2 * k + 1, mean := Dbl.fin 3, m2 := Dbl.fin (2 * k) }
          (Dbl.fin 2)) (Dbl.fin 4)
      = { count := 2 * (k + 1) + 1, mean := Dbl.fin 3, m2 := Dbl.fin (2 * ((k + 1 : Nat) : ℚ)) } := by
  rw [running_update_fin _ _ _ _ (by omega), running_update_fin _ _ _ _ (by omega)]
  have hq : (2 * (k : ℚ) + 1 + 1) ≠ 0 := by positivity
  have hq2 : (2 * (k : ℚ) + 1 + 1 + 1) ≠ 0 := by positivity
  congr 1
  · congr 1
    push_cast
    field_simp
    ring
  · congr 1
    push_cast
    field_simp
    ring

theorem zero_pair_step (k : Nat) (hk : 2 * k + 3 < 2 ^ 64) :
    running_update
        (running_update { count := 2 * k + 1, mean := Dbl.fin 0, m2 := Dbl.fin 0 } (Dbl.fin 0))
        (Dbl.fin 0)
      = { count := 2 * (k + 1) + 1, mean := Dbl.fin 0, m2 := Dbl.fin 0 } := by
  rw [running_update_zero _ (by omega), running_update_zero _ (by omega)]
  congr 1

theorem model_after_pairs_init (k : Nat) : (model_after_pairs k).initialized ≠ 0 := by
  simp [model_after_pairs]

theorem update_pair (k : Nat) (hk : 2 * k + 3 < 2 ^ 64) :
    update_from_sample (update_from_sample (model_after_pairs k) (sample_aes 2)) (sample_aes 4)
      = model_after_pairs (k + 1) := by
  rw [update_sample_aes _ 2 (by norm_num), update_sample_aes _ 4 (by norm_num)]
  simp only [model_after_pairs, aes_pair_step k hk, zero_pair_step k hk]

theorem run_pairs (L : Libm) (j : Nat) :
    ∀ k : Nat, 2 * (k + j) + 1 < 2 ^ 64 →
      anomaly_run L (model_after_pairs k) (aes_pairs j) = some (model_after_pairs (k + j)) := by
  induction j with
  | zero => intro k _; rfl
  | succ j ih =>
    intro k hk
    obtain ⟨r1, h1, -⟩ := anomaly_evaluate_char L (model_after_pairs k) (sample_aes 2)
      (model_after_pairs_init k)
    obtain ⟨r2, h2, -⟩ := anomaly_evaluate_char L
      (update_from_sample (model_after_pairs k) (sample_aes 2)) (sample_aes 4)
      (model_after_pairs_init k)
    simp only [aes_pairs, anomaly_run, h1, h2]
    rw [update_pair k (by omega), ih (k + 1) (by omega)]
    congr 2
    omega

theorem run_history_aes_spread (L : Libm) :
    anomaly_run L anomaly_models_init history_aes_spread = some (model_after_pairs 150) := by
  obtain ⟨r, h, -⟩ := anomaly_evaluate_char L anomaly_models_init (sample_aes 3) (by decide)
  have h2 := run_pairs L 150 0 (by norm_num)
  rw [history_aes_spread, anomaly_run, h, update_first]
  exact h2

theorem snapshot_aes_after_pairs :
    snapshot_metric refLibm (model_after_pairs 150).aes
      = { count := 301, mean := Dbl.fin 3, stddev := Dbl.fin 1, ready := 1 } := by
  simp [snapshot_metric, running_stddev, model_after_pairs, MODEL_READY_MIN_SAMPLES, Dbl.div,
    Dbl.ofNat, Dbl.isfinite, Dbl.le]
  norm_num [refSqrt_one]

theorem snapshot_still (L : Libm) (n : Nat) :
    (snapshot_metric L { count := n, mean := Dbl.fin 0, m2 := Dbl.fin 0 }).stddev = Dbl.fin 0 := by
  simp only [snapshot_metric, running_stddev]
  by_cases h : n < 2
  · simp [h]
  · have hq : ((n - 1 : Nat) : ℚ) ≠ 0 := by
      have : 0 < n - 1 := by omega
      positivity
    simp [h, Dbl.div, Dbl.ofNat, hq, Dbl.isfinite, Dbl.le]

theorem metric_abs_z_still (v : Dbl) (m : anomaly_metric_view) (h : m.stddev = Dbl.fin 0) :
    metric_abs_z v m = Dbl.fin 0 := by
  simp [metric_abs_z, h, value_is_valid, Dbl.isfinite, Z_STDDEV_EPSILON, Dbl.le]

theorem z_of_after_pairs (m : Metric) :
    z_of refLibm (model_after_pairs 150) sample_idle m = if m = Metric.aes then 4 else 0 := by
  cases m
  case aes =>
    simp only [z_of, abs_z_of, Metric.stat, Metric.value, snapshot_aes_after_pairs, sample_idle,
      if_true]
    simp [metric_abs_z, value_is_valid, Dbl.isfinite, Z_STDDEV_EPSILON, Dbl.le, Dbl.sub, Dbl.neg,
      Dbl.add, Dbl.div, Dbl.fabs, Dbl.toRat]
    norm_num
  all_goals
    simp only [z_of, abs_z_of, Metric.stat, model_after_pairs,
      metric_abs_z_still _ _ (snapshot_still refLibm _), Dbl.toRat]
    simp

theorem max_abs_z_after_pairs :
    max_abs_z_of refLibm (model_after_pairs 150) sample_idle = 4 := by
  simp [max_abs_z_of, Metric.all, z_of_after_pairs]

theorem refExp_neg_four_small :
    ∃ e : ℚ, refLibm.exp (Dbl.fin (-4)) = Dbl.fin e ∧ 0 ≤ e ∧ e ≤ 3 / 10 := by
  refine ⟨1 / expSeries 4 24 0, by simp [refLibm, refExp], ?_, ?_⟩ <;>
    norm_num [expSeries]

/-- C8 fails on the code: from `anomaly_init`, after 301 samples with AES readings
`3, 2, 4, 2, 4, ...` the AES statistic is ready (mean `3`, deviation `1`); the next sample,
whose AES field is the sentinel `-1.0`, gets `|z_aes| = 4`, which becomes the `z_score`, gives
`anomaly_score = 1 - exp(-4)` and marks the sample anomalous. -/
theorem C8_aes_sentinel_has_nonzero_z :
    sample_idle.aes_instructions_per_sec = Dbl.fin (-1) ∧
    ∃ g, anomaly_run refLibm anomaly_models_init history_aes_spread = some g ∧
      abs_z_of refLibm g sample_idle Metric.aes = Dbl.fin 4 ∧
      ∃ r g', anomaly_evaluate refLibm g sample_idle = some (r, g') ∧
        r.z_score = Dbl.fin 4 ∧
        r.anomaly_score = Dbl.sub (Dbl.fin 1) (refLibm.exp (Dbl.fin (-4))) ∧
        r.is_anomalous = 1 := by
  obtain ⟨r, hr, hzs, hs, -, -, -, -, -, ha⟩ :=
    anomaly_evaluate_char refLibm (model_after_pairs 150) sample_idle (by decide)
  have hm := max_abs_z_after_pairs
  have hz := z_of_after_pairs Metric.aes
  rw [if_pos rfl] at hz
  have hscore : r.anomaly_score = Dbl.sub (Dbl.fin 1) (refLibm.exp (Dbl.fin (-4))) := by
    rw [hs, hm, if_pos (by norm_num)]
  refine ⟨rfl, _, run_history_aes_spread refLibm, ?_, r, _, hr, ?_, hscore, ?_⟩
  · rw [(abs_z_of_fin refLibm (model_after_pairs 150) sample_idle Metric.aes).1, hz]
  · rw [hzs, hm]
  · obtain ⟨e, he, e0, e1⟩ := refExp_neg_four_small
    have hge : Dbl.ge r.anomaly_score (Dbl.fin (7 / 10)) = true := by
      rw [hscore, he]
      simp only [Dbl.sub, Dbl.neg, Dbl.add, ge_fin]
      linarith
    rw [ha, if_pos (Or.inl hge)]


/-! ## RENAME_STORM and DELETE_STORM -/

/-- C11 (amended): `anomaly_evaluate` sets RENAME_STORM exactly when `z_files_renamed >= 3` or
`files_renamed_per_sec` is finite and `> 200`, and sets DELETE_STORM exactly when
`z_files_deleted >= 3`: no value of `files_deleted_per_sec` sets it through an absolute
threshold. -/
theorem C11_rename_delete_storm_iff (L : Libm) (g : model_state) (x : telemetry_sample)
    (hg : g.initialized ≠ 0) :
    ∃ r g', anomaly_evaluate L g x = some (r, g') ∧
      (∀ m, abs_z_of L g x m = Dbl.fin (z_of L g x m)) ∧
      (flag_set r.flags ANOMALY_FLAG_RENAME_STORM = true ↔
        3 ≤ z_of L g x Metric.files_renamed ∨
        (∃ v : ℚ, x.files_renamed_per_sec = Dbl.fin v ∧ 200 < v)) ∧
      (flag_set r.flags ANOMALY_FLAG_DELETE_STORM = true ↔
        3 ≤ z_of L g x Metric.files_deleted) := by
  obtain ⟨r, hr, -, -, -, -, hrn, hd, -⟩ := anomaly_evaluate_char L g x hg
  exact ⟨r, _, hr, fun m => (abs_z_of_fin L g x m).1, hrn, hd⟩

/-- C11 on the first sample after `anomaly_init`, with 201 renamed files per second. -/
theorem C11_rename_delete_storm_iff_witness :
    anomaly_models_init.initialized ≠ 0 ∧
    ∃ r g', anomaly_evaluate refLibm anomaly_models_init sample_201_renames = some (r, g') ∧
      (∀ m, abs_z_of refLibm anomaly_models_init sample_201_renames m
        = Dbl.fin (z_of refLibm anomaly_models_init sample_201_renames m)) ∧
      (flag_set r.flags ANOMALY_FLAG_RENAME_STORM = true ↔
        3 ≤ z_of refLibm anomaly_models_init sample_201_renames Metric.files_renamed ∨
        (∃ v : ℚ, sample_201_renames.files_renamed_per_sec = Dbl.fin v ∧ 200 < v)) ∧
      (flag_set r.flags ANOMALY_FLAG_DELETE_STORM = true ↔
        3 ≤ z_of refLibm anomaly_models_init sample_201_renames Metric.files_deleted) :=
  ⟨by decide, C11_rename_delete_storm_iff refLibm anomaly_models_init sample_201_renames
    (by decide)⟩

/-- C11 fails as stated: for a sample whose `files_renamed_per_sec` is `+inf` the C test
`files_renamed_per_sec > 200` is true, yet on a freshly initialized model RENAME_STORM is not
set. -/
theorem C11_counterexample_infinite_rate :
    Dbl.gt sample_inf_renames.files_renamed_per_sec (Dbl.fin 200) = true ∧
    ∃ r g', anomaly_evaluate refLibm anomaly_models_init sample_inf_renames = some (r, g') ∧
      flag_set r.flags ANOMALY_FLAG_RENAME_STORM = false := by
  obtain ⟨r, hr, -, -, -, -, hrn, -⟩ :=
    anomaly_evaluate_char refLibm anomaly_models_init sample_inf_renames (by decide)
  refine ⟨rfl, r, _, hr, ?_⟩
  rw [Bool.eq_false_iff]
  intro h
  have h2 := hrn.1 h
  simp only [z_of_init] at h2
  rcases h2 with h2 | ⟨v, hv, -⟩
  · norm_num at h2
  · simp [sample_inf_renames] at hv

/-! ## Snapshot-then-update -/

theorem snapshot_all_view (L : Libm) (g : model_state) (m : Metric) :
    m.view (snapshot_all L g) = snapshot_metric L (m.stat g) := by
  cases m <;> rfl

/-- C12: on an initialized model, `anomaly_models_snapshot_and_update` succeeds, returns for
every metric the snapshot `(count, mean, stddev, ready)` of the state `s` it was called in,
and leaves a state in which each metric whose sample value was accepted (finite, and for AES
not `-1.0`) has made one Welford step from `s` and every other metric is unchanged; the
`|z|` values and the `z_score` that `anomaly_evaluate` reports for the sample after a history
are those against the state built from that history alone. -/
theorem C12_snapshot_then_update (L : Libm) (s : model_state) (x : telemetry_sample)
    (history : List telemetry_sample) (hs : s.initialized ≠ 0) :
    (∃ view s', anomaly_models_snapshot_and_update L s x = some (view, s') ∧
      (∀ m : Metric,
        (m.view view).count = (m.stat s).count ∧
        (m.view view).mean = (m.stat s).mean ∧
        (m.view view).stddev = running_stddev L (m.stat s) ∧
        (m.view view).ready = (if (m.stat s).count ≥ 300 then 1 else 0)) ∧
      s'.initialized = s.initialized ∧
      (∀ m : Metric,
        m.stat s' = if m.accepts x = true then running_update (m.stat s) (m.value x)
          else m.stat s)) ∧
    (∃ g, anomaly_run L anomaly_models_init history = some g ∧
      ∃ r g', anomaly_evaluate L g x = some (r, g') ∧
        g' = update_from_sample g x ∧
        r.z_score = Dbl.fin (max_abs_z_of L g x) ∧
        ∀ m : Metric, abs_z_of L g x m
          = metric_abs_z (m.value x) (snapshot_metric L (m.stat g))) := by
  constructor
  · refine ⟨snapshot_all L s, update_from_sample s x, ?_, ?_, rfl, update_stat s x⟩
    · simp [anomaly_models_snapshot_and_update, hs]
    · intro m
      rw [snapshot_all_view]
      exact ⟨rfl, rfl, rfl, rfl⟩
  · obtain ⟨g, hrun, hinit, -⟩ :=
      anomaly_run_count L Metric.aes history anomaly_models_init (by decide) (by
        show (0 : Nat) < 2 ^ 64
        norm_num)
    obtain ⟨r, hr, hz, -⟩ := anomaly_evaluate_char L g x hinit
    exact ⟨g, hrun, r, _, hr, rfl, hz, fun _ => rfl⟩

/-- C12 on the model after `anomaly_init` and the two-sample idle history. -/
theorem C12_snapshot_then_update_witness :
    anomaly_models_init.initialized ≠ 0 ∧
    (∃ view s', anomaly_models_snapshot_and_update refLibm anomaly_models_init sample_aes3
        = some (view, s') ∧
      (∀ m : Metric,
        (m.view view).count = (m.stat anomaly_models_init).count ∧
        (m.view view).mean = (m.stat anomaly_models_init).mean ∧
        (m.view view).stddev = running_stddev refLibm (m.stat anomaly_models_init) ∧
        (m.view view).ready = (if (m.stat anomaly_models_init).count ≥ 300 then 1 else 0)) ∧
      s'.initialized = anomaly_models_init.initialized ∧
      (∀ m : Metric,
        m.stat s' = if m.accepts sample_aes3 = true
          then running_update (m.stat anomaly_models_init) (m.value sample_aes3)
          else m.stat anomaly_models_init)) ∧
    (∃ g, anomaly_run refLibm anomaly_models_init history_idle2 = some g ∧
      ∃ r g', anomaly_evaluate refLibm g sample_aes3 = some (r, g') ∧
        g' = update_from_sample g sample_aes3 ∧
        r.z_score = Dbl.fin (max_abs_z_of refLibm g sample_aes3) ∧
        ∀ m : Metric, abs_z_of refLibm g sample_aes3 m
          = metric_abs_z (m.value sample_aes3) (snapshot_metric refLibm (m.stat g))) :=
  ⟨by decide, C12_snapshot_then_update refLibm anomaly_models_init sample_aes3 history_idle2
    (by decide)⟩


/-! ## One Welford step -/

theorem welford_update_core (L : Libm) (m : metric_stat Dbl) (x : Dbl) :
    (welford_update L m x).count = (m.count + 1) % 2 ^ 64 ∧
    (welford_update L m x).mean
      = Dbl.add m.mean (Dbl.div (Dbl.sub x m.mean) (Dbl.ofNat ((m.count + 1) % 2 ^ 64))) ∧
    (welford_update L m x).m2
      = Dbl.add m.m2 (Dbl.mul (Dbl.sub x m.mean)
          (Dbl.sub x (Dbl.add m.mean
            (Dbl.div (Dbl.sub x m.mean) (Dbl.ofNat ((m.count + 1) % 2 ^ 64)))))) := by
  simp only [welford_update]
  split_ifs <;> exact ⟨rfl, rfl, rfl⟩

theorem welford_update_derived (L : Libm) (m : metric_stat Dbl) (x : Dbl) :
    (2 ≤ (welford_update L m x).count →
      (welford_update L m x).variance
        = Dbl.div (welford_update L m x).m2 (Dbl.ofNat ((welford_update L m x).count - 1)) ∧
      (welford_update L m x).stddev = L.sqrt (welford_update L m x).variance) ∧
    ((welford_update L m x).count ≤ 1 →
      (welford_update L m x).variance = Dbl.fin 0 ∧
      (welford_update L m x).stddev = Dbl.fin 0) := by
  simp only [welford_update]
  split_ifs with h
  · exact ⟨fun _ => ⟨rfl, rfl⟩, fun h1 => absurd h1 (by simp only []; omega)⟩
  · exact ⟨fun h2 => absurd h2 (by simp only []; omega), fun _ => ⟨rfl, rfl⟩⟩

/-- C13: one Welford update, `running_update` in the pipeline model and `welford_update` in
the baseline store, yields `count' = count + 1` (as a `uint64_t`; the integer `count + 1`
below `2^64`), `mean' = mean + (x - mean) / count'` and
`m2' = m2 + (x - mean) * (x - mean')`; the baseline store also sets
`variance = m2' / (count' - 1)` and `stddev = sqrt(variance)` when `count' >= 2`, and
`variance = stddev = 0` when `count' = 1`. -/
theorem C13_welford_update_step (L : Libm) (s : running_metric) (m : metric_stat Dbl)
    (x : Dbl) :
    ((running_update s x).count = (s.count + 1) % 2 ^ 64 ∧
      (s.count + 1 < 2 ^ 64 → (running_update s x).count = s.count + 1) ∧
      (running_update s x).mean
        = Dbl.add s.mean (Dbl.div (Dbl.sub x s.mean) (Dbl.ofNat (running_update s x).count)) ∧
      (running_update s x).m2
        = Dbl.add s.m2 (Dbl.mul (Dbl.sub x s.mean) (Dbl.sub x (running_update s x).mean))) ∧
    ((welford_update L m x).count = (m.count + 1) % 2 ^ 64 ∧
      (m.count + 1 < 2 ^ 64 → (welford_update L m x).count = m.count + 1) ∧
      (welford_update L m x).mean
        = Dbl.add m.mean
            (Dbl.div (Dbl.sub x m.mean) (Dbl.ofNat (welford_update L m x).count)) ∧
      (welford_update L m x).m2
        = Dbl.add m.m2 (Dbl.mul (Dbl.sub x m.mean) (Dbl.sub x (welford_update L m x).mean)) ∧
      (2 ≤ (welford_update L m x).count →
        (welford_update L m x).variance
          = Dbl.div (welford_update L m x).m2
              (Dbl.ofNat ((welford_update L m x).count - 1)) ∧
        (welford_update L m x).stddev = L.sqrt (welford_update L m x).variance) ∧
      ((welford_update L m x).count = 1 →
        (welford_update L m x).variance = Dbl.fin 0 ∧
        (welford_update L m x).stddev = Dbl.fin 0)) ∧
    (∀ mu M v : ℚ, s.mean = Dbl.fin mu → s.m2 = Dbl.fin M → x = Dbl.fin v →
      s.count + 1 < 2 ^ 64 →
      (running_update s x).mean = Dbl.fin (mu + (v - mu) / ((s.count : ℚ) + 1)) ∧
      (running_update s x).m2
        = Dbl.fin (M + (v - mu) * (v - (mu + (v - mu) / ((s.count : ℚ) + 1))))) := by
  obtain ⟨c1, c2, c3⟩ := welford_update_core L m x
  obtain ⟨d1, d2⟩ := welford_update_derived L m x
  refine ⟨⟨rfl, fun h => Nat.mod_eq_of_lt h, rfl, rfl⟩, ⟨c1, fun h => ?_, ?_, ?_, d1, ?_⟩, ?_⟩
  · rw [c1]; exact Nat.mod_eq_of_lt h
  · rw [c2, c1]
  · rw [c3, c2]
  · intro h1
    exact d2 (le_of_eq h1)
  · intro mu M v hmu hM hv hc
    obtain ⟨n, smean, sm2⟩ := s
    simp only at hmu hM hc
    subst hmu hM hv
    rw [running_update_fin n mu M v hc]
    exact ⟨rfl, rfl⟩

/-! ## The deviation exposed by the pipeline model -/

theorem running_stddev_char (L : Libm) (s : running_metric) :
    running_stddev L s =
      if s.count < 2 then Dbl.fin 0
      else match running_variance s with
        | Dbl.fin v => if 0 < v then L.sqrt (Dbl.fin v) else Dbl.fin 0
        | _ => Dbl.fin 0 := by
  simp only [running_stddev, running_variance]
  split_ifs with h1 h2
  · rfl
  · generalize Dbl.div s.m2 (Dbl.ofNat (s.count - 1)) = var at h2 ⊢
    cases var with
    | fin v =>
      simp only [Dbl.isfinite, Dbl.le, Bool.not_true, Bool.false_or, decide_eq_true_eq] at h2
      simp [not_lt.2 h2]
    | nan => rfl
    | ninf => rfl
    | pinf => rfl
  · generalize Dbl.div s.m2 (Dbl.ofNat (s.count - 1)) = var at h2 ⊢
    cases var with
    | fin v =>
      simp only [Dbl.isfinite, Dbl.le, Bool.not_true, Bool.false_or, decide_eq_true_eq] at h2
      simp [not_le.1 h2]
    | nan => simp [Dbl.isfinite] at h2
    | ninf => simp [Dbl.isfinite] at h2
    | pinf => simp [Dbl.isfinite] at h2

/-- C15 (amended): the deviation `running_stddev` of a pipeline-model statistic is `0`
whenever `count < 2`, or the variance `m2 / (count - 1)` is `<= 0`, or the variance is not
finite; for a finite positive variance, however small, it is `sqrt(variance)`. -/
theorem C15_running_stddev_zero_cases (L : Libm) (s : running_metric) :
    (s.count < 2 → running_stddev L s = Dbl.fin 0) ∧
    (Dbl.le (running_variance s) (Dbl.fin 0) = true → running_stddev L s = Dbl.fin 0) ∧
    ((running_variance s).isfinite = false → running_stddev L s = Dbl.fin 0) ∧
    (∀ v : ℚ, 2 ≤ s.count → running_variance s = Dbl.fin v → 0 < v →
      running_stddev L s = L.sqrt (Dbl.fin v)) := by
  rw [running_stddev_char]
  refine ⟨fun h => by rw [if_pos h], fun h => ?_, fun h => ?_, fun v hc hv hpos => ?_⟩
  · split_ifs
    · rfl
    · cases hvar : running_variance s with
      | fin v =>
        rw [hvar] at h
        simp only [Dbl.le, decide_eq_true_eq] at h
        simp [not_lt.2 h]
      | nan => rfl
      | ninf => rfl
      | pinf => rfl
  · split_ifs
    · rfl
    · cases hvar : running_variance s with
      | fin v => rw [hvar] at h; simp [Dbl.isfinite] at h
      | nan => rfl
      | ninf => rfl
      | pinf => rfl
  · rw [if_neg (by omega), hv]
    simp [hpos]


theorem sqrtNewton_pos (q : ℚ) (hq : 0 < q) : ∀ n : Nat, 0 < sqrtNewton q n := by
  intro n
  induction n with
  | zero => simp only [sqrtNewton]; positivity
  | succ n ih =>
    simp only [sqrtNewton]
    have : 0 < q / sqrtNewton q n := div_pos hq ih
    positivity

theorem refSqrt_pos (q : ℚ) (hq : 0 < q) :
    ∃ r : ℚ, refLibm.sqrt (Dbl.fin q) = Dbl.fin r ∧ 0 < r :=
  ⟨sqrtNewton q 6, by simp [refLibm, refSqrt, not_lt.2 (le_of_lt hq), ne_of_gt hq],
    sqrtNewton_pos q hq 6⟩

/-- C15 fails as stated: a statistic with two values and variance `1e-10`, which is
`<= 1e-9`, has the deviation `sqrt(1e-10)`, a positive number. -/
theorem C15_counterexample_small_variance :
    running_variance stat_tiny_variance = Dbl.fin (1 / 10000000000) ∧
    Dbl.le (running_variance stat_tiny_variance) (Dbl.fin (1 / 1000000000)) = true ∧
    running_stddev refLibm stat_tiny_variance = refLibm.sqrt (Dbl.fin (1 / 10000000000)) ∧
    ∃ r : ℚ, running_stddev refLibm stat_tiny_variance = Dbl.fin r ∧ 0 < r := by
  have hv : running_variance stat_tiny_variance = Dbl.fin (1 / 10000000000) := by
    simp [running_variance, stat_tiny_variance, Dbl.div, Dbl.ofNat]
  have hs : running_stddev refLibm stat_tiny_variance
      = refLibm.sqrt (Dbl.fin (1 / 10000000000)) := by
    rw [running_stddev_char, hv]
    simp [stat_tiny_variance]
  refine ⟨hv, ?_, hs, ?_⟩
  · rw [hv]
    simp only [Dbl.le, decide_eq_true_eq]
    norm_num
  · obtain ⟨r, hr, hpos⟩ := refSqrt_pos (1 / 10000000000) (by norm_num)
    exact ⟨r, by rw [hs, hr], hpos⟩


/-! ## Baseline store -/

theorem baseline_update_some (L : Libm) (g : baseline_state Dbl) (x : telemetry_sample)
    (hg : g.initialized ≠ 0) :
    ∃ g', baseline_update L g x = some g' ∧ g'.initialized = g.initialized ∧
      g'.db_path = g.db_path ∧
      ∀ b : BMetric, b.stat g' =
        if b.metric.accepts x = true then welford_update L (b.stat g) (b.metric.value x)
        else b.stat g := by
  simp only [baseline_update, hg, if_false]
  refine ⟨_, rfl, rfl, rfl, ?_⟩
  intro b
  cases b <;> rfl

theorem welford_update_count (L : Libm) (m : metric_stat Dbl) (x : Dbl) :
    (welford_update L m x).count = (m.count + 1) % 2 ^ 64 :=
  (welford_update_core L m x).1

theorem baseline_ready_iff {D : Type} (g : baseline_state D) :
    baseline_ready g = 1 ↔ g.initialized ≠ 0 ∧ ∀ b : BMetric, 300 ≤ (b.stat g).count := by
  simp only [baseline_ready, BASELINE_MIN_SAMPLES]
  constructor
  · intro h
    split_ifs at h with hc
    · simp only [Bool.and_eq_true, bne_iff_ne, ne_eq, decide_eq_true_eq] at hc
      obtain ⟨⟨⟨⟨⟨⟨⟨h0, h1⟩, h2⟩, h3⟩, h4⟩, h5⟩, h6⟩, h7⟩ := hc
      refine ⟨h0, fun b => ?_⟩
      cases b <;> assumption
    · exact absurd h (by norm_num)
  · rintro ⟨h0, hb⟩
    rw [if_pos]
    simp only [Bool.and_eq_true, bne_iff_ne, ne_eq, decide_eq_true_eq]
    exact ⟨⟨⟨⟨⟨⟨⟨h0, hb BMetric.aes⟩, hb BMetric.cycles⟩, hb BMetric.cache_miss_rate⟩,
      hb BMetric.files_modified⟩, hb BMetric.files_renamed⟩, hb BMetric.files_deleted⟩,
      hb BMetric.disk_write⟩

theorem baseline_ready_zero_one {D : Type} (g : baseline_state D) :
    baseline_ready g = 0 ∨ baseline_ready g = 1 := by
  simp only [baseline_ready]
  split_ifs
  · exact Or.inr rfl
  · exact Or.inl rfl

theorem bmetric_accepts_of_ones (x : telemetry_sample)
    (hx : ∀ m : Metric, m.value x = Dbl.fin 1) (b : BMetric) : b.metric.accepts x = true := by
  have h2 := hx b.metric
  cases b <;>
    simp only [BMetric.metric, Metric.value] at h2 <;>
    simp only [BMetric.metric, Metric.accepts, Metric.value, h2, value_is_valid, Dbl.isfinite,
      Dbl.ne, Bool.and_true, decide_eq_true_eq]
  norm_num

/-- Feeding samples in which every metric is `1.0` to an initialized store never fails and
adds one to every counter, modulo `2^64`, per sample. -/
theorem baseline_run_ones (L : Libm) (history : List telemetry_sample)
    (hall : ∀ x ∈ history, ∀ m : Metric, m.value x = Dbl.fin 1) :
    ∀ g : baseline_state Dbl, g.initialized ≠ 0 →
      (∀ b : BMetric, (b.stat g).count < 2 ^ 64) →
      ∃ g', baseline_run L g history = some g' ∧ g'.initialized = g.initialized ∧
        ∀ b : BMetric, (b.stat g').count = ((b.stat g).count + history.length) % 2 ^ 64 := by
  induction history with
  | nil =>
    intro g _ hc
    exact ⟨g, rfl, rfl, fun b => by
      simp only [List.length_nil, Nat.add_zero]
      exact (Nat.mod_eq_of_lt (hc b)).symm⟩
  | cons x xs ih =>
    intro g hg hc
    obtain ⟨g1, h1, hi1, -, hs1⟩ := baseline_update_some L g x hg
    have hacc := bmetric_accepts_of_ones x (hall x (List.mem_cons_self _ _))
    have hc1 : ∀ b : BMetric, (b.stat g1).count = ((b.stat g).count + 1) % 2 ^ 64 := by
      intro b
      rw [hs1 b, if_pos (hacc b), welford_update_count]
    obtain ⟨g', h2, hi2, hs2⟩ := ih (fun y hy => hall y (List.mem_cons_of_mem _ hy)) g1
      (by rw [hi1]; exact hg)
      (fun b => by rw [hc1 b]; exact Nat.mod_lt _ (by norm_num))
    refine ⟨g', by simp only [baseline_run, h1, h2], by rw [hi2, hi1], fun b => ?_⟩
    rw [hs2 b, hc1 b, List.length_cons]
    omega

/-- C17: for an initialized store `baseline_ready` is `1` exactly when every tracked metric
has `count >= 300` (and `0` otherwise); starting from the empty store and feeding samples in
which every metric is `1.0`, it is `0` after fewer than 300 updates and `1` after the
300th. -/
theorem C17_baseline_ready_iff (L : Libm) (g : baseline_state Dbl) (hg : g.initialized ≠ 0)
    (db_path : String) (history : List telemetry_sample)
    (hall : ∀ x ∈ history, ∀ m : Metric, m.value x = Dbl.fin 1) :
    (baseline_ready g = 1 ↔ ∀ b : BMetric, 300 ≤ (b.stat g).count) ∧
    (baseline_ready g = 0 ∨ baseline_ready g = 1) ∧
    ∃ g', baseline_run L (baseline_empty db_path) history = some g' ∧
      (history.length < 300 → baseline_ready g' = 0) ∧
      (history.length = 300 → baseline_ready g' = 1) := by
  refine ⟨?_, baseline_ready_zero_one g, ?_⟩
  · rw [baseline_ready_iff]
    exact ⟨fun h => h.2, fun h => ⟨hg, h⟩⟩
  · obtain ⟨g', hrun, hinit, hcount⟩ := baseline_run_ones L history hall
      (baseline_empty db_path) (by simp [baseline_empty])
      (fun b => by cases b <;> simp [BMetric.stat, baseline_empty, metric_stat_zero])
    have h0 : ∀ b : BMetric, (b.stat (baseline_empty db_path)).count = 0 := by
      intro b; cases b <;> rfl
    refine ⟨g', hrun, fun hlt => ?_, fun heq => ?_⟩
    · rcases baseline_ready_zero_one g' with h | h
      · exact h
      · have := ((baseline_ready_iff g').1 h).2 BMetric.aes
        rw [hcount, h0] at this
        omega
    · rw [baseline_ready_iff]
      refine ⟨by rw [hinit]; simp [baseline_empty], fun b => ?_⟩
      rw [hcount, h0, heq]
      norm_num

/-- C17 for a store with 300 values of every metric, and for the history of 300 all-ones
samples fed to the empty store. -/
theorem C17_baseline_ready_iff_witness :
    (baseline_uniform 300).initialized ≠ 0 ∧
    (∀ x ∈ history_ones300, ∀ m : Metric, m.value x = Dbl.fin 1) ∧
    (baseline_ready (baseline_uniform 300) = 1 ↔
      ∀ b : BMetric, 300 ≤ (b.stat (baseline_uniform 300)).count) ∧
    (baseline_ready (baseline_uniform 300) = 0 ∨ baseline_ready (baseline_uniform 300) = 1) ∧
    ∃ g', baseline_run refLibm (baseline_empty "baseline.db") history_ones300 = some g' ∧
      (history_ones300.length < 300 → baseline_ready g' = 0) ∧
      (history_ones300.length = 300 → baseline_ready g' = 1) :=
  have hall : ∀ x ∈ history_ones300, ∀ m : Metric, m.value x = Dbl.fin 1 := by
    intro x hx m
    rw [List.eq_of_mem_replicate hx]
    cases m <;> rfl
  ⟨by decide, hall,
    C17_baseline_ready_iff refLibm (baseline_uniform 300) (by decide) "baseline.db"
      history_ones300 hall⟩

/-! ## Counters at the end of their range -/

theorem count_step_le (c : Nat) (hc : c < 2 ^ 64 - 1) : c ≤ (c + 1) % 2 ^ 64 := by
  have h : c + 1 < 2 ^ 64 := by omega
  rw [Nat.mod_eq_of_lt h]
  exact Nat.le_succ c

/-- An update of an initialized store never lowers a counter that is below the largest
`uint64_t`. -/
theorem baseline_update_count_le (L : Libm) (g : baseline_state Dbl) (x : telemetry_sample)
    (hg : g.initialized ≠ 0) :
    ∃ g', baseline_update L g x = some g' ∧ g'.initialized = g.initialized ∧
      ∀ b : BMetric, (b.stat g).count < 2 ^ 64 - 1 → (b.stat g).count ≤ (b.stat g').count := by
  obtain ⟨g', h1, hi, -, hs⟩ := baseline_update_some L g x hg
  refine ⟨g', h1, hi, fun b hb => ?_⟩
  rw [hs b]
  split_ifs
  · rw [welford_update_count]
    exact count_step_le _ hb
  · exact le_refl _

/-- C18 (amended): if `baseline_ready` is true and no counter of the store holds the largest
`uint64_t` value `2^64 - 1`, then after `baseline_update` with any sample `baseline_ready` is
still true. -/
theorem C18_ready_monotone (L : Libm) (g : baseline_state Dbl) (x : telemetry_sample)
    (hr : baseline_ready g = 1) (hmax : ∀ b : BMetric, (b.stat g).count < 2 ^ 64 - 1) :
    ∃ g', baseline_update L g x = some g' ∧ baseline_ready g' = 1 := by
  obtain ⟨hg, hc⟩ := (baseline_ready_iff g).1 hr
  obtain ⟨g', h1, hi, hle⟩ := baseline_update_count_le L g x hg
  refine ⟨g', h1, (baseline_ready_iff g').2 ⟨by rw [hi]; exact hg, fun b => ?_⟩⟩
  exact le_trans (hc b) (hle b (hmax b))

theorem baseline_uniform_count (n : Nat) (b : BMetric) :
    (b.stat (baseline_uniform n)).count = n := by
  cases b <;> rfl

/-- C18 on a store with 300 values of every metric and an idle sample. -/
theorem C18_ready_monotone_witness :
    baseline_ready (baseline_uniform 300) = 1 ∧
    (∀ b : BMetric, (b.stat (baseline_uniform 300)).count < 2 ^ 64 - 1) ∧
    ∃ g', baseline_update refLibm (baseline_uniform 300) sample_idle = some g' ∧
      baseline_ready g' = 1 :=
  have hr : baseline_ready (baseline_uniform 300) = 1 := by decide
  have hmax : ∀ b : BMetric, (b.stat (baseline_uniform 300)).count < 2 ^ 64 - 1 := by
    intro b
    rw [baseline_uniform_count]
    norm_num
  ⟨hr, hmax, C18_ready_monotone refLibm (baseline_uniform 300) sample_idle hr hmax⟩

theorem baseline_count_max_count (b : BMetric) :
    (b.stat baseline_count_max).count = 2 ^ 64 - 1 := by
  cases b <;> rfl

/-- C18 fails as stated: the store in which every counter is `2^64 - 1` is ready, and one
`baseline_update` with the all-ones sample wraps every counter to `0`, after which
`baseline_ready` is false. -/
theorem C18_counterexample_counter_wrap :
    baseline_ready baseline_count_max = 1 ∧
    ∃ g', baseline_update refLibm baseline_count_max sample_ones = some g' ∧
      (∀ b : BMetric, (b.stat g').count = 0) ∧
      baseline_ready g' = 0 := by
  obtain ⟨g', h1, -, -, hs⟩ :=
    baseline_update_some refLibm baseline_count_max sample_ones (by decide)
  have hacc := bmetric_accepts_of_ones sample_ones (fun m => by cases m <;> rfl)
  have hc : ∀ b : BMetric, (b.stat g').count = 0 := by
    intro b
    rw [hs b, if_pos (hacc b), welford_update_count, baseline_count_max_count]
    norm_num
  refine ⟨by decide, g', h1, hc, ?_⟩
  rcases baseline_ready_zero_one g' with h | h
  · exact h
  · have := ((baseline_ready_iff g').1 h).2 BMetric.aes
    rw [hc] at this
    omega

/-- C19 (amended): for every statistic of the pipeline model and of an initialized baseline
store whose count is below the largest `uint64_t` value `2^64 - 1`, and every sample, the
count after the update is greater than or equal to the count before: one more if the
sample's value was accepted, the same otherwise. -/
theorem C19_count_nondecreasing (L : Libm) (g : model_state) (bg : baseline_state Dbl)
    (x : telemetry_sample) (m : Metric) (b : BMetric) (hbg : bg.initialized ≠ 0)
    (hm : (m.stat g).count < 2 ^ 64 - 1) (hb : (b.stat bg).count < 2 ^ 64 - 1) :
    (m.stat g).count ≤ (m.stat (update_from_sample g x)).count ∧
    (m.stat (update_from_sample g x)).count
      = (m.stat g).count + (if m.accepts x = true then 1 else 0) ∧
    ∃ bg', baseline_update L bg x = some bg' ∧
      (b.stat bg).count ≤ (b.stat bg').count ∧
      (b.stat bg').count = (b.stat bg).count + (if b.metric.accepts x = true then 1 else 0) := by
  have hm1 : (m.stat g).count + 1 < 2 ^ 64 := by omega
  have hb1 : (b.stat bg).count + 1 < 2 ^ 64 := by omega
  have e1 : (m.stat (update_from_sample g x)).count
      = (m.stat g).count + (if m.accepts x = true then 1 else 0) := by
    rw [update_stat]
    split_ifs
    · rw [running_update_count, Nat.mod_eq_of_lt hm1]
    · rfl
  obtain ⟨bg', h1, -, -, hs⟩ := baseline_update_some L bg x hbg
  have e2 : (b.stat bg').count
      = (b.stat bg).count + (if b.metric.accepts x = true then 1 else 0) := by
    rw [hs b]
    split_ifs
    · rw [welford_update_count, Nat.mod_eq_of_lt hb1]
    · rfl
  exact ⟨by rw [e1]; exact Nat.le_add_right _ _, e1, bg', h1,
    by rw [e2]; exact Nat.le_add_right _ _, e2⟩

/-- C19 for the cycles metric after `anomaly_init` and in a store with 300 values. -/
theorem C19_count_nondecreasing_witness :
    (baseline_uniform 300).initialized ≠ 0 ∧
    (Metric.cycles.stat anomaly_models_init).count < 2 ^ 64 - 1 ∧
    (BMetric.cycles.stat (baseline_uniform 300)).count < 2 ^ 64 - 1 ∧
    (Metric.cycles.stat anomaly_models_init).count
      ≤ (Metric.cycles.stat (update_from_sample anomaly_models_init sample_ones)).count ∧
    (Metric.cycles.stat (update_from_sample anomaly_models_init sample_ones)).count
      = (Metric.cycles.stat anomaly_models_init).count
        + (if Metric.cycles.accepts sample_ones = true then 1 else 0) ∧
    ∃ bg', baseline_update refLibm (baseline_uniform 300) sample_ones = some bg' ∧
      (BMetric.cycles.stat (baseline_uniform 300)).count ≤ (BMetric.cycles.stat bg').count ∧
      (BMetric.cycles.stat bg').count = (BMetric.cycles.stat (baseline_uniform 300)).count
        + (if BMetric.cycles.metric.accepts sample_ones = true then 1 else 0) :=
  ⟨by decide, by decide, by decide,
    C19_count_nondecreasing refLibm anomaly_models_init (baseline_uniform 300) sample_ones
      Metric.cycles BMetric.cycles (by decide) (by decide) (by decide)⟩

/-- C19 fails as stated: a statistic whose 64-bit count is `2^64 - 1` (a value a loaded file
may carry) has count `0` after one accepted value, in the baseline store and in the pipeline
model alike. -/
theorem C19_counterexample_counter_wrap :
    stat_count_max.count = 2 ^ 64 - 1 ∧
    (welford_update refLibm stat_count_max (Dbl.fin 1)).count = 0 ∧
    (welford_update refLibm stat_count_max (Dbl.fin 1)).count < stat_count_max.count ∧
    (running_update running_count_max (Dbl.fin 1)).count = 0 ∧
    (running_update running_count_max (Dbl.fin 1)).count < running_count_max.count ∧
    ∃ g', baseline_update refLibm baseline_count_max sample_ones = some g' ∧
      (BMetric.cycles.stat g').count < (BMetric.cycles.stat baseline_count_max).count := by
  have h1 : (welford_update refLibm stat_count_max (Dbl.fin 1)).count = 0 := by
    rw [welford_update_count]; rfl
  have h2 : (running_update running_count_max (Dbl.fin 1)).count = 0 := by
    rw [running_update_count]; rfl
  obtain ⟨g', hu, -, -, hs⟩ :=
    baseline_update_some refLibm baseline_count_max sample_ones (by decide)
  have hacc := bmetric_accepts_of_ones sample_ones (fun m => by cases m <;> rfl)
  refine ⟨rfl, h1, ?_, h2, ?_, g', hu, ?_⟩
  · rw [h1]; exact Nat.pos_of_ne_zero (by decide)
  · rw [h2]; exact Nat.pos_of_ne_zero (by decide)
  · rw [hs BMetric.cycles, if_pos (hacc BMetric.cycles), welford_update_count,
      baseline_count_max_count]
    norm_num


/-! ## Values that are not accepted -/

/-- A non-finite value, and the AES sentinel `-1.0`, fail the guard of the update. -/
theorem not_accepted (x : telemetry_sample) (m : Metric)
    (h : (m.value x).isfinite = false ∨
      (m = Metric.aes ∧ x.aes_instructions_per_sec = Dbl.fin (-1))) :
    m.accepts x = false := by
  rcases h with h | ⟨rfl, h⟩
  · cases m <;> simp_all [Metric.accepts, Metric.value, value_is_valid]
  · simp [Metric.accepts, h, Dbl.ne]

theorem abs_z_nonfinite (L : Libm) (g : model_state) (x : telemetry_sample) (m : Metric)
    (h : (m.value x).isfinite = false) : abs_z_of L g x m = Dbl.fin 0 := by
  simp [abs_z_of, metric_abs_z, value_is_valid, h]

/-- C16 on the code: a metric whose sample value is non-finite, and the AES metric when the
sample's AES value is `-1.0`, leaves its statistic unchanged in the pipeline model and in
the baseline store, and a non-finite value gives `|z| = 0`; but after the 301-sample history
with AES readings the AES sentinel `-1.0`, which leaves the AES statistic unchanged, gets
`|z| = 4`, not `0`. -/
theorem C16_sentinel_unchanged_but_nonzero_z :
    (∀ (g : model_state) (x : telemetry_sample) (m : Metric),
      ((m.value x).isfinite = false ∨
        (m = Metric.aes ∧ x.aes_instructions_per_sec = Dbl.fin (-1))) →
      m.stat (update_from_sample g x) = m.stat g) ∧
    (∀ (L : Libm) (bg : baseline_state Dbl) (x : telemetry_sample) (b : BMetric),
      bg.initialized ≠ 0 →
      ((b.metric.value x).isfinite = false ∨
        (b.metric = Metric.aes ∧ x.aes_instructions_per_sec = Dbl.fin (-1))) →
      ∃ bg', baseline_update L bg x = some bg' ∧ b.stat bg' = b.stat bg) ∧
    (∀ (L : Libm) (g : model_state) (x : telemetry_sample) (m : Metric),
      (m.value x).isfinite = false → abs_z_of L g x m = Dbl.fin 0) ∧
    (sample_idle.aes_instructions_per_sec = Dbl.fin (-1) ∧
      ∃ g, anomaly_run refLibm anomaly_models_init history_aes_spread = some g ∧
        Metric.aes.stat (update_from_sample g sample_idle) = Metric.aes.stat g ∧
        abs_z_of refLibm g sample_idle Metric.aes = Dbl.fin 4 ∧
        abs_z_of refLibm g sample_idle Metric.aes ≠ Dbl.fin 0) := by
  refine ⟨fun g x m h => ?_, fun L bg x b hbg h => ?_, abs_z_nonfinite, rfl, _,
    run_history_aes_spread refLibm, ?_, ?_, ?_⟩
  · rw [update_stat, not_accepted x m h]
    rfl
  · obtain ⟨bg', h1, -, -, hs⟩ := baseline_update_some L bg x hbg
    refine ⟨bg', h1, ?_⟩
    rw [hs b, not_accepted x b.metric h]
    rfl
  · rw [update_stat, not_accepted sample_idle Metric.aes (Or.inr ⟨rfl, rfl⟩)]
    rfl
  · have hz := z_of_after_pairs Metric.aes
    rw [if_pos rfl] at hz
    rw [(abs_z_of_fin refLibm (model_after_pairs 150) sample_idle Metric.aes).1, hz]
  · have hz := z_of_after_pairs Metric.aes
    rw [if_pos rfl] at hz
    rw [(abs_z_of_fin refLibm (model_after_pairs 150) sample_idle Metric.aes).1, hz]
    simp


/-! ## Welford's recurrence against the textbook definitions -/

theorem sum_sq_shift (c : ℚ) (xs : List ℚ) :
    (xs.map (fun x => (x - c) ^ 2)).sum
      = (xs.map (fun x => x ^ 2)).sum - 2 * c * xs.sum + (xs.length : ℚ) * c ^ 2 := by
  induction xs with
  | nil => simp
  | cons x xs ih =>
    simp only [List.map_cons, List.sum_cons, List.length_cons, Nat.cast_add, Nat.cast_one, ih]
    ring

theorem sum_sq_dev_eq (xs : List ℚ) (hne : xs ≠ []) :
    sum_sq_dev xs = (xs.map (fun x => x ^ 2)).sum - xs.sum ^ 2 / (xs.length : ℚ) := by
  have hlen : (xs.length : ℚ) ≠ 0 := by
    have : 0 < xs.length := List.length_pos.2 hne
    positivity
  rw [sum_sq_dev, sum_sq_shift, mean_of]
  field_simp
  ring

/-- One step of the recurrence on the sums `S1 = sum of x`, `S2 = sum of x^2`. -/
theorem running_update_sums (n : Nat) (S1 S2 x : ℚ) (hn : n + 1 < 2 ^ 64)
    (h0 : n = 0 → S1 = 0 ∧ S2 = 0) :
    running_update
        { count := n, mean := Dbl.fin (S1 / n), m2 := Dbl.fin (S2 - S1 ^ 2 / n) } (Dbl.fin x)
      = { count := n + 1, mean := Dbl.fin ((S1 + x) / ((n + 1 : Nat) : ℚ)),
          m2 := Dbl.fin (S2 + x ^ 2 - (S1 + x) ^ 2 / ((n + 1 : Nat) : ℚ)) } := by
  rw [running_update_fin n _ _ x hn]
  have h1 : ((n : ℚ) + 1) ≠ 0 := by positivity
  by_cases hz : n = 0
  · obtain ⟨hS1, hS2⟩ := h0 hz
    subst hz hS1 hS2
    simp
  · have hq : (n : ℚ) ≠ 0 := by exact_mod_cast hz
    congr 1
    · congr 1
      push_cast
      field_simp
      ring
    · congr 1
      push_cast
      field_simp
      ring

theorem running_foldl_sums (xs : List ℚ) :
    ∀ (n : Nat) (S1 S2 : ℚ), n + xs.length < 2 ^ 64 → (n = 0 → S1 = 0 ∧ S2 = 0) →
      (xs.map Dbl.fin).foldl running_update
          { count := n, mean := Dbl.fin (S1 / n), m2 := Dbl.fin (S2 - S1 ^ 2 / n) }
        = { count := n + xs.length
            mean := Dbl.fin ((S1 + xs.sum) / ((n + xs.length : Nat) : ℚ))
            m2 := Dbl.fin (S2 + (xs.map (fun x => x ^ 2)).sum
              - (S1 + xs.sum) ^ 2 / ((n + xs.length : Nat) : ℚ)) } := by
  induction xs with
  | nil => intro n S1 S2 _ _; simp
  | cons x xs ih =>
    intro n S1 S2 hlen h0
    simp only [List.length_cons] at hlen
    simp only [List.map_cons, List.foldl_cons]
    rw [running_update_sums n S1 S2 x (by omega) h0, ih (n + 1) (S1 + x) (S2 + x ^ 2) (by omega)
      (fun h => absurd h (Nat.succ_ne_zero n))]
    have e : n + 1 + xs.length = n + (xs.length + 1) := by omega
    simp only [List.length_cons, List.sum_cons, List.map_cons, e, add_assoc]

theorem running_fold_closed (xs : List ℚ) (hne : xs ≠ []) (hlen : xs.length < 2 ^ 64) :
    running_fold xs
      = { count := xs.length, mean := Dbl.fin (mean_of xs), m2 := Dbl.fin (sum_sq_dev xs) } := by
  have h := running_foldl_sums xs 0 0 0 (by omega) (fun _ => ⟨rfl, rfl⟩)
  have hz : (running_metric_zero : running_metric)
      = { count := 0, mean := Dbl.fin (0 / ((0 : Nat) : ℚ)),
          m2 := Dbl.fin (0 - 0 ^ 2 / ((0 : Nat) : ℚ)) } := by
    simp [running_metric_zero]
  rw [running_fold, hz, h, sum_sq_dev_eq xs hne, mean_of]
  simp

theorem welford_update_core_eq (L : Libm) (m : metric_stat Dbl) (x : Dbl) :
    (welford_update L m x).core = running_update m.core x := by
  obtain ⟨c1, c2, c3⟩ := welford_update_core L m x
  simp only [metric_stat.core, running_update, c1, c2, c3]

theorem welford_foldl_core (L : Libm) (ys : List Dbl) :
    ∀ acc : metric_stat Dbl,
      (ys.foldl (welford_update L) acc).core = ys.foldl running_update acc.core := by
  induction ys with
  | nil => intro acc; rfl
  | cons y ys ih =>
    intro acc
    simp only [List.foldl_cons]
    rw [ih, welford_update_core_eq]

theorem welford_fold_core (L : Libm) (xs : List ℚ) :
    (welford_fold L xs).core = running_fold xs := by
  rw [welford_fold, welford_foldl_core]
  rfl

theorem welford_fold_last (L : Libm) (ys : List ℚ) (x : ℚ) :
    welford_fold L (ys ++ [x]) = welford_update L (welford_fold L ys) (Dbl.fin x) := by
  simp [welford_fold, List.foldl_append]

/-- C14: for every non-empty sequence of finite values (shorter than `2^64`) fed by Welford
updates into a zeroed statistic, in exact arithmetic `count = n`, `mean` is the textbook mean
and `m2` the textbook sum of squared deviations, in the pipeline model and in the baseline
store; for `n >= 2` the derived variance `m2 / (n - 1)` is the textbook sample variance. -/
theorem C14_welford_matches_textbook (L : Libm) (xs : List ℚ) (hne : xs ≠ [])
    (hlen : xs.length < 2 ^ 64) :
    ((running_fold xs).count = xs.length ∧
      (running_fold xs).mean = Dbl.fin (mean_of xs) ∧
      (running_fold xs).m2 = Dbl.fin (sum_sq_dev xs)) ∧
    ((welford_fold L xs).count = xs.length ∧
      (welford_fold L xs).mean = Dbl.fin (mean_of xs) ∧
      (welford_fold L xs).m2 = Dbl.fin (sum_sq_dev xs)) ∧
    (2 ≤ xs.length →
      running_variance (running_fold xs) = Dbl.fin (sample_variance xs) ∧
      (welford_fold L xs).variance = Dbl.fin (sample_variance xs) ∧
      (welford_fold L xs).stddev = L.sqrt (Dbl.fin (sample_variance xs))) := by
  have hr := running_fold_closed xs hne hlen
  have hc := welford_fold_core L xs
  rw [hr] at hc
  have hcount : (welford_fold L xs).count = xs.length := congrArg running_metric.count hc
  have hmean : (welford_fold L xs).mean = Dbl.fin (mean_of xs) :=
    congrArg running_metric.mean hc
  have hm2 : (welford_fold L xs).m2 = Dbl.fin (sum_sq_dev xs) := congrArg running_metric.m2 hc
  refine ⟨by rw [hr]; exact ⟨rfl, rfl, rfl⟩, ⟨hcount, hmean, hm2⟩, fun h2 => ?_⟩
  have hq : ((xs.length - 1 : Nat) : ℚ) ≠ 0 := by
    have : 0 < xs.length - 1 := by omega
    positivity
  have hcast : ((xs.length - 1 : Nat) : ℚ) = (xs.length : ℚ) - 1 := by
    rw [Nat.cast_sub (by omega)]
    simp
  have hdiv : Dbl.div (Dbl.fin (sum_sq_dev xs)) (Dbl.ofNat (xs.length - 1))
      = Dbl.fin (sample_variance xs) := by
    have hq2 : (xs.length : ℚ) - 1 ≠ 0 := by rw [← hcast]; exact hq
    simp only [Dbl.div, Dbl.ofNat, hcast, hq2, if_false, sample_variance]
  have hvar : (welford_fold L xs).variance = Dbl.fin (sample_variance xs) ∧
      (welford_fold L xs).stddev = L.sqrt (Dbl.fin (sample_variance xs)) := by
    obtain ⟨ys, x, rfl⟩ : ∃ ys x, xs = ys ++ [x] := by
      rcases List.eq_nil_or_concat xs with h | ⟨ys, x, h⟩
      · exact absurd h hne
      · exact ⟨ys, x, by simpa using h⟩
    rw [welford_fold_last] at hcount hm2 ⊢
    obtain ⟨d1, -⟩ := welford_update_derived L (welford_fold L ys) (Dbl.fin x)
    obtain ⟨v1, v2⟩ := d1 (by rw [hcount]; exact h2)
    rw [hm2, hcount, hdiv] at v1
    exact ⟨v1, by rw [v2, v1]⟩
  refine ⟨?_, hvar.1, hvar.2⟩
  rw [hr]
  exact hdiv

/-- C14 for the three values `2, 4, 9`. -/
theorem C14_welford_matches_textbook_witness :
    ([2, 4, 9] : List ℚ) ≠ [] ∧ ([2, 4, 9] : List ℚ).length < 2 ^ 64 ∧
    ((running_fold [2, 4, 9]).count = ([2, 4, 9] : List ℚ).length ∧
      (running_fold [2, 4, 9]).mean = Dbl.fin (mean_of [2, 4, 9]) ∧
      (running_fold [2, 4, 9]).m2 = Dbl.fin (sum_sq_dev [2, 4, 9])) ∧
    ((welford_fold refLibm [2, 4, 9]).count = ([2, 4, 9] : List ℚ).length ∧
      (welford_fold refLibm [2, 4, 9]).mean = Dbl.fin (mean_of [2, 4, 9]) ∧
      (welford_fold refLibm [2, 4, 9]).m2 = Dbl.fin (sum_sq_dev [2, 4, 9])) ∧
    (2 ≤ ([2, 4, 9] : List ℚ).length →
      running_variance (running_fold [2, 4, 9]) = Dbl.fin (sample_variance [2, 4, 9]) ∧
      (welford_fold refLibm [2, 4, 9]).variance = Dbl.fin (sample_variance [2, 4, 9]) ∧
      (welford_fold refLibm [2, 4, 9]).stddev
        = refLibm.sqrt (Dbl.fin (sample_variance [2, 4, 9]))) :=
  ⟨List.cons_ne_nil _ _, by norm_num,
    C14_welford_matches_textbook refLibm [2, 4, 9] (List.cons_ne_nil _ _) (by norm_num)⟩


/-! ## Byte order -/

theorem and_shifted_mask (v b k : Nat) : v &&& (b <<< k) = ((v >>> k) &&& b) <<< k := by
  apply Nat.eq_of_testBit_eq
  intro i
  simp only [Nat.testBit_and, Nat.testBit_shiftLeft, Nat.testBit_shiftRight]
  by_cases h : k ≤ i
  · simp [h, Nat.add_sub_cancel' h]
  · simp [h]

theorem mask_byte (v k : Nat) : v &&& (255 <<< k) = (v / 2 ^ k % 256) * 2 ^ k := by
  rw [and_shifted_mask, Nat.shiftLeft_eq, Nat.shiftRight_eq_div_pow]
  congr 1
  exact Nat.and_pow_two_sub_one_eq_mod _ 8

theorem or_eq_add (x y k : Nat) (hx : 2 ^ k ∣ x) (hy : y < 2 ^ k) : x ||| y = x + y := by
  obtain ⟨c, rfl⟩ := hx
  rw [← Nat.mul_add_lt_is_or hy]

theorem mask_shl (v k j : Nat) :
    (v &&& (255 <<< k)) <<< j = (v / 2 ^ k % 256) * 2 ^ (k + j) := by
  rw [mask_byte, Nat.shiftLeft_eq, Nat.mul_assoc, ← Nat.pow_add]

theorem mask_shr (v k j : Nat) :
    (v &&& (255 <<< (k + j))) >>> j = (v / 2 ^ (k + j) % 256) * 2 ^ k := by
  rw [mask_byte, Nat.shiftRight_eq_div_pow, Nat.pow_add, ← Nat.mul_assoc,
    Nat.mul_div_cancel _ (Nat.pow_pos (by norm_num))]

theorem or_bytes4 (a b c d : Nat) (hb : b < 256) (hc : c < 256) (hd : d < 256) :
    a * 2 ^ 24 ||| b * 2 ^ 16 ||| c * 2 ^ 8 ||| d
      = a * 2 ^ 24 + b * 2 ^ 16 + c * 2 ^ 8 + d := by
  rw [or_eq_add (a * 2 ^ 24) _ 24 (by norm_num) (by norm_num; omega)]
  rw [or_eq_add (a * 2 ^ 24 + b * 2 ^ 16) _ 16 (by norm_num; omega) (by norm_num; omega)]
  rw [or_eq_add (a * 2 ^ 24 + b * 2 ^ 16 + c * 2 ^ 8) _ 8 (by norm_num; omega)
    (by norm_num; omega)]

theorem or_bytes8 (a b c d e f g h : Nat) (hb : b < 256) (hc : c < 256) (hd : d < 256)
    (he : e < 256) (hf : f < 256) (hg : g < 256) (hh : h < 256) :
    a * 2 ^ 56 ||| b * 2 ^ 48 ||| c * 2 ^ 40 ||| d * 2 ^ 32 ||| e * 2 ^ 24 ||| f * 2 ^ 16 |||
        g * 2 ^ 8 ||| h
      = a * 2 ^ 56 + b * 2 ^ 48 + c * 2 ^ 40 + d * 2 ^ 32 + e * 2 ^ 24 + f * 2 ^ 16 +
        g * 2 ^ 8 + h := by
  rw [or_eq_add (a * 2 ^ 56) _ 56 (by norm_num) (by norm_num; omega)]
  rw [or_eq_add (a * 2 ^ 56 + b * 2 ^ 48) _ 48 (by norm_num; omega) (by norm_num; omega)]
  rw [or_eq_add (a * 2 ^ 56 + b * 2 ^ 48 + c * 2 ^ 40) _ 40 (by norm_num; omega)
    (by norm_num; omega)]
  rw [or_eq_add (a * 2 ^ 56 + b * 2 ^ 48 + c * 2 ^ 40 + d * 2 ^ 32) _ 32 (by norm_num; omega)
    (by norm_num; omega)]
  rw [or_eq_add (a * 2 ^ 56 + b * 2 ^ 48 + c * 2 ^ 40 + d * 2 ^ 32 + e * 2 ^ 24) _ 24
    (by norm_num; omega) (by norm_num; omega)]
  rw [or_eq_add (a * 2 ^ 56 + b * 2 ^ 48 + c * 2 ^ 40 + d * 2 ^ 32 + e * 2 ^ 24 + f * 2 ^ 16)
    _ 16 (by norm_num; omega) (by norm_num; omega)]
  rw [or_eq_add (a * 2 ^ 56 + b * 2 ^ 48 + c * 2 ^ 40 + d * 2 ^ 32 + e * 2 ^ 24 + f * 2 ^ 16
    + g * 2 ^ 8) _ 8 (by norm_num; omega) (by norm_num; omega)]

/-- The result of `bswap32` as a sum of the bytes of `v` in reverse order. -/
theorem bswap32_bytes (v : Nat) :
    bswap32 v = v % 256 * 2 ^ 24 + v / 2 ^ 8 % 256 * 2 ^ 16 + v / 2 ^ 16 % 256 * 2 ^ 8 +
      v / 2 ^ 24 % 256 := by
  have e0 : (v &&& 0x000000FF) <<< 24 = v % 256 * 2 ^ 24 := by
    simpa using mask_shl v 0 24
  have e1 : (v &&& 0x0000FF00) <<< 8 = v / 2 ^ 8 % 256 * 2 ^ 16 := mask_shl v 8 8
  have e2 : (v &&& 0x00FF0000) >>> 8 = v / 2 ^ 16 % 256 * 2 ^ 8 := mask_shr v 8 8
  have e3 : (v &&& 0xFF000000) >>> 24 = v / 2 ^ 24 % 256 := by
    simpa using mask_shr v 0 24
  unfold bswap32
  rw [e0, e1, e2, e3]
  exact or_bytes4 _ _ _ _ (Nat.mod_lt _ (by norm_num)) (Nat.mod_lt _ (by norm_num))
    (Nat.mod_lt _ (by norm_num))

/-- The result of `bswap64` as a sum of the bytes of `v` in reverse order. -/
theorem bswap64_bytes (v : Nat) :
    bswap64 v = v % 256 * 2 ^ 56 + v / 2 ^ 8 % 256 * 2 ^ 48 + v / 2 ^ 16 % 256 * 2 ^ 40 +
      v / 2 ^ 24 % 256 * 2 ^ 32 + v / 2 ^ 32 % 256 * 2 ^ 24 + v / 2 ^ 40 % 256 * 2 ^ 16 +
      v / 2 ^ 48 % 256 * 2 ^ 8 + v / 2 ^ 56 % 256 := by
  have e0 : (v &&& 0x00000000000000FF) <<< 56 = v % 256 * 2 ^ 56 := by
    simpa using mask_shl v 0 56
  have e1 : (v &&& 0x000000000000FF00) <<< 40 = v / 2 ^ 8 % 256 * 2 ^ 48 := mask_shl v 8 40
  have e2 : (v &&& 0x0000000000FF0000) <<< 24 = v / 2 ^ 16 % 256 * 2 ^ 40 := mask_shl v 16 24
  have e3 : (v &&& 0x00000000FF000000) <<< 8 = v / 2 ^ 24 % 256 * 2 ^ 32 := mask_shl v 24 8
  have e4 : (v &&& 0x000000FF00000000) >>> 8 = v / 2 ^ 32 % 256 * 2 ^ 24 := mask_shr v 24 8
  have e5 : (v &&& 0x0000FF0000000000) >>> 24 = v / 2 ^ 40 % 256 * 2 ^ 16 := mask_shr v 16 24
  have e6 : (v &&& 0x00FF000000000000) >>> 40 = v / 2 ^ 48 % 256 * 2 ^ 8 := mask_shr v 8 40
  have e7 : (v &&& 0xFF00000000000000) >>> 56 = v / 2 ^ 56 % 256 := by
    simpa using mask_shr v 0 56
  unfold bswap64
  rw [e0, e1, e2, e3, e4, e5, e6, e7]
  exact or_bytes8 _ _ _ _ _ _ _ _ (Nat.mod_lt _ (by norm_num)) (Nat.mod_lt _ (by norm_num))
    (Nat.mod_lt _ (by norm_num)) (Nat.mod_lt _ (by norm_num)) (Nat.mod_lt _ (by norm_num))
    (Nat.mod_lt _ (by norm_num)) (Nat.mod_lt _ (by norm_num))

theorem bswap32_lt (v : Nat) : bswap32 v < 2 ^ 32 := by
  rw [bswap32_bytes]
  norm_num
  omega

theorem bswap64_lt (v : Nat) : bswap64 v < 2 ^ 64 := by
  rw [bswap64_bytes]
  norm_num
  omega

theorem bytes4_digits (a b c d : Nat) (ha : a < 256) (hb : b < 256) (hc : c < 256)
    (hd : d < 256) :
    (a * 2 ^ 24 + b * 2 ^ 16 + c * 2 ^ 8 + d) % 256 = d ∧
    (a * 2 ^ 24 + b * 2 ^ 16 + c * 2 ^ 8 + d) / 2 ^ 8 % 256 = c ∧
    (a * 2 ^ 24 + b * 2 ^ 16 + c * 2 ^ 8 + d) / 2 ^ 16 % 256 = b ∧
    (a * 2 ^ 24 + b * 2 ^ 16 + c * 2 ^ 8 + d) / 2 ^ 24 % 256 = a := by
  norm_num
  refine ⟨?_, ?_, ?_, ?_⟩ <;> omega

theorem bytes8_digits (a b c d e f g h : Nat) (ha : a < 256) (hb : b < 256) (hc : c < 256)
    (hd : d < 256) (he : e < 256) (hf : f < 256) (hg : g < 256) (hh : h < 256) :
    (a * 2 ^ 56 + b * 2 ^ 48 + c * 2 ^ 40 + d * 2 ^ 32 + e * 2 ^ 24 + f * 2 ^ 16 +
      g * 2 ^ 8 + h) % 256 = h ∧
    (a * 2 ^ 56 + b * 2 ^ 48 + c * 2 ^ 40 + d * 2 ^ 32 + e * 2 ^ 24 + f * 2 ^ 16 +
      g * 2 ^ 8 + h) / 2 ^ 8 % 256 = g ∧
    (a * 2 ^ 56 + b * 2 ^ 48 + c * 2 ^ 40 + d * 2 ^ 32 + e * 2 ^ 24 + f * 2 ^ 16 +
      g * 2 ^ 8 + h) / 2 ^ 16 % 256 = f ∧
    (a * 2 ^ 56 + b * 2 ^ 48 + c * 2 ^ 40 + d * 2 ^ 32 + e * 2 ^ 24 + f * 2 ^ 16 +
      g * 2 ^ 8 + h) / 2 ^ 24 % 256 = e ∧
    (a * 2 ^ 56 + b * 2 ^ 48 + c * 2 ^ 40 + d * 2 ^ 32 + e * 2 ^ 24 + f * 2 ^ 16 +
      g * 2 ^ 8 + h) / 2 ^ 32 % 256 = d ∧
    (a * 2 ^ 56 + b * 2 ^ 48 + c * 2 ^ 40 + d * 2 ^ 32 + e * 2 ^ 24 + f * 2 ^ 16 +
      g * 2 ^ 8 + h) / 2 ^ 40 % 256 = c ∧
    (a * 2 ^ 56 + b * 2 ^ 48 + c * 2 ^ 40 + d * 2 ^ 32 + e * 2 ^ 24 + f * 2 ^ 16 +
      g * 2 ^ 8 + h) / 2 ^ 48 % 256 = b ∧
    (a * 2 ^ 56 + b * 2 ^ 48 + c * 2 ^ 40 + d * 2 ^ 32 + e * 2 ^ 24 + f * 2 ^ 16 +
      g * 2 ^ 8 + h) / 2 ^ 56 % 256 = a := by
  norm_num
  refine ⟨?_, ?_, ?_, ?_, ?_, ?_, ?_, ?_⟩ <;> omega

theorem bswap32_bswap32 (v : Nat) (h : v < 2 ^ 32) : bswap32 (bswap32 v) = v := by
  rw [bswap32_bytes (bswap32 v), bswap32_bytes v]
  obtain ⟨h0, h1, h2, h3⟩ := bytes4_digits (v % 256) (v / 2 ^ 8 % 256) (v / 2 ^ 16 % 256)
    (v / 2 ^ 24 % 256) (Nat.mod_lt _ (by norm_num)) (Nat.mod_lt _ (by norm_num))
    (Nat.mod_lt _ (by norm_num)) (Nat.mod_lt _ (by norm_num))
  rw [h0, h1, h2, h3]
  clear h0 h1 h2 h3
  norm_num at h ⊢
  omega

theorem bswap64_bswap64 (v : Nat) (h : v < 2 ^ 64) : bswap64 (bswap64 v) = v := by
  rw [bswap64_bytes (bswap64 v), bswap64_bytes v]
  obtain ⟨h0, h1, h2, h3, h4, h5, h6, h7⟩ := bytes8_digits (v % 256) (v / 2 ^ 8 % 256)
    (v / 2 ^ 16 % 256) (v / 2 ^ 24 % 256) (v / 2 ^ 32 % 256) (v / 2 ^ 40 % 256)
    (v / 2 ^ 48 % 256) (v / 2 ^ 56 % 256) (Nat.mod_lt _ (by norm_num))
    (Nat.mod_lt _ (by norm_num)) (Nat.mod_lt _ (by norm_num)) (Nat.mod_lt _ (by norm_num))
    (Nat.mod_lt _ (by norm_num)) (Nat.mod_lt _ (by norm_num)) (Nat.mod_lt _ (by norm_num))
    (Nat.mod_lt _ (by norm_num))
  rw [h0, h1, h2, h3, h4, h5, h6, h7]
  clear h0 h1 h2 h3 h4 h5 h6 h7
  norm_num at h ⊢
  omega


/-! ## Save and load round trip -/

theorem fread_append (n : Nat) (xs rest : List Nat) (h : xs.length = n) :
    fread n (xs ++ rest) = some (xs, rest) := by
  subst h
  simp [fread]

theorem object_bytes_length (little : Bool) (size v : Nat) :
    (object_bytes little size v).length = size := by
  cases little <;> simp [object_bytes]

theorem object_value_bytes4 (little : Bool) (v : Nat) (h : v < 2 ^ 32) :
    object_value little (object_bytes little 4 v) = v := by
  have e : object_value little (object_bytes little 4 v)
      = v % 256 + 256 * (v / 256 % 256 + 256 * (v / 65536 % 256 + 256 * (v / 16777216 % 256))) := by
    cases little <;> simp [object_value, object_bytes, List.range_succ]
  rw [e]
  norm_num at h
  omega

theorem object_value_bytes8 (little : Bool) (v : Nat) (h : v < 2 ^ 64) :
    object_value little (object_bytes little 8 v) = v := by
  have e : object_value little (object_bytes little 8 v)
      = v % 256 + 256 * (v / 256 % 256 + 256 * (v / 65536 % 256 + 256 * (v / 16777216 % 256 +
        256 * (v / 4294967296 % 256 + 256 * (v / 1099511627776 % 256 +
        256 * (v / 281474976710656 % 256 + 256 * (v / 72057594037927936 % 256))))))) := by
    cases little <;> simp [object_value, object_bytes, List.range_succ]
  rw [e]
  norm_num at h
  omega

theorem read_write_u32 (little : Bool) (v : Nat) (rest : List Nat) (h : v < 2 ^ 32) :
    read_u32_le little (write_u32_le little v ++ rest) = some (v, rest) := by
  have hl : host_to_le32 little v < 2 ^ 32 := by
    cases little
    · exact bswap32_lt v
    · exact h
  rw [read_u32_le, write_u32_le, fread_append 4 _ _ (object_bytes_length _ _ _)]
  simp only [object_value_bytes4 little _ hl]
  cases little
  · simp [le32_to_host, host_to_le32, bswap32_bswap32 v h]
  · simp [le32_to_host, host_to_le32]

theorem read_write_u64 (little : Bool) (v : Nat) (rest : List Nat) (h : v < 2 ^ 64) :
    read_u64_le little (write_u64_le little v ++ rest) = some (v, rest) := by
  have hl : host_to_le64 little v < 2 ^ 64 := by
    cases little
    · exact bswap64_lt v
    · exact h
  rw [read_u64_le, write_u64_le, fread_append 8 _ _ (object_bytes_length _ _ _)]
  simp only [object_value_bytes8 little _ hl]
  cases little
  · simp [le64_to_host, host_to_le64, bswap64_bswap64 v h]
  · simp [le64_to_host, host_to_le64]

theorem read_write_f64 (little : Bool) (v : Nat) (rest : List Nat) (h : v < 2 ^ 64) :
    read_f64_le little (write_f64_le little v ++ rest) = some (v, rest) := by
  rw [read_f64_le, write_f64_le, double_to_u64, read_write_u64 little v rest h]
  rfl

theorem read_write_metric (little : Bool) (m m0 : metric_stat Nat) (rest : List Nat)
    (h : m.is_u64) :
    read_metric little (write_metric little m ++ rest) m0 = (some rest, m) := by
  obtain ⟨h1, h2, h3, h4, h5⟩ := h
  simp only [read_metric, write_metric, List.append_assoc, read_write_u64 little _ _ h1,
    read_write_f64 little _ _ h2, read_write_f64 little _ _ h3, read_write_f64 little _ _ h4,
    read_write_f64 little _ _ h5]

theorem load_saved_bytes (little : Bool) (g g0 : baseline_state Nat)
    (hg : ∀ b : BMetric, (b.stat g).is_u64) (hi : g0.initialized ≠ 0) (hp : g0.db_path ≠ "") :
    baseline_load little (fopen_result.opened (baseline_file_bytes little g)) true g0
      = (0, { initialized := g0.initialized, db_path := g0.db_path, aes := g.aes,
              cycles := g.cycles, cache_miss_rate := g.cache_miss_rate,
              files_modified := g.files_modified, files_renamed := g.files_renamed,
              files_deleted := g.files_deleted, disk_write := g.disk_write }) := by
  have h1 := hg BMetric.aes
  have h2 := hg BMetric.cycles
  have h3 := hg BMetric.cache_miss_rate
  have h4 := hg BMetric.files_modified
  have h5 := hg BMetric.files_renamed
  have h6 := hg BMetric.files_deleted
  have h7 := hg BMetric.disk_write
  simp only [BMetric.stat] at h1 h2 h3 h4 h5 h6 h7
  simp only [baseline_load, baseline_load_locked, clear_metrics_locked, hi, hp,
    baseline_file_bytes, List.append_assoc,
    fread_append 8 k_baseline_magic _ rfl,
    read_write_u32 little BASELINE_VERSION _ (by decide),
    read_write_u32 little k_endian_marker _ (by decide),
    read_write_metric little _ _ _ h1, read_write_metric little _ _ _ h2,
    read_write_metric little _ _ _ h3, read_write_metric little _ _ _ h4,
    read_write_metric little _ _ _ h5, read_write_metric little _ _ _ h6]
  have h7b := read_write_metric little g.disk_write ⟨0, 0, 0, 0, 0⟩ [] h7
  simp only [List.append_nil] at h7b
  simp [h7b]

theorem save_no_fault (little : Bool) (g : baseline_state Nat) (d : disk)
    (hi : g.initialized ≠ 0) (hp : g.db_path ≠ "")
    (hfit : build_tmp_path g.db_path PATH_MAX ≠ none) :
    baseline_save little save_fault.no_fault g d
      = (0, { db := some (baseline_file_bytes little g), tmp := none }) := by
  cases hb : build_tmp_path g.db_path PATH_MAX with
  | none => exact absurd hb hfit
  | some t => simp [baseline_save, baseline_save_locked, hi, hp, hb]

/-- C20: on a host of either byte order, `baseline_save` of an initialized store whose
path leaves room for the `.tmp` suffix and whose counts and bit patterns are 64-bit values
returns 0 when no library call fails, and `baseline_load` of the file it leaves, into a
store with the same path, returns 0 and restores count, mean, m2, variance and stddev of
all seven metrics bit for bit. -/
theorem C20_save_load_round_trip (little : Bool) (g g0 : baseline_state Nat) (d : disk)
    (hi : g.initialized ≠ 0) (hp : g.db_path ≠ "")
    (hfit : build_tmp_path g.db_path PATH_MAX ≠ none)
    (hg : ∀ b : BMetric, (b.stat g).is_u64)
    (hi0 : g0.initialized ≠ 0) (hp0 : g0.db_path = g.db_path) :
    ∃ d1 g1,
      baseline_save little save_fault.no_fault g d = (0, d1) ∧
      baseline_load little (fopen_rb d1) true g0 = (0, g1) ∧
      ∀ b : BMetric, b.stat g1 = b.stat g := by
  refine ⟨_, _, save_no_fault little g d hi hp hfit,
    load_saved_bytes little g g0 hg hi0 (by rw [hp0]; exact hp), ?_⟩
  intro b
  cases b <;> rfl

theorem C20_save_load_round_trip_witness :
    ∃ d1 g1,
      baseline_save false save_fault.no_fault baseline_bits disk_absent = (0, d1) ∧
      baseline_load false (fopen_rb d1) true (clear_metrics_locked baseline_bits) = (0, g1) ∧
      ∀ b : BMetric, b.stat g1 = b.stat baseline_bits :=
  C20_save_load_round_trip false baseline_bits (clear_metrics_locked baseline_bits)
    disk_absent (by decide) (by decide) (by decide)
    (by intro b; cases b <;> simp [BMetric.stat, metric_stat.is_u64, baseline_bits, stat_bits])
    (by decide) (by decide)


/-! ## Layout of the baseline file -/

theorem bswap64_digits (v : Nat) :
    bswap64 v % 256 = v / 2 ^ 56 % 256 ∧
    bswap64 v / 2 ^ 8 % 256 = v / 2 ^ 48 % 256 ∧
    bswap64 v / 2 ^ 16 % 256 = v / 2 ^ 40 % 256 ∧
    bswap64 v / 2 ^ 24 % 256 = v / 2 ^ 32 % 256 ∧
    bswap64 v / 2 ^ 32 % 256 = v / 2 ^ 24 % 256 ∧
    bswap64 v / 2 ^ 40 % 256 = v / 2 ^ 16 % 256 ∧
    bswap64 v / 2 ^ 48 % 256 = v / 2 ^ 8 % 256 ∧
    bswap64 v / 2 ^ 56 % 256 = v % 256 := by
  rw [bswap64_bytes v]
  exact bytes8_digits (v % 256) (v / 2 ^ 8 % 256)
    (v / 2 ^ 16 % 256) (v / 2 ^ 24 % 256) (v / 2 ^ 32 % 256) (v / 2 ^ 40 % 256)
    (v / 2 ^ 48 % 256) (v / 2 ^ 56 % 256) (Nat.mod_lt _ (by norm_num))
    (Nat.mod_lt _ (by norm_num)) (Nat.mod_lt _ (by norm_num)) (Nat.mod_lt _ (by norm_num))
    (Nat.mod_lt _ (by norm_num)) (Nat.mod_lt _ (by norm_num)) (Nat.mod_lt _ (by norm_num))
    (Nat.mod_lt _ (by norm_num))

theorem write_u64_le_eq_spec (little : Bool) (v : Nat) :
    write_u64_le little v = spec_le_bytes 8 v := by
  cases little
  · obtain ⟨h0, h1, h2, h3, h4, h5, h6, h7⟩ := bswap64_digits v
    norm_num at h0 h1 h2 h3 h4 h5 h6 h7
    simp [write_u64_le, object_bytes, host_to_le64, spec_le_bytes, List.range_succ,
      h0, h1, h2, h3, h4, h5, h6, h7]
  · simp [write_u64_le, object_bytes, host_to_le64, spec_le_bytes]

theorem write_metric_eq_spec (little : Bool) (m : metric_stat Nat) :
    write_metric little m = spec_metric_block m := by
  simp only [write_metric, write_f64_le, double_to_u64, write_u64_le_eq_spec, spec_metric_block]

theorem write_version_bytes (little : Bool) :
    write_u32_le little BASELINE_VERSION = [1, 0, 0, 0] := by
  cases little <;> decide

theorem write_marker_bytes (little : Bool) :
    write_u32_le little k_endian_marker = [4, 3, 2, 1] := by
  cases little <;> decide

theorem spec_le_bytes_length (n v : Nat) : (spec_le_bytes n v).length = n := by
  simp [spec_le_bytes]

theorem spec_metric_block_length (m : metric_stat Nat) : (spec_metric_block m).length = 40 := by
  simp [spec_metric_block, spec_le_bytes_length]

theorem baseline_file_bytes_eq_spec (little : Bool) (g : baseline_state Nat) :
    baseline_file_bytes little g = spec_baseline_file g := by
  have hv : spec_le_bytes 4 1 = [1, 0, 0, 0] := by decide
  have hm : spec_le_bytes 4 0x01020304 = [4, 3, 2, 1] := by decide
  have hk : "AEGBL001".toList.map Char.toNat = k_baseline_magic := by decide
  simp only [baseline_file_bytes, spec_baseline_file, write_metric_eq_spec,
    write_version_bytes, write_marker_bytes, hv, hm, hk]

theorem spec_baseline_file_length (g : baseline_state Nat) :
    (spec_baseline_file g).length = 296 := by
  simp [spec_baseline_file, spec_metric_block_length, spec_le_bytes_length]

/-- C21: on a host of either byte order, a `baseline_save` in which no library call fails
leaves a db file of exactly 296 bytes laid out as the spec says: the eight characters
`AEGBL001`, the bytes 01 00 00 00 of version 1, the bytes 04 03 02 01 of the endian marker,
then the 40-byte blocks of aes, cycles, cache_miss_rate, files_modified, files_renamed,
files_deleted and disk_write, each block count, mean, m2, variance, stddev as little-endian
64-bit values; no other metric is written. -/
theorem C21_saved_file_layout (little : Bool) (g : baseline_state Nat) (d : disk)
    (hi : g.initialized ≠ 0) (hp : g.db_path ≠ "")
    (hfit : build_tmp_path g.db_path PATH_MAX ≠ none) :
    baseline_save little save_fault.no_fault g d
      = (0, { db := some (spec_baseline_file g), tmp := none }) ∧
    (spec_baseline_file g).length = 296 ∧
    (spec_baseline_file g).take 16
      = [0x41, 0x45, 0x47, 0x42, 0x4C, 0x30, 0x30, 0x31, 1, 0, 0, 0, 4, 3, 2, 1] ∧
    (spec_baseline_file g).drop 16
      = spec_metric_block g.aes ++ spec_metric_block g.cycles ++
        spec_metric_block g.cache_miss_rate ++ spec_metric_block g.files_modified ++
        spec_metric_block g.files_renamed ++ spec_metric_block g.files_deleted ++
        spec_metric_block g.disk_write ∧
    ∀ b : BMetric, (spec_metric_block (b.stat g)).length = 40 := by
  have hv : spec_le_bytes 4 1 = [1, 0, 0, 0] := by decide
  have hm : spec_le_bytes 4 0x01020304 = [4, 3, 2, 1] := by decide
  have hk : "AEGBL001".toList.map Char.toNat = [0x41, 0x45, 0x47, 0x42, 0x4C, 0x30, 0x30, 0x31] := by
    decide
  refine ⟨?_, spec_baseline_file_length g, ?_, ?_, fun b => spec_metric_block_length _⟩
  · rw [save_no_fault little g d hi hp hfit, baseline_file_bytes_eq_spec]
  · simp [spec_baseline_file, hv, hm, hk]
  · simp [spec_baseline_file, hv, hm, hk]

theorem C21_saved_file_layout_witness :
    baseline_save false save_fault.no_fault baseline_bits disk_absent
      = (0, { db := some (spec_baseline_file baseline_bits), tmp := none }) ∧
    (spec_baseline_file baseline_bits).length = 296 ∧
    (spec_baseline_file baseline_bits).take 16
      = [0x41, 0x45, 0x47, 0x42, 0x4C, 0x30, 0x30, 0x31, 1, 0, 0, 0, 4, 3, 2, 1] ∧
    (spec_baseline_file baseline_bits).drop 16
      = spec_metric_block baseline_bits.aes ++ spec_metric_block baseline_bits.cycles ++
        spec_metric_block baseline_bits.cache_miss_rate ++
        spec_metric_block baseline_bits.files_modified ++
        spec_metric_block baseline_bits.files_renamed ++
        spec_metric_block baseline_bits.files_deleted ++
        spec_metric_block baseline_bits.disk_write ∧
    ∀ b : BMetric, (spec_metric_block (b.stat baseline_bits)).length = 40 :=
  C21_saved_file_layout false baseline_bits disk_absent (by decide) (by decide) (by decide)


/-! ## Which files `baseline_load_locked` accepts -/

theorem list_length_four {xs : List Nat} (h : xs.length = 4) :
    ∃ a b c d, xs = [a, b, c, d] := by
  match xs, h with
  | [a, b, c, d], _ => exact ⟨a, b, c, d, rfl⟩

theorem decode_u32_eq_spec (little : Bool) (xs : List Nat) (hl : xs.length = 4)
    (hb : ∀ b ∈ xs, b < 256) :
    le32_to_host little (object_value little xs) = spec_le_value xs := by
  obtain ⟨a, b, c, d, rfl⟩ := list_length_four hl
  have ha : a < 256 := hb a (by simp)
  have hb2 : b < 256 := hb b (by simp)
  have hc : c < 256 := hb c (by simp)
  have hd : d < 256 := hb d (by simp)
  cases little
  · have e : object_value false [a, b, c, d] = a * 2 ^ 24 + b * 2 ^ 16 + c * 2 ^ 8 + d := by
      simp [object_value]
      ring
    obtain ⟨h0, h1, h2, h3⟩ := bytes4_digits a b c d ha hb2 hc hd
    simp only [le32_to_host, e, Bool.false_eq_true, if_false, bswap32_bytes, h0, h1, h2, h3]
    simp [spec_le_value]
    ring
  · simp [le32_to_host, object_value, spec_le_value]

theorem read_u32_le_eq (little : Bool) (fp : List Nat) (hb : ∀ b ∈ fp, b < 256) :
    read_u32_le little fp
      = if 4 ≤ fp.length then some (spec_le_value (fp.take 4), fp.drop 4) else none := by
  by_cases h : 4 ≤ fp.length
  · have hd := decode_u32_eq_spec little (fp.take 4) (by simp [h])
      (fun b hm => hb b (List.mem_of_mem_take hm))
    simp [read_u32_le, fread, h, hd]
  · simp [read_u32_le, fread, h]

theorem read_u64_le_eq (little : Bool) (fp : List Nat) :
    read_u64_le little fp
      = if 8 ≤ fp.length
        then some (le64_to_host little (object_value little (fp.take 8)), fp.drop 8)
        else none := by
  by_cases h : 8 ≤ fp.length <;> simp [read_u64_le, fread, h]

theorem read_f64_le_eq (little : Bool) (fp : List Nat) :
    read_f64_le little fp
      = if 8 ≤ fp.length
        then some (le64_to_host little (object_value little (fp.take 8)), fp.drop 8)
        else none := by
  by_cases h : 8 ≤ fp.length <;> simp [read_f64_le, read_u64_le_eq, h, u64_to_double]

/-- A metric block is read completely exactly when 40 bytes are left. -/
theorem read_metric_cases (little : Bool) (fp : List Nat) (m : metric_stat Nat) :
    (40 ≤ fp.length ∧ ∃ m1, read_metric little fp m = (some (fp.drop 40), m1)) ∨
    (fp.length < 40 ∧ ∃ m1, read_metric little fp m = (none, m1)) := by
  simp only [read_metric, read_u64_le_eq, read_f64_le_eq, List.length_drop]
  by_cases h1 : 8 ≤ fp.length
  · by_cases h2 : 8 ≤ fp.length - 8
    · by_cases h3 : 8 ≤ fp.length - 16
      · by_cases h4 : 8 ≤ fp.length - 24
        · by_cases h5 : 8 ≤ fp.length - 32
          · left
            refine ⟨by omega, ?_⟩
            simp [h1, h2, h3, h4, h5]
          · right
            refine ⟨by omega, ?_⟩
            simp [h1, h2, h3, h4, h5]
        · right
          refine ⟨by omega, ?_⟩
          simp [h1, h2, h3, h4]
      · right
        refine ⟨by omega, ?_⟩
        simp [h1, h2, h3]
    · right
      refine ⟨by omega, ?_⟩
      simp [h1, h2]
  · right
    refine ⟨by omega, ?_⟩
    simp [h1]


theorem fread_none {n : Nat} {fp : List Nat} (h : fread n fp = none) : fp.length < n := by
  by_cases c : n ≤ fp.length
  · simp [fread, c] at h
  · omega

theorem fread_some {n : Nat} {fp a r : List Nat} (h : fread n fp = some (a, r)) :
    n ≤ fp.length ∧ a = fp.take n ∧ r = fp.drop n := by
  by_cases c : n ≤ fp.length
  · simp [fread, c] at h
    exact ⟨c, h.1.symm, h.2.symm⟩
  · simp [fread, c] at h

theorem read_u32_le_none {little : Bool} {fp : List Nat} (hb : ∀ b ∈ fp, b < 256)
    (h : read_u32_le little fp = none) : fp.length < 4 := by
  rw [read_u32_le_eq little fp hb] at h
  by_cases c : 4 ≤ fp.length
  · simp [c] at h
  · omega

theorem read_u32_le_some {little : Bool} {fp r : List Nat} {v : Nat} (hb : ∀ b ∈ fp, b < 256)
    (h : read_u32_le little fp = some (v, r)) :
    4 ≤ fp.length ∧ v = spec_le_value (fp.take 4) ∧ r = fp.drop 4 := by
  rw [read_u32_le_eq little fp hb] at h
  by_cases c : 4 ≤ fp.length
  · simp [c] at h
    exact ⟨c, h.1.symm, h.2.symm⟩
  · simp [c] at h

theorem read_metric_none {little : Bool} {fp : List Nat} {m m1 : metric_stat Nat}
    (h : read_metric little fp m = (none, m1)) : fp.length < 40 := by
  rcases read_metric_cases little fp m with ⟨_, m2, e⟩ | ⟨hl, _⟩
  · rw [e] at h
    simp at h
  · exact hl

theorem read_metric_some {little : Bool} {fp r : List Nat} {m m1 : metric_stat Nat}
    (h : read_metric little fp m = (some r, m1)) : 40 ≤ fp.length ∧ r = fp.drop 40 := by
  rcases read_metric_cases little fp m with ⟨hl, m2, e⟩ | ⟨_, m2, e⟩
  · rw [e] at h
    simp at h
    exact ⟨hl, h.1.symm⟩
  · rw [e] at h
    simp at h

theorem load_locked_fst (little : Bool) (content : List Nat) (fclose_ok : Bool)
    (g : baseline_state Nat) (hi : g.initialized ≠ 0) (hp : g.db_path ≠ "")
    (hb : ∀ b ∈ content, b < 256) (R : Int)
    (hpos : spec_file_verifies content → fclose_ok = true → R = 0)
    (hneg : ¬ (spec_file_verifies content ∧ fclose_ok = true) → R = -1) :
    (baseline_load_locked little (fopen_result.opened content) fclose_ok g).1 = R := by
  have hb8 : ∀ b ∈ content.drop 8, b < 256 := fun b hm => hb b (List.mem_of_mem_drop hm)
  have hb12 : ∀ b ∈ (content.drop 8).drop 4, b < 256 :=
    fun b hm => hb8 b (List.mem_of_mem_drop hm)
  simp only [baseline_load_locked, hi, hp, decide_False, Bool.or_self, Bool.false_eq_true,
    if_false]
  split
  next h =>
    have := fread_none h
    exact (hneg (fun hv => by have := hv.1.1; omega)).symm
  next magic fp1 h =>
    obtain ⟨l1, rfl, rfl⟩ := fread_some h
    split
    next hm =>
      exact (hneg (fun hv => hm hv.1.2.1)).symm
    next hm =>
      split
      next h2 =>
        have := read_u32_le_none hb8 h2
        simp only [List.length_drop] at this
        exact (hneg (fun hv => by have := hv.1.1; omega)).symm
      next version fp2 h2 =>
        obtain ⟨l2, rfl, rfl⟩ := read_u32_le_some hb8 h2
        simp only [List.length_drop] at l2
        split
        next h3 =>
          have := read_u32_le_none hb12 h3
          simp only [List.length_drop] at this
          exact (hneg (fun hv => by have := hv.1.1; omega)).symm
        next marker fp3 h3 =>
          obtain ⟨l3, rfl, rfl⟩ := read_u32_le_some hb12 h3
          simp only [List.length_drop] at l3
          split
          next hver =>
            exact (hneg (fun hv => hver hv.1.2.2.1)).symm
          next hver =>
            split
            next hmark =>
              refine (hneg (fun hv => hmark ?_)).symm
              have := hv.1.2.2.2
              simpa [List.drop_drop, k_endian_marker] using this
            next hmark =>
              split
              next m0 hr0 =>
                have := read_metric_none hr0
                simp only [List.length_drop] at this
                exact (hneg (fun hv => by have := hv.1.1; omega)).symm
              next fq0 m0 hr0 =>
                obtain ⟨q0, rfl⟩ := read_metric_some hr0
                simp only [List.length_drop] at q0
                split
                next m1 hr1 =>
                  have := read_metric_none hr1
                  simp only [List.length_drop] at this
                  exact (hneg (fun hv => by have := hv.1.1; omega)).symm
                next fq1 m1 hr1 =>
                  obtain ⟨q1, rfl⟩ := read_metric_some hr1
                  simp only [List.length_drop] at q1
                  split
                  next m2 hr2 =>
                    have := read_metric_none hr2
                    simp only [List.length_drop] at this
                    exact (hneg (fun hv => by have := hv.1.1; omega)).symm
                  next fq2 m2 hr2 =>
                    obtain ⟨q2, rfl⟩ := read_metric_some hr2
                    simp only [List.length_drop] at q2
                    split
                    next m3 hr3 =>
                      have := read_metric_none hr3
                      simp only [List.length_drop] at this
                      exact (hneg (fun hv => by have := hv.1.1; omega)).symm
                    next fq3 m3 hr3 =>
                      obtain ⟨q3, rfl⟩ := read_metric_some hr3
                      simp only [List.length_drop] at q3
                      split
                      next m4 hr4 =>
                        have := read_metric_none hr4
                        simp only [List.length_drop] at this
                        exact (hneg (fun hv => by have := hv.1.1; omega)).symm
                      next fq4 m4 hr4 =>
                        obtain ⟨q4, rfl⟩ := read_metric_some hr4
                        simp only [List.length_drop] at q4
                        split
                        next m5 hr5 =>
                          have := read_metric_none hr5
                          simp only [List.length_drop] at this
                          exact (hneg (fun hv => by have := hv.1.1; omega)).symm
                        next fq5 m5 hr5 =>
                          obtain ⟨q5, rfl⟩ := read_metric_some hr5
                          simp only [List.length_drop] at q5
                          split
                          next m6 hr6 =>
                            have := read_metric_none hr6
                            simp only [List.length_drop] at this
                            exact (hneg (fun hv => by have := hv.1.1; omega)).symm
                          next fq6 m6 hr6 =>
                            obtain ⟨q6, rfl⟩ := read_metric_some hr6
                            simp only [List.length_drop] at q6
                            have hv : spec_file_verifies content := by
                              refine ⟨by omega, not_not.mp hm, not_not.mp hver, ?_⟩
                              have := not_not.mp hmark
                              simpa [List.drop_drop, k_endian_marker] using this
                            cases fclose_ok
                            · exact (hneg (fun h => by simp at h)).symm
                            · exact (hpos hv rfl).symm


/-! ## Failing loads and failing saves -/

theorem load_locked_initialized (little : Bool) (file : fopen_result) (fclose_ok : Bool)
    (g : baseline_state Nat) :
    (baseline_load_locked little file fclose_ok g).2.initialized = g.initialized := by
  unfold baseline_load_locked
  repeat' split
  all_goals rfl

theorem init_rejects (little : Bool) (db_path : String) (content : List Nat)
    (fclose_ok : Bool) (g : baseline_state Nat) (hp : db_path ≠ "")
    (hl : db_path.utf8ByteSize < PATH_MAX) (hb : ∀ b ∈ content, b < 256)
    (hv : ¬ spec_file_verifies content) :
    baseline_init little db_path (fopen_result.opened content) fclose_ok g
      = (-1, baseline_state_zeroed) := by
  have h := load_locked_fst little content fclose_ok
    (clear_metrics_locked { baseline_state_zeroed with initialized := 1, db_path := db_path })
    (by simp [clear_metrics_locked]) (by simpa [clear_metrics_locked] using hp) hb (-1)
    (fun h => absurd h hv) (fun _ => rfl)
  have hl2 : ¬ db_path.utf8ByteSize ≥ PATH_MAX := by omega
  simp only [baseline_init, hp, hl2, if_false, h]
  simp

/-- C22: for a non-empty path that fits `db_path`, `baseline_init` returns 0 and leaves an
initialized store with all seven statistics zero when no file exists; when the file exists
but is shorter than the 296 bytes of the format (short file, truncated metric block), or
does not start with the magic, or carries a version other than 1 or an endian marker other
than `0x01020304`, it returns -1 and leaves the store zeroed, hence not initialized. -/
theorem C22_init_absent_or_rejected (little : Bool) (db_path : String) (fclose_ok : Bool)
    (g : baseline_state Nat) (hp : db_path ≠ "") (hl : db_path.utf8ByteSize < PATH_MAX) :
    baseline_init little db_path fopen_result.ENOENT fclose_ok g
      = (0, { baseline_state_zeroed with initialized := 1, db_path := db_path }) ∧
    ∀ content : List Nat, (∀ b ∈ content, b < 256) →
      (content.length < 296 ∨ content.take 8 ≠ k_baseline_magic ∨
        spec_le_value ((content.drop 8).take 4) ≠ 1 ∨
        spec_le_value ((content.drop 12).take 4) ≠ 0x01020304) →
      baseline_init little db_path (fopen_result.opened content) fclose_ok g
        = (-1, baseline_state_zeroed) ∧
      baseline_state_zeroed.initialized = 0 := by
  have hl2 : ¬ db_path.utf8ByteSize ≥ PATH_MAX := by omega
  refine ⟨?_, fun content hb hbad => ⟨?_, rfl⟩⟩
  · simp [baseline_init, hp, hl2, baseline_load_locked, clear_metrics_locked,
      baseline_state_zeroed]
  · apply init_rejects little db_path content fclose_ok g hp hl hb
    intro hv
    obtain ⟨h1, h2, h3, h4⟩ := hv
    rcases hbad with h | h | h | h
    · omega
    · exact h h2
    · exact h h3
    · exact h h4

theorem file_cut_100_bytes : ∀ b ∈ file_cut_100, b < 256 := by decide

theorem C22_init_absent_or_rejected_witness :
    baseline_init false "baseline.db" fopen_result.ENOENT true baseline_bits
      = (0, { baseline_state_zeroed with initialized := 1, db_path := "baseline.db" }) ∧
    ∀ content : List Nat, (∀ b ∈ content, b < 256) →
      (content.length < 296 ∨ content.take 8 ≠ k_baseline_magic ∨
        spec_le_value ((content.drop 8).take 4) ≠ 1 ∨
        spec_le_value ((content.drop 12).take 4) ≠ 0x01020304) →
      baseline_init false "baseline.db" (fopen_result.opened content) true baseline_bits
        = (-1, baseline_state_zeroed) ∧
      baseline_state_zeroed.initialized = 0 :=
  C22_init_absent_or_rejected false "baseline.db" true baseline_bits (by decide) (by decide)

/-- C23 fails on the code: `baseline_load` never clears the `initialized` flag, and a file
that breaks off inside the third metric block makes it return -1 with the first two blocks
of the file left in the store. -/
theorem C23_failed_load_keeps_store :
    (∀ (little : Bool) (file : fopen_result) (fclose_ok : Bool) (g : baseline_state Nat),
      (baseline_load little file fclose_ok g).2.initialized = g.initialized) ∧
    file_cut_100.length = 100 ∧
    baseline_load false (fopen_result.opened file_cut_100) true baseline_fresh
      = (-1, { baseline_fresh with aes := stat_bits (2 ^ 64 - 1), cycles := stat_bits 300 }) := by
  refine ⟨fun little file fclose_ok g => ?_, by decide, ?_⟩
  · rw [baseline_load, load_locked_initialized]
    rfl
  · rfl

/-- C24 fails on the code at the `fclose` failure point: with the store initialized and
the temporary path fitting, every failing `baseline_save` returns -1 and leaves the db file
as it was, and a failing write, `fflush`, `fsync` or `rename` leaves no temporary file, but
a failing `fclose` leaves the temporary file in place, holding the bytes written. -/
theorem C24_save_failure_points (little : Bool) (g : baseline_state Nat) (d : disk)
    (hi : g.initialized ≠ 0) (hp : g.db_path ≠ "")
    (hfit : build_tmp_path g.db_path PATH_MAX ≠ none) :
    (∀ fault : save_fault, fault ≠ save_fault.no_fault →
      (baseline_save little fault g d).1 = -1 ∧ (baseline_save little fault g d).2.db = d.db) ∧
    (∀ fault : save_fault,
      fault = save_fault.write_failed ∨ fault = save_fault.fflush_failed ∨
        fault = save_fault.fsync_failed ∨ fault = save_fault.rename_failed →
      (baseline_save little fault g d).2.tmp = none) ∧
    (baseline_save little save_fault.fclose_failed g d).2.tmp
      = some (baseline_file_bytes little g) := by
  cases hb : build_tmp_path g.db_path PATH_MAX with
  | none => exact absurd hb hfit
  | some t =>
    refine ⟨fun fault hf => ?_, fun fault hf => ?_, ?_⟩
    · cases fault <;> simp [baseline_save, baseline_save_locked, hi, hp, hb] at hf ⊢
    · rcases hf with rfl | rfl | rfl | rfl <;>
        simp [baseline_save, baseline_save_locked, hi, hp, hb]
    · simp [baseline_save, baseline_save_locked, hi, hp, hb]

theorem C24_save_failure_points_witness :
    (∀ fault : save_fault, fault ≠ save_fault.no_fault →
      (baseline_save true fault baseline_bits disk_with_db).1 = -1 ∧
      (baseline_save true fault baseline_bits disk_with_db).2.db = disk_with_db.db) ∧
    (∀ fault : save_fault,
      fault = save_fault.write_failed ∨ fault = save_fault.fflush_failed ∨
        fault = save_fault.fsync_failed ∨ fault = save_fault.rename_failed →
      (baseline_save true fault baseline_bits disk_with_db).2.tmp = none) ∧
    (baseline_save true save_fault.fclose_failed baseline_bits disk_with_db).2.tmp
      = some (baseline_file_bytes true baseline_bits) :=
  C24_save_failure_points true baseline_bits disk_with_db (by decide) (by decide) (by decide)


/-! ## Scenarios S2 and S3 -/

theorem running_update_first (v : ℚ) :
    running_update running_metric_zero (Dbl.fin v) = { count := 1, mean := Dbl.fin v, m2 := Dbl.fin 0 } := by
  rw [running_metric_zero, running_update_fin 0 0 0 v (by norm_num)]
  norm_num

theorem running_update_same (n : Nat) (v : ℚ) (hn : n + 1 < 2 ^ 64) :
    running_update { count := n, mean := Dbl.fin v, m2 := Dbl.fin 0 } (Dbl.fin v)
      = { count := n + 1, mean := Dbl.fin v, m2 := Dbl.fin 0 } := by
  rw [running_update_fin n v 0 v hn]
  norm_num

theorem update_s2_first (a : ℚ) :
    update_from_sample anomaly_models_init (sample_s2 a) = model_s2 1 a := by
  by_cases ha : a = -1
  · subst ha
    simp [update_from_sample, anomaly_models_init, sample_s2, value_is_valid, Dbl.isfinite,
      Dbl.ne, model_s2, running_update_first]
  · simp [update_from_sample, anomaly_models_init, sample_s2, value_is_valid, Dbl.isfinite,
      Dbl.ne, model_s2, running_update_first, ha]

theorem update_s2_next (n : Nat) (a : ℚ) (hn : n + 1 < 2 ^ 64) :
    update_from_sample (model_s2 n a) (sample_s2 a) = model_s2 (n + 1) a := by
  by_cases ha : a = -1
  · subst ha
    simp [update_from_sample, sample_s2, value_is_valid, Dbl.isfinite,
      Dbl.ne, model_s2, running_update_same _ _ hn]
  · simp [update_from_sample, sample_s2, value_is_valid, Dbl.isfinite,
      Dbl.ne, model_s2, running_update_same _ _ hn, ha]

theorem run_s2_from (L : Libm) (a : ℚ) (k : Nat) :
    ∀ n : Nat, n + k < 2 ^ 64 →
      anomaly_run L (model_s2 n a) (List.replicate k (sample_s2 a)) = some (model_s2 (n + k) a) := by
  induction k with
  | zero => intro n _; rfl
  | succ k ih =>
    intro n hn
    obtain ⟨r, h, -⟩ := anomaly_evaluate_char L (model_s2 n a) (sample_s2 a)
      (by simp [model_s2])
    simp only [List.replicate, anomaly_run, h]
    rw [update_s2_next n a (by omega), ih (n + 1) (by omega)]
    congr 2
    omega

theorem run_s2 (L : Libm) (a : ℚ) :
    anomaly_run L anomaly_models_init (List.replicate 300 (sample_s2 a))
      = some (model_s2 300 a) := by
  obtain ⟨r, h, -⟩ := anomaly_evaluate_char L anomaly_models_init (sample_s2 a) (by decide)
  have h2 := run_s2_from L a 299 1 (by norm_num)
  have e : List.replicate 300 (sample_s2 a) = sample_s2 a :: List.replicate 299 (sample_s2 a) := rfl
  rw [e, anomaly_run, h, update_s2_first]
  exact h2

theorem snapshot_no_spread (L : Libm) (n : Nat) (mu : Dbl) :
    (snapshot_metric L { count := n, mean := mu, m2 := Dbl.fin 0 }).stddev = Dbl.fin 0 := by
  simp only [snapshot_metric, running_stddev]
  by_cases h : n < 2
  · simp [h]
  · have hq : ((n - 1 : Nat) : ℚ) ≠ 0 := by
      have : 0 < n - 1 := by omega
      positivity
    simp [h, Dbl.div, Dbl.ofNat, hq, Dbl.isfinite, Dbl.le]

theorem z_of_model_s2 (L : Libm) (n : Nat) (a : ℚ) (x : telemetry_sample) (m : Metric) :
    z_of L (model_s2 n a) x m = 0 := by
  have h : (snapshot_metric L (m.stat (model_s2 n a))).stddev = Dbl.fin 0 := by
    cases m
    case aes =>
      by_cases ha : a = -1
      · simp only [Metric.stat, model_s2, ha, if_true, running_metric_zero]
        exact snapshot_no_spread L 0 _
      · simp only [Metric.stat, model_s2, ha, if_false]
        exact snapshot_no_spread L n _
    all_goals exact snapshot_no_spread L n _
  simp only [z_of, abs_z_of, metric_abs_z_still _ _ h, Dbl.toRat]

theorem max_abs_z_model_s2 (L : Libm) (n : Nat) (a : ℚ) (x : telemetry_sample) :
    max_abs_z_of L (model_s2 n a) x = 0 := by
  simp [max_abs_z_of, Metric.all, z_of_model_s2]

/-- A flag word below 16 is fixed by its four flag bits. -/
theorem flags_of_bits : ∀ f : Nat, f < 16 →
    f = (if flag_set f ANOMALY_FLAG_CRYPTO_SPIKE then 1 else 0) +
        (if flag_set f ANOMALY_FLAG_WRITE_STORM then 2 else 0) +
        (if flag_set f ANOMALY_FLAG_RENAME_STORM then 4 else 0) +
        (if flag_set f ANOMALY_FLAG_DELETE_STORM then 8 else 0) := by
  decide

theorem score_from_bits (a : anomaly_result) (q : ℚ) (hq : a.anomaly_score = Dbl.fin q)
    (h0 : 0 ≤ q) (h1 : q ≤ 1) :
    classifier_compute_ransomware_score a
      = Dbl.fin (max 0 (min 1 (1 / 2 * q +
          20 / 100 * (if flag_set a.flags ANOMALY_FLAG_WRITE_STORM then 1 else 0) +
          15 / 100 * (if flag_set a.flags ANOMALY_FLAG_RENAME_STORM then 1 else 0) +
          10 / 100 * (if flag_set a.flags ANOMALY_FLAG_DELETE_STORM then 1 else 0) +
          25 / 100 * (if flag_set a.flags ANOMALY_FLAG_CRYPTO_SPIKE then 1 else 0)))) := by
  have hc : spec_clamp01 (Dbl.fin q) = Dbl.fin q := by
    simp [spec_clamp01, h0, h1]
  have hm : Dbl.mul (Dbl.fin (1 / 2)) (Dbl.fin q) = Dbl.fin (1 / 2 * q) := rfl
  rw [compute_score_eq_spec, spec_ransomware_score, hq, hc, hm, add_weight_fin, add_weight_fin,
    add_weight_fin, add_weight_fin]
  rfl

/-- What the pipeline makes of the test sample of scenario S2. -/
theorem s2_outcome (L : Libm) :
    ∃ r g c, anomaly_evaluate L (model_s2 300 1000000) sample_s2_spike = some (r, g) ∧
      classifier_classify 1 sample_s2_spike r = some c ∧
      r.z_score = Dbl.fin 0 ∧ r.anomaly_score = Dbl.fin 0 ∧ r.flags = 0 ∧ r.is_anomalous = 0 ∧
      c.ransomware_score = Dbl.fin 0 ∧ c.verdict = verdict_kind.VERDICT_SAFE := by
  obtain ⟨r, hr, hz, hs, hc, hw, hn, hd, hlt, ha⟩ :=
    anomaly_evaluate_char L (model_s2 300 1000000) sample_s2_spike (by simp [model_s2])
  simp only [max_abs_z_model_s2, z_of_model_s2, lt_irrefl, if_false] at hz hs hc hw hn hd
  have c1 : flag_set r.flags ANOMALY_FLAG_CRYPTO_SPIKE = false := by
    rw [← Bool.not_eq_true, hc]
    norm_num
  have c2 : flag_set r.flags ANOMALY_FLAG_WRITE_STORM = false := by
    rw [← Bool.not_eq_true, hw]
    norm_num [sample_s2_spike, sample_s2]
  have c3 : flag_set r.flags ANOMALY_FLAG_RENAME_STORM = false := by
    rw [← Bool.not_eq_true, hn]
    norm_num [sample_s2_spike, sample_s2]
  have c4 : flag_set r.flags ANOMALY_FLAG_DELETE_STORM = false := by
    rw [← Bool.not_eq_true, hd]
    norm_num
  have hf : r.flags = 0 := by
    have := flags_of_bits r.flags hlt
    simpa [c1, c2, c3, c4] using this
  have hscore : classifier_compute_ransomware_score r = Dbl.fin 0 := by
    rw [score_from_bits r 0 hs (le_refl _) (by norm_num), c1, c2, c3, c4]
    norm_num
  refine ⟨r, _, _, hr, classify_some 1 _ r (by norm_num), hz, hs, hf, ?_, hscore, ?_⟩
  · rw [ha, hs, hf]
    norm_num [Dbl.ge, Dbl.le]
  · show classifier_score_to_verdict (classifier_compute_ransomware_score r) = _
    rw [hscore]
    norm_num [classifier_score_to_verdict, Dbl.ge, Dbl.le]

/-- What the pipeline makes of the test sample of scenario S3. -/
theorem s3_outcome (L : Libm) :
    ∃ r g c, anomaly_evaluate L (model_s2 300 (-1)) sample_s3_storm = some (r, g) ∧
      classifier_classify 1 sample_s3_storm r = some c ∧
      r.z_score = Dbl.fin 0 ∧ r.anomaly_score = Dbl.fin 0 ∧
      r.flags = ANOMALY_FLAG_WRITE_STORM ||| ANOMALY_FLAG_RENAME_STORM ∧ r.is_anomalous = 1 ∧
      c.ransomware_score = Dbl.fin (35 / 100) ∧ c.verdict = verdict_kind.VERDICT_SAFE := by
  obtain ⟨r, hr, hz, hs, hc, hw, hn, hd, hlt, ha⟩ :=
    anomaly_evaluate_char L (model_s2 300 (-1)) sample_s3_storm (by simp [model_s2])
  simp only [max_abs_z_model_s2, z_of_model_s2, lt_irrefl, if_false] at hz hs hc hw hn hd
  have c1 : flag_set r.flags ANOMALY_FLAG_CRYPTO_SPIKE = false := by
    rw [← Bool.not_eq_true, hc]
    norm_num
  have c2 : flag_set r.flags ANOMALY_FLAG_WRITE_STORM = true := by
    rw [hw]
    right; right; left
    exact ⟨2000, rfl, by norm_num⟩
  have c3 : flag_set r.flags ANOMALY_FLAG_RENAME_STORM = true := by
    rw [hn]
    right
    exact ⟨800, rfl, by norm_num⟩
  have c4 : flag_set r.flags ANOMALY_FLAG_DELETE_STORM = false := by
    rw [← Bool.not_eq_true, hd]
    norm_num
  have hf : r.flags = 6 := by
    have := flags_of_bits r.flags hlt
    simpa [c1, c2, c3, c4] using this
  have hscore : classifier_compute_ransomware_score r = Dbl.fin (35 / 100) := by
    rw [score_from_bits r 0 hs (le_refl _) (by norm_num), c1, c2, c3, c4]
    norm_num
  refine ⟨r, _, _, hr, classify_some 1 _ r (by norm_num), hz, hs, ?_, ?_, hscore, ?_⟩
  · rw [hf]
    decide
  · rw [ha, hf]
    simp
  · show classifier_score_to_verdict (classifier_compute_ransomware_score r) = _
    rw [hscore]
    norm_num [classifier_score_to_verdict, Dbl.ge, Dbl.le]

theorem send_alert_other_verdict (c : comms_state) (write_ok : Bool) (out : List record)
    (sample : Option telemetry_sample) (anomaly : Option anomaly_result)
    (result : classifier_result) (h : result.verdict ≠ verdict_kind.VERDICT_RANSOMWARE) :
    comms_send_alert c write_ok out sample anomaly (some result) = (0, out) := by
  simp [comms_send_alert, h]

/-- C25 (amended): in scenario S2 the 300 identical baseline samples leave every statistic
of the pipeline model without spread, so the test sample with `aes = 1e8` gets `z_aes = 0`;
`z_score` and `anomaly_score` are 0, no flag is set (CRYPTO_SPIKE included), the
ransomware score is 0 and the verdict is SAFE. -/
theorem C25_s2_outcome (L : Libm) :
    ∃ g r g1 c, anomaly_run L anomaly_models_init history_s2 = some g ∧
      anomaly_evaluate L g sample_s2_spike = some (r, g1) ∧
      classifier_classify classifier_init.2 sample_s2_spike r = some c ∧
      abs_z_of L g sample_s2_spike Metric.aes = Dbl.fin 0 ∧
      r.z_score = Dbl.fin 0 ∧ r.anomaly_score = Dbl.fin 0 ∧ r.flags = 0 ∧
      r.is_anomalous = 0 ∧
      c.ransomware_score = Dbl.fin 0 ∧ c.verdict = verdict_kind.VERDICT_SAFE := by
  obtain ⟨r, g1, c, h1, h2, h3, h4, h5, h6, h7, h8⟩ := s2_outcome L
  refine ⟨_, r, g1, c, run_s2 L 1000000, h1, h2, ?_, h3, h4, h5, h6, h7, h8⟩
  rw [(abs_z_of_fin L _ _ _).1, z_of_model_s2]

/-- C25 fails on the code: run on scenario S2, the pipeline gives the test sample a
`z_aes` below 3, leaves CRYPTO_SPIKE unset and returns a verdict other than SUSPICIOUS. -/
theorem C25_counterexample_no_spike :
    ∃ g r g1 c, anomaly_run refLibm anomaly_models_init history_s2 = some g ∧
      anomaly_evaluate refLibm g sample_s2_spike = some (r, g1) ∧
      classifier_classify classifier_init.2 sample_s2_spike r = some c ∧
      ¬ (3 ≤ z_of refLibm g sample_s2_spike Metric.aes) ∧
      flag_set r.flags ANOMALY_FLAG_CRYPTO_SPIKE = false ∧
      c.verdict ≠ verdict_kind.VERDICT_SUSPICIOUS := by
  obtain ⟨r, g1, c, h1, h2, h3, h4, h5, h6, h7, h8⟩ := s2_outcome refLibm
  refine ⟨_, r, g1, c, run_s2 refLibm 1000000, h1, h2, ?_, ?_, ?_⟩
  · rw [z_of_model_s2]
    norm_num
  · rw [h5]
    decide
  · rw [h8]
    decide

/-- C26 (amended): in scenario S3 the 300 identical baseline samples leave every statistic
of the pipeline model without spread (the AES statistic stays empty), so every `|z|` of
the test sample is 0; WRITE_STORM and RENAME_STORM are set by the absolute thresholds,
DELETE_STORM and CRYPTO_SPIKE are not set, `anomaly_score` is 0, the ransomware score is
0.35 and the verdict is SAFE, for which `comms_send_alert` writes nothing. -/
theorem C26_s3_outcome (L : Libm) :
    ∃ g r g1 c, anomaly_run L anomaly_models_init history_s3 = some g ∧
      anomaly_evaluate L g sample_s3_storm = some (r, g1) ∧
      classifier_classify classifier_init.2 sample_s3_storm r = some c ∧
      r.z_score = Dbl.fin 0 ∧ r.anomaly_score = Dbl.fin 0 ∧
      flag_set r.flags ANOMALY_FLAG_WRITE_STORM = true ∧
      flag_set r.flags ANOMALY_FLAG_RENAME_STORM = true ∧
      flag_set r.flags ANOMALY_FLAG_DELETE_STORM = false ∧
      flag_set r.flags ANOMALY_FLAG_CRYPTO_SPIKE = false ∧
      c.ransomware_score = Dbl.fin (35 / 100) ∧ c.verdict = verdict_kind.VERDICT_SAFE ∧
      ∀ (s : comms_state) (write_ok : Bool) (out : List record),
        comms_send_alert s write_ok out (some sample_s3_storm) (some r) (some c) = (0, out) := by
  obtain ⟨r, g1, c, h1, h2, h3, h4, h5, h6, h7, h8⟩ := s3_outcome L
  refine ⟨_, r, g1, c, run_s2 L (-1), h1, h2, h3, h4, ?_, ?_, ?_, ?_, h7, h8, ?_⟩
  · rw [h5]; decide
  · rw [h5]; decide
  · rw [h5]; decide
  · rw [h5]; decide
  · intro s write_ok out
    exact send_alert_other_verdict s write_ok out _ _ c (by rw [h8]; decide)

/-- C26 fails on the code: run on scenario S3, the pipeline leaves DELETE_STORM unset and
returns a verdict other than RANSOMWARE. -/
theorem C26_counterexample_no_delete_storm :
    ∃ g r g1 c, anomaly_run refLibm anomaly_models_init history_s3 = some g ∧
      anomaly_evaluate refLibm g sample_s3_storm = some (r, g1) ∧
      classifier_classify classifier_init.2 sample_s3_storm r = some c ∧
      flag_set r.flags ANOMALY_FLAG_DELETE_STORM = false ∧
      c.verdict ≠ verdict_kind.VERDICT_RANSOMWARE := by
  obtain ⟨r, g1, c, h1, h2, h3, h4, h5, h6, h7, h8⟩ := s3_outcome refLibm
  refine ⟨_, r, g1, c, run_s2 refLibm (-1), h1, h2, ?_, ?_⟩
  · rw [h5]; decide
  · rw [h8]; decide


/-! ## One iteration of the agent loop -/

theorem send_telemetry_eq (c : comms_state) (write_ok : Bool) (out : List record)
    (sample : telemetry_sample) (a : Option anomaly_result) (r : Option classifier_result) :
    comms_send_telemetry c write_ok out sample a r
      = if c.initialized ≠ 0 ∧ write_ok = true
        then (0, out ++ [record.telemetry sample a r]) else (-1, out) := by
  by_cases h : c.initialized = 0 <;> cases write_ok <;>
    simp [comms_send_telemetry, comms_internal_get_stream, h]

theorem send_alert_ransomware (c : comms_state) (write_ok : Bool) (out : List record)
    (sample : telemetry_sample) (a : anomaly_result) (r : classifier_result)
    (h : r.verdict = verdict_kind.VERDICT_RANSOMWARE) :
    comms_send_alert c write_ok out (some sample) (some a) (some r)
      = if c.initialized ≠ 0 ∧ write_ok = true
        then (0, out ++ [record.alert (some sample.timestamp_ns) r.ransomware_score a.flags
          r.confidence]) else (-1, out) := by
  by_cases h0 : c.initialized = 0 <;> cases write_ok <;>
    simp [comms_send_alert, comms_internal_get_stream, h, h0]

/-- C27: in an iteration of baseline mode, or of detect mode while `baseline_ready` is 0,
with a collected sample and an initialized store, the loop applies `baseline_update` to the
sample, leaves the pipeline model alone, and after `telemetry_collect` (and `baseline_ready`
in detect mode) calls exactly `baseline_update`, `comms_send_telemetry` with `NULL` anomaly
and classifier results, and the sleep: no `anomaly_evaluate`, no `classifier_classify`, no
`comms_send_alert`. The stream gains the one telemetry record without anomaly and
classifier fields when the transport is up and takes the write, and nothing otherwise. -/
theorem C27_learn_and_warmup_tick (L : Libm) (cfg : agent_config) (e : tick_env)
    (w : agent_state) (sample : telemetry_sample) (hc : e.collect = some sample)
    (hi : w.baseline.initialized ≠ 0)
    (hm : cfg.mode = agent_mode.AGENT_MODE_BASELINE ∨
      (cfg.mode = agent_mode.AGENT_MODE_DETECT ∧ baseline_ready w.baseline = 0)) :
    ∃ b rc, baseline_update L w.baseline sample = some b ∧
      (agent_loop_tick L cfg e w).2.baseline = b ∧
      (agent_loop_tick L cfg e w).2.model = w.model ∧
      (agent_loop_tick L cfg e w).2.out
        = w.out ++ (if w.comms.initialized ≠ 0 ∧ e.telemetry_write_ok = true
            then [record.telemetry sample none none] else []) ∧
      (agent_loop_tick L cfg e w).2.calls
        = w.calls ++ [call.telemetry_collect 0] ++
            (if cfg.mode = agent_mode.AGENT_MODE_DETECT then [call.baseline_ready 0] else []) ++
            [call.baseline_update sample 0, call.comms_send_telemetry sample none none rc,
              call.sleep (if e.sleep_ok then 0 else -1)] := by
  obtain ⟨b, hb⟩ : ∃ b, baseline_update L w.baseline sample = some b := by
    simp [baseline_update, hi]
  rcases hm with hm | ⟨hm, hr⟩
  · refine ⟨b, (comms_send_telemetry w.comms e.telemetry_write_ok w.out sample none none).1,
      hb, ?_, ?_, ?_, ?_⟩ <;>
      simp only [agent_loop_tick, hc, hm, if_true, learn_step, agent_state.log, hb]
    · rw [send_telemetry_eq]
      split_ifs <;> simp
    · simp
  · refine ⟨b, (comms_send_telemetry w.comms e.telemetry_write_ok w.out sample none none).1,
      hb, ?_, ?_, ?_, ?_⟩ <;>
      simp only [agent_loop_tick, hc, hm, hr, if_true, learn_step, agent_state.log, hb]
    · simp
    · simp
    · rw [send_telemetry_eq]
      split_ifs <;> simp
    · simp

theorem C27_learn_and_warmup_tick_witness :
    ∃ b rc, baseline_update refLibm state_started.baseline sample_idle = some b ∧
      (agent_loop_tick refLibm config_detect tick_idle state_started).2.baseline = b ∧
      (agent_loop_tick refLibm config_detect tick_idle state_started).2.model
        = state_started.model ∧
      (agent_loop_tick refLibm config_detect tick_idle state_started).2.out
        = state_started.out ++
          (if state_started.comms.initialized ≠ 0 ∧ tick_idle.telemetry_write_ok = true
            then [record.telemetry sample_idle none none] else []) ∧
      (agent_loop_tick refLibm config_detect tick_idle state_started).2.calls
        = state_started.calls ++ [call.telemetry_collect 0] ++
            (if config_detect.mode = agent_mode.AGENT_MODE_DETECT
              then [call.baseline_ready 0] else []) ++
            [call.baseline_update sample_idle 0,
              call.comms_send_telemetry sample_idle none none rc,
              call.sleep (if tick_idle.sleep_ok then 0 else -1)] :=
  C27_learn_and_warmup_tick refLibm config_detect tick_idle state_started sample_idle rfl
    (by decide) (Or.inr ⟨rfl, by decide⟩)

/-- C28: an iteration of detect mode that finds `baseline_ready` non-zero leaves the
baseline store as it was, and `baseline_update` is not among the calls it makes, whatever
the sample, the anomaly result and the verdict are. -/
theorem C28_detect_tick_keeps_baseline (L : Libm) (cfg : agent_config) (e : tick_env)
    (w : agent_state) (hm : cfg.mode = agent_mode.AGENT_MODE_DETECT)
    (hr : baseline_ready w.baseline ≠ 0) :
    (agent_loop_tick L cfg e w).2.baseline = w.baseline ∧
    ∃ new, (agent_loop_tick L cfg e w).2.calls = w.calls ++ new ∧
      ∀ s rc, call.baseline_update s rc ∉ new := by
  cases hcol : e.collect with
  | none =>
    refine ⟨by simp [agent_loop_tick, hcol, agent_state.log], [call.telemetry_collect (-1)],
      by simp [agent_loop_tick, hcol, agent_state.log], by simp⟩
  | some sample =>
    cases hev : anomaly_evaluate L w.model sample with
    | none =>
      refine ⟨by simp [agent_loop_tick, hcol, hm, hr, detect_step, hev, agent_state.log],
        [call.telemetry_collect 0, call.baseline_ready (baseline_ready w.baseline),
          call.anomaly_evaluate sample (-1)],
        by simp [agent_loop_tick, hcol, hm, hr, detect_step, hev, agent_state.log], by simp⟩
    | some p =>
      obtain ⟨a, g⟩ := p
      cases hcl : classifier_classify w.classifier_initialized sample a with
      | none =>
        refine ⟨by simp [agent_loop_tick, hcol, hm, hr, detect_step, hev, hcl, agent_state.log],
          [call.telemetry_collect 0, call.baseline_ready (baseline_ready w.baseline),
            call.anomaly_evaluate sample 0, call.classifier_classify a (-1)],
          by simp [agent_loop_tick, hcol, hm, hr, detect_step, hev, hcl, agent_state.log],
          by simp⟩
      | some r =>
        by_cases hv : r.verdict = verdict_kind.VERDICT_RANSOMWARE
        · refine ⟨by simp [agent_loop_tick, hcol, hm, hr, detect_step, hev, hcl, hv,
              agent_state.log], _, by
              simp only [agent_loop_tick, hcol, hm, hr, detect_step, hev, hcl, hv,
                agent_state.log, if_true, if_false, List.append_assoc]
              rfl, by simp⟩
        · refine ⟨by simp [agent_loop_tick, hcol, hm, hr, detect_step, hev, hcl, hv,
              agent_state.log], _, by
              simp only [agent_loop_tick, hcol, hm, hr, detect_step, hev, hcl, hv,
                agent_state.log, if_true, if_false, List.append_assoc]
              rfl, by simp⟩

theorem C28_detect_tick_keeps_baseline_witness :
    (agent_loop_tick refLibm config_detect tick_idle state_ready).2.baseline
      = state_ready.baseline ∧
    ∃ new, (agent_loop_tick refLibm config_detect tick_idle state_ready).2.calls
        = state_ready.calls ++ new ∧
      ∀ s rc, call.baseline_update s rc ∉ new :=
  C28_detect_tick_keeps_baseline refLibm config_detect tick_idle state_ready rfl (by decide)


theorem learn_step_out (L : Libm) (e : tick_env) (w : agent_state) (s : telemetry_sample) :
    ∃ new, (learn_step L e w s).2.out = w.out ++ new ∧ ∀ x ∈ new, record.is_alert x = false := by
  cases hb : baseline_update L w.baseline s with
  | none => exact ⟨[], by simp [learn_step, hb, agent_state.log], by simp⟩
  | some b =>
    by_cases hc : w.comms.initialized ≠ 0 ∧ e.telemetry_write_ok = true
    · exact ⟨[record.telemetry s none none],
        by simp [learn_step, hb, send_telemetry_eq, hc], by simp [record.is_alert]⟩
    · exact ⟨[], by simp [learn_step, hb, send_telemetry_eq, hc], by simp⟩

/-- C29: `comms_send_alert` writes nothing and returns 0 for a verdict other than
RANSOMWARE. With the transport up and the stream taking the writes, the records an
iteration adds contain an alert record exactly when the iteration is one of detect mode
with a ready store whose classifier verdict is RANSOMWARE, and then it adds the telemetry
record of the sample first and the alert record second. -/
theorem C29_alert_iff_ransomware (L : Libm) (cfg : agent_config) (e : tick_env)
    (w : agent_state) (hc : w.comms.initialized ≠ 0) (hw : e.telemetry_write_ok = true)
    (ha : e.alert_write_ok = true) :
    (∀ (s : comms_state) (write_ok : Bool) (out : List record) (x : Option telemetry_sample)
        (a : Option anomaly_result) (r : classifier_result),
      r.verdict ≠ verdict_kind.VERDICT_RANSOMWARE →
      comms_send_alert s write_ok out x a (some r) = (0, out)) ∧
    ∃ new, (agent_loop_tick L cfg e w).2.out = w.out ++ new ∧
      ((∃ x ∈ new, record.is_alert x = true) ↔ detects_ransomware L cfg e w) ∧
      ∀ sample a g r, e.collect = some sample →
        anomaly_evaluate L w.model sample = some (a, g) →
        classifier_classify w.classifier_initialized sample a = some r →
        detects_ransomware L cfg e w →
        new = [record.telemetry sample (some a) (some r),
          record.alert (some sample.timestamp_ns) r.ransomware_score a.flags r.confidence] := by
  refine ⟨fun s write_ok out x a r h => send_alert_other_verdict s write_ok out x a r h, ?_⟩
  have hno : ∀ new : List record, (∀ x ∈ new, record.is_alert x = false) →
      ¬ detects_ransomware L cfg e w →
      ((∃ x ∈ new, record.is_alert x = true) ↔ detects_ransomware L cfg e w) ∧
      ∀ sample a g r, e.collect = some sample →
        anomaly_evaluate L w.model sample = some (a, g) →
        classifier_classify w.classifier_initialized sample a = some r →
        detects_ransomware L cfg e w →
        new = [record.telemetry sample (some a) (some r),
          record.alert (some sample.timestamp_ns) r.ransomware_score a.flags r.confidence] := by
    intro new hnew hnd
    refine ⟨⟨?_, fun h => absurd h hnd⟩, fun _ _ _ _ _ _ _ h => absurd h hnd⟩
    rintro ⟨x, hx, hax⟩
    rw [hnew x hx] at hax
    exact absurd hax (by decide)
  obtain hcol | ⟨sample, hcol⟩ : e.collect = none ∨ ∃ s, e.collect = some s := by
    cases e.collect <;> simp
  · refine ⟨[], by simp [agent_loop_tick, hcol, agent_state.log], hno [] (by simp) ?_⟩
    rintro ⟨-, -, s, a, g, r, h1, -⟩
    rw [hcol] at h1
    exact absurd h1 (by simp)
  · cases hmode : cfg.mode with
    | AGENT_MODE_BASELINE =>
      obtain ⟨new, h1, h2⟩ := learn_step_out L e (w.log (call.telemetry_collect 0)) sample
      refine ⟨new, by simpa [agent_loop_tick, hcol, hmode, agent_state.log] using h1,
        hno new h2 ?_⟩
      rintro ⟨hm, -⟩
      rw [hmode] at hm
      exact absurd hm (by decide)
    | AGENT_MODE_DETECT =>
      by_cases hr : baseline_ready w.baseline = 0
      · obtain ⟨new, h1, h2⟩ := learn_step_out L e
          ((w.log (call.telemetry_collect 0)).log (call.baseline_ready (baseline_ready w.baseline)))
          sample
        refine ⟨new, by simpa [agent_loop_tick, hcol, hmode, hr, agent_state.log] using h1,
          hno new h2 ?_⟩
        rintro ⟨-, hr2, -⟩
        exact hr2 hr
      · cases hev : anomaly_evaluate L w.model sample with
        | none =>
          refine ⟨[], by simp [agent_loop_tick, hcol, hmode, hr, detect_step, hev,
            agent_state.log], hno [] (by simp) ?_⟩
          rintro ⟨-, -, s, a, g, r, h1, h2, -⟩
          rw [hcol] at h1
          cases h1
          rw [hev] at h2
          exact absurd h2 (by simp)
        | some p =>
          obtain ⟨a, g⟩ := p
          cases hcl : classifier_classify w.classifier_initialized sample a with
          | none =>
            refine ⟨[], by simp [agent_loop_tick, hcol, hmode, hr, detect_step, hev, hcl,
              agent_state.log], hno [] (by simp) ?_⟩
            rintro ⟨-, -, s, a2, g2, r, h1, h2, h3, -⟩
            rw [hcol] at h1
            cases h1
            rw [hev] at h2
            cases h2
            rw [hcl] at h3
            exact absurd h3 (by simp)
          | some r =>
            by_cases hv : r.verdict = verdict_kind.VERDICT_RANSOMWARE
            · have hd : detects_ransomware L cfg e w :=
                ⟨hmode, hr, sample, a, g, r, hcol, hev, hcl, hv⟩
              refine ⟨[record.telemetry sample (some a) (some r),
                record.alert (some sample.timestamp_ns) r.ransomware_score a.flags
                  r.confidence], ?_, ⟨fun _ => hd, fun _ =>
                  ⟨record.alert (some sample.timestamp_ns) r.ransomware_score a.flags
                    r.confidence, by simp, rfl⟩⟩, ?_⟩
              · simp [agent_loop_tick, hcol, hmode, hr, detect_step, hev, hcl, hv,
                  agent_state.log, send_telemetry_eq, send_alert_ransomware, hc, hw, ha]
              · intro s2 a2 g2 r2 h1 h2 h3 _
                rw [hcol] at h1
                cases h1
                rw [hev] at h2
                cases h2
                rw [hcl] at h3
                cases h3
                rfl
            · refine ⟨[record.telemetry sample (some a) (some r)], ?_,
                hno _ (by simp [record.is_alert]) ?_⟩
              · simp [agent_loop_tick, hcol, hmode, hr, detect_step, hev, hcl, hv,
                  agent_state.log, send_telemetry_eq, hc, hw]
              · rintro ⟨-, -, s, a2, g2, r2, h1, h2, h3, h4⟩
                rw [hcol] at h1
                cases h1
                rw [hev] at h2
                cases h2
                rw [hcl] at h3
                cases h3
                exact hv h4

theorem C29_alert_iff_ransomware_witness :
    (∀ (s : comms_state) (write_ok : Bool) (out : List record) (x : Option telemetry_sample)
        (a : Option anomaly_result) (r : classifier_result),
      r.verdict ≠ verdict_kind.VERDICT_RANSOMWARE →
      comms_send_alert s write_ok out x a (some r) = (0, out)) ∧
    ∃ new, (agent_loop_tick refLibm config_detect tick_storm state_hot).2.out
        = state_hot.out ++ new ∧
      ((∃ x ∈ new, record.is_alert x = true) ↔
        detects_ransomware refLibm config_detect tick_storm state_hot) ∧
      ∀ sample a g r, tick_storm.collect = some sample →
        anomaly_evaluate refLibm state_hot.model sample = some (a, g) →
        classifier_classify state_hot.classifier_initialized sample a = some r →
        detects_ransomware refLibm config_detect tick_storm state_hot →
        new = [record.telemetry sample (some a) (some r),
          record.alert (some sample.timestamp_ns) r.ransomware_score a.flags r.confidence] :=
  C29_alert_iff_ransomware refLibm config_detect tick_storm state_hot (by decide) rfl rfl


/-! ## The trace of a run -/

theorem z_of_storm (m : Metric) :
    z_of refLibm (model_after_pairs 150) sample_storm m = if m = Metric.aes then 4 else 0 := by
  cases m
  case aes =>
    simp only [z_of, abs_z_of, Metric.stat, Metric.value, snapshot_aes_after_pairs, sample_storm,
      if_true]
    simp [metric_abs_z, value_is_valid, Dbl.isfinite, Z_STDDEV_EPSILON, Dbl.le, Dbl.sub, Dbl.neg,
      Dbl.add, Dbl.div, Dbl.fabs, Dbl.toRat]
    norm_num
  all_goals
    simp only [z_of, abs_z_of, Metric.stat, model_after_pairs,
      metric_abs_z_still _ _ (snapshot_still refLibm _), Dbl.toRat]
    simp

theorem max_abs_z_storm : max_abs_z_of refLibm (model_after_pairs 150) sample_storm = 4 := by
  simp [max_abs_z_of, Metric.all, z_of_storm]

theorem verdict_ransomware_of_ge (q : ℚ) (h : 85 / 100 ≤ q) :
    classifier_score_to_verdict (Dbl.fin q) = verdict_kind.VERDICT_RANSOMWARE := by
  simp [classifier_score_to_verdict, Dbl.ge, Dbl.le, h]

/-- An iteration with a RANSOMWARE verdict exists: `sample_storm` against `state_hot`. -/
theorem storm_tick_detects : detects_ransomware refLibm config_detect tick_storm state_hot := by
  obtain ⟨r, hr, hz, hs, hc, hw, hn, hd, hlt, ha⟩ :=
    anomaly_evaluate_char refLibm (model_after_pairs 150) sample_storm (by decide)
  obtain ⟨e, he, e0, e1⟩ := refExp_neg_four_small
  have hscore : r.anomaly_score = Dbl.fin (1 - e) := by
    rw [hs, max_abs_z_storm, if_pos (by norm_num), he]
    simp [Dbl.sub, Dbl.neg, Dbl.add, sub_eq_add_neg]
  have c1 : flag_set r.flags ANOMALY_FLAG_CRYPTO_SPIKE = true := by
    rw [hc]
    left
    refine ⟨by norm_num [sample_storm], ?_⟩
    rw [z_of_storm, if_pos rfl]
    norm_num
  have c2 : flag_set r.flags ANOMALY_FLAG_WRITE_STORM = true := by
    rw [hw]
    right; right; left
    exact ⟨501, rfl, by norm_num⟩
  have c3 : flag_set r.flags ANOMALY_FLAG_RENAME_STORM = true := by
    rw [hn]
    right
    exact ⟨201, rfl, by norm_num⟩
  have c4 : flag_set r.flags ANOMALY_FLAG_DELETE_STORM = false := by
    rw [← Bool.not_eq_true, hd, z_of_storm]
    norm_num [show Metric.files_deleted ≠ Metric.aes by decide]
  have hq : classifier_compute_ransomware_score r
      = Dbl.fin (max 0 (min 1 (1 / 2 * (1 - e) + 20 / 100 + 15 / 100 + 25 / 100))) := by
    rw [score_from_bits r (1 - e) hscore (by linarith) (by linarith), c1, c2, c3, c4]
    norm_num
  have hge : (85 : ℚ) / 100 ≤ max 0 (min 1 (1 / 2 * (1 - e) + 20 / 100 + 15 / 100 + 25 / 100)) := by
    apply le_max_of_le_right
    apply le_min
    · norm_num
    · linarith
  refine ⟨rfl, by decide, sample_storm, r, _, _, rfl, hr, classify_some 1 _ r (by norm_num), ?_⟩
  show classifier_score_to_verdict (classifier_compute_ransomware_score r) = _
  rw [hq]
  exact verdict_ransomware_of_ge _ hge


/-! ## A host without AES counter never fills the baseline -/

theorem update_unsupported_aes (L : Libm) (g : baseline_state Dbl) (x : telemetry_sample)
    (hg : g.initialized ≠ 0) (hx : x.aes_instructions_per_sec = Dbl.fin (-1)) :
    ∃ g', baseline_update L g x = some g' ∧ g'.initialized = g.initialized ∧ g'.aes = g.aes := by
  simp only [baseline_update, if_neg hg]
  refine ⟨_, rfl, rfl, ?_⟩
  simp [hx, Dbl.ne]

theorem run_unsupported_aes (L : Libm) (history : List telemetry_sample)
    (h : ∀ x ∈ history, x.aes_instructions_per_sec = Dbl.fin (-1)) :
    ∀ g : baseline_state Dbl, g.initialized ≠ 0 →
      ∃ g', baseline_run L g history = some g' ∧ g'.initialized = g.initialized ∧
        g'.aes = g.aes := by
  induction history with
  | nil => intro g _; exact ⟨g, rfl, rfl, rfl⟩
  | cons x xs ih =>
    intro g hg
    obtain ⟨g1, h1, hi1, ha1⟩ :=
      update_unsupported_aes L g x hg (h x (List.mem_cons_self _ _))
    obtain ⟨g2, h2, hi2, ha2⟩ :=
      ih (fun y hy => h y (List.mem_cons_of_mem _ hy)) g1 (by rw [hi1]; exact hg)
    refine ⟨g2, ?_, by rw [hi2, hi1], by rw [ha2, ha1]⟩
    simp only [baseline_run, h1]
    exact h2

/-- C35: from the empty initialized store, after any finite sequence of `baseline_update`
calls whose samples all carry `aes_instructions_per_sec = -1.0`, every call has succeeded,
the AES count is still `0` and `baseline_ready` returns `0`, whatever the other metrics of
the samples were. -/
theorem C35_unsupported_aes_never_ready (L : Libm) (db_path : String)
    (history : List telemetry_sample)
    (h : ∀ x ∈ history, x.aes_instructions_per_sec = Dbl.fin (-1)) :
    ∃ g, baseline_run L (baseline_empty db_path) history = some g ∧
      g.aes.count = 0 ∧ baseline_ready g = 0 := by
  obtain ⟨g, h1, -, h3⟩ :=
    run_unsupported_aes L history h (baseline_empty db_path) (by simp [baseline_empty])
  have hc : g.aes.count = 0 := by rw [h3]; rfl
  refine ⟨g, h1, hc, ?_⟩
  rcases baseline_ready_zero_one g with h0 | h1'
  · exact h0
  · have := ((baseline_ready_iff g).1 h1').2 BMetric.aes
    simp only [BMetric.stat, hc] at this
    omega

/-- C35 for 400 idle samples of a host without AES counter. -/
theorem C35_unsupported_aes_never_ready_witness :
    (∀ x ∈ List.replicate 400 sample_idle, x.aes_instructions_per_sec = Dbl.fin (-1)) ∧
    ∃ g, baseline_run refLibm (baseline_empty "/var/lib/aegis/baseline.db")
        (List.replicate 400 sample_idle) = some g ∧
      g.aes.count = 0 ∧ baseline_ready g = 0 :=
  ⟨fun x hx => by rw [List.eq_of_mem_replicate hx]; rfl,
   C35_unsupported_aes_never_ready refLibm "/var/lib/aegis/baseline.db"
    (List.replicate 400 sample_idle)
    (fun x hx => by rw [List.eq_of_mem_replicate hx]; rfl)⟩

/-! ## The first 300 evaluations -/

theorem early_run_zero_z (L : Libm) (history : List telemetry_sample)
    (hlen : history.length < 300) :
    ∃ g, anomaly_run L anomaly_models_init history = some g ∧ g.initialized ≠ 0 ∧
      ∀ (x : telemetry_sample) (m : Metric), z_of L g x m = 0 := by
  have h0 : ∀ m : Metric, (m.stat anomaly_models_init).count = 0 := by
    intro m; cases m <;> rfl
  obtain ⟨g, hg, hi, -⟩ := anomaly_run_count L Metric.aes history anomaly_models_init
    (by decide) (by rw [h0]; norm_num)
  refine ⟨g, hg, hi, ?_⟩
  intro x m
  obtain ⟨g2, h1, -, h3⟩ := anomaly_run_count L m history anomaly_models_init (by decide)
    (by rw [h0]; norm_num)
  rw [hg] at h1
  obtain rfl : g = g2 := Option.some.inj h1
  have hle : accepted_count m history ≤ history.length := List.countP_le_length _
  have hc : (m.stat g).count = accepted_count m history := by
    rw [h3, h0, Nat.zero_add]
    exact Nat.mod_eq_of_lt (by omega)
  have hz : abs_z_of L g x m = Dbl.fin 0 := by
    apply metric_abs_z_not_ready
    simp only [snapshot_metric, MODEL_READY_MIN_SAMPLES, hc]
    rw [if_neg (by omega)]
  simp only [z_of, hz, Dbl.toRat]

/-- C37: for each of the first 300 calls of `anomaly_evaluate` after `anomaly_init` (the
call that follows a history of fewer than 300 calls), whatever the samples are, the call
succeeds with `z_score = 0` and `anomaly_score = 0`, CRYPTO_SPIKE and DELETE_STORM are not
set, WRITE_STORM and RENAME_STORM are set exactly by their absolute thresholds, and the
classifier result computed from that anomaly result has `ransomware_score <= 0.35` and
verdict SAFE. -/
theorem C37_first_300_calls_safe (L : Libm) (history : List telemetry_sample)
    (x : telemetry_sample) (ci : Int) (hci : ci ≠ 0) (hlen : history.length < 300) :
    ∃ g r g' c, anomaly_run L anomaly_models_init history = some g ∧
      anomaly_evaluate L g x = some (r, g') ∧
      classifier_classify ci x r = some c ∧
      r.z_score = Dbl.fin 0 ∧ r.anomaly_score = Dbl.fin 0 ∧
      flag_set r.flags ANOMALY_FLAG_CRYPTO_SPIKE = false ∧
      flag_set r.flags ANOMALY_FLAG_DELETE_STORM = false ∧
      (flag_set r.flags ANOMALY_FLAG_WRITE_STORM = true ↔
        (∃ v : ℚ, x.files_modified_per_sec = Dbl.fin v ∧ 500 < v) ∨
        (∃ v : ℚ, x.disk_write_bytes_per_sec = Dbl.fin v ∧ 50 * 2 ^ 20 < v)) ∧
      (flag_set r.flags ANOMALY_FLAG_RENAME_STORM = true ↔
        ∃ v : ℚ, x.files_renamed_per_sec = Dbl.fin v ∧ 200 < v) ∧
      (∃ s : ℚ, c.ransomware_score = Dbl.fin s ∧ 0 ≤ s ∧ s ≤ 35 / 100) ∧
      c.verdict = verdict_kind.VERDICT_SAFE := by
  obtain ⟨g, hrun, hi, hz0⟩ := early_run_zero_z L history hlen
  obtain ⟨r, hr, hz, hs, hc, hw, hn, hd, -, -⟩ := anomaly_evaluate_char L g x hi
  have hmax : max_abs_z_of L g x = 0 := by
    simp [max_abs_z_of, Metric.all, hz0]
  simp only [hmax, hz0, lt_irrefl, if_false] at hz hs hc hw hn hd
  have c1 : flag_set r.flags ANOMALY_FLAG_CRYPTO_SPIKE = false := by
    rw [← Bool.not_eq_true, hc]
    norm_num
  have c4 : flag_set r.flags ANOMALY_FLAG_DELETE_STORM = false := by
    rw [← Bool.not_eq_true, hd]
    norm_num
  have hw' : flag_set r.flags ANOMALY_FLAG_WRITE_STORM = true ↔
      (∃ v : ℚ, x.files_modified_per_sec = Dbl.fin v ∧ 500 < v) ∨
      (∃ v : ℚ, x.disk_write_bytes_per_sec = Dbl.fin v ∧ 50 * 2 ^ 20 < v) := by
    rw [hw]
    norm_num
  have hn' : flag_set r.flags ANOMALY_FLAG_RENAME_STORM = true ↔
      ∃ v : ℚ, x.files_renamed_per_sec = Dbl.fin v ∧ 200 < v := by
    rw [hn]
    norm_num
  have hscore := score_from_bits r 0 hs (le_refl _) (by norm_num)
  rw [c1, c4] at hscore
  have hb : ∃ s : ℚ, classifier_compute_ransomware_score r = Dbl.fin s ∧ 0 ≤ s ∧
      s ≤ 35 / 100 := by
    refine ⟨_, hscore, le_max_left _ _, ?_⟩
    cases flag_set r.flags ANOMALY_FLAG_WRITE_STORM <;>
      cases flag_set r.flags ANOMALY_FLAG_RENAME_STORM <;> norm_num
  obtain ⟨s, hs1, hs2, hs3⟩ := hb
  refine ⟨g, r, _, _, hrun, hr, classify_some ci x r hci, hz, hs, c1, c4, hw', hn',
    ⟨s, hs1, hs2, hs3⟩, ?_⟩
  simp only [classifier_score_to_verdict, hs1, Dbl.ge, Dbl.le, decide_eq_true_eq]
  rw [if_neg (by linarith), if_neg (by linarith)]

/-- C37 for the third call on a host that suddenly modifies 501 files per second. -/
theorem C37_first_300_calls_safe_witness :
    (1 : Int) ≠ 0 ∧ history_idle2.length < 300 ∧
    ∃ g r g' c, anomaly_run refLibm anomaly_models_init history_idle2 = some g ∧
      anomaly_evaluate refLibm g sample_501_writes = some (r, g') ∧
      classifier_classify 1 sample_501_writes r = some c ∧
      r.z_score = Dbl.fin 0 ∧ r.anomaly_score = Dbl.fin 0 ∧
      flag_set r.flags ANOMALY_FLAG_CRYPTO_SPIKE = false ∧
      flag_set r.flags ANOMALY_FLAG_DELETE_STORM = false ∧
      (flag_set r.flags ANOMALY_FLAG_WRITE_STORM = true ↔
        (∃ v : ℚ, sample_501_writes.files_modified_per_sec = Dbl.fin v ∧ 500 < v) ∨
        (∃ v : ℚ, sample_501_writes.disk_write_bytes_per_sec = Dbl.fin v ∧ 50 * 2 ^ 20 < v)) ∧
      (flag_set r.flags ANOMALY_FLAG_RENAME_STORM = true ↔
        ∃ v : ℚ, sample_501_writes.files_renamed_per_sec = Dbl.fin v ∧ 200 < v) ∧
      (∃ s : ℚ, c.ransomware_score = Dbl.fin s ∧ 0 ≤ s ∧ s ≤ 35 / 100) ∧
      c.verdict = verdict_kind.VERDICT_SAFE :=
  ⟨by decide, by decide,
   C37_first_300_calls_safe refLibm history_idle2 sample_501_writes 1 (by decide) (by decide)⟩


/-! ## The tail of the library `exp` -/

theorem expSeries_mono (x y : ℚ) (hx : 0 ≤ x) (hxy : x ≤ y) :
    ∀ n k : Nat, expSeries x n k ≤ expSeries y n k := by
  intro n
  induction n with
  | zero => intro k; simp [expSeries]
  | succ n ih =>
    intro k
    simp only [expSeries]
    have hk : (0 : ℚ) < (k : ℚ) + 1 := by positivity
    have h1 : x / ((k : ℚ) + 1) ≤ y / ((k : ℚ) + 1) := div_le_div_of_nonneg_right hxy hk.le
    have h2 : 0 ≤ expSeries x n (k + 1) :=
      le_trans zero_le_one (expSeries_ge_one x hx n (k + 1))
    have h3 : 0 ≤ y / ((k : ℚ) + 1) := div_nonneg (le_trans hx hxy) hk.le
    have := mul_le_mul h1 (ih (k + 1)) h2 h3
    linarith

theorem refLibm_expTail : refLibm.ExpTail := by
  obtain ⟨s1, -⟩ := expSeries_three_bounds
  have s0 : (0 : ℚ) < expSeries 3 24 0 := by linarith
  refine ⟨1 / expSeries 3 24 0, refExp_neg_three, ?_, ?_⟩
  · rw [div_lt_iff₀ s0]; linarith
  · intro q hq
    have hm : expSeries 3 24 0 ≤ expSeries (-q) 24 0 :=
      expSeries_mono 3 (-q) (by norm_num) (by linarith) 24 0
    have hp : (0 : ℚ) < expSeries (-q) 24 0 := lt_of_lt_of_le s0 hm
    refine ⟨1 / expSeries (-q) 24 0, ?_, ?_, ?_⟩
    · have hq0 : q ≤ 0 := by linarith
      simp [refLibm, refExp, hq0]
    · positivity
    · exact one_div_le_one_div_of_le s0 hm

/-! ## CRYPTO_SPIKE and DELETE_STORM are never SAFE -/

theorem verdict_not_safe_of_ge (s : Dbl) (h : Dbl.ge s (Dbl.fin (55 / 100)) = true) :
    classifier_score_to_verdict s ≠ verdict_kind.VERDICT_SAFE := by
  simp only [classifier_score_to_verdict, h, if_true]
  split_ifs <;> simp

/-- C38: for every initialized pipeline-model state and every sample (with a library `exp`
that is monotone below `-3` and has `exp(-3) < 0.05`), `anomaly_evaluate` and
`classifier_classify` succeed, and if CRYPTO_SPIKE or DELETE_STORM is set then
`z_score >= 3`, `anomaly_score >= 1 - exp(-3) > 0.95`, `ransomware_score >= 0.55` and the
verdict is not SAFE. -/
theorem C38_crypto_or_delete_never_safe (L : Libm) (htail : L.ExpTail) (g : model_state)
    (x : telemetry_sample) (ci : Int) (hg : g.initialized ≠ 0) (hci : ci ≠ 0) :
    ∃ r g' c, anomaly_evaluate L g x = some (r, g') ∧ classifier_classify ci x r = some c ∧
      (flag_set r.flags ANOMALY_FLAG_CRYPTO_SPIKE = true ∨
          flag_set r.flags ANOMALY_FLAG_DELETE_STORM = true →
        (∃ z : ℚ, r.z_score = Dbl.fin z ∧ 3 ≤ z) ∧
        (∃ e3 a : ℚ, L.exp (Dbl.fin (-3)) = Dbl.fin e3 ∧ r.anomaly_score = Dbl.fin a ∧
          1 - e3 ≤ a ∧ 95 / 100 < a ∧ a ≤ 1) ∧
        (∃ s : ℚ, c.ransomware_score = Dbl.fin s ∧ 55 / 100 ≤ s) ∧
        c.verdict ≠ verdict_kind.VERDICT_SAFE) := by
  obtain ⟨r, hr, hz, hs, hc, -, -, hd, -, -⟩ := anomaly_evaluate_char L g x hg
  refine ⟨r, _, _, hr, classify_some ci x r hci, ?_⟩
  intro hflag
  have hz3 : 3 ≤ max_abs_z_of L g x := by
    rcases hflag with h | h
    · rcases hc.1 h with ⟨-, h3⟩ | ⟨-, -, h3⟩
      · exact le_trans h3 (z_of_le_max L g x Metric.aes)
      · exact le_trans h3 (z_of_le_max L g x Metric.disk_write)
    · exact le_trans (hd.1 h) (z_of_le_max L g x Metric.files_deleted)
  obtain ⟨e3, he3, hlt, hmono⟩ := htail
  obtain ⟨e, he, e0, ele⟩ := hmono (-(max_abs_z_of L g x)) (by linarith)
  have ha : r.anomaly_score = Dbl.fin (1 - e) := by
    rw [hs, if_pos (by linarith), he]
    simp only [Dbl.sub, Dbl.neg, Dbl.add, sub_eq_add_neg]
  have hscore := score_from_bits r (1 - e) ha (by linarith) (by linarith)
  have hb : ∀ b : Bool, (0 : ℚ) ≤ (if b then 1 else 0) := by
    intro b; cases b <;> norm_num
  have hsum : 55 / 100 ≤ 1 / 2 * (1 - e) +
      20 / 100 * (if flag_set r.flags ANOMALY_FLAG_WRITE_STORM then 1 else 0) +
      15 / 100 * (if flag_set r.flags ANOMALY_FLAG_RENAME_STORM then 1 else 0) +
      10 / 100 * (if flag_set r.flags ANOMALY_FLAG_DELETE_STORM then 1 else 0) +
      25 / 100 * (if flag_set r.flags ANOMALY_FLAG_CRYPTO_SPIKE then 1 else 0) := by
    have b1 := hb (flag_set r.flags ANOMALY_FLAG_WRITE_STORM)
    have b2 := hb (flag_set r.flags ANOMALY_FLAG_RENAME_STORM)
    have b3 := hb (flag_set r.flags ANOMALY_FLAG_DELETE_STORM)
    have b4 := hb (flag_set r.flags ANOMALY_FLAG_CRYPTO_SPIKE)
    rcases hflag with h | h
    · rw [h, if_pos rfl]
      linarith
    · rw [h, if_pos rfl]
      linarith
  have hs55 : (55 / 100 : ℚ) ≤ max 0 (min 1 (1 / 2 * (1 - e) +
      20 / 100 * (if flag_set r.flags ANOMALY_FLAG_WRITE_STORM then 1 else 0) +
      15 / 100 * (if flag_set r.flags ANOMALY_FLAG_RENAME_STORM then 1 else 0) +
      10 / 100 * (if flag_set r.flags ANOMALY_FLAG_DELETE_STORM then 1 else 0) +
      25 / 100 * (if flag_set r.flags ANOMALY_FLAG_CRYPTO_SPIKE then 1 else 0))) :=
    le_max_of_le_right (le_min (by norm_num) hsum)
  refine ⟨⟨_, hz, hz3⟩, ⟨e3, 1 - e, he3, ha, by linarith, by linarith, by linarith⟩,
    ⟨_, hscore, hs55⟩, ?_⟩
  apply verdict_not_safe_of_ge
  change Dbl.ge (classifier_compute_ransomware_score r) (Dbl.fin (55 / 100)) = true
  rw [hscore]
  simpa only [Dbl.ge, Dbl.le, decide_eq_true_eq] using hs55

/-- C38 for the AES reading `3` against a ready AES statistic with mean `0` and spread `1`,
where `z_aes = 3` sets CRYPTO_SPIKE. -/
theorem C38_crypto_or_delete_never_safe_witness :
    refLibm.ExpTail ∧ model_aes_ready.initialized ≠ 0 ∧ (1 : Int) ≠ 0 ∧
    ∃ r g' c, anomaly_evaluate refLibm model_aes_ready sample_aes3 = some (r, g') ∧
      classifier_classify 1 sample_aes3 r = some c ∧
      (flag_set r.flags ANOMALY_FLAG_CRYPTO_SPIKE = true ∨
          flag_set r.flags ANOMALY_FLAG_DELETE_STORM = true →
        (∃ z : ℚ, r.z_score = Dbl.fin z ∧ 3 ≤ z) ∧
        (∃ e3 a : ℚ, refLibm.exp (Dbl.fin (-3)) = Dbl.fin e3 ∧ r.anomaly_score = Dbl.fin a ∧
          1 - e3 ≤ a ∧ 95 / 100 < a ∧ a ≤ 1) ∧
        (∃ s : ℚ, c.ransomware_score = Dbl.fin s ∧ 55 / 100 ≤ s) ∧
        c.verdict ≠ verdict_kind.VERDICT_SAFE) :=
  ⟨refLibm_expTail, by decide, by decide,
   C38_crypto_or_delete_never_safe refLibm refLibm_expTail model_aes_ready sample_aes3 1
    (by decide) (by decide)⟩

/-! ## The second moment never decreases -/

theorem sum_sq_dev_nonneg (xs : List ℚ) : 0 ≤ sum_sq_dev xs := by
  rw [sum_sq_dev]
  apply List.sum_nonneg
  intro a ha
  obtain ⟨x, -, rfl⟩ := List.mem_map.1 ha
  positivity

theorem running_fold_shape (xs : List ℚ) (hlen : xs.length < 2 ^ 64) :
    ∃ mu M : ℚ, running_fold xs
      = { count := xs.length, mean := Dbl.fin mu, m2 := Dbl.fin M } ∧ 0 ≤ M := by
  by_cases hne : xs = []
  · subst hne
    exact ⟨0, 0, rfl, le_refl _⟩
  · exact ⟨_, _, running_fold_closed xs hne hlen, sum_sq_dev_nonneg xs⟩

theorem running_fold_last (ys : List ℚ) (x : ℚ) :
    running_fold (ys ++ [x]) = running_update (running_fold ys) (Dbl.fin x) := by
  simp [running_fold, List.foldl_append]

theorem welford_increment_nonneg (n : Nat) (mu x : ℚ) :
    0 ≤ (x - mu) * (x - (mu + (x - mu) / ((n : ℚ) + 1))) := by
  have hq : (0 : ℚ) < (n : ℚ) + 1 := by positivity
  have e : (x - mu) * (x - (mu + (x - mu) / ((n : ℚ) + 1)))
      = (x - mu) ^ 2 * ((n : ℚ) / ((n : ℚ) + 1)) := by
    field_simp
    ring
  rw [e]
  positivity

/-- C40: in exact arithmetic, for every sequence of finite values (shorter than `2^64`) fed
by Welford updates into a zeroed statistic, `m2` is a non-negative number after every update
and the update adds the non-negative increment `(x - mean_old) * (x - mean_new)`, so `m2`
never decreases, in the pipeline model and in the baseline store; the store's variance is a
non-negative number, so the `sqrt(variance)` it takes for `count >= 2` has a non-negative
finite argument. -/
theorem C40_m2_nonneg_nondecreasing (L : Libm) (xs : List ℚ) (x : ℚ)
    (hlen : xs.length + 1 < 2 ^ 64) :
    ∃ mu M mu' M' v : ℚ,
      (running_fold xs).mean = Dbl.fin mu ∧ (running_fold xs).m2 = Dbl.fin M ∧
      (running_fold (xs ++ [x])).mean = Dbl.fin mu' ∧
      (running_fold (xs ++ [x])).m2 = Dbl.fin M' ∧
      (welford_fold L xs).mean = Dbl.fin mu ∧ (welford_fold L xs).m2 = Dbl.fin M ∧
      (welford_fold L (xs ++ [x])).mean = Dbl.fin mu' ∧
      (welford_fold L (xs ++ [x])).m2 = Dbl.fin M' ∧
      0 ≤ M ∧ M' = M + (x - mu) * (x - mu') ∧ 0 ≤ (x - mu) * (x - mu') ∧ M ≤ M' ∧ 0 ≤ M' ∧
      (welford_fold L (xs ++ [x])).variance = Dbl.fin v ∧ 0 ≤ v ∧
      (welford_fold L (xs ++ [x])).stddev
        = (if 2 ≤ xs.length + 1 then L.sqrt (Dbl.fin v) else Dbl.fin 0) := by
  obtain ⟨mu, M, hfold, hM⟩ := running_fold_shape xs (by omega)
  have hnext : running_fold (xs ++ [x])
      = { count := xs.length + 1
          mean := Dbl.fin (mu + (x - mu) / ((xs.length : ℚ) + 1))
          m2 := Dbl.fin (M + (x - mu) * (x - (mu + (x - mu) / ((xs.length : ℚ) + 1)))) } := by
    rw [running_fold_last, hfold, running_update_fin xs.length mu M x hlen]
  have hinc := welford_increment_nonneg xs.length mu x
  have hw := welford_fold_core L xs
  have hw' := welford_fold_core L (xs ++ [x])
  rw [hfold] at hw
  rw [hnext] at hw'
  simp only [metric_stat.core, running_metric.mk.injEq] at hw hw'
  obtain ⟨-, w2, w3⟩ := hw
  obtain ⟨w4, w5, w6⟩ := hw'
  have hder := welford_update_derived L (welford_fold L xs) (Dbl.fin x)
  rw [← welford_fold_last] at hder
  by_cases h2 : 2 ≤ xs.length + 1
  · obtain ⟨hv, hsd⟩ := hder.1 (by rw [w4]; exact h2)
    have hn : ((xs.length : ℚ)) ≠ 0 := by
      have : 0 < xs.length := by omega
      positivity
    have hv' : (welford_fold L (xs ++ [x])).variance
        = Dbl.fin ((M + (x - mu) * (x - (mu + (x - mu) / ((xs.length : ℚ) + 1))))
            / (xs.length : ℚ)) := by
      rw [hv, w6, w4]
      simp [Dbl.div, Dbl.ofNat, hn]
    refine ⟨mu, M, _, _, _, by rw [hfold], by rw [hfold], by rw [hnext], by rw [hnext],
      w2, w3, w5, w6, hM, rfl, hinc, by linarith, by linarith, hv', ?_, ?_⟩
    · apply div_nonneg (by linarith)
      positivity
    · rw [if_pos h2, hsd, hv']
  · obtain ⟨hv, hsd⟩ := hder.2 (by rw [w4]; omega)
    exact ⟨mu, M, _, _, 0, by rw [hfold], by rw [hfold], by rw [hnext], by rw [hnext],
      w2, w3, w5, w6, hM, rfl, hinc, by linarith, by linarith, hv, le_refl _,
      by rw [if_neg h2, hsd]⟩

/-- C40 for the value `4` fed after `1` and `2`. -/
theorem C40_m2_nonneg_nondecreasing_witness :
    ([1, 2] : List ℚ).length + 1 < 2 ^ 64 ∧
    ∃ mu M mu' M' v : ℚ,
      (running_fold [1, 2]).mean = Dbl.fin mu ∧ (running_fold [1, 2]).m2 = Dbl.fin M ∧
      (running_fold ([1, 2] ++ [4])).mean = Dbl.fin mu' ∧
      (running_fold ([1, 2] ++ [4])).m2 = Dbl.fin M' ∧
      (welford_fold refLibm [1, 2]).mean = Dbl.fin mu ∧
      (welford_fold refLibm [1, 2]).m2 = Dbl.fin M ∧
      (welford_fold refLibm ([1, 2] ++ [4])).mean = Dbl.fin mu' ∧
      (welford_fold refLibm ([1, 2] ++ [4])).m2 = Dbl.fin M' ∧
      0 ≤ M ∧ M' = M + (4 - mu) * (4 - mu') ∧ 0 ≤ (4 - mu) * (4 - mu') ∧ M ≤ M' ∧ 0 ≤ M' ∧
      (welford_fold refLibm ([1, 2] ++ [4])).variance = Dbl.fin v ∧ 0 ≤ v ∧
      (welford_fold refLibm ([1, 2] ++ [4])).stddev
        = (if 2 ≤ ([1, 2] : List ℚ).length + 1 then refLibm.sqrt (Dbl.fin v) else Dbl.fin 0) :=
  ⟨by norm_num, C40_m2_nonneg_nondecreasing refLibm [1, 2] 4 (by norm_num)⟩


/-! ## Telemetry collection -/

theorem collect_cpu_metrics_aes (g : cpu_perf_state) (e : cpu_env) :
    (collect_cpu_metrics g e).1.aes_supported = 0 ∧
    (collect_cpu_metrics g e).1.aes_instructions_per_sec = Dbl.fin (-1) := by
  simp only [collect_cpu_metrics]
  split_ifs <;> exact ⟨rfl, rfl⟩

theorem telemetry_collect_isSome (g : telemetry_state) (p : cpu_perf_state) (e : collect_env) :
    (telemetry_collect g p e).isSome = true ↔ g.initialized ≠ 0 ∧ e.now_ns ≠ 0 := by
  by_cases h1 : g.initialized = 0
  · simp [telemetry_collect, h1]
  · by_cases h2 : e.now_ns = 0
    · simp [telemetry_collect, h1, h2]
    · simp [telemetry_collect, h1, h2]

/-- C36: `collect_cpu_metrics` leaves `aes_supported = 0` and
`aes_instructions_per_sec = -1.0` on every return path; `telemetry_collect` succeeds exactly
when the module is initialized and the clock can be read, and every sample it produces has
`aes_instructions_per_sec = -1.0`. -/
theorem C36_aes_always_unsupported (g : telemetry_state) (p : cpu_perf_state)
    (e : collect_env) :
    ((collect_cpu_metrics p e.cpu).1.aes_supported = 0 ∧
      (collect_cpu_metrics p e.cpu).1.aes_instructions_per_sec = Dbl.fin (-1)) ∧
    ((telemetry_collect g p e).isSome = true ↔ g.initialized ≠ 0 ∧ e.now_ns ≠ 0) ∧
    ∀ s g' p', telemetry_collect g p e = some (s, g', p') →
      s.aes_instructions_per_sec = Dbl.fin (-1) := by
  refine ⟨collect_cpu_metrics_aes p e.cpu, telemetry_collect_isSome g p e, ?_⟩
  intro s g' p' h
  by_cases h1 : g.initialized = 0
  · simp [telemetry_collect, h1] at h
  · by_cases h2 : e.now_ns = 0
    · simp [telemetry_collect, h1, h2] at h
    · simp only [telemetry_collect, if_neg h1, if_neg h2, Option.some.injEq,
        Prod.mk.injEq] at h
      obtain ⟨rfl, -, -⟩ := h
      simp only [(collect_cpu_metrics_aes p e.cpu).1, ne_eq, not_true_eq_false, if_false]

theorem rate_interval_eq (g : telemetry_state) (now_ns : Nat) (h : g.has_last_timestamp ≠ 0) :
    rate_interval g now_ns
      = Dbl.fin (max (spec_elapsed now_ns g.last_timestamp_ns) (1 / 1000000)) := by
  simp only [rate_interval, if_pos h, elapsed_seconds, spec_elapsed, k_rate_epsilon_seconds]
  by_cases hle : now_ns ≤ g.last_timestamp_ns
  · simp only [if_pos hle, Dbl.lt]
    norm_num
  · have hlt : g.last_timestamp_ns < now_ns := not_le.mp hle
    have hd : Dbl.div (Dbl.ofNat (now_ns - g.last_timestamp_ns)) (Dbl.fin 1000000000)
        = Dbl.fin (((now_ns : ℚ) - (g.last_timestamp_ns : ℚ)) / 1000000000) := by
      simp [Dbl.div, Dbl.ofNat, Nat.cast_sub hlt.le]
    simp only [if_neg hle, hd, Dbl.lt, decide_eq_true_eq]
    split_ifs with h2
    · rw [max_eq_right h2.le]
    · rw [max_eq_left (not_lt.mp h2)]

theorem rate_fin (n : Nat) (d : ℚ) (hd : 0 < d) :
    Dbl.div (Dbl.ofNat n) (Dbl.fin d) = Dbl.fin ((n : ℚ) / d) := by
  simp [Dbl.div, Dbl.ofNat, hd.ne']

/-- C34: a successful `telemetry_collect` (module initialized, clock readable) stores the
timestamp; without a previous timestamp, in particular on the first collect after
`telemetry_init`, the three file rates are `0` whatever the counts are; with a previous
timestamp each rate is `count / max(elapsed_seconds, 1e-6)` where
`elapsed_seconds = (now_ns - last_timestamp_ns) / 1e9`, taken as `0` when
`now_ns <= last_timestamp_ns`; in both cases the three rates are finite and non-negative. -/
theorem C34_file_event_rates (g : telemetry_state) (p : cpu_perf_state) (e : collect_env)
    (hg : g.initialized ≠ 0) (hnow : e.now_ns ≠ 0) :
    ∃ s g' p', telemetry_collect g p e = some (s, g', p') ∧
      g'.has_last_timestamp = 1 ∧ g'.last_timestamp_ns = e.now_ns ∧
      (g.has_last_timestamp = 0 →
        s.files_modified_per_sec = Dbl.fin 0 ∧ s.files_renamed_per_sec = Dbl.fin 0 ∧
        s.files_deleted_per_sec = Dbl.fin 0) ∧
      (∀ root fs_monitor g0, telemetry_init root fs_monitor g0 = (0, g) →
        s.files_modified_per_sec = Dbl.fin 0 ∧ s.files_renamed_per_sec = Dbl.fin 0 ∧
        s.files_deleted_per_sec = Dbl.fin 0) ∧
      (g.has_last_timestamp ≠ 0 →
        s.files_modified_per_sec = Dbl.fin ((e.fs.files_modified : ℚ) /
          max (spec_elapsed e.now_ns g.last_timestamp_ns) (1 / 1000000)) ∧
        s.files_renamed_per_sec = Dbl.fin ((e.fs.files_renamed : ℚ) /
          max (spec_elapsed e.now_ns g.last_timestamp_ns) (1 / 1000000)) ∧
        s.files_deleted_per_sec = Dbl.fin ((e.fs.files_deleted : ℚ) /
          max (spec_elapsed e.now_ns g.last_timestamp_ns) (1 / 1000000))) ∧
      ∃ a b c : ℚ, s.files_modified_per_sec = Dbl.fin a ∧ s.files_renamed_per_sec = Dbl.fin b ∧
        s.files_deleted_per_sec = Dbl.fin c ∧ 0 ≤ a ∧ 0 ≤ b ∧ 0 ≤ c := by
  have hpos : (0 : ℚ) < max (spec_elapsed e.now_ns g.last_timestamp_ns) (1 / 1000000) :=
    lt_max_of_lt_right (by norm_num)
  have hfirst : g.has_last_timestamp = 0 →
      (if g.has_last_timestamp ≠ 0
        then Dbl.div (Dbl.ofNat e.fs.files_modified) (rate_interval g e.now_ns)
        else Dbl.fin 0) = Dbl.fin 0 ∧
      (if g.has_last_timestamp ≠ 0
        then Dbl.div (Dbl.ofNat e.fs.files_renamed) (rate_interval g e.now_ns)
        else Dbl.fin 0) = Dbl.fin 0 ∧
      (if g.has_last_timestamp ≠ 0
        then Dbl.div (Dbl.ofNat e.fs.files_deleted) (rate_interval g e.now_ns)
        else Dbl.fin 0) = Dbl.fin 0 := by
    intro h0
    simp [h0]
  have hnext : g.has_last_timestamp ≠ 0 →
      (if g.has_last_timestamp ≠ 0
        then Dbl.div (Dbl.ofNat e.fs.files_modified) (rate_interval g e.now_ns)
        else Dbl.fin 0) = Dbl.fin ((e.fs.files_modified : ℚ) /
          max (spec_elapsed e.now_ns g.last_timestamp_ns) (1 / 1000000)) ∧
      (if g.has_last_timestamp ≠ 0
        then Dbl.div (Dbl.ofNat e.fs.files_renamed) (rate_interval g e.now_ns)
        else Dbl.fin 0) = Dbl.fin ((e.fs.files_renamed : ℚ) /
          max (spec_elapsed e.now_ns g.last_timestamp_ns) (1 / 1000000)) ∧
      (if g.has_last_timestamp ≠ 0
        then Dbl.div (Dbl.ofNat e.fs.files_deleted) (rate_interval g e.now_ns)
        else Dbl.fin 0) = Dbl.fin ((e.fs.files_deleted : ℚ) /
          max (spec_elapsed e.now_ns g.last_timestamp_ns) (1 / 1000000)) := by
    intro h1
    rw [if_pos h1, if_pos h1, if_pos h1, rate_interval_eq g e.now_ns h1, rate_fin _ _ hpos,
      rate_fin _ _ hpos, rate_fin _ _ hpos]
    exact ⟨rfl, rfl, rfl⟩
  simp only [telemetry_collect, if_neg hg, if_neg hnow]
  refine ⟨_, _, _, rfl, rfl, rfl, hfirst, ?_, hnext, ?_⟩
  · intro root fs_monitor g0 hinit
    apply hfirst
    simp only [telemetry_init] at hinit
    split_ifs at hinit
    · simp only [Prod.mk.injEq] at hinit
      omega
    · simp only [Prod.mk.injEq] at hinit
      omega
    · simp only [Prod.mk.injEq] at hinit
      rw [← hinit.2]
  · by_cases h1 : g.has_last_timestamp ≠ 0
    · obtain ⟨a1, a2, a3⟩ := hnext h1
      exact ⟨_, _, _, a1, a2, a3, div_nonneg (Nat.cast_nonneg _) hpos.le,
        div_nonneg (Nat.cast_nonneg _) hpos.le, div_nonneg (Nat.cast_nonneg _) hpos.le⟩
    · obtain ⟨a1, a2, a3⟩ := hfirst (not_not.mp h1)
      exact ⟨0, 0, 0, a1, a2, a3, le_refl _, le_refl _, le_refl _⟩

/-- C34 for a collection half a second after the previous one that saw 5 modified, 2
renamed and 1 deleted file. -/
theorem C34_file_event_rates_witness :
    telemetry_state_at_1s.initialized ≠ 0 ∧ (collect_env_busy 1500000000).now_ns ≠ 0 ∧
    ∃ s g' p', telemetry_collect telemetry_state_at_1s cpu_perf_state_zero
        (collect_env_busy 1500000000) = some (s, g', p') ∧
      g'.has_last_timestamp = 1 ∧ g'.last_timestamp_ns = (collect_env_busy 1500000000).now_ns ∧
      (telemetry_state_at_1s.has_last_timestamp = 0 →
        s.files_modified_per_sec = Dbl.fin 0 ∧ s.files_renamed_per_sec = Dbl.fin 0 ∧
        s.files_deleted_per_sec = Dbl.fin 0) ∧
      (∀ root fs_monitor g0, telemetry_init root fs_monitor g0 = (0, telemetry_state_at_1s) →
        s.files_modified_per_sec = Dbl.fin 0 ∧ s.files_renamed_per_sec = Dbl.fin 0 ∧
        s.files_deleted_per_sec = Dbl.fin 0) ∧
      (telemetry_state_at_1s.has_last_timestamp ≠ 0 →
        s.files_modified_per_sec
          = Dbl.fin (((collect_env_busy 1500000000).fs.files_modified : ℚ) /
            max (spec_elapsed (collect_env_busy 1500000000).now_ns
              telemetry_state_at_1s.last_timestamp_ns) (1 / 1000000)) ∧
        s.files_renamed_per_sec
          = Dbl.fin (((collect_env_busy 1500000000).fs.files_renamed : ℚ) /
            max (spec_elapsed (collect_env_busy 1500000000).now_ns
              telemetry_state_at_1s.last_timestamp_ns) (1 / 1000000)) ∧
        s.files_deleted_per_sec
          = Dbl.fin (((collect_env_busy 1500000000).fs.files_deleted : ℚ) /
            max (spec_elapsed (collect_env_busy 1500000000).now_ns
              telemetry_state_at_1s.last_timestamp_ns) (1 / 1000000))) ∧
      ∃ a b c : ℚ, s.files_modified_per_sec = Dbl.fin a ∧ s.files_renamed_per_sec = Dbl.fin b ∧
        s.files_deleted_per_sec = Dbl.fin c ∧ 0 ≤ a ∧ 0 ≤ b ∧ 0 ≤ c :=
  ⟨by decide, by decide,
   C34_file_event_rates telemetry_state_at_1s cpu_perf_state_zero (collect_env_busy 1500000000)
    (by decide) (by decide)⟩

/-- The rates of the collection of the witness: 10, 4 and 2 events per second. -/
theorem rates_half_second :
    ∃ s g' p', telemetry_collect telemetry_state_at_1s cpu_perf_state_zero
        (collect_env_busy 1500000000) = some (s, g', p') ∧
      s.files_modified_per_sec = Dbl.fin 10 ∧ s.files_renamed_per_sec = Dbl.fin 4 ∧
      s.files_deleted_per_sec = Dbl.fin 2 ∧ s.aes_instructions_per_sec = Dbl.fin (-1) := by
  simp only [telemetry_collect, telemetry_state_at_1s, collect_env_busy]
  refine ⟨_, _, _, rfl, ?_, ?_, ?_, ?_⟩ <;>
    norm_num [rate_interval, elapsed_seconds, k_rate_epsilon_seconds, Dbl.div, Dbl.ofNat,
      Dbl.lt, (collect_cpu_metrics_aes _ _).1]


/-! ## JSON string escaping -/

theorem escape_byte_eq_spec (c : Nat) : escape_byte c = spec_escape c := by
  by_cases h : c < 0x20
  · interval_cases c <;> decide
  · have h1 : c ≠ 8 := by omega
    have h2 : c ≠ 12 := by omega
    have h3 : c ≠ 10 := by omega
    have h4 : c ≠ 13 := by omega
    have h5 : c ≠ 9 := by omega
    by_cases hq : c = 0x22
    · subst hq; decide
    · by_cases hb : c = 0x5C
      · subst hb; decide
      · have e1 : ('"'.toNat) = 0x22 := by decide
        have e2 : ('\\'.toNat) = 0x5C := by decide
        have e3 : ('\n'.toNat) = 10 := by decide
        have e4 : ('\r'.toNat) = 13 := by decide
        have e5 : ('\t'.toNat) = 9 := by decide
        simp only [escape_byte, spec_escape, e1, e2, e3, e4, e5, hq, hb, h1, h2, h3, h4, h5, h,
          or_self, if_false]

theorem escape_byte_printable (c : Nat) (hc : c ≠ 0) : ∀ b ∈ escape_byte c, 0x20 ≤ b := by
  by_cases h : c < 0x20
  · interval_cases c
    · exact absurd rfl hc
    all_goals decide
  · intro b hb
    simp only [escape_byte] at hb
    split_ifs at hb with h1 h2 h3 h4 h5 h6
    · rcases h1 with rfl | rfl
      · simp only [List.mem_cons, List.mem_singleton, List.not_mem_nil, or_false] at hb
        omega
      · simp only [List.mem_cons, List.mem_singleton, List.not_mem_nil, or_false] at hb
        omega
    all_goals first | omega | (simp only [List.mem_singleton] at hb; omega)

theorem json_unescape_simple (e c : Nat) (tail : List Nat) (he : e ≠ 0x75)
    (hs : json_simple_escape e = some c) :
    json_unescape (0x5C :: e :: tail) = (json_unescape tail).map (fun t => c :: t) := by
  rw [json_unescape.eq_def]
  simp only [if_true, if_neg he, hs]
  cases json_unescape tail <;> rfl

theorem json_unescape_hex (h1 h2 h3 h4 v1 v2 v3 v4 : Nat) (tail : List Nat)
    (e1 : hex_value h1 = some v1) (e2 : hex_value h2 = some v2)
    (e3 : hex_value h3 = some v3) (e4 : hex_value h4 = some v4) :
    json_unescape (0x5C :: 0x75 :: h1 :: h2 :: h3 :: h4 :: tail)
      = (json_unescape tail).map
          (fun t => utf8_encode (v1 * 4096 + v2 * 256 + v3 * 16 + v4) ++ t) := by
  rw [json_unescape.eq_def]
  simp only [if_true, e1, e2, e3, e4]
  cases json_unescape tail <;> rfl

theorem json_unescape_raw (b : Nat) (tail : List Nat) (h1 : b ≠ 0x5C) (h2 : ¬ b < 0x20)
    (h3 : b ≠ 0x22) :
    json_unescape (b :: tail) = (json_unescape tail).map (fun t => b :: t) := by
  rw [json_unescape.eq_def]
  simp only [if_neg h1, h2, h3, or_self, if_false]
  cases json_unescape tail <;> rfl

theorem unescape_escape_byte (c : Nat) (hc : c ≠ 0) (tail : List Nat) :
    json_unescape (escape_byte c ++ tail) = (json_unescape tail).map (fun t => c :: t) := by
  by_cases h : c < 0x20
  · have hx : ∀ d : Nat, d < 16 → hex_value (hex_digit d) = some d := by decide
    by_cases hs : c = 8 ∨ c = 12 ∨ c = 10 ∨ c = 13 ∨ c = 9
    · rcases hs with rfl | rfl | rfl | rfl | rfl <;>
        exact json_unescape_simple _ _ tail (by decide) (by decide)
    · have e : escape_byte c = [0x5C, 0x75, hex_digit (c / 4096 % 16), hex_digit (c / 256 % 16),
          hex_digit (c / 16 % 16), hex_digit (c % 16)] := by
        have h1 : c ≠ 8 := by omega
        have h2 : c ≠ 12 := by omega
        have h3 : c ≠ 10 := by omega
        have h4 : c ≠ 13 := by omega
        have h5 : c ≠ 9 := by omega
        have h6 : c ≠ 0x22 := by omega
        have h7 : c ≠ 0x5C := by omega
        simp only [escape_byte, printf_04x, h1, h2, h3, h4, h5, h6, h7, h, or_self, if_false,
          if_true, List.cons_append, List.nil_append]
      rw [e]
      simp only [List.cons_append, List.nil_append]
      rw [json_unescape_hex _ _ _ _ _ _ _ _ tail (hx _ (Nat.mod_lt _ (by norm_num)))
        (hx _ (Nat.mod_lt _ (by norm_num))) (hx _ (Nat.mod_lt _ (by norm_num)))
        (hx _ (Nat.mod_lt _ (by norm_num)))]
      have hv : c / 4096 % 16 * 4096 + c / 256 % 16 * 256 + c / 16 % 16 * 16 + c % 16 = c := by
        omega
      have hu : utf8_encode c = [c] := by
        simp only [utf8_encode]
        rw [if_pos (by omega)]
      rw [hv, hu]
      rfl
  · by_cases hq : c = 0x22
    · subst hq
      exact json_unescape_simple _ _ tail (by decide) (by decide)
    · by_cases hb : c = 0x5C
      · subst hb
        exact json_unescape_simple _ _ tail (by decide) (by decide)
      · have e : escape_byte c = [c] := by
          have h1 : c ≠ 8 := by omega
          have h2 : c ≠ 12 := by omega
          have h3 : c ≠ 10 := by omega
          have h4 : c ≠ 13 := by omega
          have h5 : c ≠ 9 := by omega
          simp only [escape_byte, hq, hb, h1, h2, h3, h4, h5, h, or_self, if_false]
        rw [e]
        exact json_unescape_raw c tail hb h hq

theorem c_string_nonzero (s : List Nat) : ∀ c ∈ c_string s, c ≠ 0 := by
  intro c hc
  have := List.mem_takeWhile_imp hc
  simpa using this

theorem unescape_flatMap (l : List Nat) (hl : ∀ c ∈ l, c ≠ 0) :
    json_unescape (l.flatMap escape_byte) = some l := by
  induction l with
  | nil => simp [json_unescape]
  | cons c l ih =>
    rw [List.flatMap_cons,
      unescape_escape_byte c (hl c (List.mem_cons_self _ _)),
      ih (fun d hd => hl d (List.mem_cons_of_mem _ hd))]
    rfl

theorem write_escaped_loop_ok (s : List Nat) :
    ∀ (calls_ok : Nat) (stream : List Nat), (c_string s).length + 1 ≤ calls_ok →
      write_escaped_loop calls_ok stream s
        = (0, stream ++ (c_string s).flatMap escape_byte ++ [0x22]) := by
  induction s with
  | nil =>
    intro calls_ok stream h
    have h0 : calls_ok ≠ 0 := by omega
    simp [write_escaped_loop, c_string, h0]
  | cons c rest ih =>
    intro calls_ok stream h
    by_cases hc : c = 0
    · have h0 : calls_ok ≠ 0 := by omega
      simp [write_escaped_loop, c_string, hc, h0]
    · have e : c_string (c :: rest) = c :: c_string rest := by
        have hb : (c != 0) = true := by simpa using hc
        simp only [c_string, List.takeWhile, hb]
      rw [e] at h ⊢
      simp only [List.length_cons] at h
      have h0 : calls_ok ≠ 0 := by omega
      simp only [write_escaped_loop, if_neg hc, if_neg h0]
      rw [ih (calls_ok - 1) _ (by omega), List.flatMap_cons]
      simp only [List.append_assoc]

/-- C33: for every C string `s` (the bytes at the pointer up to the first NUL),
`write_json_escaped_string` on a stream that accepts its writes returns `0` and appends a
double quote, an interior and a double quote.  The interior is the concatenation of the
per-byte escapes of the spec (`\"` and `\\`, the two-character escapes for `\b \f \n \r \t`,
`\u00XX` with lowercase hex digits for the other bytes below `0x20`, every other byte
unchanged); it holds no byte below `0x20`, and JSON unescaping accepts it (so no double quote
or backslash stands unescaped) and returns the original bytes. -/
theorem C33_json_string_escape (s stream : List Nat) (calls_ok : Nat)
    (hok : (c_string s).length + 2 ≤ calls_ok) :
    ∃ interior, write_json_escaped_string calls_ok stream s
        = (0, stream ++ [0x22] ++ interior ++ [0x22]) ∧
      interior = (c_string s).flatMap spec_escape ∧
      (∀ b ∈ interior, 0x20 ≤ b) ∧
      json_unescape interior = some (c_string s) := by
  have h0 : calls_ok ≠ 0 := by omega
  refine ⟨(c_string s).flatMap escape_byte, ?_, ?_, ?_, ?_⟩
  · simp only [write_json_escaped_string, if_neg h0]
    rw [write_escaped_loop_ok s (calls_ok - 1) _ (by omega)]
  · congr 1
    funext c
    exact escape_byte_eq_spec c
  · intro b hb
    obtain ⟨c, hc, hbc⟩ := List.mem_flatMap.1 hb
    exact escape_byte_printable c (c_string_nonzero s c hc) b hbc
  · exact unescape_flatMap _ (c_string_nonzero s)

/-- C33 for a name with a double quote, a line feed and the byte `0x01`, written to an empty
stream. -/
theorem C33_json_string_escape_witness :
    (c_string comm_tricky).length + 2 ≤ 8 ∧
    ∃ interior, write_json_escaped_string 8 [] comm_tricky
        = (0, [] ++ [0x22] ++ interior ++ [0x22]) ∧
      interior = (c_string comm_tricky).flatMap spec_escape ∧
      (∀ b ∈ interior, 0x20 ≤ b) ∧
      json_unescape interior = some (c_string comm_tricky) :=
  ⟨by decide, C33_json_string_escape comm_tricky [] 8 (by decide)⟩

/-- The text written for `comm_tricky`: `"a\"b\n\u0001z"`. -/
theorem escaped_comm_tricky :
    write_json_escaped_string 8 [] comm_tricky
      = (0, "\"a\\\"b\\n\\u0001z\"".toList.map Char.toNat) := by
  decide


/-- The string `comms_send_telemetry` hands to `write_json_escaped_string`: the bytes of
`top_comm` before its first NUL, at most 64 of them. -/
theorem top_comm_safe_string (top_comm : List Nat) :
    c_string (top_comm_safe top_comm) = c_string (top_comm.take 64) := by
  have h : ∀ l : List Nat, c_string (l ++ [0]) = c_string l := by
    intro l
    induction l with
    | nil => rfl
    | cons c cs ih =>
      simp only [c_string, List.cons_append, List.takeWhile] at ih ⊢
      cases hc : (c != 0)
      · rfl
      · simp only [List.append_eq, ih]
  exact h _

/-! ## Configuration file: lines -/

theorem fgets_all_append (n : Nat) (pre rest : List Char) (h : pre.getLast? = some '\n') :
    ∀ cur : List Char,
      fgets_all n cur (pre ++ rest) = fgets_all n cur pre ++ fgets_all n [] rest := by
  induction pre with
  | nil => simp at h
  | cons c cs ih =>
    intro cur
    by_cases hcs : cs = []
    · subst hcs
      have hc : c = '\n' := by simpa using h
      subst hc
      simp [fgets_all]
    · have h' : cs.getLast? = some '\n' := by
        rw [← h]
        cases cs with
        | nil => exact absurd rfl hcs
        | cons d ds => simp [List.getLast?_cons_cons]
      simp only [List.cons_append, fgets_all, List.append_eq]
      split_ifs
      · rw [ih h' []]
        simp
      · exact ih h' _

theorem fgets_all_line (n : Nat) (line : List Char) (hl : ∀ c ∈ line, c ≠ '\n') :
    ∀ cur : List Char, (cur ++ line).length + 1 ≤ n →
      fgets_all n cur (line ++ ['\n']) = [cur ++ line ++ ['\n']] := by
  induction line with
  | nil =>
    intro cur _
    simp [fgets_all]
  | cons c cs ih =>
    intro cur hfit
    have hc : c ≠ '\n' := hl c (List.mem_cons_self _ _)
    have hlen : (cur ++ [c]).length ≠ n := by
      simp only [List.length_append, List.length_cons, List.length_nil] at hfit ⊢
      omega
    simp only [List.cons_append, fgets_all, hc, hlen, or_self, if_false, List.append_eq]
    rw [ih (fun d hd => hl d (List.mem_cons_of_mem _ hd)) (cur ++ [c])
      (by simp only [List.length_append, List.length_cons, List.length_nil] at hfit ⊢; omega)]
    simp

theorem config_lines_append (a b : List (List Char)) :
    ∀ st : config_state, config_lines st (a ++ b)
      = (config_lines st a).bind (fun s => config_lines s b) := by
  induction a with
  | nil => intro st; rfl
  | cons x xs ih =>
    intro st
    simp only [List.cons_append, config_lines]
    cases config_line st x with
    | none => rfl
    | some s => exact ih s

theorem trim_fixed (v : List Char) (h : trim_inplace v = v) :
    v.dropWhile isspace = v ∧ v.rdropWhile isspace = v := by
  have h1 : (v.dropWhile isspace).length ≤ v.length := (List.dropWhile_suffix _).length_le
  have h2 : ((v.dropWhile isspace).rdropWhile isspace).length ≤ (v.dropWhile isspace).length :=
    (List.rdropWhile_prefix _ _).length_le
  have h3 : ((v.dropWhile isspace).rdropWhile isspace).length = v.length := by
    rw [← trim_inplace, h]
  have hd : v.dropWhile isspace = v :=
    (List.dropWhile_suffix _).eq_of_length (by omega)
  refine ⟨hd, ?_⟩
  have := h
  rw [trim_inplace, hd] at this
  exact this

theorem dropWhile_append_all {α : Type} (p : α → Bool) (k l : List α)
    (hk : ∀ c ∈ k, p c = true) : (k ++ l).dropWhile p = l.dropWhile p := by
  induction k with
  | nil => rfl
  | cons c cs ih =>
    simp only [List.cons_append, List.dropWhile, hk c (List.mem_cons_self _ _), List.append_eq]
    exact ih (fun d hd => hk d (List.mem_cons_of_mem _ hd))

theorem takeWhile_append_stop {α : Type} (p : α → Bool) (k l : List α) (a : α)
    (hk : ∀ c ∈ k, p c = true) (ha : p a = false) : (k ++ a :: l).takeWhile p = k := by
  induction k with
  | nil => simp [List.takeWhile, ha]
  | cons c cs ih =>
    simp only [List.cons_append, List.takeWhile, hk c (List.mem_cons_self _ _), List.append_eq]
    rw [ih (fun d hd => hk d (List.mem_cons_of_mem _ hd))]

/-- What the loop body of `config_load` makes of a line `key=value\n` whose key and value
are free of NUL and newline and already trimmed: the `strcmp` chain on that key and value. -/
theorem config_line_key_value (st : config_state) (k v : List Char)
    (hk0 : k ≠ []) (hk1 : k.head? ≠ some '#')
    (hk : ∀ c ∈ k, c ≠ '=' ∧ c ≠ Char.ofNat 0 ∧ isspace c = false)
    (hv : ∀ c ∈ v, c ≠ '\n' ∧ c ≠ Char.ofNat 0) (ht : trim_inplace v = v) :
    config_line st (conf_key_line k v) = config_entry st k v := by
  obtain ⟨hd, hr⟩ := trim_fixed v ht
  have hraw : c_str (conf_key_line k v) = conf_key_line k v := by
    rw [c_str, List.takeWhile_eq_self_iff]
    intro c hc
    simp only [conf_key_line, List.mem_append, List.mem_cons, List.mem_singleton,
      List.not_mem_nil, or_false] at hc
    rcases hc with (hc | rfl | hc) | rfl
    · simpa using (hk c hc).2.1
    · decide
    · simpa using (hv c hc).2
    · decide
  obtain ⟨c0, cs, rfl⟩ : ∃ c0 cs, k = c0 :: cs := by
    cases k with
    | nil => exact absurd rfl hk0
    | cons c0 cs => exact ⟨c0, cs, rfl⟩
  have hc0 : isspace c0 = false := (hk c0 (List.mem_cons_self _ _)).2.2
  have hlead : (conf_key_line (c0 :: cs) v).dropWhile isspace = conf_key_line (c0 :: cs) v := by
    simp [conf_key_line, List.dropWhile, hc0]
  have hbody : ((c0 :: cs) ++ '=' :: v).rdropWhile isspace = (c0 :: cs) ++ '=' :: v := by
    rw [List.rdropWhile_eq_self_iff]
    intro hl
    by_cases hv0 : v = []
    · subst hv0
      simp [isspace]
    · have e : ((c0 :: cs) ++ '=' :: v).getLast hl = v.getLast hv0 := by
        rw [List.getLast_append_of_ne_nil (by simp), List.getLast_cons hv0]
      rw [e]
      exact (List.rdropWhile_eq_self_iff.1 hr) hv0
  have htrim : trim_inplace (conf_key_line (c0 :: cs) v) = (c0 :: cs) ++ '=' :: v := by
    rw [trim_inplace, hlead]
    have e : conf_key_line (c0 :: cs) v = ((c0 :: cs) ++ '=' :: v) ++ ['\n'] := by
      simp [conf_key_line]
    rw [e, List.rdropWhile_concat_pos _ _ _ (by decide), hbody]
  have hkey : ∀ c ∈ c0 :: cs, (fun c : Char => c != '=') c = true := by
    intro c hc
    simpa using (hk c hc).1
  have hkt : trim_inplace (c0 :: cs) = c0 :: cs := by
    have h1 : (c0 :: cs).dropWhile isspace = c0 :: cs := by simp [List.dropWhile, hc0]
    rw [trim_inplace, h1, List.rdropWhile_eq_self_iff]
    intro hl
    have := (hk _ (List.getLast_mem hl)).2.2
    simp [this]
  simp only [config_line, hraw, htrim]
  have hne : ¬((c0 :: cs) ++ '=' :: v = [] ∨ ((c0 :: cs) ++ '=' :: v).head? = some '#') := by
    simp only [List.cons_append, List.head?_cons, reduceCtorEq, false_or]
    simpa using hk1
  rw [if_neg hne, dropWhile_append_all _ _ _ hkey,
    takeWhile_append_stop _ _ _ _ hkey (by decide)]
  simp only [List.dropWhile, bne_self_eq_false, hkt, ht]

/-- The result of `config_load` on a text whose last line is `key=value\n`, in terms of the
state `st` that the lines before it produce. -/
theorem config_load_last_line (pre : List Char) (st : config_state) (k v : List Char)
    (hpre : pre = [] ∨ pre.getLast? = some '\n')
    (hst : config_lines config_state_zero (fgets_all 2047 [] pre) = some st)
    (hk0 : k ≠ []) (hk1 : k.head? ≠ some '#')
    (hk : ∀ c ∈ k, c ≠ '=' ∧ c ≠ Char.ofNat 0 ∧ isspace c = false)
    (hv : ∀ c ∈ v, c ≠ '\n' ∧ c ≠ Char.ofNat 0) (ht : trim_inplace v = v)
    (hfit : k.length + v.length + 2 ≤ 2047) :
    config_load (some (pre ++ conf_key_line k v)) false
      = match config_entry st k v with
        | none => none
        | some st' => if st'.complete then some st'.cfg else none := by
  have hline : fgets_all 2047 [] (conf_key_line k v) = [conf_key_line k v] := by
    have e : conf_key_line k v = (k ++ '=' :: v) ++ ['\n'] := by simp [conf_key_line]
    rw [e, fgets_all_line 2047 (k ++ '=' :: v) _ [] (by simp; omega)]
    · simp
    · intro c hc
      simp only [List.mem_append, List.mem_cons] at hc
      rcases hc with hc | rfl | hc
      · intro h
        have := (hk c hc).2.2
        rw [h] at this
        exact absurd this (by decide)
      · decide
      · exact (hv c hc).1
  have hchunks : fgets_all 2047 [] (pre ++ conf_key_line k v)
      = fgets_all 2047 [] pre ++ [conf_key_line k v] := by
    rcases hpre with rfl | hp
    · simp [hline, fgets_all]
    · rw [fgets_all_append 2047 pre _ hp [], hline]
  simp only [config_load, hchunks, config_lines_append, hst, Option.bind, config_lines,
    config_line_key_value st k v hk0 hk1 hk hv ht]
  cases config_entry st k v with
  | none => rfl
  | some st' =>
    simp only [config_state.complete, Bool.false_eq_true, if_false]
    by_cases hc : st'.found_interval = 0 ∨ st'.found_root = 0 ∨ st'.found_endpoint = 0 ∨
        st'.found_baseline_db = 0 ∨ st'.found_mode = 0
    · simp [hc]
    · simp [hc]


/-! ## Configuration file: `cloud_endpoint_url` -/

theorem trim_of_no_space (v : List Char) (h : ∀ c ∈ v, isspace c = false) :
    trim_inplace v = v := by
  have h1 : v.dropWhile isspace = v := by
    rw [List.dropWhile_eq_self_iff]
    intro hl
    have := h _ (List.getElem_mem hl)
    simpa using this
  rw [trim_inplace, h1, List.rdropWhile_eq_self_iff]
  intro hl
  simp [h _ (List.getLast_mem hl)]

theorem url_entry (st : config_state) (v : List Char) :
    config_entry st "cloud_endpoint_url".toList v
      = if v = [] ∨ v.length ≥ 1024 then none
        else some { st with cfg := { st.cfg with cloud_endpoint_url := String.mk v }
                            found_endpoint := 1 } := by
  have h1 : "cloud_endpoint_url".toList ≠ "sampling_interval_ms".toList := by decide
  have h2 : "cloud_endpoint_url".toList ≠ "telemetry_root_path".toList := by decide
  simp only [config_entry, if_neg h1, if_neg h2, if_true]

theorem url_key_ok :
    "cloud_endpoint_url".toList ≠ [] ∧ "cloud_endpoint_url".toList.head? ≠ some '#' ∧
    ∀ c ∈ "cloud_endpoint_url".toList, c ≠ '=' ∧ c ≠ Char.ofNat 0 ∧ isspace c = false := by
  decide

theorem config_load_url (pre : List Char) (st : config_state) (v : List Char)
    (hpre : pre = [] ∨ pre.getLast? = some '\n')
    (hst : config_lines config_state_zero (fgets_all 2047 [] pre) = some st)
    (hfound : st.found_interval ≠ 0 ∧ st.found_root ≠ 0 ∧ st.found_baseline_db ≠ 0 ∧
      st.found_mode ≠ 0)
    (hv : ∀ c ∈ v, c ≠ '\n' ∧ c ≠ Char.ofNat 0) (ht : trim_inplace v = v)
    (hlen : v.length ≤ 2027) :
    config_load (some (pre ++ conf_key_line "cloud_endpoint_url".toList v)) false
      = if v = [] ∨ 1024 ≤ v.length then none
        else some { st.cfg with cloud_endpoint_url := String.mk v } := by
  obtain ⟨k0, k1, k2⟩ := url_key_ok
  have hk : "cloud_endpoint_url".toList.length = 18 := by decide
  rw [config_load_last_line pre st _ v hpre hst k0 k1 k2 hv ht (by rw [hk]; omega), url_entry]
  by_cases h : v = [] ∨ 1024 ≤ v.length
  · simp only [ge_iff_le, h, if_true]
  · obtain ⟨f1, f2, f3, f4⟩ := hfound
    simp only [ge_iff_le, h, if_false, config_state.complete, f1, f2, f3, f4, false_or,
      one_ne_zero, or_self, decide_False, Bool.not_false, if_true]

/-- C32 (amended): given a text before it that sets the other four required keys validly,
`config_load` accepts every non-empty `cloud_endpoint_url` value of at most 1023 characters
(trimmed, free of NUL and newline) and stores it; it rejects the empty value and every value
of 1024 characters or more that fits the line buffer. -/
theorem C32_endpoint_url_length (pre : List Char) (st : config_state) (v : List Char)
    (hpre : pre = [] ∨ pre.getLast? = some '\n')
    (hst : config_lines config_state_zero (fgets_all 2047 [] pre) = some st)
    (hfound : st.found_interval ≠ 0 ∧ st.found_root ≠ 0 ∧ st.found_baseline_db ≠ 0 ∧
      st.found_mode ≠ 0)
    (hv : ∀ c ∈ v, c ≠ '\n' ∧ c ≠ Char.ofNat 0) (ht : trim_inplace v = v)
    (hlen : v.length ≤ 2027) :
    (v ≠ [] ∧ v.length ≤ 1023 →
      config_load (some (pre ++ conf_key_line "cloud_endpoint_url".toList v)) false
        = some { st.cfg with cloud_endpoint_url := String.mk v }) ∧
    (v = [] ∨ 1024 ≤ v.length →
      config_load (some (pre ++ conf_key_line "cloud_endpoint_url".toList v)) false = none) := by
  rw [config_load_url pre st v hpre hst hfound hv ht hlen]
  constructor
  · rintro ⟨h1, h2⟩
    rw [if_neg]
    rintro (h | h)
    · exact h1 h
    · omega
  · intro h
    rw [if_pos h]

theorem conf_no_url_state :
    config_lines config_state_zero (fgets_all 2047 [] conf_no_url) = some state_no_url := by
  rfl

/-- C32 (amended) for the URL `https://collector.example/ingest` after `conf_no_url`. -/
theorem C32_endpoint_url_length_witness :
    (conf_no_url = [] ∨ conf_no_url.getLast? = some '\n') ∧
    config_lines config_state_zero (fgets_all 2047 [] conf_no_url) = some state_no_url ∧
    (state_no_url.found_interval ≠ 0 ∧ state_no_url.found_root ≠ 0 ∧
      state_no_url.found_baseline_db ≠ 0 ∧ state_no_url.found_mode ≠ 0) ∧
    (∀ c ∈ "https://collector.example/ingest".toList, c ≠ '\n' ∧ c ≠ Char.ofNat 0) ∧
    trim_inplace "https://collector.example/ingest".toList
      = "https://collector.example/ingest".toList ∧
    "https://collector.example/ingest".toList.length ≤ 2027 ∧
    ("https://collector.example/ingest".toList ≠ [] ∧
        "https://collector.example/ingest".toList.length ≤ 1023 →
      config_load (some (conf_no_url ++ conf_key_line "cloud_endpoint_url".toList
          "https://collector.example/ingest".toList)) false
        = some { state_no_url.cfg with
            cloud_endpoint_url := String.mk "https://collector.example/ingest".toList }) ∧
    ("https://collector.example/ingest".toList = [] ∨
        1024 ≤ "https://collector.example/ingest".toList.length →
      config_load (some (conf_no_url ++ conf_key_line "cloud_endpoint_url".toList
          "https://collector.example/ingest".toList)) false = none) :=
  ⟨Or.inr (by decide), conf_no_url_state, by decide, by decide, by decide, by decide,
   C32_endpoint_url_length conf_no_url state_no_url "https://collector.example/ingest".toList
    (Or.inr (by decide)) conf_no_url_state (by decide) (by decide) (by decide) (by decide)⟩

theorem url_of_length_plain (n : Nat) :
    (∀ c ∈ url_of_length n, c ≠ '\n' ∧ c ≠ Char.ofNat 0) ∧
    trim_inplace (url_of_length n) = url_of_length n := by
  have h : ∀ c ∈ url_of_length n, c = 'a' := fun c hc => List.eq_of_mem_replicate hc
  refine ⟨fun c hc => ?_, trim_of_no_space _ (fun c hc => ?_)⟩
  · rw [h c hc]; decide
  · rw [h c hc]; decide

/-- C32 as stated fails: after `conf_no_url`, a URL of exactly 1024 characters makes
`config_load` fail, while one of 1023 characters is accepted. -/
theorem C32_counterexample_url_1024 :
    (url_of_length 1024).length = 1024 ∧
    config_load (some (conf_no_url ++ conf_key_line "cloud_endpoint_url".toList
        (url_of_length 1024))) false = none ∧
    config_load (some (conf_no_url ++ conf_key_line "cloud_endpoint_url".toList
        (url_of_length 1023))) false
      = some { state_no_url.cfg with cloud_endpoint_url := String.mk (url_of_length 1023) } := by
  have l1 : (url_of_length 1024).length = 1024 := List.length_replicate _ _
  have l2 : (url_of_length 1023).length = 1023 := List.length_replicate _ _
  refine ⟨l1, ?_, ?_⟩
  · rw [config_load_url conf_no_url state_no_url _ (Or.inr (by decide)) conf_no_url_state
      (by decide) (url_of_length_plain 1024).1 (url_of_length_plain 1024).2 (by rw [l1]; norm_num)]
    rw [if_pos (Or.inr (by rw [l1]))]
  · rw [config_load_url conf_no_url state_no_url _ (Or.inr (by decide)) conf_no_url_state
      (by decide) (url_of_length_plain 1023).1 (url_of_length_plain 1023).2 (by rw [l2]; norm_num)]
    rw [if_neg]
    rintro (h | h)
    · have := congrArg List.length h
      rw [l2] at this
      exact absurd this (by norm_num)
    · rw [l2] at h
      omega


/-! ## Configuration file: `sampling_interval_ms` -/

theorem strtoul_digits_eq (l : List Char) :
    ∀ acc : Nat, strtoul_digits acc l
      = ((l.takeWhile is_digit).foldl (fun n c => 10 * n + (c.toNat - 48)) acc,
         l.dropWhile is_digit) := by
  induction l with
  | nil => intro acc; rfl
  | cons c cs ih =>
    intro acc
    by_cases h : is_digit c = true
    · simp only [strtoul_digits, h, if_true, List.takeWhile, List.dropWhile, List.foldl]
      exact ih _
    · simp only [Bool.not_eq_true] at h
      simp [strtoul_digits, h, List.takeWhile, List.dropWhile]

theorem strtoul_digits_numeral (ds : List Char) (h : ∀ c ∈ ds, is_digit c = true) :
    strtoul_digits 0 ds = (decimal_value ds, []) := by
  rw [strtoul_digits_eq, List.takeWhile_eq_self_iff.2 h, List.dropWhile_eq_nil_iff.2 h]
  rfl

theorem digit_plain (c : Char) (h : is_digit c = true) :
    isspace c = false ∧ c ≠ '-' ∧ c ≠ '+' := by
  simp only [is_digit, Bool.and_eq_true, decide_eq_true_eq] at h
  refine ⟨?_, ?_, ?_⟩
  · simp only [isspace, Bool.or_eq_false_iff, beq_eq_false_iff_ne, ne_eq]
    refine ⟨⟨⟨⟨⟨?_, ?_⟩, ?_⟩, ?_⟩, ?_⟩, ?_⟩ <;>
      · rintro rfl
        revert h
        decide
  · rintro rfl
    revert h
    decide
  · rintro rfl
    revert h
    decide

/-- The run of `strtoul` on an optional sign followed by a non-empty string of digits. -/
theorem strtoul_numeral (sign : Option Char) (ds : List Char) (hne : ds ≠ [])
    (hd : ∀ c ∈ ds, is_digit c = true) (hs : sign = none ∨ sign = some '+' ∨ sign = some '-') :
    strtoul (sign.toList ++ ds)
      = if decimal_value ds > ULONG_MAX then
          { value := ULONG_MAX, endptr := [], no_conversion := false, erange := true }
        else
          { value := if sign = some '-' then (2 ^ 64 - decimal_value ds) % 2 ^ 64
                     else decimal_value ds
            endptr := [], no_conversion := false, erange := false } := by
  obtain ⟨c0, cs, rfl⟩ : ∃ c0 cs, ds = c0 :: cs := by
    cases ds with
    | nil => exact absurd rfl hne
    | cons c0 cs => exact ⟨c0, cs, rfl⟩
  have h0 := hd c0 (List.mem_cons_self _ _)
  obtain ⟨p1, p2, p3⟩ := digit_plain c0 h0
  have hdig := strtoul_digits_numeral (c0 :: cs) hd
  rcases hs with rfl | rfl | rfl
  · have e1 : (c0 :: cs).dropWhile isspace = c0 :: cs := by simp [List.dropWhile, p1]
    simp only [strtoul, Option.toList, List.nil_append, e1, List.head?_cons, Option.map_some',
      h0, beq_self_eq_true, if_true, hdig]
    have q1 : (some c0 == some '-') = false := by simpa using p2
    have q2 : (some c0 == some '+') = false := by simpa using p3
    simp only [q1, q2, Bool.or_self, Bool.false_eq_true, if_false, List.head?_cons,
      Option.map_some', h0, beq_self_eq_true, if_true, hdig, reduceCtorEq]
  · have e1 : ('+' :: c0 :: cs).dropWhile isspace = '+' :: c0 :: cs := by
      have : isspace '+' = false := by decide
      simp [List.dropWhile, this]
    have q1 : (some '+' == some '-') = false := by decide
    simp only [strtoul, Option.toList, List.singleton_append, e1, List.head?_cons, q1,
      beq_self_eq_true, Bool.or_true, if_true, List.tail_cons, Option.map_some', h0, hdig,
      Bool.false_eq_true, if_false]
    have q3 : ¬ (some '+' = some '-') := by decide
    simp only [q3, if_false]
  · have e1 : ('-' :: c0 :: cs).dropWhile isspace = '-' :: c0 :: cs := by
      have : isspace '-' = false := by decide
      simp [List.dropWhile, this]
    simp only [strtoul, Option.toList, List.singleton_append, e1, List.head?_cons,
      beq_self_eq_true, Bool.true_or, if_true, List.tail_cons, Option.map_some', h0, hdig]

/-- What `parse_uint_ms` returns for an optional sign followed by a non-empty string of
digits. -/
theorem parse_uint_ms_numeral (sign : Option Char) (ds : List Char) (hne : ds ≠ [])
    (hd : ∀ c ∈ ds, is_digit c = true) (hs : sign = none ∨ sign = some '+' ∨ sign = some '-') :
    parse_uint_ms (sign.toList ++ ds)
      = if sign = some '-' then
          (if 2 ^ 64 - 3600000 ≤ decimal_value ds ∧ decimal_value ds ≤ 2 ^ 64 - 1
           then some (2 ^ 64 - decimal_value ds) else none)
        else
          (if 1 ≤ decimal_value ds ∧ decimal_value ds ≤ 3600000
           then some (decimal_value ds) else none) := by
  have hne' : sign.toList ++ ds ≠ [] := by
    cases ds with
    | nil => exact absurd rfl hne
    | cons c cs => simp
  simp only [parse_uint_ms, if_neg hne', strtoul_numeral sign ds hne hd hs, ULONG_MAX]
  generalize decimal_value ds = n
  by_cases hbig : n > 2 ^ 64 - 1
  · simp only [hbig, if_true, Bool.true_or, Bool.or_true]
    by_cases hm : sign = some '-'
    · rw [if_pos hm, if_neg (by omega)]
    · rw [if_neg hm, if_neg (by omega)]
  · simp only [hbig, if_false, Bool.false_or, bne_self_eq_false, Bool.or_false,
      Bool.false_eq_true]
    by_cases hm : sign = some '-'
    · simp only [hm, if_true]
      by_cases ha : 2 ^ 64 - 3600000 ≤ n ∧ n ≤ 2 ^ 64 - 1
      · rw [if_pos ha, if_neg (by omega)]
        congr 1
        omega
      · rw [if_neg ha, if_pos (by omega)]
    · simp only [hm, if_false]
      by_cases ha : 1 ≤ n ∧ n ≤ 3600000
      · rw [if_pos ha, if_neg (by omega)]
        congr 1
        omega
      · rw [if_neg ha, if_pos (by omega)]

theorem strtoul_shape (v : List Char) (hv : v.dropWhile isspace = v)
    (h1 : (strtoul v).no_conversion = false) (h2 : (strtoul v).endptr = []) :
    ∃ sign ds, v = Option.toList sign ++ ds ∧ ds ≠ [] ∧ (∀ c ∈ ds, is_digit c = true) ∧
      (sign = none ∨ sign = some '+' ∨ sign = some '-') := by
  have hall : ∀ u : List Char, (u.head?.map is_digit == some true) = true →
      (strtoul_digits 0 u).2 = [] → u ≠ [] ∧ ∀ c ∈ u, is_digit c = true := by
    intro u hu he
    rw [strtoul_digits_eq] at he
    refine ⟨?_, List.dropWhile_eq_nil_iff.1 he⟩
    rintro rfl
    simp at hu
  simp only [strtoul, hv] at h1 h2
  by_cases hs : (v.head? == some '-' || v.head? == some '+') = true
  · simp only [hs, if_true] at h1 h2
    by_cases hdig : (v.tail.head?.map is_digit == some true) = true
    · simp only [hdig, if_true] at h2
      have h3 : (strtoul_digits 0 v.tail).2 = [] := by
        split_ifs at h2 <;> exact h2
      obtain ⟨a1, a2⟩ := hall _ hdig h3
      cases v with
      | nil => simp at hs
      | cons a as =>
        refine ⟨some a, as, rfl, a1, a2, ?_⟩
        simp only [List.head?_cons, Bool.or_eq_true, beq_iff_eq, Option.some.injEq] at hs
        rcases hs with rfl | rfl
        · exact Or.inr (Or.inr rfl)
        · exact Or.inr (Or.inl rfl)
    · rw [if_neg hdig] at h1
      cases h1
  · simp only [hs, Bool.false_eq_true, if_false] at h1 h2
    by_cases hdig : (v.head?.map is_digit == some true) = true
    · simp only [hdig, if_true] at h2
      have h3 : (strtoul_digits 0 v).2 = [] := by
        split_ifs at h2 <;> exact h2
      obtain ⟨a1, a2⟩ := hall _ hdig h3
      exact ⟨none, v, rfl, a1, a2, Or.inl rfl⟩
    · rw [if_neg hdig] at h1
      cases h1

/-- Every value `parse_uint_ms` accepts without leading white space is an optional sign
followed by a non-empty string of digits. -/
theorem parse_uint_ms_shape (v : List Char) (k : Nat) (hv : v.dropWhile isspace = v)
    (h : parse_uint_ms v = some k) :
    ∃ sign ds, v = Option.toList sign ++ ds ∧ ds ≠ [] ∧ (∀ c ∈ ds, is_digit c = true) ∧
      (sign = none ∨ sign = some '+' ∨ sign = some '-') := by
  simp only [parse_uint_ms] at h
  by_cases h0 : v = []
  · simp [h0] at h
  · rw [if_neg h0] at h
    by_cases hc : ((strtoul v).erange || (strtoul v).no_conversion ||
        (strtoul v).endptr != []) = true
    · simp [hc] at h
    · simp only [Bool.or_eq_true, bne_iff_ne, ne_eq, not_or, Bool.not_eq_true, not_not] at hc
      exact strtoul_shape v hv hc.1.2 hc.2


theorem interval_entry (st : config_state) (v : List Char) :
    config_entry st "sampling_interval_ms".toList v
      = match parse_uint_ms v with
        | none => none
        | some k =>
          some { st with cfg := { st.cfg with sampling_interval_ms := k }, found_interval := 1 } := by
  rw [config_entry, if_pos rfl]

theorem interval_key_ok :
    "sampling_interval_ms".toList ≠ [] ∧ "sampling_interval_ms".toList.head? ≠ some '#' ∧
    ∀ c ∈ "sampling_interval_ms".toList, c ≠ '=' ∧ c ≠ Char.ofNat 0 ∧ isspace c = false := by
  decide

theorem config_load_interval (pre : List Char) (st : config_state) (v : List Char)
    (hpre : pre = [] ∨ pre.getLast? = some '\n')
    (hst : config_lines config_state_zero (fgets_all 2047 [] pre) = some st)
    (hfound : st.found_root ≠ 0 ∧ st.found_endpoint ≠ 0 ∧ st.found_baseline_db ≠ 0 ∧
      st.found_mode ≠ 0)
    (hv : ∀ c ∈ v, c ≠ '\n' ∧ c ≠ Char.ofNat 0) (ht : trim_inplace v = v)
    (hlen : v.length ≤ 2025) :
    config_load (some (pre ++ conf_key_line "sampling_interval_ms".toList v)) false
      = (parse_uint_ms v).map (fun k => { st.cfg with sampling_interval_ms := k }) := by
  obtain ⟨k0, k1, k2⟩ := interval_key_ok
  have hk : "sampling_interval_ms".toList.length = 20 := by decide
  rw [config_load_last_line pre st _ v hpre hst k0 k1 k2 hv ht (by rw [hk]; omega),
    interval_entry]
  cases parse_uint_ms v with
  | none => rfl
  | some k =>
    obtain ⟨f1, f2, f3, f4⟩ := hfound
    simp only [config_state.complete, f1, f2, f3, f4, false_or, one_ne_zero, or_self,
      decide_False, Bool.not_false, if_true, Option.map_some']

theorem parse_uint_ms_iff (v : List Char) (hv : v.dropWhile isspace = v) (k : Nat) :
    parse_uint_ms v = some k ↔
      ∃ ds, ds ≠ [] ∧ (∀ c ∈ ds, is_digit c = true) ∧
        (((v = ds ∨ v = '+' :: ds) ∧ 1 ≤ decimal_value ds ∧ decimal_value ds ≤ 3600000 ∧
            k = decimal_value ds) ∨
          (v = '-' :: ds ∧ 2 ^ 64 - 3600000 ≤ decimal_value ds ∧
            decimal_value ds ≤ 2 ^ 64 - 1 ∧ k = 2 ^ 64 - decimal_value ds)) := by
  constructor
  · intro h
    obtain ⟨sign, ds, rfl, hne, hd, hs⟩ := parse_uint_ms_shape v k hv h
    rw [parse_uint_ms_numeral sign ds hne hd hs] at h
    refine ⟨ds, hne, hd, ?_⟩
    rcases hs with rfl | rfl | rfl
    · rw [if_neg (by simp)] at h
      split_ifs at h with ha
      exact Or.inl ⟨Or.inl rfl, ha.1, ha.2, (Option.some.inj h).symm⟩
    · rw [if_neg (by decide)] at h
      split_ifs at h with ha
      exact Or.inl ⟨Or.inr rfl, ha.1, ha.2, (Option.some.inj h).symm⟩
    · rw [if_pos rfl] at h
      split_ifs at h with ha
      exact Or.inr ⟨rfl, ha.1, ha.2, (Option.some.inj h).symm⟩
  · rintro ⟨ds, hne, hd, ⟨hv', h1, h2, rfl⟩ | ⟨hv', h1, h2, rfl⟩⟩
    · rcases hv' with h | h
      · have := parse_uint_ms_numeral none ds hne hd (Or.inl rfl)
        rw [show Option.toList none ++ ds = ds from rfl, if_neg (by simp),
          if_pos ⟨h1, h2⟩] at this
        rw [h, this]
      · rw [h, show '+' :: ds = Option.toList (some '+') ++ ds from rfl,
          parse_uint_ms_numeral (some '+') ds hne hd (Or.inr (Or.inl rfl)),
          if_neg (by decide), if_pos ⟨h1, h2⟩]
    · rw [hv', show '-' :: ds = Option.toList (some '-') ++ ds from rfl,
        parse_uint_ms_numeral (some '-') ds hne hd (Or.inr (Or.inr rfl)), if_pos rfl,
        if_pos ⟨h1, h2⟩]

/-- C31 (what the code does): after a text that sets the other four required keys validly,
the result of `config_load` on a last line `sampling_interval_ms=<value>` (value trimmed,
free of NUL and newline, fitting the line buffer) is success with the parsed integer stored
exactly when `parse_uint_ms` accepts the value; and `parse_uint_ms` accepts a value exactly
when it is a non-empty string of digits, optionally after `+`, that denotes an integer in
`1..3600000` (which is stored), or a `-` followed by digits that denote an integer `n` with
`2^64 - 3600000 <= n <= 2^64 - 1`, for which `2^64 - n` is stored. -/
theorem C31_sampling_interval_values (pre : List Char) (st : config_state) (v : List Char)
    (hpre : pre = [] ∨ pre.getLast? = some '\n')
    (hst : config_lines config_state_zero (fgets_all 2047 [] pre) = some st)
    (hfound : st.found_root ≠ 0 ∧ st.found_endpoint ≠ 0 ∧ st.found_baseline_db ≠ 0 ∧
      st.found_mode ≠ 0)
    (hv : ∀ c ∈ v, c ≠ '\n' ∧ c ≠ Char.ofNat 0) (ht : trim_inplace v = v)
    (hlen : v.length ≤ 2025) :
    config_load (some (pre ++ conf_key_line "sampling_interval_ms".toList v)) false
      = (parse_uint_ms v).map (fun k => { st.cfg with sampling_interval_ms := k }) ∧
    ∀ k : Nat, parse_uint_ms v = some k ↔
      ∃ ds, ds ≠ [] ∧ (∀ c ∈ ds, is_digit c = true) ∧
        (((v = ds ∨ v = '+' :: ds) ∧ 1 ≤ decimal_value ds ∧ decimal_value ds ≤ 3600000 ∧
            k = decimal_value ds) ∨
          (v = '-' :: ds ∧ 2 ^ 64 - 3600000 ≤ decimal_value ds ∧
            decimal_value ds ≤ 2 ^ 64 - 1 ∧ k = 2 ^ 64 - decimal_value ds)) :=
  ⟨config_load_interval pre st v hpre hst hfound hv ht hlen,
   parse_uint_ms_iff v (trim_fixed v ht).1⟩

theorem conf_four_keys_state :
    config_lines config_state_zero (fgets_all 2047 [] conf_four_keys) = some state_four_keys := by
  rfl

/-- C31 at the value `-18446744073709551615` after `conf_four_keys`. -/
theorem C31_sampling_interval_values_witness :
    (conf_four_keys = [] ∨ conf_four_keys.getLast? = some '\n') ∧
    config_lines config_state_zero (fgets_all 2047 [] conf_four_keys) = some state_four_keys ∧
    (state_four_keys.found_root ≠ 0 ∧ state_four_keys.found_endpoint ≠ 0 ∧
      state_four_keys.found_baseline_db ≠ 0 ∧ state_four_keys.found_mode ≠ 0) ∧
    (∀ c ∈ "-18446744073709551615".toList, c ≠ '\n' ∧ c ≠ Char.ofNat 0) ∧
    trim_inplace "-18446744073709551615".toList = "-18446744073709551615".toList ∧
    "-18446744073709551615".toList.length ≤ 2025 ∧
    config_load (some (conf_four_keys ++ conf_key_line "sampling_interval_ms".toList
        "-18446744073709551615".toList)) false
      = (parse_uint_ms "-18446744073709551615".toList).map
          (fun k => { state_four_keys.cfg with sampling_interval_ms := k }) ∧
    ∀ k : Nat, parse_uint_ms "-18446744073709551615".toList = some k ↔
      ∃ ds, ds ≠ [] ∧ (∀ c ∈ ds, is_digit c = true) ∧
        ((("-18446744073709551615".toList = ds ∨ "-18446744073709551615".toList = '+' :: ds) ∧
            1 ≤ decimal_value ds ∧ decimal_value ds ≤ 3600000 ∧ k = decimal_value ds) ∨
          ("-18446744073709551615".toList = '-' :: ds ∧ 2 ^ 64 - 3600000 ≤ decimal_value ds ∧
            decimal_value ds ≤ 2 ^ 64 - 1 ∧ k = 2 ^ 64 - decimal_value ds)) :=
  ⟨Or.inr (by decide), conf_four_keys_state, by decide, by decide, by decide, by decide,
   C31_sampling_interval_values conf_four_keys state_four_keys "-18446744073709551615".toList
    (Or.inr (by decide)) conf_four_keys_state (by decide) (by decide) (by decide) (by decide)⟩

/-- The negative numeral `-18446744073709551615` is accepted as the interval `1`. -/
theorem negative_interval_accepted :
    parse_uint_ms "-18446744073709551615".toList = some 1 ∧
    config_load (some conf_negative_interval) false
      = some { state_four_keys.cfg with sampling_interval_ms := 1 } :=
  ⟨by decide, by rfl⟩

/-- In the same file the numeral `1` is accepted as `1`, `0`, `3600001`, `-5` and `12a` are
rejected. -/
theorem interval_examples :
    parse_uint_ms "1".toList = some 1 ∧ parse_uint_ms "3600000".toList = some 3600000 ∧
    parse_uint_ms "".toList = none ∧ parse_uint_ms "0".toList = none ∧
    parse_uint_ms "3600001".toList = none ∧ parse_uint_ms "-5".toList = none ∧
    parse_uint_ms "12a".toList = none := by
  decide


/-! ## Rounding to the nearest even integer -/

theorem rne_intCast (n : ℤ) : rne (n : ℚ) = n := by
  simp [rne]

theorem rne_bounds (u : ℚ) : (⌊u⌋ : ℤ) ≤ rne u ∧ rne u ≤ ⌊u⌋ + 1 := by
  simp only [rne]
  split_ifs <;> constructor <;> omega

theorem rne_mono {u v : ℚ} (h : u ≤ v) : rne u ≤ rne v := by
  have hf : ⌊u⌋ ≤ ⌊v⌋ := Int.floor_mono h
  rcases lt_or_eq_of_le hf with hlt | heq
  · exact le_trans (rne_bounds u).2 (le_trans (by omega) (rne_bounds v).1)
  · have hr : u - ⌊u⌋ ≤ v - ⌊v⌋ := by rw [heq]; linarith
    simp only [rne, heq]
    rw [heq] at hr
    split_ifs with a b c d e f g <;> first | omega | (exfalso; linarith)

theorem rne_neg (u : ℚ) : rne (-u) = -rne u := by
  by_cases hu : (⌊u⌋ : ℚ) = u
  · rw [← hu, ← Int.cast_neg, rne_intCast, rne_intCast]
  · have hlt : (⌊u⌋ : ℚ) < u := lt_of_le_of_ne (Int.floor_le u) hu
    have hlt2 : u < ⌊u⌋ + 1 := Int.lt_floor_add_one u
    have hfl : ⌊-u⌋ = -⌊u⌋ - 1 := by
      rw [Int.floor_eq_iff]
      push_cast
      constructor <;> linarith
    simp only [rne, hfl]
    push_cast
    split_ifs <;> first | omega | (exfalso; linarith)

theorem rne_of_near (u : ℚ) (m : ℤ) (h1 : (m : ℚ) - 1 / 2 < u) (h2 : u < m + 1 / 2) :
    rne u = m := by
  by_cases hm : (m : ℚ) ≤ u
  · have hf : ⌊u⌋ = m := by
      rw [Int.floor_eq_iff]
      constructor <;> linarith
    rw [rne, hf, if_pos (by linarith)]
  · have hf : ⌊u⌋ = m - 1 := by
      rw [Int.floor_eq_iff]
      push_cast
      constructor <;> linarith
    simp only [rne, hf]
    push_cast
    rw [if_neg (by linarith), if_pos (by linarith)]
    omega

theorem rne_tie (m : ℤ) : rne ((m : ℚ) + 1 / 2) = if m % 2 = 0 then m else m + 1 := by
  have hf : ⌊(m : ℚ) + 1 / 2⌋ = m := by
    rw [Int.floor_eq_iff]
    constructor <;> linarith
  simp only [rne, hf]
  rw [if_neg (by linarith), if_neg (by linarith)]

/-! ## The binary64 grid -/

theorem two_zpow_pos (e : ℤ) : (0 : ℚ) < 2 ^ e := zpow_pos (by norm_num) e

theorem log_two_eq (q : ℚ) (e : ℤ) (hq : 0 < q) (h1 : (2 : ℚ) ^ e ≤ q)
    (h2 : q < (2 : ℚ) ^ (e + 1)) : Int.log 2 q = e := by
  have a1 : e ≤ Int.log 2 q :=
    (Int.zpow_le_iff_le_log (by norm_num) hq).1 (by exact_mod_cast h1)
  have a2 : Int.log 2 q < e + 1 :=
    (Int.lt_zpow_iff_log_lt (by norm_num) hq).1 (by exact_mod_cast h2)
  omega

theorem F64.round_fin_zero : F64.round_fin 0 = 0 := by
  simp [F64.round_fin, rne]

theorem F64.round_fin_nonneg (q : ℚ) (hq : 0 ≤ q) : 0 ≤ F64.round_fin q := by
  have h : (0 : ℤ) ≤ rne (q / 2 ^ F64.ulp_exp q) := by
    have := rne_mono (div_nonneg hq (two_zpow_pos (F64.ulp_exp q)).le)
    rwa [← Int.cast_zero, rne_intCast] at this
  exact mul_nonneg (by exact_mod_cast h) (two_zpow_pos _).le

theorem F64.round_fin_neg (q : ℚ) : F64.round_fin (-q) = -F64.round_fin q := by
  simp only [F64.round_fin, F64.ulp_exp, abs_neg, neg_div, rne_neg, Int.cast_neg, neg_mul]

/-- Rounding to the binary64 grid is monotone on the non-negative numbers. -/
theorem F64.round_fin_mono (x y : ℚ) (hx : 0 ≤ x) (hxy : x ≤ y) :
    F64.round_fin x ≤ F64.round_fin y := by
  rcases eq_or_lt_of_le hx with rfl | hpos
  · rw [F64.round_fin_zero]
    exact F64.round_fin_nonneg y hxy
  · have hy : 0 < y := lt_of_lt_of_le hpos hxy
    have hlog : Int.log 2 x ≤ Int.log 2 y := Int.log_mono_right hpos hxy
    have hex : F64.ulp_exp x ≤ F64.ulp_exp y := by
      simp only [F64.ulp_exp, abs_of_pos hpos, abs_of_pos hy]
      omega
    rcases eq_or_lt_of_le hex with heq | hlt
    · simp only [F64.round_fin, heq]
      have hm : rne (x / 2 ^ F64.ulp_exp y) ≤ rne (y / 2 ^ F64.ulp_exp y) :=
        rne_mono (div_le_div_of_nonneg_right hxy (two_zpow_pos _).le)
      exact mul_le_mul_of_nonneg_right (by exact_mod_cast hm) (two_zpow_pos _).le
    · -- different binades: `round_fin x <= 2^(ex+53) <= 2^(ey+52) <= round_fin y`
      have hx1 : x < (2 : ℚ) ^ (F64.ulp_exp x + 53) := by
        have h1 : x < (2 : ℚ) ^ (Int.log 2 x + 1) := by
          exact_mod_cast Int.lt_zpow_succ_log_self (by norm_num : 1 < 2) x
        refine lt_of_lt_of_le h1 (zpow_le_zpow_right₀ (by norm_num) ?_)
        simp only [F64.ulp_exp, abs_of_pos hpos]
        omega
      have hy1 : (2 : ℚ) ^ (F64.ulp_exp y + 52) ≤ y := by
        have h1 : (2 : ℚ) ^ (Int.log 2 y) ≤ y := by
          exact_mod_cast Int.zpow_log_le_self (by norm_num : 1 < 2) hy
        have h2 : F64.ulp_exp y + 52 = Int.log 2 y := by
          simp only [F64.ulp_exp, abs_of_pos hpos, abs_of_pos hy] at hlt ⊢
          omega
        rw [h2]
        exact h1
      have hxr : F64.round_fin x ≤ (2 : ℚ) ^ (F64.ulp_exp x + 53) := by
        have hdiv : x / 2 ^ F64.ulp_exp x ≤ ((2 ^ 53 : ℤ) : ℚ) := by
          rw [div_le_iff₀ (two_zpow_pos _)]
          have : ((2 ^ 53 : ℤ) : ℚ) * 2 ^ F64.ulp_exp x = 2 ^ (F64.ulp_exp x + 53) := by
            rw [zpow_add₀ (by norm_num)]
            norm_num
            ring
          rw [this]
          exact hx1.le
        have hm := rne_mono hdiv
        rw [rne_intCast] at hm
        have : F64.round_fin x ≤ ((2 ^ 53 : ℤ) : ℚ) * 2 ^ F64.ulp_exp x :=
          mul_le_mul_of_nonneg_right (by exact_mod_cast hm) (two_zpow_pos _).le
        refine le_trans this (le_of_eq ?_)
        rw [zpow_add₀ (by norm_num)]
        norm_num
        ring
      have hyr : (2 : ℚ) ^ (F64.ulp_exp y + 52) ≤ F64.round_fin y := by
        have hdiv : ((2 ^ 52 : ℤ) : ℚ) ≤ y / 2 ^ F64.ulp_exp y := by
          rw [le_div_iff₀ (two_zpow_pos _)]
          have : ((2 ^ 52 : ℤ) : ℚ) * 2 ^ F64.ulp_exp y = 2 ^ (F64.ulp_exp y + 52) := by
            rw [zpow_add₀ (by norm_num)]
            norm_num
            ring
          rw [this]
          exact hy1
        have hm := rne_mono hdiv
        rw [rne_intCast] at hm
        have : ((2 ^ 52 : ℤ) : ℚ) * 2 ^ F64.ulp_exp y ≤ F64.round_fin y :=
          mul_le_mul_of_nonneg_right (by exact_mod_cast hm) (two_zpow_pos _).le
        refine le_trans (le_of_eq ?_) this
        rw [zpow_add₀ (by norm_num)]
        norm_num
        ring
      have hmid : (2 : ℚ) ^ (F64.ulp_exp x + 53) ≤ 2 ^ (F64.ulp_exp y + 52) :=
        zpow_le_zpow_right₀ (by norm_num) (by omega)
      exact le_trans hxr (le_trans hmid hyr)

theorem F64.ulp_exp_eq (q : ℚ) (e : ℤ) (hq : 0 < q) (h1 : (2 : ℚ) ^ e ≤ q)
    (h2 : q < (2 : ℚ) ^ (e + 1)) (he : -1022 ≤ e) : F64.ulp_exp q = e - 52 := by
  rw [F64.ulp_exp, abs_of_pos hq, log_two_eq q e hq h1 h2, max_eq_left he]

/-- The double nearest to a positive number `q` of the binade `2^e <= q < 2^(e+1)`, when the
scaled number lies strictly between two half-integers around `m`. -/
theorem F64.round_eq (q v : ℚ) (e m : ℤ) (hq : 0 < q) (h1 : (2 : ℚ) ^ e ≤ q)
    (h2 : q < (2 : ℚ) ^ (e + 1)) (he : -1022 ≤ e)
    (hm1 : (m : ℚ) - 1 / 2 < q / 2 ^ (e - 52)) (hm2 : q / 2 ^ (e - 52) < m + 1 / 2)
    (hv : v = m * 2 ^ (e - 52)) (hv0 : 0 ≤ v) (hfin : v < 2 ^ (1024 : ℤ)) :
    F64.round q = Dbl.fin v := by
  have hr : F64.round_fin q = v := by
    rw [F64.round_fin, F64.ulp_exp_eq q e hq h1 h2 he, rne_of_near _ m hm1 hm2, hv]
  rw [F64.round, hr, abs_of_nonneg hv0, if_neg (not_le.2 hfin)]

/-- The double nearest to a positive number that lies half way between two doubles: the one
with the even mantissa. -/
theorem F64.round_tie (q v : ℚ) (e m : ℤ) (hq : 0 < q) (h1 : (2 : ℚ) ^ e ≤ q)
    (h2 : q < (2 : ℚ) ^ (e + 1)) (he : -1022 ≤ e)
    (hm : q / 2 ^ (e - 52) = (m : ℚ) + 1 / 2)
    (hv : v = (if m % 2 = 0 then m else m + 1 : ℤ) * 2 ^ (e - 52)) (hv0 : 0 ≤ v)
    (hfin : v < 2 ^ (1024 : ℤ)) :
    F64.round q = Dbl.fin v := by
  have hr : F64.round_fin q = v := by
    rw [F64.round_fin, F64.ulp_exp_eq q e hq h1 h2 he, hm, rne_tie, hv]
  rw [F64.round, hr, abs_of_nonneg hv0, if_neg (not_le.2 hfin)]

theorem F64.round_zero : F64.round 0 = Dbl.fin 0 := by
  rw [F64.round, F64.round_fin_zero]
  norm_num

/-- Rounding keeps the order of non-negative numbers: below a number whose double is `v`
every non-negative number has a double between `0` and `v`. -/
theorem F64.round_le (x y v : ℚ) (hx : 0 ≤ x) (hxy : x ≤ y) (hy : F64.round y = Dbl.fin v) :
    ∃ u : ℚ, F64.round x = Dbl.fin u ∧ 0 ≤ u ∧ u ≤ v := by
  have h0 := F64.round_fin_nonneg x hx
  have hm := F64.round_fin_mono x y hx hxy
  have hyn : 0 ≤ F64.round_fin y := le_trans h0 hm
  simp only [F64.round] at hy
  split_ifs at hy with hbig
  · cases h : decide (y < 0) <;> simp [h, Dbl.inf] at hy
  · have hv : F64.round_fin y = v := Dbl.fin.inj hy
    rw [abs_of_nonneg hyn] at hbig
    refine ⟨F64.round_fin x, ?_, h0, hv ▸ hm⟩
    rw [F64.round, abs_of_nonneg h0, if_neg]
    exact fun h => hbig (le_trans h hm)


/-! ## `metric_abs_z` in binary64 arithmetic -/

theorem F64.lit_1e_9 : F64.lit (1 / 1000000000) = Dbl.fin F64.dbl_1e_9 := by
  exact F64.round_eq _ _ (-30) 4835703278458517 (by norm_num) (by norm_num) (by norm_num)
    (by norm_num) (by norm_num) (by norm_num) (by norm_num [F64.dbl_1e_9])
    (by norm_num [F64.dbl_1e_9]) (by norm_num [F64.dbl_1e_9])

theorem F64.round_fin_nonpos (q : ℚ) (hq : q ≤ 0) : F64.round_fin q ≤ 0 := by
  have h := F64.round_fin_nonneg (-q) (by linarith)
  rw [F64.round_fin_neg] at h
  linarith

theorem F64.round_abs (q : ℚ) : F64.round |q| = Dbl.fabs (F64.round q) := by
  rcases le_total 0 q with hq | hq
  · rw [abs_of_nonneg hq]
    have h0 := F64.round_fin_nonneg q hq
    simp only [F64.round]
    have hd : decide (q < 0) = false := by simpa using hq
    split_ifs
    · simp [hd, Dbl.inf, Dbl.fabs]
    · simp [Dbl.fabs, abs_of_nonneg h0]
  · rcases eq_or_lt_of_le hq with rfl | hlt
    · simp [F64.round_zero, Dbl.fabs]
    · rw [abs_of_nonpos hq]
      have h0 := F64.round_fin_nonpos q hq
      simp only [F64.round, F64.round_fin_neg, abs_neg]
      have hd : decide (q < 0) = true := by simpa using hlt
      have hd' : decide (-q < 0) = false := by simpa using hq
      split_ifs
      · simp [hd, hq, Dbl.inf, Dbl.fabs]
      · simp [Dbl.fabs, abs_of_nonpos h0]

/-- Dividing by a positive double commutes with `fabs`: rounding is symmetric. -/
theorem F64.div_fabs (x : Dbl) (sd : ℚ) (hsd : 0 < sd) :
    F64.div (Dbl.fabs x) (Dbl.fin sd) = Dbl.fabs (F64.div x (Dbl.fin sd)) := by
  have hne : sd ≠ 0 := hsd.ne'
  have hns : Dbl.negSign sd = false := by simp [Dbl.negSign, hsd.le]
  cases x with
  | nan => rfl
  | ninf => simp [F64.div, Dbl.div, Dbl.fabs, F64.rnd, hns, Dbl.inf]
  | pinf => simp [F64.div, Dbl.div, Dbl.fabs, F64.rnd, hns, Dbl.inf]
  | fin r =>
    have e1 : Dbl.div (Dbl.fin |r|) (Dbl.fin sd) = Dbl.fin (|r / sd|) := by
      simp only [Dbl.div, hne, if_false, abs_div, abs_of_pos hsd]
    have e2 : Dbl.div (Dbl.fin r) (Dbl.fin sd) = Dbl.fin (r / sd) := by
      simp only [Dbl.div, hne, if_false]
    have e3 : Dbl.fabs (Dbl.fin r) = Dbl.fin |r| := rfl
    rw [e3, F64.div, F64.div, e1, e2]
    exact F64.round_abs (r / sd)

theorem F64.metric_abs_z_eq_spec (v : Dbl) (m : anomaly_metric_view) :
    F64.metric_abs_z v m = F64.spec_abs_z v m := by
  obtain ⟨n, mean, sd, ready⟩ := m
  cases v <;> cases mean <;> cases sd <;>
    simp only [F64.metric_abs_z, F64.spec_abs_z, value_is_valid, Dbl.isfinite, Bool.not_true,
      Bool.not_false, Bool.true_or, Bool.or_true, Bool.false_or, Bool.or_false, if_true,
      ite_self]
  rename_i a mu sd
  rw [F64.Z_STDDEV_EPSILON, F64.lit_1e_9]
  simp only [Dbl.le, Dbl.gt, Dbl.lt, beq_iff_eq, Bool.or_eq_true, decide_eq_true_eq]
  by_cases hr : ready = 0
  · simp [hr]
  · by_cases hs : sd ≤ F64.dbl_1e_9
    · simp [hr, hs, not_lt.2 hs]
    · have hlt : F64.dbl_1e_9 < sd := not_le.1 hs
      have hpos : 0 < sd := lt_trans (by norm_num [F64.dbl_1e_9]) hlt
      simp only [hr, hs, or_self, if_false, ne_eq, not_false_eq_true, hlt, and_self, if_true]
      rw [F64.div_fabs _ sd hpos]
      cases F64.div (F64.sub (Dbl.fin a) (Dbl.fin mu)) (Dbl.fin sd) <;>
        simp [Dbl.isfinite, Dbl.fabs]

theorem F64.round_two_pow_1024 : F64.round ((2 : ℚ) ^ 1024) = Dbl.pinf := by
  have hq : (0 : ℚ) < 2 ^ 1024 := by positivity
  have hu : F64.ulp_exp ((2 : ℚ) ^ 1024) = 972 := by
    rw [F64.ulp_exp_eq _ 1024 hq (by norm_num) (by norm_num) (by norm_num)]
    norm_num
  have hr : F64.round_fin ((2 : ℚ) ^ 1024) = 2 ^ 1024 := by
    rw [F64.round_fin, hu]
    have e : ((2 : ℚ) ^ 1024) / 2 ^ (972 : ℤ) = ((2 ^ 52 : ℤ) : ℚ) := by norm_num
    rw [e, rne_intCast]
    norm_num
  rw [F64.round, hr, abs_of_pos hq, if_pos (by norm_num)]
  simp [Dbl.inf]

/-- A value and a ready view with finite numbers and a deviation above `1e-9` whose
difference overflows: `metric_abs_z` returns `0`. -/
theorem F64.metric_abs_z_overflow :
    F64.metric_abs_z (Dbl.fin (2 ^ 1023)) F64.view_huge = Dbl.fin 0 := by
  have hs : F64.sub (Dbl.fin (2 ^ 1023)) (Dbl.fin (-(2 ^ 1023))) = Dbl.pinf := by
    have e : Dbl.sub (Dbl.fin (2 ^ 1023)) (Dbl.fin (-(2 ^ 1023))) = Dbl.fin (2 ^ 1024) := by
      simp only [Dbl.sub, Dbl.neg, Dbl.add]
      norm_num
    rw [F64.sub, e]
    exact F64.round_two_pow_1024
  have hd : F64.div Dbl.pinf (Dbl.fin (1 / 2)) = Dbl.pinf := by
    have hn : Dbl.negSign (1 / 2) = false := by simp [Dbl.negSign]
    simp only [F64.div, Dbl.div, hn, Dbl.inf, Bool.false_eq_true, if_false, F64.rnd]
  simp only [F64.metric_abs_z, F64.view_huge, hs, hd, F64.Z_STDDEV_EPSILON, F64.lit_1e_9]
  norm_num [value_is_valid, Dbl.isfinite, Dbl.le, F64.dbl_1e_9]

/-- C6: in binary64 arithmetic, for every metric view and value, `metric_abs_z` equals the
spec's per-metric `|z|`: `|v - mean| / stddev` when the view is ready, `v`, `mean` and
`stddev` are finite, `stddev` is above the double `1e-9` and the quotient is finite, and `0`
in every other case; the double `1e-9` is `4835703278458517 / 2^82`, and the case of a
non-finite quotient occurs: for `v = 2^1023` against a ready view with mean `-2^1023` and
deviation `0.5` the difference overflows and the result is `0`. -/
theorem C6_metric_abs_z_cases :
    (∀ (v : Dbl) (m : anomaly_metric_view), F64.metric_abs_z v m = F64.spec_abs_z v m) ∧
    F64.Z_STDDEV_EPSILON = Dbl.fin (4835703278458517 / 2 ^ 82) ∧
    F64.view_huge.ready ≠ 0 ∧
    Dbl.gt F64.view_huge.stddev F64.Z_STDDEV_EPSILON = true ∧
    F64.sub (Dbl.fin (2 ^ 1023)) F64.view_huge.mean = Dbl.pinf ∧
    F64.metric_abs_z (Dbl.fin (2 ^ 1023)) F64.view_huge = Dbl.fin 0 := by
  refine ⟨F64.metric_abs_z_eq_spec, ?_, by decide, ?_, ?_, F64.metric_abs_z_overflow⟩
  · rw [F64.Z_STDDEV_EPSILON, F64.lit_1e_9, F64.dbl_1e_9]
    norm_num
  · rw [F64.Z_STDDEV_EPSILON, F64.lit_1e_9]
    norm_num [F64.view_huge, Dbl.gt, Dbl.lt, F64.dbl_1e_9]
  · have e : Dbl.sub (Dbl.fin (2 ^ 1023)) (Dbl.fin (-(2 ^ 1023))) = Dbl.fin (2 ^ 1024) := by
      simp only [Dbl.sub, Dbl.neg, Dbl.add]
      norm_num
    rw [F64.view_huge, F64.sub, e]
    exact F64.round_two_pow_1024


/-! ## The classifier in binary64 arithmetic: literals and sums -/

theorem F64.lit_half :
    F64.lit (1 / 2) = Dbl.fin (1 / 2) := by
  refine F64.round_eq _ _ (-1) 4503599627370496 ?_ ?_ ?_ ?_ ?_ ?_ ?_ ?_ ?_ <;>
    norm_num [F64.dbl_0_2, F64.dbl_0_15, F64.dbl_0_1, F64.dbl_0_85, F64.dbl_0_55, F64.dbl_0_3,
      F64.anomaly_floor, F64.anomaly_floor_pred]

theorem F64.lit_0_2 :
    F64.lit (2 / 10) = Dbl.fin F64.dbl_0_2 := by
  refine F64.round_eq _ _ (-3) 7205759403792794 ?_ ?_ ?_ ?_ ?_ ?_ ?_ ?_ ?_ <;>
    norm_num [F64.dbl_0_2, F64.dbl_0_15, F64.dbl_0_1, F64.dbl_0_85, F64.dbl_0_55, F64.dbl_0_3,
      F64.anomaly_floor, F64.anomaly_floor_pred]

theorem F64.lit_0_15 :
    F64.lit (15 / 100) = Dbl.fin F64.dbl_0_15 := by
  refine F64.round_eq _ _ (-3) 5404319552844595 ?_ ?_ ?_ ?_ ?_ ?_ ?_ ?_ ?_ <;>
    norm_num [F64.dbl_0_2, F64.dbl_0_15, F64.dbl_0_1, F64.dbl_0_85, F64.dbl_0_55, F64.dbl_0_3,
      F64.anomaly_floor, F64.anomaly_floor_pred]

theorem F64.lit_0_1 :
    F64.lit (1 / 10) = Dbl.fin F64.dbl_0_1 := by
  refine F64.round_eq _ _ (-4) 7205759403792794 ?_ ?_ ?_ ?_ ?_ ?_ ?_ ?_ ?_ <;>
    norm_num [F64.dbl_0_2, F64.dbl_0_15, F64.dbl_0_1, F64.dbl_0_85, F64.dbl_0_55, F64.dbl_0_3,
      F64.anomaly_floor, F64.anomaly_floor_pred]

theorem F64.lit_quarter :
    F64.lit (25 / 100) = Dbl.fin (1 / 4) := by
  refine F64.round_eq _ _ (-2) 4503599627370496 ?_ ?_ ?_ ?_ ?_ ?_ ?_ ?_ ?_ <;>
    norm_num [F64.dbl_0_2, F64.dbl_0_15, F64.dbl_0_1, F64.dbl_0_85, F64.dbl_0_55, F64.dbl_0_3,
      F64.anomaly_floor, F64.anomaly_floor_pred]

theorem F64.lit_0_85 :
    F64.lit (85 / 100) = Dbl.fin F64.dbl_0_85 := by
  refine F64.round_eq _ _ (-1) 7656119366529843 ?_ ?_ ?_ ?_ ?_ ?_ ?_ ?_ ?_ <;>
    norm_num [F64.dbl_0_2, F64.dbl_0_15, F64.dbl_0_1, F64.dbl_0_85, F64.dbl_0_55, F64.dbl_0_3,
      F64.anomaly_floor, F64.anomaly_floor_pred]

theorem F64.lit_0_55 :
    F64.lit (55 / 100) = Dbl.fin F64.dbl_0_55 := by
  refine F64.round_eq _ _ (-1) 4953959590107546 ?_ ?_ ?_ ?_ ?_ ?_ ?_ ?_ ?_ <;>
    norm_num [F64.dbl_0_2, F64.dbl_0_15, F64.dbl_0_1, F64.dbl_0_85, F64.dbl_0_55, F64.dbl_0_3,
      F64.anomaly_floor, F64.anomaly_floor_pred]

theorem F64.lit_0_3 :
    F64.lit (3 / 10) = Dbl.fin F64.dbl_0_3 := by
  refine F64.round_eq _ _ (-2) 5404319552844595 ?_ ?_ ?_ ?_ ?_ ?_ ?_ ?_ ?_ <;>
    norm_num [F64.dbl_0_2, F64.dbl_0_15, F64.dbl_0_1, F64.dbl_0_85, F64.dbl_0_55, F64.dbl_0_3,
      F64.anomaly_floor, F64.anomaly_floor_pred]

theorem F64.pred_chain_0 :
    F64.round (1 / 2 * F64.anomaly_floor_pred) = Dbl.fin (337769972052787 / 2251799813685248) := by
  refine F64.round_eq _ _ (-3) 5404319552844592 ?_ ?_ ?_ ?_ ?_ ?_ ?_ ?_ ?_ <;>
    norm_num [F64.dbl_0_2, F64.dbl_0_15, F64.dbl_0_1, F64.dbl_0_85, F64.dbl_0_55, F64.dbl_0_3,
      F64.anomaly_floor, F64.anomaly_floor_pred]

theorem F64.pred_chain_1 :
    F64.round (337769972052787 / 2251799813685248 + F64.dbl_0_2) = Dbl.fin (6305039478318693 / 18014398509481984) := by
  refine F64.round_eq _ _ (-2) 6305039478318693 ?_ ?_ ?_ ?_ ?_ ?_ ?_ ?_ ?_ <;>
    norm_num [F64.dbl_0_2, F64.dbl_0_15, F64.dbl_0_1, F64.dbl_0_85, F64.dbl_0_55, F64.dbl_0_3,
      F64.anomaly_floor, F64.anomaly_floor_pred]

theorem F64.pred_chain_2 :
    F64.round (6305039478318693 / 18014398509481984 + F64.dbl_0_15) = Dbl.fin (4503599627370495 / 9007199254740992) := by
  refine F64.round_tie _ _ (-2) 9007199254740990 ?_ ?_ ?_ ?_ ?_ ?_ ?_ ?_ <;>
    norm_num [F64.dbl_0_2, F64.dbl_0_15, F64.dbl_0_1, F64.dbl_0_85, F64.dbl_0_55, F64.dbl_0_3,
      F64.anomaly_floor, F64.anomaly_floor_pred]

theorem F64.pred_chain_3 :
    F64.round (4503599627370495 / 9007199254740992 + F64.dbl_0_1) = Dbl.fin (2702159776422297 / 4503599627370496) := by
  refine F64.round_eq _ _ (-1) 5404319552844594 ?_ ?_ ?_ ?_ ?_ ?_ ?_ ?_ ?_ <;>
    norm_num [F64.dbl_0_2, F64.dbl_0_15, F64.dbl_0_1, F64.dbl_0_85, F64.dbl_0_55, F64.dbl_0_3,
      F64.anomaly_floor, F64.anomaly_floor_pred]

theorem F64.pred_chain_4 :
    F64.round (2702159776422297 / 4503599627370496 + 1 / 4) = Dbl.fin (3828059683264921 / 4503599627370496) := by
  refine F64.round_eq _ _ (-1) 7656119366529842 ?_ ?_ ?_ ?_ ?_ ?_ ?_ ?_ ?_ <;>
    norm_num [F64.dbl_0_2, F64.dbl_0_15, F64.dbl_0_1, F64.dbl_0_85, F64.dbl_0_55, F64.dbl_0_3,
      F64.anomaly_floor, F64.anomaly_floor_pred]

theorem F64.zero_chain_0 : F64.round (1 / 2 * 0) = Dbl.fin 0 := by
  rw [mul_zero]
  exact F64.round_zero

theorem F64.zero_chain_1 :
    F64.round (0 + F64.dbl_0_2) = Dbl.fin (3602879701896397 / 18014398509481984) := by
  refine F64.round_eq _ _ (-3) 7205759403792794 ?_ ?_ ?_ ?_ ?_ ?_ ?_ ?_ ?_ <;>
    norm_num [F64.dbl_0_2, F64.dbl_0_15, F64.dbl_0_1, F64.dbl_0_85, F64.dbl_0_55, F64.dbl_0_3,
      F64.anomaly_floor, F64.anomaly_floor_pred]

theorem F64.zero_chain_2 :
    F64.round (3602879701896397 / 18014398509481984 + F64.dbl_0_15) = Dbl.fin (3152519739159347 / 9007199254740992) := by
  refine F64.round_tie _ _ (-2) 6305039478318694 ?_ ?_ ?_ ?_ ?_ ?_ ?_ ?_ <;>
    norm_num [F64.dbl_0_2, F64.dbl_0_15, F64.dbl_0_1, F64.dbl_0_85, F64.dbl_0_55, F64.dbl_0_3,
      F64.anomaly_floor, F64.anomaly_floor_pred]

theorem F64.zero_chain_3 :
    F64.round (3152519739159347 / 9007199254740992 + F64.dbl_0_1) = Dbl.fin (2026619832316723 / 4503599627370496) := by
  refine F64.round_tie _ _ (-2) 8106479329266892 ?_ ?_ ?_ ?_ ?_ ?_ ?_ ?_ <;>
    norm_num [F64.dbl_0_2, F64.dbl_0_15, F64.dbl_0_1, F64.dbl_0_85, F64.dbl_0_55, F64.dbl_0_3,
      F64.anomaly_floor, F64.anomaly_floor_pred]

theorem F64.zero_chain_4 :
    F64.round (2026619832316723 / 4503599627370496 + 1 / 4) = Dbl.fin (3152519739159347 / 4503599627370496) := by
  refine F64.round_eq _ _ (-1) 6305039478318694 ?_ ?_ ?_ ?_ ?_ ?_ ?_ ?_ ?_ <;>
    norm_num [F64.dbl_0_2, F64.dbl_0_15, F64.dbl_0_1, F64.dbl_0_85, F64.dbl_0_55, F64.dbl_0_3,
      F64.anomaly_floor, F64.anomaly_floor_pred]

theorem F64.floor_chain_0 :
    F64.round (1 / 2 * F64.anomaly_floor) = Dbl.fin (5404319552844593 / 36028797018963968) := by
  refine F64.round_eq _ _ (-3) 5404319552844593 ?_ ?_ ?_ ?_ ?_ ?_ ?_ ?_ ?_ <;>
    norm_num [F64.dbl_0_2, F64.dbl_0_15, F64.dbl_0_1, F64.dbl_0_85, F64.dbl_0_55, F64.dbl_0_3,
      F64.anomaly_floor, F64.anomaly_floor_pred]

theorem F64.floor_chain_1 :
    F64.round (5404319552844593 / 36028797018963968 + F64.dbl_0_2) = Dbl.fin (3152519739159347 / 9007199254740992) := by
  refine F64.round_tie _ _ (-2) 6305039478318693 ?_ ?_ ?_ ?_ ?_ ?_ ?_ ?_ <;>
    norm_num [F64.dbl_0_2, F64.dbl_0_15, F64.dbl_0_1, F64.dbl_0_85, F64.dbl_0_55, F64.dbl_0_3,
      F64.anomaly_floor, F64.anomaly_floor_pred]

theorem F64.floor_chain_2 :
    F64.round (3152519739159347 / 9007199254740992 + F64.dbl_0_15) = Dbl.fin (1 / 2) := by
  refine F64.round_tie _ _ (-2) 9007199254740991 ?_ ?_ ?_ ?_ ?_ ?_ ?_ ?_ <;>
    norm_num [F64.dbl_0_2, F64.dbl_0_15, F64.dbl_0_1, F64.dbl_0_85, F64.dbl_0_55, F64.dbl_0_3,
      F64.anomaly_floor, F64.anomaly_floor_pred]

theorem F64.floor_chain_3 :
    F64.round (1 / 2 + F64.dbl_0_1) = Dbl.fin (5404319552844595 / 9007199254740992) := by
  refine F64.round_eq _ _ (-1) 5404319552844595 ?_ ?_ ?_ ?_ ?_ ?_ ?_ ?_ ?_ <;>
    norm_num [F64.dbl_0_2, F64.dbl_0_15, F64.dbl_0_1, F64.dbl_0_85, F64.dbl_0_55, F64.dbl_0_3,
      F64.anomaly_floor, F64.anomaly_floor_pred]

theorem F64.floor_chain_4 :
    F64.round (5404319552844595 / 9007199254740992 + 1 / 4) = Dbl.fin (7656119366529843 / 9007199254740992) := by
  refine F64.round_eq _ _ (-1) 7656119366529843 ?_ ?_ ?_ ?_ ?_ ?_ ?_ ?_ ?_ <;>
    norm_num [F64.dbl_0_2, F64.dbl_0_15, F64.dbl_0_1, F64.dbl_0_85, F64.dbl_0_55, F64.dbl_0_3,
      F64.anomaly_floor, F64.anomaly_floor_pred]

theorem F64.storm_chain_0 :
    F64.round (1 / 2 * 1) = Dbl.fin (1 / 2) := by
  refine F64.round_eq _ _ (-1) 4503599627370496 ?_ ?_ ?_ ?_ ?_ ?_ ?_ ?_ ?_ <;>
    norm_num [F64.dbl_0_2, F64.dbl_0_15, F64.dbl_0_1, F64.dbl_0_85, F64.dbl_0_55, F64.dbl_0_3,
      F64.anomaly_floor, F64.anomaly_floor_pred]

theorem F64.storm_chain_1 :
    F64.round (1 / 2 + F64.dbl_0_2) = Dbl.fin (3152519739159347 / 4503599627370496) := by
  refine F64.round_tie _ _ (-1) 6305039478318694 ?_ ?_ ?_ ?_ ?_ ?_ ?_ ?_ <;>
    norm_num [F64.dbl_0_2, F64.dbl_0_15, F64.dbl_0_1, F64.dbl_0_85, F64.dbl_0_55, F64.dbl_0_3,
      F64.anomaly_floor, F64.anomaly_floor_pred]

theorem F64.storm_chain_2 :
    F64.round (3152519739159347 / 4503599627370496 + F64.dbl_0_15) = Dbl.fin (7656119366529843 / 9007199254740992) := by
  refine F64.round_eq _ _ (-1) 7656119366529843 ?_ ?_ ?_ ?_ ?_ ?_ ?_ ?_ ?_ <;>
    norm_num [F64.dbl_0_2, F64.dbl_0_15, F64.dbl_0_1, F64.dbl_0_85, F64.dbl_0_55, F64.dbl_0_3,
      F64.anomaly_floor, F64.anomaly_floor_pred]

theorem F64.storm_chain_3 :
    F64.round (7656119366529843 / 9007199254740992 + F64.dbl_0_1) = Dbl.fin (4278419646001971 / 4503599627370496) := by
  refine F64.round_eq _ _ (-1) 8556839292003942 ?_ ?_ ?_ ?_ ?_ ?_ ?_ ?_ ?_ <;>
    norm_num [F64.dbl_0_2, F64.dbl_0_15, F64.dbl_0_1, F64.dbl_0_85, F64.dbl_0_55, F64.dbl_0_3,
      F64.anomaly_floor, F64.anomaly_floor_pred]

theorem F64.crypto_chain_4 :
    F64.round (1 / 2 + 1 / 4) = Dbl.fin (3 / 4) := by
  refine F64.round_eq _ _ (-1) 6755399441055744 ?_ ?_ ?_ ?_ ?_ ?_ ?_ ?_ ?_ <;>
    norm_num [F64.dbl_0_2, F64.dbl_0_15, F64.dbl_0_1, F64.dbl_0_85, F64.dbl_0_55, F64.dbl_0_3,
      F64.anomaly_floor, F64.anomaly_floor_pred]

theorem F64.round_anomaly_floor :
    F64.round (F64.anomaly_floor) = Dbl.fin F64.anomaly_floor := by
  refine F64.round_eq _ _ (-2) 5404319552844593 ?_ ?_ ?_ ?_ ?_ ?_ ?_ ?_ ?_ <;>
    norm_num [F64.dbl_0_2, F64.dbl_0_15, F64.dbl_0_1, F64.dbl_0_85, F64.dbl_0_55, F64.dbl_0_3,
      F64.anomaly_floor, F64.anomaly_floor_pred]

/-! ## The classifier in binary64 arithmetic: bounds -/

theorem F64.add_fin (x y : ℚ) : F64.add (Dbl.fin x) (Dbl.fin y) = F64.round (x + y) := rfl

theorem F64.mul_fin (x y : ℚ) : F64.mul (Dbl.fin x) (Dbl.fin y) = F64.round (x * y) := rfl

theorem F64.score_eq_weighted (a : anomaly_result) :
    F64.classifier_compute_ransomware_score a
      = clamp_unit (F64.weighted (F64.mul (F64.lit (1 / 2)) (clamp_unit a.anomaly_score))
          (flag_set a.flags ANOMALY_FLAG_WRITE_STORM) (flag_set a.flags ANOMALY_FLAG_RENAME_STORM)
          (flag_set a.flags ANOMALY_FLAG_DELETE_STORM)
          (flag_set a.flags ANOMALY_FLAG_CRYPTO_SPIKE)) := rfl

theorem F64.classify_returns (c : Int) (x : telemetry_sample) (a : anomaly_result) (hc : c ≠ 0) :
    F64.classifier_classify c x a = some
      { verdict := F64.classifier_score_to_verdict (F64.classifier_compute_ransomware_score a)
        confidence := F64.classifier_compute_ransomware_score a
        ransomware_score := F64.classifier_compute_ransomware_score a } := by
  simp [F64.classifier_classify, hc]

/-- One conditional addition keeps a bound: if the score so far is at most `B` and the
double of `B + W` is `B'`, the score afterwards is a number between `0` and `B'`. -/
theorem F64.bump_le (b : Bool) (s B W B' : ℚ) (hs0 : 0 ≤ s) (hs : s ≤ B) (hW : 0 ≤ W)
    (hB : F64.round (B + W) = Dbl.fin B') (hBB : B ≤ B') :
    ∃ s' : ℚ, (if b then F64.add (Dbl.fin s) (Dbl.fin W) else Dbl.fin s) = Dbl.fin s' ∧
      0 ≤ s' ∧ s' ≤ B' := by
  cases b
  · exact ⟨s, rfl, hs0, le_trans hs hBB⟩
  · obtain ⟨u, hu, u0, u1⟩ := F64.round_le (s + W) (B + W) B' (by linarith) (by linarith) hB
    exact ⟨u, by rw [if_pos rfl, F64.add_fin, hu], u0, u1⟩

/-- The four conditional additions keep a bound that was computed with all four flags
set. -/
theorem F64.weighted_le (s b0 b1 b2 b3 b4 : ℚ) (w r d c : Bool) (hs0 : 0 ≤ s) (hs : s ≤ b0)
    (h1 : F64.round (b0 + F64.dbl_0_2) = Dbl.fin b1)
    (h2 : F64.round (b1 + F64.dbl_0_15) = Dbl.fin b2)
    (h3 : F64.round (b2 + F64.dbl_0_1) = Dbl.fin b3)
    (h4 : F64.round (b3 + 1 / 4) = Dbl.fin b4)
    (m1 : b0 ≤ b1) (m2 : b1 ≤ b2) (m3 : b2 ≤ b3) (m4 : b3 ≤ b4) :
    ∃ s' : ℚ, F64.weighted (Dbl.fin s) w r d c = Dbl.fin s' ∧ 0 ≤ s' ∧ s' ≤ b4 := by
  simp only [F64.weighted, F64.lit_0_2, F64.lit_0_15, F64.lit_0_1, F64.lit_quarter]
  obtain ⟨s1, e1, p1, q1⟩ := F64.bump_le w s b0 F64.dbl_0_2 b1 hs0 hs
    (by norm_num [F64.dbl_0_2]) h1 m1
  rw [e1]
  obtain ⟨s2, e2, p2, q2⟩ := F64.bump_le r s1 b1 F64.dbl_0_15 b2 p1 q1
    (by norm_num [F64.dbl_0_15]) h2 m2
  rw [e2]
  obtain ⟨s3, e3, p3, q3⟩ := F64.bump_le d s2 b2 F64.dbl_0_1 b3 p2 q2
    (by norm_num [F64.dbl_0_1]) h3 m3
  rw [e3]
  exact F64.bump_le c s3 b3 (1 / 4) b4 p3 q3 (by norm_num) h4 m4

theorem clamp_unit_fin (s : ℚ) (h0 : 0 ≤ s) :
    ∃ u : ℚ, clamp_unit (Dbl.fin s) = Dbl.fin u ∧ 0 ≤ u ∧ u ≤ s ∧ u ≤ 1 := by
  simp only [clamp_unit, Dbl.lt, Dbl.gt, decide_eq_true_eq]
  rw [if_neg (not_lt.2 h0)]
  by_cases h1 : 1 < s
  · exact ⟨1, by rw [if_pos h1], by norm_num, h1.le, le_refl _⟩
  · exact ⟨s, by rw [if_neg h1], h0, le_refl _, not_lt.1 h1⟩

/-- The clamped `anomaly_score`: NaN stays NaN, every other value becomes a number of the
unit interval, at most the value itself when that is non-negative. -/
theorem clamp_unit_cases (a : Dbl) :
    clamp_unit a = Dbl.nan ∧ a = Dbl.nan ∨
    ∃ c : ℚ, clamp_unit a = Dbl.fin c ∧ 0 ≤ c ∧ c ≤ 1 ∧
      (∀ t : ℚ, 0 ≤ t → Dbl.gt a (Dbl.fin t) = false → c ≤ t) := by
  cases a with
  | nan => exact Or.inl ⟨rfl, rfl⟩
  | ninf => exact Or.inr ⟨0, rfl, le_refl _, by norm_num, fun t ht _ => ht⟩
  | pinf =>
    refine Or.inr ⟨1, rfl, by norm_num, le_refl _, fun t _ h => ?_⟩
    simp [Dbl.gt, Dbl.lt] at h
  | fin q =>
    right
    simp only [clamp_unit, Dbl.lt, Dbl.gt, decide_eq_true_eq, decide_eq_false_iff_not, not_lt]
    by_cases h0 : q < 0
    · exact ⟨0, by rw [if_pos h0], le_refl _, by norm_num, fun t ht _ => ht⟩
    · rw [if_neg h0]
      by_cases h1 : 1 < q
      · exact ⟨1, by rw [if_pos h1], by norm_num, le_refl _, fun t _ h => by linarith⟩
      · exact ⟨q, by rw [if_neg h1], not_lt.1 h0, not_lt.1 h1, fun t _ h => h⟩

theorem F64.score_nan (a : anomaly_result) (h : a.anomaly_score = Dbl.nan) :
    F64.classifier_compute_ransomware_score a = Dbl.nan := by
  have hm : F64.mul (F64.lit (1 / 2)) (clamp_unit Dbl.nan) = Dbl.nan := by
    rw [F64.lit_half]
    rfl
  have ha : ∀ x : Dbl, F64.add Dbl.nan x = Dbl.nan := fun x => by cases x <;> rfl
  rw [F64.score_eq_weighted, h, hm]
  simp only [F64.weighted]
  split_ifs <;> simp only [ha, clamp_unit, Dbl.lt, Dbl.gt] <;> rfl

theorem F64.verdict_ransomware_iff (s : ℚ) :
    F64.classifier_score_to_verdict (Dbl.fin s) = verdict_kind.VERDICT_RANSOMWARE ↔
      F64.dbl_0_85 ≤ s := by
  simp only [F64.classifier_score_to_verdict, F64.lit_0_85, F64.lit_0_55, Dbl.ge, Dbl.le,
    decide_eq_true_eq]
  constructor
  · intro h
    split_ifs at h with h1 h2
    exact h1
  · intro h
    rw [if_pos h]

/-- The score of a result whose `anomaly_score` is not NaN, given a bound `b0` on the halved
clamped `anomaly_score` and the doubles the four additions reach from it. -/
theorem F64.score_le (a : anomaly_result) (c b0 b1 b2 b3 b4 : ℚ)
    (hc : clamp_unit a.anomaly_score = Dbl.fin c) (hc0 : 0 ≤ c) (C : ℚ) (hcC : c ≤ C)
    (h0 : F64.round (1 / 2 * C) = Dbl.fin b0)
    (h1 : F64.round (b0 + F64.dbl_0_2) = Dbl.fin b1)
    (h2 : F64.round (b1 + F64.dbl_0_15) = Dbl.fin b2)
    (h3 : F64.round (b2 + F64.dbl_0_1) = Dbl.fin b3)
    (h4 : F64.round (b3 + 1 / 4) = Dbl.fin b4)
    (m1 : b0 ≤ b1) (m2 : b1 ≤ b2) (m3 : b2 ≤ b3) (m4 : b3 ≤ b4) :
    ∃ s : ℚ, F64.classifier_compute_ransomware_score a = Dbl.fin s ∧ 0 ≤ s ∧ s ≤ b4 := by
  obtain ⟨s0, e0, p0, q0⟩ := F64.round_le (1 / 2 * c) (1 / 2 * C) b0 (by linarith)
    (by linarith) h0
  obtain ⟨s4, e4, p4, q4⟩ := F64.weighted_le s0 b0 b1 b2 b3 b4
    (flag_set a.flags ANOMALY_FLAG_WRITE_STORM) (flag_set a.flags ANOMALY_FLAG_RENAME_STORM)
    (flag_set a.flags ANOMALY_FLAG_DELETE_STORM) (flag_set a.flags ANOMALY_FLAG_CRYPTO_SPIKE)
    p0 q0 h1 h2 h3 h4 m1 m2 m3 m4
  obtain ⟨u, eu, u0, u1, -⟩ := clamp_unit_fin s4 p4
  refine ⟨u, ?_, u0, le_trans u1 q4⟩
  rw [F64.score_eq_weighted, hc, F64.lit_half, F64.mul_fin, e0, e4, eu]

/-- Below `anomaly_floor` no flag word gives a score that reaches the double `0.85`. -/
theorem F64.score_below_floor (a : anomaly_result)
    (h : Dbl.gt a.anomaly_score (Dbl.fin F64.anomaly_floor_pred) = false)
    (hn : a.anomaly_score ≠ Dbl.nan) :
    ∃ s : ℚ, F64.classifier_compute_ransomware_score a = Dbl.fin s ∧ s < F64.dbl_0_85 := by
  rcases clamp_unit_cases a.anomaly_score with ⟨-, h1⟩ | ⟨c, hc, c0, -, hct⟩
  · exact absurd h1 hn
  · obtain ⟨s, hs, -, hle⟩ := F64.score_le a c _ _ _ _ _ hc c0 F64.anomaly_floor_pred
      (hct _ (by norm_num [F64.anomaly_floor_pred]) h)
      F64.pred_chain_0 F64.pred_chain_1 F64.pred_chain_2 F64.pred_chain_3 F64.pred_chain_4
      (by norm_num) (by norm_num) (by norm_num) (by norm_num)
    exact ⟨s, hs, lt_of_le_of_lt hle (by norm_num [F64.dbl_0_85])⟩

/-- Without a storm flag the score is at most `0.75`. -/
theorem F64.score_without_storm (a : anomaly_result) (hn : a.anomaly_score ≠ Dbl.nan)
    (n1 : flag_set a.flags ANOMALY_FLAG_WRITE_STORM = false)
    (n2 : flag_set a.flags ANOMALY_FLAG_RENAME_STORM = false)
    (n3 : flag_set a.flags ANOMALY_FLAG_DELETE_STORM = false) :
    ∃ s : ℚ, F64.classifier_compute_ransomware_score a = Dbl.fin s ∧ s ≤ 75 / 100 := by
  rcases clamp_unit_cases a.anomaly_score with ⟨-, h1⟩ | ⟨c, hc, c0, c1, -⟩
  · exact absurd h1 hn
  · obtain ⟨s0, e0, p0, q0⟩ := F64.round_le (1 / 2 * c) (1 / 2 * 1) (1 / 2) (by linarith)
      (by linarith) F64.storm_chain_0
    obtain ⟨s1, e1, p1, q1⟩ := F64.bump_le (flag_set a.flags ANOMALY_FLAG_CRYPTO_SPIKE) s0
      (1 / 2) (1 / 4) (3 / 4) p0 q0 (by norm_num) F64.crypto_chain_4 (by norm_num)
    obtain ⟨u, eu, -, u1, -⟩ := clamp_unit_fin s1 p1
    refine ⟨u, ?_, le_trans u1 (le_trans q1 (by norm_num))⟩
    rw [F64.score_eq_weighted, hc, F64.lit_half, F64.mul_fin, e0, n1, n2, n3]
    simp only [F64.weighted, Bool.false_eq_true, if_false, F64.lit_quarter]
    rw [e1, eu]

/-- With `anomaly_score = 0` the score is at most `0.70`. -/
theorem F64.score_without_anomaly (a : anomaly_result) (h : a.anomaly_score = Dbl.fin 0) :
    ∃ s : ℚ, F64.classifier_compute_ransomware_score a = Dbl.fin s ∧ s ≤ 70 / 100 := by
  have hc : clamp_unit a.anomaly_score = Dbl.fin 0 := by
    rw [h]
    simp [clamp_unit, Dbl.lt, Dbl.gt]
  obtain ⟨s, hs, -, hle⟩ := F64.score_le a 0 _ _ _ _ _ hc (le_refl _) 0 (le_refl _)
    F64.zero_chain_0 F64.zero_chain_1 F64.zero_chain_2 F64.zero_chain_3 F64.zero_chain_4
    (by norm_num) (by norm_num) (by norm_num) (by norm_num)
  exact ⟨s, hs, le_trans hle (by norm_num)⟩

/-- No double lies strictly between `anomaly_floor_pred` and `anomaly_floor`. -/
theorem F64.floor_is_next (q : ℚ) (hr : F64.round q = Dbl.fin q)
    (h : F64.anomaly_floor_pred < q) : F64.anomaly_floor ≤ q := by
  by_cases hq : q < 1 / 2
  · have hpos : 0 < q := lt_trans (by norm_num [F64.anomaly_floor_pred]) h
    have hu : F64.ulp_exp q = -54 := by
      rw [F64.ulp_exp_eq q (-2) hpos
        (le_trans (by norm_num [F64.anomaly_floor_pred]) h.le) (by norm_num; linarith)
        (by norm_num)]
      norm_num
    have hf : F64.round_fin q = q := by
      simp only [F64.round] at hr
      split_ifs at hr with hbig
      · cases hd : decide (q < 0) <;> simp [hd, Dbl.inf] at hr
      · exact Dbl.fin.inj hr
    rw [F64.round_fin, hu] at hf
    have hn : (5404319552844592 : ℤ) < rne (q / 2 ^ (-54 : ℤ)) := by
      have : ((5404319552844592 : ℤ) : ℚ) < (rne (q / 2 ^ (-54 : ℤ)) : ℚ) := by
        have h2 : F64.anomaly_floor_pred < (rne (q / 2 ^ (-54 : ℤ)) : ℚ) * 2 ^ (-54 : ℤ) := by
          rw [hf]; exact h
        norm_num [F64.anomaly_floor_pred] at h2 ⊢
        linarith
      exact_mod_cast this
    have hn' : ((5404319552844593 : ℤ) : ℚ) ≤ (rne (q / 2 ^ (-54 : ℤ)) : ℚ) := by
      exact_mod_cast (by omega : (5404319552844593 : ℤ) ≤ rne (q / 2 ^ (-54 : ℤ)))
    rw [← hf]
    norm_num [F64.anomaly_floor] at hn' ⊢
    linarith
  · exact le_trans (by norm_num [F64.anomaly_floor]) (not_lt.1 hq)


theorem F64.verdict_nan :
    F64.classifier_score_to_verdict Dbl.nan = verdict_kind.VERDICT_SAFE := by
  simp [F64.classifier_score_to_verdict, F64.lit_0_85, F64.lit_0_55, Dbl.ge, Dbl.le]

/-- What a verdict RANSOMWARE needs in binary64 arithmetic. -/
theorem F64.ransomware_needs (a : anomaly_result)
    (hv : F64.classifier_score_to_verdict (F64.classifier_compute_ransomware_score a)
      = verdict_kind.VERDICT_RANSOMWARE) :
    (flag_set a.flags ANOMALY_FLAG_WRITE_STORM = true ∨
      flag_set a.flags ANOMALY_FLAG_RENAME_STORM = true ∨
      flag_set a.flags ANOMALY_FLAG_DELETE_STORM = true) ∧
    Dbl.gt a.anomaly_score (Dbl.fin F64.anomaly_floor_pred) = true ∧
    (F64.representable a.anomaly_score →
      Dbl.ge a.anomaly_score (Dbl.fin F64.anomaly_floor) = true) := by
  have hn : a.anomaly_score ≠ Dbl.nan := by
    intro h
    rw [F64.score_nan a h, F64.verdict_nan] at hv
    cases hv
  have hgt : Dbl.gt a.anomaly_score (Dbl.fin F64.anomaly_floor_pred) = true := by
    cases hg : Dbl.gt a.anomaly_score (Dbl.fin F64.anomaly_floor_pred)
    · obtain ⟨s, hs, hlt⟩ := F64.score_below_floor a hg hn
      rw [hs, F64.verdict_ransomware_iff] at hv
      exact absurd hv (not_le.2 hlt)
    · rfl
  refine ⟨?_, hgt, ?_⟩
  · by_contra hno
    simp only [not_or, Bool.not_eq_true] at hno
    obtain ⟨s, hs, hle⟩ := F64.score_without_storm a hn hno.1 hno.2.1 hno.2.2
    rw [hs, F64.verdict_ransomware_iff] at hv
    have : s < F64.dbl_0_85 := lt_of_le_of_lt hle (by norm_num [F64.dbl_0_85])
    exact absurd hv (not_le.2 this)
  · intro hr
    cases ha : a.anomaly_score with
    | nan => exact absurd ha hn
    | ninf => rw [ha] at hgt; simp [Dbl.gt, Dbl.lt] at hgt
    | pinf => simp [Dbl.ge, Dbl.le]
    | fin q =>
      rw [ha] at hgt hr
      simp only [Dbl.gt, Dbl.lt, decide_eq_true_eq] at hgt
      simp only [Dbl.ge, Dbl.le, decide_eq_true_eq]
      exact F64.floor_is_next q hr hgt

theorem F64.classify_result_floor :
    F64.classifier_classify 1 sample_idle F64.result_floor = some F64.verdict_floor := by
  have hs : F64.classifier_compute_ransomware_score F64.result_floor
      = Dbl.fin F64.dbl_0_85 := by
    have hc : clamp_unit F64.result_floor.anomaly_score = Dbl.fin F64.anomaly_floor := by
      simp only [F64.result_floor, result_of, clamp_unit, Dbl.lt, Dbl.gt]
      norm_num [F64.anomaly_floor]
    have f1 : flag_set F64.result_floor.flags ANOMALY_FLAG_WRITE_STORM = true := by decide
    have f2 : flag_set F64.result_floor.flags ANOMALY_FLAG_RENAME_STORM = true := by decide
    have f3 : flag_set F64.result_floor.flags ANOMALY_FLAG_DELETE_STORM = true := by decide
    have f4 : flag_set F64.result_floor.flags ANOMALY_FLAG_CRYPTO_SPIKE = true := by decide
    rw [F64.score_eq_weighted, hc, f1, f2, f3, f4, F64.lit_half, F64.mul_fin,
      F64.floor_chain_0]
    simp only [F64.weighted, if_true, F64.lit_0_2, F64.lit_0_15, F64.lit_0_1,
      F64.lit_quarter, F64.add_fin, F64.floor_chain_1, F64.floor_chain_2, F64.floor_chain_3,
      F64.floor_chain_4]
    simp only [clamp_unit, Dbl.lt, Dbl.gt]
    norm_num [F64.dbl_0_85]
  rw [F64.classify_returns 1 sample_idle F64.result_floor (by decide), hs]
  have hv : F64.classifier_score_to_verdict (Dbl.fin F64.dbl_0_85)
      = verdict_kind.VERDICT_RANSOMWARE :=
    (F64.verdict_ransomware_iff F64.dbl_0_85).2 (le_refl _)
  rw [hv]
  rfl

theorem F64.classify_result_three_storms :
    F64.classifier_classify 1 sample_idle F64.result_three_storms
      = some F64.verdict_three_storms := by
  have hs : F64.classifier_compute_ransomware_score F64.result_three_storms
      = Dbl.fin (4278419646001971 / 4503599627370496) := by
    have hc : clamp_unit F64.result_three_storms.anomaly_score = Dbl.fin 1 := by
      simp [F64.result_three_storms, result_of, clamp_unit, Dbl.lt, Dbl.gt]
    have f1 : flag_set F64.result_three_storms.flags ANOMALY_FLAG_WRITE_STORM = true := by
      decide
    have f2 : flag_set F64.result_three_storms.flags ANOMALY_FLAG_RENAME_STORM = true := by
      decide
    have f3 : flag_set F64.result_three_storms.flags ANOMALY_FLAG_DELETE_STORM = true := by
      decide
    have f4 : flag_set F64.result_three_storms.flags ANOMALY_FLAG_CRYPTO_SPIKE = false := by
      decide
    rw [F64.score_eq_weighted, hc, f1, f2, f3, f4, F64.lit_half, F64.mul_fin,
      F64.storm_chain_0]
    simp only [F64.weighted, if_true, Bool.false_eq_true, if_false, F64.lit_0_2,
      F64.lit_0_15, F64.lit_0_1, F64.add_fin, F64.storm_chain_1, F64.storm_chain_2,
      F64.storm_chain_3]
    simp only [clamp_unit, Dbl.lt, Dbl.gt]
    norm_num
  rw [F64.classify_returns 1 sample_idle F64.result_three_storms (by decide), hs]
  have hv : F64.classifier_score_to_verdict (Dbl.fin (4278419646001971 / 4503599627370496))
      = verdict_kind.VERDICT_RANSOMWARE :=
    (F64.verdict_ransomware_iff _).2 (by norm_num [F64.dbl_0_85])
  rw [hv]
  rfl

theorem F64.representable_floor : F64.representable F64.result_floor.anomaly_score :=
  F64.round_anomaly_floor

theorem F64.representable_one : F64.representable F64.result_three_storms.anomaly_score := by
  show F64.round 1 = Dbl.fin 1
  refine F64.round_eq _ _ 0 4503599627370496 ?_ ?_ ?_ ?_ ?_ ?_ ?_ ?_ ?_ <;> norm_num

/-- C39 fails as stated: in binary64 arithmetic the result with `anomaly_score =
0x1.3333333333331p-2`, a double below `0.3`, and all four flags set has the score exactly
the double `0.85` and the verdict RANSOMWARE. -/
theorem C39_counterexample_score_below_0_3 :
    F64.classifier_classify 1 sample_idle F64.result_floor = some F64.verdict_floor ∧
    F64.verdict_floor.verdict = verdict_kind.VERDICT_RANSOMWARE ∧
    F64.verdict_floor.ransomware_score = F64.lit (85 / 100) ∧
    F64.representable F64.result_floor.anomaly_score ∧
    Dbl.ge F64.result_floor.anomaly_score (Dbl.fin (3 / 10)) = false ∧
    Dbl.ge F64.result_floor.anomaly_score (F64.lit (3 / 10)) = false := by
  refine ⟨F64.classify_result_floor, rfl, ?_, F64.representable_floor, ?_, ?_⟩
  · rw [F64.lit_0_85]
    rfl
  · simp only [F64.result_floor, result_of, Dbl.ge, Dbl.le]
    norm_num [F64.anomaly_floor]
  · rw [F64.lit_0_3]
    simp only [F64.result_floor, result_of, Dbl.ge, Dbl.le]
    norm_num [F64.anomaly_floor, F64.dbl_0_3]

/-- C39 (amended): in binary64 arithmetic, whenever `classifier_classify` returns a result, a
verdict RANSOMWARE means that at least one of WRITE_STORM, RENAME_STORM, DELETE_STORM is set
in the flags and that `anomaly_score` is above the double `0x1.3333333333330p-2`, hence, being
a double, at least `anomaly_floor = 0x1.3333333333331p-2` (two units in the last place below
the double `0.3`); without a storm flag the score is at most `0.75` (CRYPTO_SPIKE alone), and
with `anomaly_score = 0` it is at most `0.70` (flags alone), both below the RANSOMWARE
threshold. -/
theorem C39_ransomware_needs_storm_and_floor (ci : Int) (x : telemetry_sample)
    (a : anomaly_result) (out : classifier_result)
    (h : F64.classifier_classify ci x a = some out) :
    (out.verdict = verdict_kind.VERDICT_RANSOMWARE →
      (flag_set a.flags ANOMALY_FLAG_WRITE_STORM = true ∨
        flag_set a.flags ANOMALY_FLAG_RENAME_STORM = true ∨
        flag_set a.flags ANOMALY_FLAG_DELETE_STORM = true) ∧
      Dbl.gt a.anomaly_score (Dbl.fin F64.anomaly_floor_pred) = true ∧
      (F64.representable a.anomaly_score →
        Dbl.ge a.anomaly_score (Dbl.fin F64.anomaly_floor) = true)) ∧
    (flag_set a.flags ANOMALY_FLAG_WRITE_STORM = false →
      flag_set a.flags ANOMALY_FLAG_RENAME_STORM = false →
      flag_set a.flags ANOMALY_FLAG_DELETE_STORM = false →
      a.anomaly_score ≠ Dbl.nan →
      ∃ s : ℚ, out.ransomware_score = Dbl.fin s ∧ s ≤ 75 / 100) ∧
    (a.anomaly_score = Dbl.fin 0 →
      ∃ s : ℚ, out.ransomware_score = Dbl.fin s ∧ s ≤ 70 / 100) := by
  have hci : ci ≠ 0 := by
    intro h0
    simp [F64.classifier_classify, h0] at h
  rw [F64.classify_returns ci x a hci] at h
  obtain rfl := Option.some.inj h
  exact ⟨fun hv => F64.ransomware_needs a hv,
    fun n1 n2 n3 ha => F64.score_without_storm a ha n1 n2 n3,
    fun ha => F64.score_without_anomaly a ha⟩

/-- C39 (amended) for the result with `anomaly_score = 1` and the three storm flags, which
classifies as RANSOMWARE. -/
theorem C39_ransomware_needs_storm_and_floor_witness :
    F64.classifier_classify 1 sample_idle F64.result_three_storms
      = some F64.verdict_three_storms ∧
    F64.verdict_three_storms.verdict = verdict_kind.VERDICT_RANSOMWARE ∧
    F64.representable F64.result_three_storms.anomaly_score ∧
    (F64.verdict_three_storms.verdict = verdict_kind.VERDICT_RANSOMWARE →
      (flag_set F64.result_three_storms.flags ANOMALY_FLAG_WRITE_STORM = true ∨
        flag_set F64.result_three_storms.flags ANOMALY_FLAG_RENAME_STORM = true ∨
        flag_set F64.result_three_storms.flags ANOMALY_FLAG_DELETE_STORM = true) ∧
      Dbl.gt F64.result_three_storms.anomaly_score (Dbl.fin F64.anomaly_floor_pred) = true ∧
      (F64.representable F64.result_three_storms.anomaly_score →
        Dbl.ge F64.result_three_storms.anomaly_score (Dbl.fin F64.anomaly_floor) = true)) ∧
    (flag_set F64.result_three_storms.flags ANOMALY_FLAG_WRITE_STORM = false →
      flag_set F64.result_three_storms.flags ANOMALY_FLAG_RENAME_STORM = false →
      flag_set F64.result_three_storms.flags ANOMALY_FLAG_DELETE_STORM = false →
      F64.result_three_storms.anomaly_score ≠ Dbl.nan →
      ∃ s : ℚ, F64.verdict_three_storms.ransomware_score = Dbl.fin s ∧ s ≤ 75 / 100) ∧
    (F64.result_three_storms.anomaly_score = Dbl.fin 0 →
      ∃ s : ℚ, F64.verdict_three_storms.ransomware_score = Dbl.fin s ∧ s ≤ 70 / 100) :=
  ⟨F64.classify_result_three_storms, rfl, F64.representable_one,
   C39_ransomware_needs_storm_and_floor 1 sample_idle F64.result_three_storms
    F64.verdict_three_storms F64.classify_result_three_storms⟩

end Aegis
